import Mathlib

/-!
# APEX five-stage pipeline simulator

A shallow embedding of the two `cpu.c` files of the repository:

* `Instruction pipeline without dependencies/cpu.c`  (namespace `APEX.WithoutDependencies`),
  the scoreboard-only ("no-forwarding") pipeline;
* `Instruction pipeline with dependencies/cpu.c`  (namespace `APEX.WithDependencies`),
  the pipeline with the EX and MEM bypass tables ("forwarding").

Conventions of the embedding.

* A C `int` is an `Int`.  Arithmetic on data (latch values, addresses, the program counter) is
  reduced to the 32-bit two's-complement range with `wrap32`; the three event counters
  `clock`, `halt` and `ins_completed` are incremented as plain integers.
* A C array is a total map from the C index; `a[i] = v` is `upd a i v`.
* `strcmp(x, "ADD") == 0` is `x = Opcode.ADD`; a text that is none of the fifteen mnemonics is
  `Opcode.other`.
* `struct CPU_Stage Apex;` / `struct CPU_Stage Bubble;` are never initialised in the source.  Their
  content is a parameter (named `Apex`) of every stage function that assigns one of them; the loop
  takes one `Uninitialised` record per pass, with one content per stage call.
* A stage function is the sequence of its `if (strcmp(stage->opcode, ...) == 0) { ... }` blocks in
  source order, one `ifOp` per block; blocks with the same text share one definition.
* Printing (`print_stage_content`, `printf`) has no effect on the CPU state and is left out; the
  display mode `cpu->f` is kept because one branch of `decode` tests it before a state update.
-/

namespace APEX

/-! ## Machine integers -/

/-- The unsigned 32-bit representative of an integer. -/
def toU32 (x : Int) : Nat := (x % 4294967296).toNat

/-- The signed reading of an unsigned 32-bit word. -/
def ofU32 (n : Nat) : Int := if n < 2147483648 then (n : Int) else (n : Int) - 4294967296

/-- Reduction of an integer to the 32-bit two's-complement range. -/
def wrap32 (x : Int) : Int := ofU32 (toU32 x)

/-- C `a + b` on `int`. -/
def add32 (a b : Int) : Int := wrap32 (a + b)

/-- C `a - b` on `int`. -/
def sub32 (a b : Int) : Int := wrap32 (a - b)

/-- C `a * b` on `int`. -/
def mul32 (a b : Int) : Int := wrap32 (a * b)

/-- C `a & b` on `int`. -/
def and32 (a b : Int) : Int := ofU32 (Nat.land (toU32 a) (toU32 b))

/-- C `a | b` on `int`. -/
def or32 (a b : Int) : Int := ofU32 (Nat.lor (toU32 a) (toU32 b))

/-- C `a ^ b` on `int`. -/
def xor32 (a b : Int) : Int := ofU32 (Nat.xor (toU32 a) (toU32 b))

/-- Array store `a[i] = v`. -/
def upd (a : Int → Int) (i v : Int) : Int → Int := fun j => if j = i then v else a j

/-- Store into a two-dimensional table, `t[i][j] = v`. -/
def upd2 (t : Nat → Nat → Int) (i j : Nat) (v : Int) : Nat → Nat → Int :=
  fun a b => if a = i ∧ b = j then v else t a b

/-! ## Data model -/

/-- The opcode text of an instruction (`char opcode[]`, compared with `strcmp` in the source). -/
inductive Opcode where
  | MOVC | ADD | SUB | MUL | AND | OR | XOR | LOAD | LDR | STORE | BZ | BNZ | JUMP | HALT | NOP
  | other (text : String)
  deriving DecidableEq, Repr

/-- Modelled from the spec: `cpu.h` is not among the sources. `APEX_Instruction` is one entry of
code memory, with the fields `fetch` copies. -/
structure APEX_Instruction where
  opcode : Opcode
  rd : Int
  rs1 : Int
  rs2 : Int
  imm : Int
  deriving Repr

/-- Modelled from the spec: `cpu.h` is not among the sources. `CPU_Stage` is a pipeline latch, with
the fields the stage functions read and write. -/
structure CPU_Stage where
  pc : Int
  opcode : Opcode
  rs1 : Int
  rs2 : Int
  rd : Int
  imm : Int
  rs1_value : Int
  rs2_value : Int
  buffer : Int
  mem_address : Int
  busy : Int
  stalled : Int
  deriving Repr

/-- Stage index `F` of `cpu->stage[]`. -/
abbrev F : Nat := 0

/-- Stage index `DRF`. -/
abbrev DRF : Nat := 1

/-- Stage index `EX`. -/
abbrev EX : Nat := 2

/-- Stage index `MEM`. -/
abbrev MEM : Nat := 3

/-- Stage index `WB`. -/
abbrev WB : Nat := 4

/-- Modelled from the spec: `cpu.h` is not among the sources. `APEX_CPU` holds the fields the two
`cpu.c` files use; the bypass tables `ex_forward`, `mem_forward`, `wb_forward`, `ex_data`,
`mem_data`, `regs_data` are touched by the forwarding variant only. -/
structure APEX_CPU where
  clock : Int
  cycle : Int
  pc : Int
  halt : Int
  ins_completed : Int
  zflag : Int
  nzflag : Int
  regs : Int → Int
  regs_valid : Int → Int
  regs_forward : Int → Int
  regs_data : Int → Int
  ex_forward : Int → Int
  ex_data : Int → Int
  mem_forward : Int → Int
  mem_data : Int → Int
  wb_forward : Int → Int
  stage : Nat → CPU_Stage
  stage_set : Nat → Nat → Int
  stage_check : Nat → Nat → Int
  code_memory : Int → APEX_Instruction
  code_memory_size : Int
  data_memory : Int → Int
  f : String

/-- Latch assignment `cpu->stage[i] = s`. -/
def APEX_CPU.setStage (cpu : APEX_CPU) (i : Nat) (s : CPU_Stage) : APEX_CPU :=
  { cpu with stage := fun j => if j = i then s else cpu.stage j }

/-- Assignment `cpu->stage_set[i][j] = v`. -/
def APEX_CPU.setSet (cpu : APEX_CPU) (i j : Nat) (v : Int) : APEX_CPU :=
  { cpu with stage_set := upd2 cpu.stage_set i j v }

/-- Assignment `cpu->stage_check[i][j] = v`. -/
def APEX_CPU.setCheck (cpu : APEX_CPU) (i j : Nat) (v : Int) : APEX_CPU :=
  { cpu with stage_check := upd2 cpu.stage_check i j v }

/-- The pair `cpu->stage_check[1][1]=1; cpu->stage_set[1][0]=0;` with which `decode` stalls. -/
def APEX_CPU.stallDRF (cpu : APEX_CPU) : APEX_CPU :=
  (cpu.setCheck 1 1 1).setSet 1 0 0

/-- Assignment `stage->rs1_value = v` on latch `i`. -/
def APEX_CPU.setRs1Value (cpu : APEX_CPU) (i : Nat) (v : Int) : APEX_CPU :=
  cpu.setStage i { cpu.stage i with rs1_value := v }

/-- Assignment `stage->rs2_value = v` on latch `i`. -/
def APEX_CPU.setRs2Value (cpu : APEX_CPU) (i : Nat) (v : Int) : APEX_CPU :=
  cpu.setStage i { cpu.stage i with rs2_value := v }

/-- Assignment `stage->buffer = v` on latch `i`. -/
def APEX_CPU.setBuffer (cpu : APEX_CPU) (i : Nat) (v : Int) : APEX_CPU :=
  cpu.setStage i { cpu.stage i with buffer := v }

/-- Assignment `stage->mem_address = v` on latch `i`. -/
def APEX_CPU.setMemAddress (cpu : APEX_CPU) (i : Nat) (v : Int) : APEX_CPU :=
  cpu.setStage i { cpu.stage i with mem_address := v }

/-- The call `strcpy(cpu->stage[i].opcode, "NOP")`. -/
def APEX_CPU.setNOP (cpu : APEX_CPU) (i : Nat) : APEX_CPU :=
  cpu.setStage i { cpu.stage i with opcode := Opcode.NOP }

/-- Assignment `(&cpu->stage[i])->stalled = 1`. -/
def APEX_CPU.setStalled (cpu : APEX_CPU) (i : Nat) : APEX_CPU :=
  cpu.setStage i { cpu.stage i with stalled := 1 }

/-- Assignment `cpu->regs_valid[r] = v`. -/
def APEX_CPU.setValid (cpu : APEX_CPU) (r v : Int) : APEX_CPU :=
  { cpu with regs_valid := upd cpu.regs_valid r v }

/-- The test "`op` is ADD, SUB or MUL" that the branch guards apply to the MEM and WB latches. -/
def isArith (op : Opcode) : Prop := op = Opcode.ADD ∨ op = Opcode.SUB ∨ op = Opcode.MUL

instance (op : Opcode) : Decidable (isArith op) := by unfold isArith; infer_instance

/-- Converts the PC (4000 series) into an index of code memory: `(pc - 4000) / 4`, C division. -/
def get_code_index (pc : Int) : Int := Int.tdiv (sub32 pc 4000) 4

/-- A block `if (strcmp(stage->opcode, "X") == 0 || ...) { g }` on latch `i`: `g` runs when the
opcode of latch `i` is one of `ops`. -/
def ifOp (i : Nat) (ops : List Opcode) (g : APEX_CPU → APEX_CPU) (cpu : APEX_CPU) : APEX_CPU :=
  if (cpu.stage i).opcode ∈ ops then g cpu else cpu

/-- The statement `cpu->halt++`. -/
def bumpHalt (cpu : APEX_CPU) : APEX_CPU := { cpu with halt := cpu.halt + 1 }

/-- The statement `cpu->halt = 1` of `decode`. -/
def raiseHalt (cpu : APEX_CPU) : APEX_CPU := { cpu with halt := 1 }

/-- The statement `cpu->regs_valid[stage->rd] = 0` of `decode`. -/
def claimDest (cpu : APEX_CPU) : APEX_CPU := cpu.setValid (cpu.stage DRF).rd 0

/-- The statement `cpu->regs_forward[stage->rd] = 1` of `execute`. -/
def markForward (cpu : APEX_CPU) : APEX_CPU :=
  { cpu with regs_forward := upd cpu.regs_forward (cpu.stage EX).rd 1 }

/-- STORE in `execute`: `stage->mem_address = rs2_value + imm`. -/
def storeAddress (cpu : APEX_CPU) : APEX_CPU :=
  cpu.setMemAddress EX (add32 (cpu.stage EX).rs2_value (cpu.stage EX).imm)

/-- LOAD in `execute`: `stage->mem_address = rs1_value + imm`. -/
def loadAddress (cpu : APEX_CPU) : APEX_CPU :=
  cpu.setMemAddress EX (add32 (cpu.stage EX).rs1_value (cpu.stage EX).imm)

/-- LDR in `execute`: `stage->mem_address = rs1_value + rs2_value`. -/
def ldrAddress (cpu : APEX_CPU) : APEX_CPU :=
  cpu.setMemAddress EX (add32 (cpu.stage EX).rs1_value (cpu.stage EX).rs2_value)

/-- The stall body of BZ/BNZ in `execute` when WB holds ADD, SUB or MUL:
`stage_check[2][0] = 1; stage_check[1][1] = 1; DRF.stalled = 1; F.stalled = 1`. -/
def stallBranch (cpu : APEX_CPU) : APEX_CPU :=
  (((cpu.setCheck 2 0 1).setCheck 1 1 1).setStalled DRF).setStalled F

/-- The assignment `cpu->pc = stage->pc + stage->imm` of a taken BZ/BNZ. -/
def branchTarget (cpu : APEX_CPU) : APEX_CPU :=
  { cpu with pc := add32 (cpu.stage EX).pc (cpu.stage EX).imm }

/-- The assignment `cpu->pc = stage->rs1_value + stage->imm` of JUMP. -/
def jumpTarget (cpu : APEX_CPU) : APEX_CPU :=
  { cpu with pc := add32 (cpu.stage EX).rs1_value (cpu.stage EX).imm }

/-- The two calls `strcpy(cpu->stage[F].opcode,"NOP"); strcpy(cpu->stage[DRF].opcode,"NOP");`. -/
def squashFetched (cpu : APEX_CPU) : APEX_CPU := (cpu.setNOP F).setNOP DRF

/-- The statement `cpu->halt = 0` of a taken branch. -/
def clearHalt (cpu : APEX_CPU) : APEX_CPU := { cpu with halt := 0 }

/-- The first half of `fetch`: `stage->pc = cpu->pc`, the copy of the fields of
`code_memory[get_code_index(cpu->pc)]` into the fetch latch, and `cpu->pc += 4`. -/
def fetchInstruction (cpu : APEX_CPU) : APEX_CPU :=
  let current_ins := cpu.code_memory (get_code_index cpu.pc)
  let cpu := cpu.setStage F { cpu.stage F with
    pc := cpu.pc, opcode := current_ins.opcode, rd := current_ins.rd,
    rs1 := current_ins.rs1, rs2 := current_ins.rs2, imm := current_ins.imm }
  { cpu with pc := add32 cpu.pc 4 }

/-- The hand-over of `fetch`: `if (stage_set[1][0]) { stage[DRF] = stage[F]; stage_set[0][0] = 1; }
else { stage_set[0][0] = 0; }`. -/
def handToDRF (cpu : APEX_CPU) : APEX_CPU :=
  if cpu.stage_set 1 0 ≠ 0 then (cpu.setStage DRF (cpu.stage F)).setSet 0 0 1
  else cpu.setSet 0 0 0

/-- The `else if (!stage_set[0][0] && stage_set[1][0])` arm of `fetch`, which hands a held fetch
latch to DRF. -/
def releaseHeld (cpu : APEX_CPU) : APEX_CPU :=
  if cpu.stage_set 0 0 = 0 ∧ cpu.stage_set 1 0 ≠ 0 then
    (cpu.setSet 0 0 1).setStage DRF (cpu.stage F)
  else cpu

/-- STORE in `memory`: `cpu->data_memory[stage->mem_address] = stage->rs1_value`. -/
def storeWord (cpu : APEX_CPU) : APEX_CPU :=
  let stage := cpu.stage MEM
  { cpu with data_memory := upd cpu.data_memory stage.mem_address stage.rs1_value }

/-- The tail of `memory`: `stage[WB] = stage[MEM]; stage_set[3][0] = 1; stage[MEM] = Apex`. -/
def passToWB (Apex : CPU_Stage) (cpu : APEX_CPU) : APEX_CPU :=
  ((cpu.setStage WB (cpu.stage MEM)).setSet 3 0 1).setStage MEM Apex

/-- The copy of the execute latch to the memory latch at the end of the first branch of
`execute`: `if (!stage_check[2][0]) { stage[MEM] = stage[EX]; stage_set[2][0] = 1; } else
{ stage[MEM] = Bubble; stage_set[2][0] = 0; }` followed by
`if (!stage_check[2][0]) { stage[EX] = Apex; }`. -/
def passToMEM (Apex : CPU_Stage) (cpu : APEX_CPU) : APEX_CPU :=
  if cpu.stage_check 2 0 = 0 then
    ((cpu.setStage MEM (cpu.stage EX)).setSet 2 0 1).setStage EX Apex
  else (cpu.setStage MEM Apex).setSet 2 0 0

/-- The tail of the `else if` arms of `execute`: `stage[MEM] = stage[EX]; stage[EX] = Bubble`. -/
def moveToMEM (Apex : CPU_Stage) (cpu : APEX_CPU) : APEX_CPU :=
  (cpu.setStage MEM (cpu.stage EX)).setStage EX Apex

/-- The commit `regs[rd] = buffer; regs_valid[rd] = 1` of `writeback`. -/
def commit (cpu : APEX_CPU) : APEX_CPU :=
  let stage := cpu.stage WB
  let cpu := { cpu with regs := upd cpu.regs stage.rd stage.buffer }
  cpu.setValid stage.rd 1

/-- The flag update `if (regs[rd] == 0) { zflag=1; nzflag=0; } else { zflag=0; nzflag=1; }`. -/
def setFlags (cpu : APEX_CPU) : APEX_CPU :=
  if cpu.regs (cpu.stage WB).rd = 0 then { cpu with zflag := 1, nzflag := 0 }
  else { cpu with zflag := 0, nzflag := 1 }

/-- The exit test at the top of the loop of `APEX_cpu_run`:
`ins_completed == code_memory_size || clock == cycle || halt >= 4`. -/
def stops (cpu : APEX_CPU) : Prop :=
  cpu.ins_completed = cpu.code_memory_size ∨ cpu.clock = cpu.cycle ∨ cpu.halt ≥ 4

instance (cpu : APEX_CPU) : Decidable (stops cpu) := by unfold stops; infer_instance

/-- The fields that no stage function writes: the clock, the cycle budget, the program size, the
display mode and the code memory. -/
def settings (cpu : APEX_CPU) : Int × Int × Int × String × (Int → APEX_Instruction) :=
  (cpu.clock, cpu.cycle, cpu.code_memory_size, cpu.f, cpu.code_memory)

/-- The contents of the uninitialised latch variables (`Apex`, `Bubble`) that the stage functions
meet in one pass of the loop, one per stage function. -/
structure Uninitialised where
  wb : CPU_Stage
  mem : CPU_Stage
  ex : CPU_Stage
  drf : CPU_Stage
  f : CPU_Stage

/-- The loop `while (1) { if (<exit test>) break; <body> }` of `APEX_cpu_run`, the same text in
both files. `body k` is the loop body of pass `k` from here on (the uninitialised latches may
differ from pass to pass); `fuel` bounds the number of tests of the exit condition, and the result
is `none` when the bound is used up before the loop exits. -/
def whileRunning : (Nat → APEX_CPU → APEX_CPU) → Nat → APEX_CPU → Option APEX_CPU
  | _, 0, _ => none
  | body, fuel + 1, cpu =>
    if stops cpu then some cpu else whileRunning (fun k => body (k + 1)) fuel (body 0 cpu)

/-- The state after `n` passes of the loop body, whatever the exit test says. -/
def repeatBody : (Nat → APEX_CPU → APEX_CPU) → Nat → APEX_CPU → APEX_CPU
  | _, 0, cpu => cpu
  | body, n + 1, cpu => repeatBody (fun k => body (k + 1)) n (body 0 cpu)

/-- Latch `i` holds the instruction with opcode `op` that was fetched from address `pc`. -/
def holds (cpu : APEX_CPU) (i : Nat) (op : Opcode) (pc : Int) : Prop :=
  (cpu.stage i).opcode = op ∧ (cpu.stage i).pc = pc

instance (cpu : APEX_CPU) (i : Nat) (op : Opcode) (pc : Int) : Decidable (holds cpu i op pc) := by
  unfold holds; infer_instance

/-- The statement `cpu->clock++`. -/
def tick (cpu : APEX_CPU) : APEX_CPU := { cpu with clock := cpu.clock + 1 }

/-- Modelled from the spec: `create_code_memory` (the assembler, out of scope of the spec) is not
among the sources. Code memory holds the parsed program `prog` at indices `0 .. length - 1`;
`rest` stands for whatever lies outside the array. -/
def create_code_memory (prog : List APEX_Instruction) (rest : Int → APEX_Instruction) :
    Int → APEX_Instruction :=
  fun i => if 0 ≤ i ∧ i < prog.length then prog.getD i.toNat (rest i) else rest i

/-- A latch as `memset(..., 0, ...)` leaves it: every field zero, the opcode the empty text. -/
def zeroLatch : CPU_Stage :=
  { pc := 0, opcode := Opcode.other "", rs1 := 0, rs2 := 0, rd := 0, imm := 0, rs1_value := 0,
    rs2_value := 0, buffer := 0, mem_address := 0, busy := 0, stalled := 0 }

/-- Uninitialised latches that all hold zero bytes, in every pass. -/
def zeroJunk : Nat → Uninitialised :=
  fun _ => { wb := zeroLatch, mem := zeroLatch, ex := zeroLatch, drf := zeroLatch, f := zeroLatch }

/-- An instruction slot filled with zero bytes. -/
def zeroInstruction : APEX_Instruction :=
  { opcode := Opcode.other "", rd := 0, rs1 := 0, rs2 := 0, imm := 0 }

/-- A zero-filled `APEX_CPU` block, as `malloc` hands out fresh memory. -/
def zeroCPU : APEX_CPU :=
  { clock := 0, cycle := 0, pc := 0, halt := 0, ins_completed := 0, zflag := 0, nzflag := 0,
    regs := fun _ => 0, regs_valid := fun _ => 0, regs_forward := fun _ => 0,
    regs_data := fun _ => 0, ex_forward := fun _ => 0, ex_data := fun _ => 0,
    mem_forward := fun _ => 0, mem_data := fun _ => 0, wb_forward := fun _ => 0,
    stage := fun _ => zeroLatch, stage_set := fun _ _ => 0, stage_check := fun _ _ => 0,
    code_memory := fun _ => zeroInstruction, code_memory_size := 0,
    data_memory := fun _ => 0, f := "" }

/-- The value `0x01010101` that `memset(p, 1, ...)` stores in every `int`. -/
def onesWord : Int := 16843009

/-- The part of `APEX_cpu_init` the two variants share, applied to the block `raw` that `malloc`
returned: `pc = 4000`, `halt = 0`, the `memset` calls on `regs`, `regs_valid`, `stage`,
`data_memory`, `stage_set`, `stage_check`, `regs_forward`, the code memory, and `busy = 1` on the
latches behind fetch. -/
def initCommon (raw : APEX_CPU) (prog : List APEX_Instruction)
    (rest : Int → APEX_Instruction) : APEX_CPU :=
  { raw with
    pc := 4000
    halt := 0
    regs := fun i => if 0 ≤ i ∧ i < 32 then 0 else raw.regs i
    regs_valid := fun i => if 0 ≤ i ∧ i < 32 then onesWord else raw.regs_valid i
    stage := fun i =>
      if i = 0 then zeroLatch else if i < 5 then { zeroLatch with busy := 1 } else raw.stage i
    data_memory := fun i => if 0 ≤ i ∧ i < 4000 then 0 else raw.data_memory i
    stage_set := fun i j => if i < 5 ∧ j < 2 then onesWord else raw.stage_set i j
    stage_check := fun i j => if i < 5 ∧ j < 2 then 0 else raw.stage_check i j
    regs_forward := fun i => if 0 ≤ i ∧ i < 32 then 0 else raw.regs_forward i
    code_memory := create_code_memory prog rest
    code_memory_size := prog.length }

/-- Modelled from the spec: the command-line driver (`main`, out of scope of the spec) is not
among the sources. It supplies the display mode `f` and the cycle budget `cycle`; the run starts
with `clock = 0` and `ins_completed = 0`. -/
def configure (cpu : APEX_CPU) (budget : Int) (mode : String) : APEX_CPU :=
  { cpu with clock := 0, ins_completed := 0, cycle := budget, f := mode }

/-- The run `r` finished, and its final state satisfies `p`. -/
def EndsWith (r : Option APEX_CPU) (p : APEX_CPU → Prop) : Prop := ∃ s, r = some s ∧ p s

instance (r : Option APEX_CPU) (p : APEX_CPU → Prop) [DecidablePred p] :
    Decidable (EndsWith r p) :=
  match r with
  | none => isFalse (fun h => h.elim fun _ hs => Option.noConfusion hs.1)
  | some s =>
    if h : p s then isTrue ⟨s, rfl, h⟩
    else isFalse (fun h2 => h2.elim fun _ hs => h (Option.some.inj hs.1 ▸ hs.2))

/-- The property `p` holds in each of the two display modes of the configuration. -/
def inEveryMode (p : String → Prop) : Prop := p "display" ∧ p "silent"

instance (p : String → Prop) [DecidablePred p] : Decidable (inEveryMode p) := by
  unfold inEveryMode; infer_instance

/-! ## The scenario programs of the specification -/

/-- S1: `MOVC R1,#5; MOVC R2,#7; ADD R3,R1,R2; HALT`. -/
def S1 : List APEX_Instruction :=
  [⟨.MOVC, 1, 0, 0, 5⟩, ⟨.MOVC, 2, 0, 0, 7⟩, ⟨.ADD, 3, 1, 2, 0⟩, ⟨.HALT, 0, 0, 0, 0⟩]

/-- S2: `MOVC R1,#0; MOVC R2,#42; STORE R2,R1,#0; LOAD R3,R1,#0; ADD R4,R3,R3; HALT`. -/
def S2 : List APEX_Instruction :=
  [⟨.MOVC, 1, 0, 0, 0⟩, ⟨.MOVC, 2, 0, 0, 42⟩, ⟨.STORE, 0, 2, 1, 0⟩, ⟨.LOAD, 3, 1, 0, 0⟩,
   ⟨.ADD, 4, 3, 3, 0⟩, ⟨.HALT, 0, 0, 0, 0⟩]

/-- S3: `MOVC R1,#0; ADD R2,R1,R1; BZ #8; MOVC R3,#99; MOVC R4,#7; HALT`. -/
def S3 : List APEX_Instruction :=
  [⟨.MOVC, 1, 0, 0, 0⟩, ⟨.ADD, 2, 1, 1, 0⟩, ⟨.BZ, 0, 0, 0, 8⟩, ⟨.MOVC, 3, 0, 0, 99⟩,
   ⟨.MOVC, 4, 0, 0, 7⟩, ⟨.HALT, 0, 0, 0, 0⟩]

/-- S4: `MOVC R1,#3; MOVC R2,#4; MUL R3,R1,R2; ADD R4,R3,R3; HALT`. -/
def S4 : List APEX_Instruction :=
  [⟨.MOVC, 1, 0, 0, 3⟩, ⟨.MOVC, 2, 0, 0, 4⟩, ⟨.MUL, 3, 1, 2, 0⟩, ⟨.ADD, 4, 3, 3, 0⟩,
   ⟨.HALT, 0, 0, 0, 0⟩]

/-- S5: `MOVC R1,#1; ADD R2,R1,R1; ADD R3,R2,R2; ADD R4,R3,R3; HALT`. -/
def S5 : List APEX_Instruction :=
  [⟨.MOVC, 1, 0, 0, 1⟩, ⟨.ADD, 2, 1, 1, 0⟩, ⟨.ADD, 3, 2, 2, 0⟩, ⟨.ADD, 4, 3, 3, 0⟩,
   ⟨.HALT, 0, 0, 0, 0⟩]

/-- S6: `MOVC R1,#8; JUMP R1,#4000; MOVC R2,#1; MOVC R3,#9; HALT`. -/
def S6 : List APEX_Instruction :=
  [⟨.MOVC, 1, 0, 0, 8⟩, ⟨.JUMP, 0, 1, 0, 4000⟩, ⟨.MOVC, 2, 0, 0, 1⟩, ⟨.MOVC, 3, 0, 0, 9⟩,
   ⟨.HALT, 0, 0, 0, 0⟩]

/-- S6 with the jump target moved past `MOVC R2,#1`:
`MOVC R1,#8; JUMP R1,#4004; MOVC R2,#1; MOVC R3,#9; HALT`. -/
def S6skip : List APEX_Instruction :=
  [⟨.MOVC, 1, 0, 0, 8⟩, ⟨.JUMP, 0, 1, 0, 4004⟩, ⟨.MOVC, 2, 0, 0, 1⟩, ⟨.MOVC, 3, 0, 0, 9⟩,
   ⟨.HALT, 0, 0, 0, 0⟩]

/-- A load at data address 1 followed by a reader of `R1`:
`MOVC R1,#1; MOVC R2,#6; MOVC R5,#6; MOVC R6,#6; LOAD R3,R1,#0; ADD R4,R1,R1; HALT`. -/
def loadAtOne : List APEX_Instruction :=
  [⟨.MOVC, 1, 0, 0, 1⟩, ⟨.MOVC, 2, 0, 0, 6⟩, ⟨.MOVC, 5, 0, 0, 6⟩, ⟨.MOVC, 6, 0, 0, 6⟩,
   ⟨.LOAD, 3, 1, 0, 0⟩, ⟨.ADD, 4, 1, 1, 0⟩, ⟨.HALT, 0, 0, 0, 0⟩]

/-- A load followed at once by an AND of the loaded register:
`MOVC R1,#0; MOVC R2,#42; STORE R2,R1,#0; LOAD R3,R1,#0; AND R4,R3,R3; HALT`. -/
def loadThenAnd : List APEX_Instruction :=
  [⟨.MOVC, 1, 0, 0, 0⟩, ⟨.MOVC, 2, 0, 0, 42⟩, ⟨.STORE, 0, 2, 1, 0⟩, ⟨.LOAD, 3, 1, 0, 0⟩,
   ⟨.AND, 4, 3, 3, 0⟩, ⟨.HALT, 0, 0, 0, 0⟩]


/-! ## The pipeline without forwarding -/

namespace WithoutDependencies

/-- `APEX_cpu_init` of `Instruction pipeline without dependencies/cpu.c`, on the block `raw`
returned by `malloc`. -/
def APEX_cpu_init (raw : APEX_CPU) (prog : List APEX_Instruction)
    (rest : Int → APEX_Instruction) : APEX_CPU :=
  initCommon raw prog rest

/-- The closing `if (stage_set[1][0]) { struct CPU_Stage Apex; cpu->stage[F] = Apex; }` of the
first branch of `fetch`. -/
def clearF (Apex : CPU_Stage) (cpu : APEX_CPU) : APEX_CPU :=
  if cpu.stage_set 1 0 ≠ 0 then cpu.setStage F Apex else cpu

/-- Fetch stage, `fetch` of `Instruction pipeline without dependencies/cpu.c`. -/
def fetch (Apex : CPU_Stage) (cpu : APEX_CPU) : APEX_CPU :=
  if cpu.stage_check 0 0 = 0 ∧ cpu.stage_check 0 1 = 0 ∧ cpu.stage_set 0 0 ≠ 0 ∧ cpu.halt = 0 then
    clearF Apex (handToDRF (fetchInstruction cpu))
  else releaseHeld cpu

/-- The un-stall of a `decode` pre-check: `stage_check[1][1] = 0; stage_set[1][0] = 1`. -/
def unstall (cpu : APEX_CPU) : APEX_CPU := (cpu.setCheck 1 1 0).setSet 1 0 1

/-- Pre-check of BZ/BNZ: un-stall when neither MEM nor WB holds ADD, SUB or MUL. -/
def unstallBranch (cpu : APEX_CPU) : APEX_CPU :=
  if ¬ isArith (cpu.stage MEM).opcode ∧ ¬ isArith (cpu.stage WB).opcode then unstall cpu else cpu

/-- Pre-check `if (regs_valid[rs1] && regs_valid[rs2]) { ... }`. -/
def unstallTwoSources (cpu : APEX_CPU) : APEX_CPU :=
  if cpu.regs_valid (cpu.stage DRF).rs1 ≠ 0 ∧ cpu.regs_valid (cpu.stage DRF).rs2 ≠ 0 then
    unstall cpu
  else cpu

/-- Pre-check `if (regs_valid[rs1]) { ... }` of LOAD. -/
def unstallOneSource (cpu : APEX_CPU) : APEX_CPU :=
  if cpu.regs_valid (cpu.stage DRF).rs1 ≠ 0 then unstall cpu else cpu

/-- The un-stall pre-checks at the top of `decode`, in source order. -/
def decodeUnstall (cpu : APEX_CPU) : APEX_CPU :=
  let cpu := ifOp DRF [.BNZ, .BZ] unstallBranch cpu
  let cpu := ifOp DRF [.ADD, .SUB, .MUL] unstallTwoSources cpu
  let cpu := ifOp DRF [.AND] unstallTwoSources cpu
  let cpu := ifOp DRF [.OR] unstallTwoSources cpu
  let cpu := ifOp DRF [.XOR] unstallTwoSources cpu
  let cpu := ifOp DRF [.LDR, .STORE] unstallTwoSources cpu
  ifOp DRF [.LOAD] unstallOneSource cpu

/-- STORE in `decode`: both sources from the register file when both are valid, else stall. -/
def readStore (cpu : APEX_CPU) : APEX_CPU :=
  let stage := cpu.stage DRF
  if cpu.regs_valid stage.rs1 ≠ 0 ∧ cpu.regs_valid stage.rs2 ≠ 0 then
    (cpu.setRs1Value DRF (cpu.regs stage.rs1)).setRs2Value DRF (cpu.regs stage.rs2)
  else cpu.stallDRF

/-- LOAD in `decode`: `rs1` from the register file and `regs_valid[rd] = 0`, else stall. -/
def readLoad (cpu : APEX_CPU) : APEX_CPU :=
  let stage := cpu.stage DRF
  if cpu.regs_valid stage.rs1 ≠ 0 then claimDest (cpu.setRs1Value DRF (cpu.regs stage.rs1))
  else cpu.stallDRF

/-- BZ/BNZ in `decode`: stall while MEM or WB holds ADD, SUB or MUL. -/
def guardBranch (cpu : APEX_CPU) : APEX_CPU :=
  if isArith (cpu.stage MEM).opcode ∨ isArith (cpu.stage WB).opcode then cpu.stallDRF else cpu

/-- AND, OR, SUB/ADD/MUL, XOR and LDR in `decode` (the same text five times): both sources from
the register file and `regs_valid[rd] = 0` when both are valid, else stall. -/
def readTwoSources (cpu : APEX_CPU) : APEX_CPU :=
  let stage := cpu.stage DRF
  if cpu.regs_valid stage.rs1 ≠ 0 ∧ cpu.regs_valid stage.rs2 ≠ 0 then
    claimDest ((cpu.setRs1Value DRF (cpu.regs stage.rs1)).setRs2Value DRF (cpu.regs stage.rs2))
  else cpu.stallDRF

/-- JUMP in `decode`: `rs1` from the register file when valid, else stall. -/
def readJump (cpu : APEX_CPU) : APEX_CPU :=
  let stage := cpu.stage DRF
  if cpu.regs_valid stage.rs1 ≠ 0 then cpu.setRs1Value DRF (cpu.regs stage.rs1)
  else cpu.stallDRF

/-- The copy of the decode latch to the execute latch: `if (!stage_check[1][1])
{ stage_set[1][0] = 1; stage[EX] = stage[DRF]; } else if (!stage_check[2][0])
{ stage[EX] = Bubble; }`. -/
def issue (Apex : CPU_Stage) (cpu : APEX_CPU) : APEX_CPU :=
  if cpu.stage_check 1 1 = 0 then (cpu.setSet 1 0 1).setStage EX (cpu.stage DRF)
  else if cpu.stage_check 2 0 = 0 then cpu.setStage EX Apex
  else cpu

/-- The opcode blocks inside the guard of `decode`, in source order. -/
def decodeRead (cpu : APEX_CPU) : APEX_CPU :=
  let cpu := ifOp DRF [.STORE] readStore cpu
  let cpu := ifOp DRF [.LOAD] readLoad cpu
  let cpu := ifOp DRF [.BNZ, .BZ] guardBranch cpu
  let cpu := ifOp DRF [.MOVC] claimDest cpu
  let cpu := ifOp DRF [.AND] readTwoSources cpu
  let cpu := ifOp DRF [.OR] readTwoSources cpu
  let cpu := ifOp DRF [.SUB, .ADD, .MUL] readTwoSources cpu
  let cpu := ifOp DRF [.XOR] readTwoSources cpu
  let cpu := ifOp DRF [.HALT] raiseHalt cpu
  let cpu := ifOp DRF [.JUMP] readJump cpu
  ifOp DRF [.LDR] readTwoSources cpu

/-- The guard of `decode` and its two arms that change the state; the second arm sets
`stage_set[1][0] = 1` only in display mode. -/
def decodeGuarded (Apex : CPU_Stage) (cpu : APEX_CPU) : APEX_CPU :=
  if cpu.stage_check 1 0 = 0 ∧ cpu.stage_check 1 1 = 0 ∧ cpu.halt = 0 then
    issue Apex (decodeRead cpu)
  else if cpu.stage_set 2 0 = 0 ∧ cpu.stage_set 1 0 = 0 ∧ cpu.f = "display" then
    cpu.setSet 1 0 1
  else cpu

/-- Decode stage, `decode` of `Instruction pipeline without dependencies/cpu.c`. -/
def decode (Apex : CPU_Stage) (cpu : APEX_CPU) : APEX_CPU :=
  decodeGuarded Apex (decodeUnstall cpu)

/-- The statement `cpu->ins_completed = (cpu->pc - 4000) / 4` of a taken branch. -/
def resetCompleted (cpu : APEX_CPU) : APEX_CPU :=
  { cpu with ins_completed := Int.tdiv (sub32 cpu.pc 4000) 4 }

/-- JUMP in `execute`: the new `pc` and `ins_completed`; the latches are left alone. -/
def jump (cpu : APEX_CPU) : APEX_CPU := resetCompleted (jumpTarget cpu)

/-- The taken-branch body of BZ/BNZ in the first branch of `execute`. -/
def takeBranch (cpu : APEX_CPU) : APEX_CPU :=
  resetCompleted (clearHalt (squashFetched (branchTarget cpu)))

/-- The taken-branch body of BZ/BNZ after an EX stall (no `halt = 0`). -/
def takeBranchAfterStall (cpu : APEX_CPU) : APEX_CPU :=
  resetCompleted (squashFetched (branchTarget cpu))

/-- BZ (`z = 1`) and BNZ (`z = 0`) in the first branch of `execute`: stall when WB holds ADD, SUB
or MUL, else take the branch when `zflag == z`. -/
def branch (z : Int) (cpu : APEX_CPU) : APEX_CPU :=
  if isArith (cpu.stage WB).opcode then stallBranch cpu
  else if cpu.zflag = z then takeBranch cpu else cpu

/-- MOVC in `execute`: `stage->buffer = 0 + imm`. -/
def movc (cpu : APEX_CPU) : APEX_CPU := cpu.setBuffer EX (add32 0 (cpu.stage EX).imm)

/-- ADD, XOR, SUB, AND, OR in `execute`: `stage->buffer = rs1_value (op) rs2_value;
regs_forward[rd] = 1`. -/
def alu (op : Int → Int → Int) (cpu : APEX_CPU) : APEX_CPU :=
  markForward (cpu.setBuffer EX (op (cpu.stage EX).rs1_value (cpu.stage EX).rs2_value))

/-- MUL, first call of `execute`: `stage_check[2][0] = 1; stage_check[1][0] = 1;
stage_check[0][0] = 1`. -/
def startMUL (cpu : APEX_CPU) : APEX_CPU :=
  ((cpu.setCheck 2 0 1).setCheck 1 0 1).setCheck 0 0 1

/-- The head of the `else if` arms of `execute`: `stage_check[2][0] = 0; stage_check[1][0] = 0;
stage_check[0][0] = 0`. -/
def releaseEX (cpu : APEX_CPU) : APEX_CPU :=
  ((cpu.setCheck 2 0 0).setCheck 1 0 0).setCheck 0 0 0

/-- The first branch of `execute` (no EX stall bit set), in source order. -/
def executeFirst (Apex : CPU_Stage) (cpu : APEX_CPU) : APEX_CPU :=
  let cpu := ifOp EX [.STORE] storeAddress cpu
  let cpu := ifOp EX [.LOAD] loadAddress cpu
  let cpu := ifOp EX [.LDR] ldrAddress cpu
  let cpu := ifOp EX [.JUMP] jump cpu
  let cpu := ifOp EX [.BZ] (branch 1) cpu
  let cpu := ifOp EX [.BNZ] (branch 0) cpu
  let cpu := ifOp EX [.HALT] bumpHalt cpu
  let cpu := ifOp EX [.MOVC] movc cpu
  let cpu := ifOp EX [.ADD] (alu add32) cpu
  let cpu := ifOp EX [.XOR] (alu xor32) cpu
  let cpu := ifOp EX [.SUB] (alu sub32) cpu
  let cpu := ifOp EX [.MUL] startMUL cpu
  let cpu := ifOp EX [.AND] (alu and32) cpu
  let cpu := ifOp EX [.OR] (alu or32) cpu
  passToMEM Apex cpu

/-- The arm `else if (MUL && stage_check[2][0])` of `execute`: the product is computed and the
latch moves to MEM. -/
def finishMUL (Apex : CPU_Stage) (cpu : APEX_CPU) : APEX_CPU :=
  moveToMEM Apex (alu mul32 (releaseEX cpu))

/-- The arms `else if (BZ && stage_check[2][0])` (`z = 1`) and `else if (BNZ && ...)` (`z = 0`)
of `execute`. -/
def finishBranch (z : Int) (Apex : CPU_Stage) (cpu : APEX_CPU) : APEX_CPU :=
  let cpu := releaseEX cpu
  moveToMEM Apex (if cpu.zflag = z then takeBranchAfterStall cpu else cpu)

/-- Execute stage, `execute` of `Instruction pipeline without dependencies/cpu.c`. -/
def execute (Apex : CPU_Stage) (cpu : APEX_CPU) : APEX_CPU :=
  if cpu.stage_check 2 0 = 0 ∧ cpu.stage_check 2 1 = 0 then executeFirst Apex cpu
  else if (cpu.stage EX).opcode = Opcode.MUL ∧ cpu.stage_check 2 0 ≠ 0 then finishMUL Apex cpu
  else if (cpu.stage EX).opcode = Opcode.BZ ∧ cpu.stage_check 2 0 ≠ 0 then finishBranch 1 Apex cpu
  else if (cpu.stage EX).opcode = Opcode.BNZ ∧ cpu.stage_check 2 0 ≠ 0 then
    finishBranch 0 Apex cpu
  else cpu

/-- LDR and LOAD in `memory`: `stage->buffer = cpu->data_memory[stage->mem_address]`. -/
def loadWord (cpu : APEX_CPU) : APEX_CPU :=
  cpu.setBuffer MEM (cpu.data_memory (cpu.stage MEM).mem_address)

/-- The body of `memory` inside its guard, in source order. -/
def memoryBody (Apex : CPU_Stage) (cpu : APEX_CPU) : APEX_CPU :=
  let cpu := ifOp MEM [.STORE] storeWord cpu
  let cpu := ifOp MEM [.LDR] loadWord cpu
  let cpu := ifOp MEM [.LOAD] loadWord cpu
  let cpu := ifOp MEM [.HALT] bumpHalt cpu
  passToWB Apex cpu

/-- Memory stage, `memory` of `Instruction pipeline without dependencies/cpu.c`. -/
def memory (Apex : CPU_Stage) (cpu : APEX_CPU) : APEX_CPU :=
  if cpu.stage_check 3 0 = 0 ∧ cpu.stage_check 3 1 = 0 then memoryBody Apex cpu else cpu

/-- The statement `cpu->ins_completed++`. -/
def countCommit (cpu : APEX_CPU) : APEX_CPU :=
  { cpu with ins_completed := cpu.ins_completed + 1 }

/-- MOVC, LOAD, LDR, XOR, AND, OR in `writeback`: commit and count. -/
def retire (cpu : APEX_CPU) : APEX_CPU := countCommit (commit cpu)

/-- ADD/MUL and SUB in `writeback`: commit, set the flags and count. -/
def retireArith (cpu : APEX_CPU) : APEX_CPU := countCommit (setFlags (commit cpu))

/-- The body of `writeback` inside its guard, in source order. -/
def writebackBody (Apex : CPU_Stage) (cpu : APEX_CPU) : APEX_CPU :=
  let cpu := ifOp WB [.MOVC] retire cpu
  let cpu := ifOp WB [.LOAD] retire cpu
  let cpu := ifOp WB [.LDR] retire cpu
  let cpu := ifOp WB [.HALT] bumpHalt cpu
  let cpu := ifOp WB [.STORE] countCommit cpu
  let cpu := ifOp WB [.ADD, .MUL] retireArith cpu
  let cpu := ifOp WB [.XOR] retire cpu
  let cpu := ifOp WB [.SUB] retireArith cpu
  let cpu := ifOp WB [.AND] retire cpu
  let cpu := ifOp WB [.OR] retire cpu
  cpu.setStage WB Apex

/-- Writeback stage, `writeback` of `Instruction pipeline without dependencies/cpu.c`. -/
def writeback (Apex : CPU_Stage) (cpu : APEX_CPU) : APEX_CPU :=
  if cpu.stage_check 4 0 = 0 ∧ cpu.stage_check 4 1 = 0 then writebackBody Apex cpu else cpu

/-- The five stage calls of one pass of the loop of `APEX_cpu_run`, in source order. -/
def stages (u : Uninitialised) (cpu : APEX_CPU) : APEX_CPU :=
  fetch u.f (decode u.drf (execute u.ex (memory u.mem (writeback u.wb cpu))))

/-- One pass of the loop body of `APEX_cpu_run`: the five stage calls and `cpu->clock++`. -/
def loopBody (u : Uninitialised) (cpu : APEX_CPU) : APEX_CPU :=
  tick (stages u cpu)

/-- The simulation loop `APEX_cpu_run`. `junk k` is the content of the uninitialised latches in
pass `k`; `fuel` bounds the number of tests of the exit condition, and the result is `none` when
the bound is used up before the loop exits. -/
def APEX_cpu_run (junk : Nat → Uninitialised) (fuel : Nat) (cpu : APEX_CPU) : Option APEX_CPU :=
  whileRunning (fun k => loopBody (junk k)) fuel cpu

/-- The state after `n` passes of the loop body, whatever the exit test says. -/
def passes (junk : Nat → Uninitialised) (n : Nat) (cpu : APEX_CPU) : APEX_CPU :=
  repeatBody (fun k => loopBody (junk k)) n cpu

/-- The start state of a scenario: `APEX_cpu_init` on a zero-filled block, then `configure`. -/
def boot (prog : List APEX_Instruction) (budget : Int) (mode : String) : APEX_CPU :=
  configure (APEX_cpu_init zeroCPU prog (fun _ => zeroInstruction)) budget mode

end WithoutDependencies

/-! ## The pipeline with forwarding -/

namespace WithDependencies

/-- `APEX_cpu_init` of `Instruction pipeline with dependencies/cpu.c`, on the block `raw` returned
by `malloc`: the shared part and the `memset` calls on `ex_forward`, `wb_forward`,
`mem_forward`. -/
def APEX_cpu_init (raw : APEX_CPU) (prog : List APEX_Instruction)
    (rest : Int → APEX_Instruction) : APEX_CPU :=
  { initCommon raw prog rest with
    ex_forward := fun i => if 0 ≤ i ∧ i < 32 then 0 else raw.ex_forward i
    wb_forward := fun i => if 0 ≤ i ∧ i < 32 then 0 else raw.wb_forward i
    mem_forward := fun i => if 0 ≤ i ∧ i < 32 then 0 else raw.mem_forward i }

/-- The guard of `fetch`: no stall bit, `stage_set[0][0]`, no halt, and no JUMP, no BZ with
`zflag`, no BNZ with `nzflag` in the MEM latch. -/
def fetchGuard (cpu : APEX_CPU) : Prop :=
  cpu.stage_check 0 0 = 0 ∧ cpu.stage_check 0 1 = 0 ∧ cpu.stage_set 0 0 ≠ 0 ∧ cpu.halt = 0 ∧
    (cpu.stage MEM).opcode ≠ Opcode.JUMP ∧
    ((cpu.stage MEM).opcode ≠ Opcode.BZ ∨ cpu.zflag = 0) ∧
    ((cpu.stage MEM).opcode ≠ Opcode.BNZ ∨ cpu.nzflag = 0)

instance (cpu : APEX_CPU) : Decidable (fetchGuard cpu) := by unfold fetchGuard; infer_instance

/-- Fetch stage, `fetch` of `Instruction pipeline with dependencies/cpu.c`. -/
def fetch (cpu : APEX_CPU) : APEX_CPU :=
  if fetchGuard cpu then handToDRF (fetchInstruction cpu) else releaseHeld cpu

/-- The test `ex_forward[r] == 1 || mem_forward[r] == 1 || regs_valid[r] == 1` (`temp1`, `temp2`
of the pre-checks). -/
def available (cpu : APEX_CPU) (r : Int) : Prop :=
  cpu.ex_forward r = 1 ∨ cpu.mem_forward r = 1 ∨ cpu.regs_valid r = 1

instance (cpu : APEX_CPU) (r : Int) : Decidable (available cpu r) := by
  unfold available; infer_instance

/-- Pre-check of BZ/BNZ: `stage_check[1][1] = 0` when neither MEM nor WB holds ADD, SUB, MUL. -/
def unstallBranch (cpu : APEX_CPU) : APEX_CPU :=
  if ¬ isArith (cpu.stage MEM).opcode ∧ ¬ isArith (cpu.stage WB).opcode then cpu.setCheck 1 1 0
  else cpu

/-- Pre-check of ADD/SUB/MUL, AND, OR, XOR and STORE: `if (temp1 && temp2)
stage_check[1][1] = 0`. -/
def unstallForwarded (cpu : APEX_CPU) : APEX_CPU :=
  if available cpu (cpu.stage DRF).rs1 ∧ available cpu (cpu.stage DRF).rs2 then cpu.setCheck 1 1 0
  else cpu

/-- Pre-check of LDR: `if (regs_valid[rs1] && regs_valid[rs2]) stage_check[1][1] = 0`. -/
def unstallTwoValid (cpu : APEX_CPU) : APEX_CPU :=
  if cpu.regs_valid (cpu.stage DRF).rs1 ≠ 0 ∧ cpu.regs_valid (cpu.stage DRF).rs2 ≠ 0 then
    cpu.setCheck 1 1 0
  else cpu

/-- Pre-check of LOAD and of JUMP: `if (regs_valid[rs1]) stage_check[1][1] = 0`. -/
def unstallOneValid (cpu : APEX_CPU) : APEX_CPU :=
  if cpu.regs_valid (cpu.stage DRF).rs1 ≠ 0 then cpu.setCheck 1 1 0 else cpu

/-- The un-stall pre-checks at the top of `decode`, in source order. -/
def decodeUnstall (cpu : APEX_CPU) : APEX_CPU :=
  let cpu := ifOp DRF [.BNZ, .BZ] unstallBranch cpu
  let cpu := ifOp DRF [.ADD, .SUB, .MUL] unstallForwarded cpu
  let cpu := ifOp DRF [.AND] unstallForwarded cpu
  let cpu := ifOp DRF [.OR] unstallForwarded cpu
  let cpu := ifOp DRF [.XOR] unstallForwarded cpu
  let cpu := ifOp DRF [.LDR] unstallTwoValid cpu
  let cpu := ifOp DRF [.STORE] unstallForwarded cpu
  let cpu := ifOp DRF [.LOAD] unstallOneValid cpu
  ifOp DRF [.JUMP] unstallOneValid cpu

/-- Operand `rs1` of STORE and of SUB/ADD/MUL: EX bypass unless MEM holds a LOAD, else MEM bypass,
else the register file unless MEM holds a LOAD, else stall. -/
def readRs1Guarded (cpu : APEX_CPU) : APEX_CPU :=
  let stage := cpu.stage DRF
  if cpu.ex_forward stage.rs1 = 1 ∧ (cpu.stage MEM).opcode ≠ Opcode.LOAD then
    cpu.setRs1Value DRF (cpu.ex_data stage.rs1)
  else if cpu.mem_forward stage.rs1 = 1 then cpu.setRs1Value DRF (cpu.mem_data stage.rs1)
  else if (cpu.stage MEM).opcode ≠ Opcode.LOAD ∧ cpu.regs_valid stage.rs1 = 1 then
    cpu.setRs1Value DRF (cpu.regs stage.rs1)
  else cpu.stallDRF

/-- Operand `rs2` of STORE and of SUB/ADD/MUL, as `readRs1Guarded`. -/
def readRs2Guarded (cpu : APEX_CPU) : APEX_CPU :=
  let stage := cpu.stage DRF
  if cpu.ex_forward stage.rs2 = 1 ∧ (cpu.stage MEM).opcode ≠ Opcode.LOAD then
    cpu.setRs2Value DRF (cpu.ex_data stage.rs2)
  else if cpu.mem_forward stage.rs2 = 1 then cpu.setRs2Value DRF (cpu.mem_data stage.rs2)
  else if (cpu.stage MEM).opcode ≠ Opcode.LOAD ∧ cpu.regs_valid stage.rs2 = 1 then
    cpu.setRs2Value DRF (cpu.regs stage.rs2)
  else cpu.stallDRF

/-- Operand `rs1` of LOAD: EX bypass, else MEM bypass, else the register file when
`regs_valid[rs1] == 1`, else stall. -/
def readRs1OrStall (cpu : APEX_CPU) : APEX_CPU :=
  let stage := cpu.stage DRF
  if cpu.ex_forward stage.rs1 = 1 then cpu.setRs1Value DRF (cpu.ex_data stage.rs1)
  else if cpu.mem_forward stage.rs1 = 1 then cpu.setRs1Value DRF (cpu.mem_data stage.rs1)
  else if cpu.regs_valid stage.rs1 = 1 then cpu.setRs1Value DRF (cpu.regs stage.rs1)
  else cpu.stallDRF

/-- Operand `rs1` of JUMP: as for LOAD, but the register file is read when `regs_valid[rs1]` is
nonzero. -/
def readRs1Jump (cpu : APEX_CPU) : APEX_CPU :=
  let stage := cpu.stage DRF
  if cpu.ex_forward stage.rs1 = 1 then cpu.setRs1Value DRF (cpu.ex_data stage.rs1)
  else if cpu.mem_forward stage.rs1 = 1 then cpu.setRs1Value DRF (cpu.mem_data stage.rs1)
  else if cpu.regs_valid stage.rs1 ≠ 0 then cpu.setRs1Value DRF (cpu.regs stage.rs1)
  else cpu.stallDRF

/-- Operand `rs1` of LDR, XOR, AND and OR: EX bypass, else MEM bypass, else the register file
when `regs_valid[rs1] == 1`; the chain has no final `else`. -/
def readRs1NoElse (cpu : APEX_CPU) : APEX_CPU :=
  let stage := cpu.stage DRF
  if cpu.ex_forward stage.rs1 = 1 then cpu.setRs1Value DRF (cpu.ex_data stage.rs1)
  else if cpu.mem_forward stage.rs1 = 1 then cpu.setRs1Value DRF (cpu.mem_data stage.rs1)
  else if cpu.regs_valid stage.rs1 = 1 then cpu.setRs1Value DRF (cpu.regs stage.rs1)
  else cpu

/-- Operand `rs2` of LDR, XOR, AND and OR: EX bypass, else MEM bypass, else the register file
when `regs_valid[rs2] == 1`, else stall. -/
def readRs2OrStall (cpu : APEX_CPU) : APEX_CPU :=
  let stage := cpu.stage DRF
  if cpu.ex_forward stage.rs2 = 1 then cpu.setRs2Value DRF (cpu.ex_data stage.rs2)
  else if cpu.mem_forward stage.rs2 = 1 then cpu.setRs2Value DRF (cpu.mem_data stage.rs2)
  else if cpu.regs_valid stage.rs2 = 1 then cpu.setRs2Value DRF (cpu.regs stage.rs2)
  else cpu.stallDRF

/-- The statement `if (!cpu->stage_check[1][1]) { cpu->regs_valid[stage->rd] = 0; }`. -/
def claimIfIssued (cpu : APEX_CPU) : APEX_CPU :=
  if cpu.stage_check 1 1 = 0 then claimDest cpu else cpu

/-- STORE in `decode`. -/
def readStore (cpu : APEX_CPU) : APEX_CPU := readRs2Guarded (readRs1Guarded cpu)

/-- LOAD in `decode`. -/
def readLoad (cpu : APEX_CPU) : APEX_CPU := claimIfIssued (readRs1OrStall cpu)

/-- The first LDR block of `decode`: `regs_valid[rd] = 0` comes before the operand reads. -/
def readLdrBypass (cpu : APEX_CPU) : APEX_CPU := readRs2OrStall (readRs1NoElse (claimDest cpu))

/-- BZ/BNZ in `decode`: stall while MEM or WB holds ADD, SUB or MUL. -/
def guardBranch (cpu : APEX_CPU) : APEX_CPU :=
  if isArith (cpu.stage MEM).opcode ∨ isArith (cpu.stage WB).opcode then cpu.stallDRF else cpu

/-- The first XOR block, the AND block and the OR block of `decode`. -/
def readLogic (cpu : APEX_CPU) : APEX_CPU := claimIfIssued (readRs2OrStall (readRs1NoElse cpu))

/-- JUMP in `decode`. -/
def readJump (cpu : APEX_CPU) : APEX_CPU := claimIfIssued (readRs1Jump cpu)

/-- SUB/ADD/MUL in `decode`. -/
def readArith (cpu : APEX_CPU) : APEX_CPU :=
  claimIfIssued (readRs2Guarded (readRs1Guarded cpu))

/-- The second XOR block of `decode`: `regs_valid[rd] = 0` comes before the operand reads. -/
def readXorAgain (cpu : APEX_CPU) : APEX_CPU := readLogic (claimDest cpu)

/-- The operand choice of the second LDR block of `decode`, from the register file and the
`regs_forward` / `regs_data` tables. -/
def readLdrOperands (cpu : APEX_CPU) : APEX_CPU :=
  let stage := cpu.stage DRF
  if cpu.regs_valid stage.rs1 ≠ 0 ∧ cpu.regs_valid stage.rs2 ≠ 0 then
    (cpu.setRs1Value DRF (cpu.regs stage.rs1)).setRs2Value DRF (cpu.regs stage.rs2)
  else if cpu.regs_forward stage.rs1 ≠ 0 ∧ cpu.regs_valid stage.rs2 ≠ 0 then
    (cpu.setRs1Value DRF (cpu.regs_data stage.rs1)).setRs2Value DRF (cpu.regs stage.rs2)
  else if cpu.regs_valid stage.rs1 ≠ 0 ∧ cpu.regs_forward stage.rs2 ≠ 0 then
    (cpu.setRs1Value DRF (cpu.regs stage.rs1)).setRs2Value DRF (cpu.regs_data stage.rs2)
  else if cpu.regs_valid stage.rs2 ≠ 0 ∧ cpu.regs_forward stage.rs1 ≠ 0 then
    (cpu.setRs2Value DRF (cpu.regs stage.rs2)).setRs1Value DRF (cpu.regs_data stage.rs1)
  else if cpu.regs_forward stage.rs1 ≠ 0 ∧ cpu.regs_forward stage.rs2 ≠ 0 then
    (cpu.setRs1Value DRF (cpu.regs_data stage.rs1)).setRs2Value DRF (cpu.regs_data stage.rs2)
  else cpu.stallDRF

/-- The second LDR block of `decode`. -/
def readLdrAgain (cpu : APEX_CPU) : APEX_CPU := claimIfIssued (readLdrOperands cpu)

/-- The copy of the decode latch to the execute latch:
`if (!stage_check[1][1] && stage_set[2][0]) { stage_set[1][0] = 1; stage[EX] = stage[DRF]; }`. -/
def issue (cpu : APEX_CPU) : APEX_CPU :=
  if cpu.stage_check 1 1 = 0 ∧ cpu.stage_set 2 0 ≠ 0 then
    (cpu.setSet 1 0 1).setStage EX (cpu.stage DRF)
  else cpu

/-- The opcode blocks inside the guard of `decode`, in source order. -/
def decodeRead (cpu : APEX_CPU) : APEX_CPU :=
  let cpu := ifOp DRF [.STORE] readStore cpu
  let cpu := ifOp DRF [.LOAD] readLoad cpu
  let cpu := ifOp DRF [.LDR] readLdrBypass cpu
  let cpu := ifOp DRF [.MOVC] claimDest cpu
  let cpu := ifOp DRF [.BNZ, .BZ] guardBranch cpu
  let cpu := ifOp DRF [.XOR] readLogic cpu
  let cpu := ifOp DRF [.AND] readLogic cpu
  let cpu := ifOp DRF [.HALT] raiseHalt cpu
  let cpu := ifOp DRF [.JUMP] readJump cpu
  let cpu := ifOp DRF [.OR] readLogic cpu
  let cpu := ifOp DRF [.SUB, .ADD, .MUL] readArith cpu
  let cpu := ifOp DRF [.XOR] readXorAgain cpu
  ifOp DRF [.LDR] readLdrAgain cpu

/-- The guard of `decode`; its other arms only print. -/
def decodeGuarded (cpu : APEX_CPU) : APEX_CPU :=
  if cpu.stage_check 1 0 = 0 ∧ cpu.stage_check 1 1 = 0 ∧ cpu.halt = 0 then issue (decodeRead cpu)
  else cpu

/-- Decode stage, `decode` of `Instruction pipeline with dependencies/cpu.c`. -/
def decode (cpu : APEX_CPU) : APEX_CPU :=
  decodeGuarded (decodeUnstall cpu)

/-- The EX-bypass publication `cpu->ex_forward[i] = 1; cpu->ex_data[i] = stage->buffer`. -/
def publishEX (i : Int) (cpu : APEX_CPU) : APEX_CPU :=
  { cpu with ex_forward := upd cpu.ex_forward i 1, ex_data := upd cpu.ex_data i (cpu.stage EX).buffer }

/-- LOAD in `execute`: the address, then the EX-bypass publication at index `mem_address`. -/
def loadEX (cpu : APEX_CPU) : APEX_CPU :=
  let cpu := loadAddress cpu
  publishEX (cpu.stage EX).mem_address cpu

/-- LDR in `execute`: the address, then the EX-bypass publication at index `mem_address`. -/
def ldrEX (cpu : APEX_CPU) : APEX_CPU :=
  let cpu := ldrAddress cpu
  publishEX (cpu.stage EX).mem_address cpu

/-- JUMP in `execute`: the new `pc`, F and DRF opcodes set to NOP, `halt = 0`. -/
def jump (cpu : APEX_CPU) : APEX_CPU := clearHalt (squashFetched (jumpTarget cpu))

/-- The taken-branch body of BZ/BNZ in the first branch of `execute`. -/
def takeBranch (cpu : APEX_CPU) : APEX_CPU := clearHalt (squashFetched (branchTarget cpu))

/-- The taken-branch body of BZ/BNZ after an EX stall (no `halt = 0`). -/
def takeBranchAfterStall (cpu : APEX_CPU) : APEX_CPU := squashFetched (branchTarget cpu)

/-- BZ (`z = 1`) and BNZ (`z = 0`) in the first branch of `execute`: stall when WB holds ADD, SUB
or MUL, else take the branch when `zflag == z`. -/
def branch (z : Int) (cpu : APEX_CPU) : APEX_CPU :=
  if isArith (cpu.stage WB).opcode then stallBranch cpu
  else if cpu.zflag = z then takeBranch cpu else cpu

/-- The statement `cpu->regs_data[stage->rd] = stage->buffer`. -/
def recordData (cpu : APEX_CPU) : APEX_CPU :=
  { cpu with regs_data := upd cpu.regs_data (cpu.stage EX).rd (cpu.stage EX).buffer }

/-- MOVC in `execute`: `buffer = 0 + imm; regs_data[rd] = buffer; ex_forward[rd] = 1;
ex_data[rd] = buffer`. -/
def movc (cpu : APEX_CPU) : APEX_CPU :=
  let cpu := recordData (cpu.setBuffer EX (add32 0 (cpu.stage EX).imm))
  publishEX (cpu.stage EX).rd cpu

/-- ADD, XOR, SUB, AND, OR in `execute`: `buffer = rs1_value (op) rs2_value;
regs_forward[rd] = 1; regs_data[rd] = buffer; ex_forward[rd] = 1; ex_data[rd] = buffer`. -/
def alu (op : Int → Int → Int) (cpu : APEX_CPU) : APEX_CPU :=
  let cpu := cpu.setBuffer EX (op (cpu.stage EX).rs1_value (cpu.stage EX).rs2_value)
  let cpu := recordData (markForward cpu)
  publishEX (cpu.stage EX).rd cpu

/-- MUL, first call of `execute`: `stage_check[2][0] = 1; stage_check[1][1] = 1;
stage_set[1][0] = 0`. -/
def startMUL (cpu : APEX_CPU) : APEX_CPU :=
  ((cpu.setCheck 2 0 1).setCheck 1 1 1).setSet 1 0 0

/-- The first branch of `execute` (no EX stall bit set), in source order. -/
def executeFirst (Apex : CPU_Stage) (cpu : APEX_CPU) : APEX_CPU :=
  let cpu := ifOp EX [.STORE] storeAddress cpu
  let cpu := ifOp EX [.LOAD] loadEX cpu
  let cpu := ifOp EX [.LDR] ldrEX cpu
  let cpu := ifOp EX [.JUMP] jump cpu
  let cpu := ifOp EX [.BZ] (branch 1) cpu
  let cpu := ifOp EX [.BNZ] (branch 0) cpu
  let cpu := ifOp EX [.HALT] bumpHalt cpu
  let cpu := ifOp EX [.MOVC] movc cpu
  let cpu := ifOp EX [.MUL] startMUL cpu
  let cpu := ifOp EX [.ADD] (alu add32) cpu
  let cpu := ifOp EX [.XOR] (alu xor32) cpu
  let cpu := ifOp EX [.SUB] (alu sub32) cpu
  let cpu := ifOp EX [.AND] (alu and32) cpu
  let cpu := ifOp EX [.OR] (alu or32) cpu
  passToMEM Apex cpu

/-- The arm `else if (MUL && stage_check[2][0])` of `execute`: `stage_check[2][0] = 0;
stage_set[2][0] = 1; stage_check[1][1] = 0; stage_set[1][0] = 1`, the product, its EX-bypass
publication at `rd`, `regs_forward[rd] = 1`, and the move to MEM. -/
def finishMUL (Apex : CPU_Stage) (cpu : APEX_CPU) : APEX_CPU :=
  let cpu := (((cpu.setCheck 2 0 0).setSet 2 0 1).setCheck 1 1 0).setSet 1 0 1
  let cpu := cpu.setBuffer EX (mul32 (cpu.stage EX).rs1_value (cpu.stage EX).rs2_value)
  moveToMEM Apex (markForward (publishEX (cpu.stage EX).rd cpu))

/-- The head of the BZ/BNZ `else if` arms of `execute`: `stage_check[2][0] = 0;
stage_check[1][0] = 0; stage_check[0][0] = 0`. -/
def releaseEX (cpu : APEX_CPU) : APEX_CPU :=
  ((cpu.setCheck 2 0 0).setCheck 1 0 0).setCheck 0 0 0

/-- The arms `else if (BZ && stage_check[2][0])` (`z = 1`) and `else if (BNZ && ...)` (`z = 0`)
of `execute`. -/
def finishBranch (z : Int) (Apex : CPU_Stage) (cpu : APEX_CPU) : APEX_CPU :=
  let cpu := releaseEX cpu
  moveToMEM Apex (if cpu.zflag = z then takeBranchAfterStall cpu else cpu)

/-- The `if` / `else if` chain of `execute`. -/
def executeArms (Apex : CPU_Stage) (cpu : APEX_CPU) : APEX_CPU :=
  if cpu.stage_check 2 0 = 0 ∧ cpu.stage_check 2 1 = 0 then executeFirst Apex cpu
  else if (cpu.stage EX).opcode = Opcode.MUL ∧ cpu.stage_check 2 0 ≠ 0 then finishMUL Apex cpu
  else if (cpu.stage EX).opcode = Opcode.BZ ∧ cpu.stage_check 2 0 ≠ 0 then finishBranch 1 Apex cpu
  else if (cpu.stage EX).opcode = Opcode.BNZ ∧ cpu.stage_check 2 0 ≠ 0 then
    finishBranch 0 Apex cpu
  else cpu

/-- The closing `if (strcmp(stage->opcode, "HALT") == 0) { stage[MEM] = stage[EX]; }` of
`execute`, which reads the execute latch as the chain left it. -/
def haltToMEM (cpu : APEX_CPU) : APEX_CPU := cpu.setStage MEM (cpu.stage EX)

/-- Execute stage, `execute` of `Instruction pipeline with dependencies/cpu.c`. -/
def execute (Apex : CPU_Stage) (cpu : APEX_CPU) : APEX_CPU :=
  ifOp EX [.HALT] haltToMEM (executeArms Apex cpu)

/-- One pass `i = n` of the loop at the top of `memory`: `mem_data[i] = ex_data[i];
mem_forward[i] = ex_forward[i]; ex_forward[i] = 0`. -/
def refreshEntry (n : Nat) (cpu : APEX_CPU) : APEX_CPU :=
  { cpu with
    mem_data := upd cpu.mem_data n (cpu.ex_data n)
    mem_forward := upd cpu.mem_forward n (cpu.ex_forward n)
    ex_forward := upd cpu.ex_forward n 0 }

/-- The loop `for (i = 0; i < 16; i++)` at the top of `memory`, run for `i < n`. -/
def refreshBypass : Nat → APEX_CPU → APEX_CPU
  | 0, cpu => cpu
  | n + 1, cpu => refreshEntry n (refreshBypass n cpu)

/-- LDR and LOAD in `memory`: `buffer = data_memory[mem_address % 4000]` (C remainder);
`mem_forward[rd] = 1; mem_data[rd] = buffer`. -/
def loadWord (cpu : APEX_CPU) : APEX_CPU :=
  let cpu := cpu.setBuffer MEM (cpu.data_memory (Int.tmod (cpu.stage MEM).mem_address 4000))
  let stage := cpu.stage MEM
  { cpu with mem_forward := upd cpu.mem_forward stage.rd 1
             mem_data := upd cpu.mem_data stage.rd stage.buffer }

/-- The body of `memory` inside its guard, in source order. -/
def memoryBody (Apex : CPU_Stage) (cpu : APEX_CPU) : APEX_CPU :=
  let cpu := ifOp MEM [.STORE] storeWord cpu
  let cpu := ifOp MEM [.LDR] loadWord cpu
  let cpu := ifOp MEM [.LOAD] loadWord cpu
  let cpu := ifOp MEM [.HALT] bumpHalt cpu
  passToWB Apex cpu

/-- The guard of `memory`. -/
def memoryGuarded (Apex : CPU_Stage) (cpu : APEX_CPU) : APEX_CPU :=
  if cpu.stage_check 3 0 = 0 ∧ cpu.stage_check 3 1 = 0 then memoryBody Apex cpu else cpu

/-- Memory stage, `memory` of `Instruction pipeline with dependencies/cpu.c`. -/
def memory (Apex : CPU_Stage) (cpu : APEX_CPU) : APEX_CPU :=
  memoryGuarded Apex (refreshBypass 16 cpu)

/-- The loop `for (i = 0; i < 16; i++) cpu->regs_valid[i] = 1;` at the top of `writeback`, run
for `i < n`. -/
def revalidate : Nat → APEX_CPU → APEX_CPU
  | 0, cpu => cpu
  | n + 1, cpu => (revalidate n cpu).setValid (n : Int) 1

/-- The statement `cpu->ins_completed = (stage->pc - 4000) / 4` of `writeback`. -/
def recordCommit (cpu : APEX_CPU) : APEX_CPU :=
  { cpu with ins_completed := Int.tdiv (sub32 (cpu.stage WB).pc 4000) 4 }

/-- The statement `cpu->wb_forward[stage->rd] = 1`. -/
def markWB (cpu : APEX_CPU) : APEX_CPU :=
  { cpu with wb_forward := upd cpu.wb_forward (cpu.stage WB).rd 1 }

/-- The statement `cpu->mem_forward[stage->rd] = 0`. -/
def clearMemForward (cpu : APEX_CPU) : APEX_CPU :=
  { cpu with mem_forward := upd cpu.mem_forward (cpu.stage WB).rd 0 }

/-- MOVC, LOAD and LDR in `writeback`. -/
def retire (cpu : APEX_CPU) : APEX_CPU := recordCommit (clearMemForward (commit cpu))

/-- XOR, AND and OR in `writeback`. -/
def retireLogic (cpu : APEX_CPU) : APEX_CPU :=
  recordCommit (clearMemForward (markWB (commit cpu)))

/-- ADD/MUL and SUB in `writeback`. -/
def retireArith (cpu : APEX_CPU) : APEX_CPU :=
  recordCommit (setFlags (clearMemForward (markWB (commit cpu))))

/-- The separate MUL block of `writeback`: `regs[rd] = buffer; mem_forward[rd] = 0;` and the
`ins_completed` assignment. -/
def retireMulAgain (cpu : APEX_CPU) : APEX_CPU :=
  let stage := cpu.stage WB
  recordCommit (clearMemForward { cpu with regs := upd cpu.regs stage.rd stage.buffer })

/-- The body of `writeback` inside its guard, in source order. -/
def writebackBody (Apex : CPU_Stage) (cpu : APEX_CPU) : APEX_CPU :=
  let cpu := cpu.setValid 0 1
  let cpu := ifOp WB [.MOVC] retire cpu
  let cpu := ifOp WB [.LOAD] retire cpu
  let cpu := ifOp WB [.LDR] retire cpu
  let cpu := ifOp WB [.HALT] bumpHalt cpu
  let cpu := ifOp WB [.STORE] recordCommit cpu
  let cpu := ifOp WB [.ADD, .MUL] retireArith cpu
  let cpu := ifOp WB [.XOR] retireLogic cpu
  let cpu := ifOp WB [.SUB] retireArith cpu
  let cpu := ifOp WB [.AND] retireLogic cpu
  let cpu := ifOp WB [.MUL] retireMulAgain cpu
  let cpu := ifOp WB [.OR] retireLogic cpu
  cpu.setStage WB Apex

/-- The guard of `writeback`. -/
def writebackGuarded (Apex : CPU_Stage) (cpu : APEX_CPU) : APEX_CPU :=
  if cpu.stage_check 4 0 = 0 ∧ cpu.stage_check 4 1 = 0 then writebackBody Apex cpu else cpu

/-- Writeback stage, `writeback` of `Instruction pipeline with dependencies/cpu.c`. -/
def writeback (Apex : CPU_Stage) (cpu : APEX_CPU) : APEX_CPU :=
  writebackGuarded Apex (revalidate 16 cpu)

/-- The five stage calls of one pass of the loop of `APEX_cpu_run`, in source order. -/
def stages (u : Uninitialised) (cpu : APEX_CPU) : APEX_CPU :=
  fetch (decode (execute u.ex (memory u.mem (writeback u.wb cpu))))

/-- One pass of the loop body of `APEX_cpu_run`: the five stage calls and `cpu->clock++`. -/
def loopBody (u : Uninitialised) (cpu : APEX_CPU) : APEX_CPU :=
  tick (stages u cpu)

/-- The simulation loop `APEX_cpu_run`. `junk k` is the content of the uninitialised latches in
pass `k`; `fuel` bounds the number of tests of the exit condition, and the result is `none` when
the bound is used up before the loop exits. -/
def APEX_cpu_run (junk : Nat → Uninitialised) (fuel : Nat) (cpu : APEX_CPU) : Option APEX_CPU :=
  whileRunning (fun k => loopBody (junk k)) fuel cpu

/-- The state after `n` passes of the loop body, whatever the exit test says. -/
def passes (junk : Nat → Uninitialised) (n : Nat) (cpu : APEX_CPU) : APEX_CPU :=
  repeatBody (fun k => loopBody (junk k)) n cpu

/-- The start state of a scenario: `APEX_cpu_init` on a zero-filled block, then `configure`. -/
def boot (prog : List APEX_Instruction) (budget : Int) (mode : String) : APEX_CPU :=
  configure (APEX_cpu_init zeroCPU prog (fun _ => zeroInstruction)) budget mode

end WithDependencies

/-! ## Vocabulary of the frame claims -/

/-- The opcodes whose `writeback` block assigns `regs[rd]`: MOVC, LOAD, LDR, ADD, SUB, MUL, AND,
OR, XOR. -/
def writesRegister (op : Opcode) : Prop :=
  op ∈ [Opcode.MOVC, .LOAD, .LDR, .ADD, .SUB, .MUL, .AND, .OR, .XOR]

instance (op : Opcode) : Decidable (writesRegister op) := by unfold writesRegister; infer_instance

/-- The architectural state: the register file, the two flags and the data memory. -/
def architectural (cpu : APEX_CPU) : (Int → Int) × Int × Int × (Int → Int) :=
  (cpu.regs, cpu.zflag, cpu.nzflag, cpu.data_memory)

/-- The commit counter `cpu->ins_completed`. -/
def committed (cpu : APEX_CPU) : Int := cpu.ins_completed

/-- A latch whose opcode text is matched by no block of a stage function: `NOP`, or a text that
is none of the fifteen mnemonics. -/
def inert (s : CPU_Stage) : Prop :=
  match s.opcode with
  | .NOP => True
  | .other _ => True
  | _ => False

/-- Latch `i` holds a register-writing instruction whose destination is `r`. -/
def writerOf (cpu : APEX_CPU) (i : Nat) (r : Int) : Prop :=
  writesRegister (cpu.stage i).opcode ∧ (cpu.stage i).rd = r

namespace WithoutDependencies

/-- The opcode block of the first branch of `execute` that the opcode of the EX latch selects:
the `if` sequence of `executeFirst` read as a switch. -/
def executeBlock (cpu : APEX_CPU) : APEX_CPU :=
  match (cpu.stage EX).opcode with
  | .STORE => storeAddress cpu
  | .LOAD => loadAddress cpu
  | .LDR => ldrAddress cpu
  | .JUMP => jump cpu
  | .BZ => branch 1 cpu
  | .BNZ => branch 0 cpu
  | .HALT => bumpHalt cpu
  | .MOVC => movc cpu
  | .ADD => alu add32 cpu
  | .XOR => alu xor32 cpu
  | .SUB => alu sub32 cpu
  | .MUL => startMUL cpu
  | .AND => alu and32 cpu
  | .OR => alu or32 cpu
  | _ => cpu

/-- The un-stall pre-check of `decode` that the opcode of the DRF latch selects: the `if` sequence
of `decodeUnstall` read as a switch. -/
def unstallBlock (cpu : APEX_CPU) : APEX_CPU :=
  match (cpu.stage DRF).opcode with
  | .BNZ | .BZ => unstallBranch cpu
  | .ADD | .SUB | .MUL | .AND | .OR | .XOR | .LDR | .STORE => unstallTwoSources cpu
  | .LOAD => unstallOneSource cpu
  | _ => cpu

/-- The opcode block inside the guard of `decode` that the opcode of the DRF latch selects: the
`if` sequence of `decodeRead` read as a switch. -/
def readBlock (cpu : APEX_CPU) : APEX_CPU :=
  match (cpu.stage DRF).opcode with
  | .STORE => readStore cpu
  | .LOAD => readLoad cpu
  | .BNZ | .BZ => guardBranch cpu
  | .MOVC => claimDest cpu
  | .AND | .OR | .SUB | .ADD | .MUL | .XOR | .LDR => readTwoSources cpu
  | .HALT => raiseHalt cpu
  | .JUMP => readJump cpu
  | _ => cpu

end WithoutDependencies

/-- The uninitialised latches that reach the pipeline behind DRF in one pass hold no opcode that a
stage function acts on. -/
def inertJunk (u : Uninitialised) : Prop :=
  inert u.wb ∧ inert u.mem ∧ inert u.ex ∧ inert u.drf

/-- The scoreboard condition of the pipeline without forwarding at a cycle boundary: the stall
bits that no statement sets are clear, an EX stall belongs to a MUL that also holds DRF, a BZ or
BNZ in EX has no ADD, SUB or MUL in front of it in MEM, and every architectural register marked
invalid is the destination of a register-writing instruction in EX, MEM or WB. -/
def scoreboardSafe (cpu : APEX_CPU) : Prop :=
  (cpu.stage_check 2 1 = 0 ∧ cpu.stage_check 3 0 = 0 ∧ cpu.stage_check 3 1 = 0 ∧
    cpu.stage_check 4 0 = 0 ∧ cpu.stage_check 4 1 = 0) ∧
  (cpu.stage_check 2 0 ≠ 0 → (cpu.stage EX).opcode = Opcode.MUL ∧ cpu.stage_check 1 0 ≠ 0) ∧
  ((cpu.stage EX).opcode = Opcode.BZ ∨ (cpu.stage EX).opcode = Opcode.BNZ →
    ¬ isArith (cpu.stage MEM).opcode) ∧
  (∀ r : Int, 0 ≤ r → r < 32 → cpu.regs_valid r = 0 →
    writerOf cpu EX r ∨ writerOf cpu MEM r ∨ writerOf cpu WB r)

instance (s : CPU_Stage) : Decidable (inert s) := by
  unfold inert; split <;> infer_instance

instance (cpu : APEX_CPU) (i : Nat) (r : Int) : Decidable (writerOf cpu i r) := by
  unfold writerOf; infer_instance

instance (u : Uninitialised) : Decidable (inertJunk u) := by unfold inertJunk; infer_instance

/-- The number of latches among DRF, EX, MEM and WB that hold a register-writing instruction with
destination `r`. -/
def writersInFlight (cpu : APEX_CPU) (r : Int) : Nat :=
  ([DRF, EX, MEM, WB].filter fun i => decide (writerOf cpu i r)).length

/-- Two writes of the same register in a row: `MOVC R1,#5; MOVC R1,#6; HALT`. -/
def writeTwice : List APEX_Instruction :=
  [⟨.MOVC, 1, 0, 0, 5⟩, ⟨.MOVC, 1, 0, 0, 6⟩, ⟨.HALT, 0, 0, 0, 0⟩]

/-- The scoreboard `cpu->regs_valid`. -/
def scoreboard (cpu : APEX_CPU) : Int → Int := cpu.regs_valid

namespace WithoutDependencies

/-- The state that `decode` meets in one pass of the loop body: `writeback`, `memory` and
`execute` have run. -/
def beforeDecode (u : Uninitialised) (cpu : APEX_CPU) : APEX_CPU :=
  execute u.ex (memory u.mem (writeback u.wb cpu))

end WithoutDependencies

/-- The state of the run of S5 without forwarding after seven passes of the loop body. -/
def S5cycle7 : APEX_CPU :=
  WithoutDependencies.passes zeroJunk 7 (WithoutDependencies.boot S5 1000 "silent")

/-! ## Programs and latches of the counterexamples and witnesses -/

/-- A program of one instruction: `MOVC R1,#5`. -/
def oneMOVC : List APEX_Instruction := [⟨.MOVC, 1, 0, 0, 5⟩]

/-- A state for witnesses: the zero-filled block with the instruction latch `s` in stage `i`. -/
def withLatch (i : Nat) (s : CPU_Stage) : APEX_CPU := zeroCPU.setStage i s

/-- An `ADD` latch with destination `R3` and result 12, fetched from address 4008. -/
def addLatch : CPU_Stage :=
  { zeroLatch with pc := 4008, opcode := Opcode.ADD, rd := 3, rs1 := 1, rs2 := 2, buffer := 12 }

/-- A `STORE` latch with value 42 (`rs1_value`), base 10 (`rs2_value`) and literal 6. -/
def storeLatch : CPU_Stage :=
  { zeroLatch with pc := 4008, opcode := Opcode.STORE, rs1 := 2, rs2 := 1, imm := 6,
                   rs1_value := 42, rs2_value := 10, mem_address := 16 }

/-- A load one word past the end of the data memory: `MOVC R1,#4000; LOAD R2,R1,#0; HALT`. -/
def loadPastEnd : List APEX_Instruction :=
  [⟨.MOVC, 1, 0, 0, 4000⟩, ⟨.LOAD, 2, 1, 0, 0⟩, ⟨.HALT, 0, 0, 0, 0⟩]

/-- A load at address -1: `MOVC R1,#1; MOVC R2,#2; SUB R3,R1,R2; LOAD R4,R3,#0; HALT`. -/
def loadBelowStart : List APEX_Instruction :=
  [⟨.MOVC, 1, 0, 0, 1⟩, ⟨.MOVC, 2, 0, 0, 2⟩, ⟨.SUB, 3, 1, 2, 0⟩, ⟨.LOAD, 4, 3, 0, 0⟩,
   ⟨.HALT, 0, 0, 0, 0⟩]

/-- A block from `malloc` whose bytes around the data-memory array read as 99; the rest is
zero. -/
def blockOf99 : APEX_CPU := { zeroCPU with data_memory := fun _ => 99 }

/-- Memory behind the code array that reads as the instruction `MOVC R1,#77`. -/
def strayMOVC : Int → APEX_Instruction := fun _ => ⟨.MOVC, 1, 0, 0, 77⟩

/-! ## The opcode dispatch of the pipeline with forwarding -/

namespace WithDependencies

/-- The block of the first branch of `execute` that the opcode of the EX latch selects. -/
def executeBlock (cpu : APEX_CPU) : APEX_CPU :=
  match (cpu.stage EX).opcode with
  | .STORE => storeAddress cpu
  | .LOAD => loadEX cpu
  | .LDR => ldrEX cpu
  | .JUMP => jump cpu
  | .BZ => branch 1 cpu
  | .BNZ => branch 0 cpu
  | .HALT => bumpHalt cpu
  | .MOVC => movc cpu
  | .MUL => startMUL cpu
  | .ADD => alu add32 cpu
  | .XOR => alu xor32 cpu
  | .SUB => alu sub32 cpu
  | .AND => alu and32 cpu
  | .OR => alu or32 cpu
  | _ => cpu

/-- The pre-check of `decode` that the opcode of the DRF latch selects. -/
def unstallBlock (cpu : APEX_CPU) : APEX_CPU :=
  match (cpu.stage DRF).opcode with
  | .BNZ | .BZ => unstallBranch cpu
  | .ADD | .SUB | .MUL | .AND | .OR | .XOR | .STORE => unstallForwarded cpu
  | .LDR => unstallTwoValid cpu
  | .LOAD | .JUMP => unstallOneValid cpu
  | _ => cpu

/-- The blocks of `decode` that the opcode of the DRF latch selects; XOR and LDR have two blocks
each, which run one after the other. -/
def readBlock (cpu : APEX_CPU) : APEX_CPU :=
  match (cpu.stage DRF).opcode with
  | .STORE => readStore cpu
  | .LOAD => readLoad cpu
  | .LDR => readLdrAgain (readLdrBypass cpu)
  | .MOVC => claimDest cpu
  | .BNZ | .BZ => guardBranch cpu
  | .XOR => readXorAgain (readLogic cpu)
  | .AND | .OR => readLogic cpu
  | .HALT => raiseHalt cpu
  | .JUMP => readJump cpu
  | .SUB | .ADD | .MUL => readArith cpu
  | _ => cpu

end WithDependencies

/-- The part of the state in which an instruction leaves its side effects: the register file, the
scoreboard, the two flags, the data memory, the program counter, the halt counter and the commit
counter. -/
def sideEffects (cpu : APEX_CPU) :
    (Int → Int) × (Int → Int) × Int × Int × (Int → Int) × Int × Int × Int :=
  (cpu.regs, cpu.regs_valid, cpu.zflag, cpu.nzflag, cpu.data_memory, cpu.pc, cpu.halt,
    cpu.ins_completed)

/-- A latch that holds a NOP. -/
def nopLatch : CPU_Stage := { zeroLatch with opcode := Opcode.NOP }

/-- No stall bit of the stages EX, MEM and WB is set. -/
def stallFree (cpu : APEX_CPU) : Prop :=
  cpu.stage_check 2 0 = 0 ∧ cpu.stage_check 2 1 = 0 ∧ cpu.stage_check 3 0 = 0 ∧
    cpu.stage_check 3 1 = 0 ∧ cpu.stage_check 4 0 = 0 ∧ cpu.stage_check 4 1 = 0

/-- The number of HALT instructions in latch `i`: 1 or 0. -/
def haltsIn (cpu : APEX_CPU) (i : Nat) : Int :=
  if (cpu.stage i).opcode = Opcode.HALT then 1 else 0

/-- A latch that holds a HALT fetched from address 4012. -/
def haltLatch : CPU_Stage := { zeroLatch with pc := 4012, opcode := Opcode.HALT }

namespace WithDependencies

/-- The state that `decode` meets in a pass of the loop body: `writeback`, `memory` and `execute`
have run. -/
def beforeDecode (u : Uninitialised) (cpu : APEX_CPU) : APEX_CPU :=
  execute u.ex (memory u.mem (writeback u.wb cpu))

end WithDependencies

/-- The latch that `fetch` builds in the fetch latch: `stage->pc = cpu->pc` and the copy of the
fields of `code_memory[get_code_index(cpu->pc)]`; the other fields of the latch stay. -/
def fetchedLatch (cpu : APEX_CPU) : CPU_Stage :=
  (fetchInstruction cpu).stage F

/-- A state in which both fetch guards hold: no stall bit, `stage_set[0][0] = 1`, `halt = 0`, the
program `S1` in code memory and `pc = 4008`. -/
def fetching (set10 : Int) : APEX_CPU :=
  { zeroCPU with pc := 4008, stage_set := fun i j => if i = 0 ∧ j = 0 then 1 else set10,
                 code_memory := create_code_memory S1 (fun _ => zeroInstruction) }

/-- A program that starts with a branch: `BNZ #8; MOVC R1,#1; MOVC R2,#2; HALT`. -/
def branchFirst : List APEX_Instruction :=
  [⟨.BNZ, 0, 0, 0, 8⟩, ⟨.MOVC, 1, 0, 0, 1⟩, ⟨.MOVC, 2, 0, 0, 2⟩, ⟨.HALT, 0, 0, 0, 0⟩]

namespace WithDependencies

/-- The operand choice of the STORE block and of the SUB/ADD/MUL block of `decode` for the source
register `r`, as the `if` / `else if` chain of the source tests it: `ex_data[r]` when
`ex_forward[r] == 1` and the MEM latch holds no LOAD, else `mem_data[r]` when
`mem_forward[r] == 1`, else `regs[r]` when the MEM latch holds no LOAD and `regs_valid[r] == 1`;
`none` stands for the final `else`, the stall. -/
def guardedChoice (cpu : APEX_CPU) (r : Int) : Option Int :=
  if cpu.ex_forward r = 1 ∧ (cpu.stage MEM).opcode ≠ Opcode.LOAD then some (cpu.ex_data r)
  else if cpu.mem_forward r = 1 then some (cpu.mem_data r)
  else if (cpu.stage MEM).opcode ≠ Opcode.LOAD ∧ cpu.regs_valid r = 1 then some (cpu.regs r)
  else none

end WithDependencies

/-- A state for the operand choice of `decode`: `ADD R3,R1,R2` in DRF, a LOAD with destination 5
in MEM, the EX bypass holding 7 for `R1` and 8 for `R2`, every register valid, the EX latch
free. -/
def addBehindLoad : APEX_CPU :=
  { zeroCPU with
    stage := fun i =>
      if i = DRF then
        { zeroLatch with pc := 4008, opcode := Opcode.ADD, rd := 3, rs1 := 1, rs2 := 2 }
      else if i = MEM then { zeroLatch with pc := 4004, opcode := Opcode.LOAD, rd := 5, rs1 := 4 }
      else zeroLatch
    ex_forward := fun r => if r = 1 ∨ r = 2 then 1 else 0
    ex_data := fun r => if r = 1 then 7 else if r = 2 then 8 else 0
    regs_valid := fun _ => 1
    stage_set := fun _ _ => 1 }

/-- The state `addBehindLoad` with the MEM latch empty. -/
def addAlone : APEX_CPU := addBehindLoad.setStage MEM zeroLatch

/-- A state for the scoreboard in `decode`: latch `s` in DRF, no bypass entry, `regs_valid[3] = 1`
and every other register invalid, the EX latch free. -/
def sourcesMissing (s : CPU_Stage) : APEX_CPU :=
  { zeroCPU with
    stage := fun i => if i = DRF then s else zeroLatch
    regs_valid := fun r => if r = 3 then 1 else 0
    stage_set := fun _ _ => 1 }

/-- The latch of `LDR R3,R1,R2`. -/
def ldrLatch : CPU_Stage :=
  { zeroLatch with pc := 4008, opcode := Opcode.LDR, rd := 3, rs1 := 1, rs2 := 2 }

/-- The latch of `XOR R3,R1,R2`. -/
def xorLatch : CPU_Stage :=
  { zeroLatch with pc := 4008, opcode := Opcode.XOR, rd := 3, rs1 := 1, rs2 := 2 }

/-- The latch of a JUMP through `R3` whose `rd` field reads 3. -/
def jumpLatch : CPU_Stage :=
  { zeroLatch with pc := 4008, opcode := Opcode.JUMP, rd := 3, rs1 := 3, imm := 4000 }

/-- The latch of `BZ #8` fetched from address 4008. -/
def bzLatch : CPU_Stage := { zeroLatch with pc := 4008, opcode := Opcode.BZ, imm := 8 }

/-- A state for the branch guard of `decode`: `BZ #8` in DRF, latch `s` in WB, nothing in EX and
MEM, no stall bit set, every `stage_set` entry 1. -/
def branchBehind (s : CPU_Stage) : APEX_CPU :=
  { zeroCPU with
    stage := fun i => if i = DRF then bzLatch else if i = WB then s else zeroLatch
    stage_set := fun _ _ => 1 }

/-- The test of `zflag` that resolves a branch in `execute`: `zflag == 1` for BZ, `zflag == 0` for
BNZ; `z` is the value that takes the branch with opcode `op`. -/
def takenOn (z : Int) (op : Opcode) : Prop :=
  (op = Opcode.BZ ∧ z = 1) ∨ (op = Opcode.BNZ ∧ z = 0)

/-- A jump over two instructions: `JUMP R0,#4012; MOVC R1,#1; MOVC R2,#2; HALT`. `R0` holds 0,
so the target is the HALT at address 4012. -/
def jumpOver : List APEX_Instruction :=
  [⟨.JUMP, 0, 0, 0, 4012⟩, ⟨.MOVC, 1, 0, 0, 1⟩, ⟨.MOVC, 2, 0, 0, 2⟩, ⟨.HALT, 0, 0, 0, 0⟩]

/-- A state at the start of `execute`: `ADD R3,R1,R2` in EX with the operands 6 and 7 read. -/
def addInEX : APEX_CPU :=
  withLatch EX { addLatch with rs1_value := 6, rs2_value := 7, buffer := 0 }

/-- A state at the start of `execute`: `LOAD R3,R1,#0` in EX with 1 read from `R1`, every bypass
entry empty. -/
def loadInEX : APEX_CPU :=
  withLatch EX
    { zeroLatch with pc := 4008, opcode := Opcode.LOAD, rd := 3, rs1 := 1, rs1_value := 1 }

/-- A state at the start of `memory`: EX bypass entries for `R5` (value 6) and `R20` (value 7),
an empty MEM bypass, `LOAD R3` with address 0 in MEM and 42 in `data_memory[0]`. -/
def bypassAt5And20 : APEX_CPU :=
  { zeroCPU with
    ex_forward := fun r => if r = 5 ∨ r = 20 then 1 else 0
    ex_data := fun r => if r = 5 then 6 else if r = 20 then 7 else 0
    data_memory := fun i => if i = 0 then 42 else 0
    stage := fun i =>
      if i = MEM then { zeroLatch with pc := 4008, opcode := Opcode.LOAD, rd := 3, rs1 := 1 }
      else zeroLatch }

/-- A program that reads two registers above 15: `ADD R1,R16,R17; HALT`. -/
def highSources : List APEX_Instruction := [⟨.ADD, 1, 16, 17, 0⟩, ⟨.HALT, 0, 0, 0, 0⟩]

/-- The same program on two registers below 16: `ADD R1,R2,R3; HALT`. -/
def lowSources : List APEX_Instruction := [⟨.ADD, 1, 2, 3, 0⟩, ⟨.HALT, 0, 0, 0, 0⟩]

namespace WithoutDependencies

end WithoutDependencies

namespace WithDependencies

end WithDependencies

namespace WithoutDependencies

end WithoutDependencies

namespace WithDependencies

end WithDependencies

/-! # Theorems -/

/-! ## Fields the stage functions never write

Every block of the five stage functions leaves `settings` (clock, cycle budget, program size,
display mode, code memory) as it found it; only `cpu->clock++` in the loop body changes the clock.
-/

@[simp] theorem settings_ite (c : Prop) [Decidable c] (a b : APEX_CPU) :
    settings (if c then a else b) = if c then settings a else settings b := by
  split <;> rfl

@[simp] theorem ifOp_settings (i : Nat) (ops : List Opcode) (g : APEX_CPU → APEX_CPU)
    (cpu : APEX_CPU) (h : ∀ c, settings (g c) = settings c) :
    settings (ifOp i ops g cpu) = settings cpu := by
  unfold ifOp; split
  · exact h cpu
  · rfl

@[simp] theorem setStage_settings (cpu : APEX_CPU) (i : Nat) (s : CPU_Stage) :
    settings (APEX_CPU.setStage cpu i s) = settings cpu := by
  rfl

@[simp] theorem setSet_settings (cpu : APEX_CPU) (i : Nat) (j : Nat) (v : Int) :
    settings (APEX_CPU.setSet cpu i j v) = settings cpu := by
  rfl

@[simp] theorem setCheck_settings (cpu : APEX_CPU) (i : Nat) (j : Nat) (v : Int) :
    settings (APEX_CPU.setCheck cpu i j v) = settings cpu := by
  rfl

@[simp] theorem stallDRF_settings (cpu : APEX_CPU) :
    settings (APEX_CPU.stallDRF cpu) = settings cpu := by
  simp [APEX_CPU.stallDRF]

@[simp] theorem setRs1Value_settings (cpu : APEX_CPU) (i : Nat) (v : Int) :
    settings (APEX_CPU.setRs1Value cpu i v) = settings cpu := by
  simp [APEX_CPU.setRs1Value]

@[simp] theorem setRs2Value_settings (cpu : APEX_CPU) (i : Nat) (v : Int) :
    settings (APEX_CPU.setRs2Value cpu i v) = settings cpu := by
  simp [APEX_CPU.setRs2Value]

@[simp] theorem setBuffer_settings (cpu : APEX_CPU) (i : Nat) (v : Int) :
    settings (APEX_CPU.setBuffer cpu i v) = settings cpu := by
  simp [APEX_CPU.setBuffer]

@[simp] theorem setMemAddress_settings (cpu : APEX_CPU) (i : Nat) (v : Int) :
    settings (APEX_CPU.setMemAddress cpu i v) = settings cpu := by
  simp [APEX_CPU.setMemAddress]

@[simp] theorem setNOP_settings (cpu : APEX_CPU) (i : Nat) :
    settings (APEX_CPU.setNOP cpu i) = settings cpu := by
  simp [APEX_CPU.setNOP]

@[simp] theorem setStalled_settings (cpu : APEX_CPU) (i : Nat) :
    settings (APEX_CPU.setStalled cpu i) = settings cpu := by
  simp [APEX_CPU.setStalled]

@[simp] theorem setValid_settings (cpu : APEX_CPU) (r : Int) (v : Int) :
    settings (APEX_CPU.setValid cpu r v) = settings cpu := by
  rfl

@[simp] theorem bumpHalt_settings (cpu : APEX_CPU) :
    settings (bumpHalt cpu) = settings cpu := by
  rfl

@[simp] theorem raiseHalt_settings (cpu : APEX_CPU) :
    settings (raiseHalt cpu) = settings cpu := by
  rfl

@[simp] theorem claimDest_settings (cpu : APEX_CPU) :
    settings (claimDest cpu) = settings cpu := by
  simp [claimDest]

@[simp] theorem markForward_settings (cpu : APEX_CPU) :
    settings (markForward cpu) = settings cpu := by
  rfl

@[simp] theorem storeAddress_settings (cpu : APEX_CPU) :
    settings (storeAddress cpu) = settings cpu := by
  simp [storeAddress]

@[simp] theorem loadAddress_settings (cpu : APEX_CPU) :
    settings (loadAddress cpu) = settings cpu := by
  simp [loadAddress]

@[simp] theorem ldrAddress_settings (cpu : APEX_CPU) :
    settings (ldrAddress cpu) = settings cpu := by
  simp [ldrAddress]

@[simp] theorem stallBranch_settings (cpu : APEX_CPU) :
    settings (stallBranch cpu) = settings cpu := by
  simp [stallBranch]

@[simp] theorem branchTarget_settings (cpu : APEX_CPU) :
    settings (branchTarget cpu) = settings cpu := by
  rfl

@[simp] theorem jumpTarget_settings (cpu : APEX_CPU) :
    settings (jumpTarget cpu) = settings cpu := by
  rfl

@[simp] theorem squashFetched_settings (cpu : APEX_CPU) :
    settings (squashFetched cpu) = settings cpu := by
  simp [squashFetched]

@[simp] theorem clearHalt_settings (cpu : APEX_CPU) :
    settings (clearHalt cpu) = settings cpu := by
  rfl

@[simp] theorem fetchInstruction_settings (cpu : APEX_CPU) :
    settings (fetchInstruction cpu) = settings cpu := by
  rfl

@[simp] theorem handToDRF_settings (cpu : APEX_CPU) :
    settings (handToDRF cpu) = settings cpu := by
  simp [handToDRF]

@[simp] theorem releaseHeld_settings (cpu : APEX_CPU) :
    settings (releaseHeld cpu) = settings cpu := by
  simp [releaseHeld]

@[simp] theorem storeWord_settings (cpu : APEX_CPU) :
    settings (storeWord cpu) = settings cpu := by
  rfl

@[simp] theorem passToWB_settings (Apex : CPU_Stage) (cpu : APEX_CPU) :
    settings (passToWB Apex cpu) = settings cpu := by
  simp [passToWB]

@[simp] theorem passToMEM_settings (Apex : CPU_Stage) (cpu : APEX_CPU) :
    settings (passToMEM Apex cpu) = settings cpu := by
  simp [passToMEM]

@[simp] theorem moveToMEM_settings (Apex : CPU_Stage) (cpu : APEX_CPU) :
    settings (moveToMEM Apex cpu) = settings cpu := by
  simp [moveToMEM]

@[simp] theorem commit_settings (cpu : APEX_CPU) :
    settings (commit cpu) = settings cpu := by
  rfl

@[simp] theorem setFlags_settings (cpu : APEX_CPU) :
    settings (setFlags cpu) = settings cpu := by
  unfold setFlags; split <;> rfl

namespace WithoutDependencies

@[simp] theorem sb_clearF_settings (Apex : CPU_Stage) (cpu : APEX_CPU) :
    settings (clearF Apex cpu) = settings cpu := by
  simp [clearF]

@[simp] theorem sb_fetch_settings (Apex : CPU_Stage) (cpu : APEX_CPU) :
    settings (fetch Apex cpu) = settings cpu := by
  simp [fetch]

@[simp] theorem sb_unstall_settings (cpu : APEX_CPU) :
    settings (unstall cpu) = settings cpu := by
  simp [unstall]

@[simp] theorem sb_unstallBranch_settings (cpu : APEX_CPU) :
    settings (unstallBranch cpu) = settings cpu := by
  simp [unstallBranch]

@[simp] theorem sb_unstallTwoSources_settings (cpu : APEX_CPU) :
    settings (unstallTwoSources cpu) = settings cpu := by
  simp [unstallTwoSources]

@[simp] theorem sb_unstallOneSource_settings (cpu : APEX_CPU) :
    settings (unstallOneSource cpu) = settings cpu := by
  simp [unstallOneSource]

@[simp] theorem sb_decodeUnstall_settings (cpu : APEX_CPU) :
    settings (decodeUnstall cpu) = settings cpu := by
  simp [decodeUnstall]

@[simp] theorem sb_readStore_settings (cpu : APEX_CPU) :
    settings (readStore cpu) = settings cpu := by
  simp [readStore]

@[simp] theorem sb_readLoad_settings (cpu : APEX_CPU) :
    settings (readLoad cpu) = settings cpu := by
  simp [readLoad]

@[simp] theorem sb_guardBranch_settings (cpu : APEX_CPU) :
    settings (guardBranch cpu) = settings cpu := by
  simp [guardBranch]

@[simp] theorem sb_readTwoSources_settings (cpu : APEX_CPU) :
    settings (readTwoSources cpu) = settings cpu := by
  simp [readTwoSources]

@[simp] theorem sb_readJump_settings (cpu : APEX_CPU) :
    settings (readJump cpu) = settings cpu := by
  simp [readJump]

@[simp] theorem sb_issue_settings (Apex : CPU_Stage) (cpu : APEX_CPU) :
    settings (issue Apex cpu) = settings cpu := by
  simp [issue]

@[simp] theorem sb_decodeRead_settings (cpu : APEX_CPU) :
    settings (decodeRead cpu) = settings cpu := by
  simp [decodeRead]

@[simp] theorem sb_decodeGuarded_settings (Apex : CPU_Stage) (cpu : APEX_CPU) :
    settings (decodeGuarded Apex cpu) = settings cpu := by
  simp [decodeGuarded]

@[simp] theorem sb_decode_settings (Apex : CPU_Stage) (cpu : APEX_CPU) :
    settings (decode Apex cpu) = settings cpu := by
  simp [decode]

@[simp] theorem sb_resetCompleted_settings (cpu : APEX_CPU) :
    settings (resetCompleted cpu) = settings cpu := by
  rfl

@[simp] theorem sb_jump_settings (cpu : APEX_CPU) :
    settings (jump cpu) = settings cpu := by
  simp [jump]

@[simp] theorem sb_takeBranch_settings (cpu : APEX_CPU) :
    settings (takeBranch cpu) = settings cpu := by
  simp [takeBranch]

@[simp] theorem sb_takeBranchAfterStall_settings (cpu : APEX_CPU) :
    settings (takeBranchAfterStall cpu) = settings cpu := by
  simp [takeBranchAfterStall]

@[simp] theorem sb_branch_settings (z : Int) (cpu : APEX_CPU) :
    settings (branch z cpu) = settings cpu := by
  simp [branch]

@[simp] theorem sb_movc_settings (cpu : APEX_CPU) :
    settings (movc cpu) = settings cpu := by
  simp [movc]

@[simp] theorem sb_alu_settings (op : Int → Int → Int) (cpu : APEX_CPU) :
    settings (alu op cpu) = settings cpu := by
  simp [alu]

@[simp] theorem sb_startMUL_settings (cpu : APEX_CPU) :
    settings (startMUL cpu) = settings cpu := by
  simp [startMUL]

@[simp] theorem sb_releaseEX_settings (cpu : APEX_CPU) :
    settings (releaseEX cpu) = settings cpu := by
  simp [releaseEX]

@[simp] theorem sb_executeFirst_settings (Apex : CPU_Stage) (cpu : APEX_CPU) :
    settings (executeFirst Apex cpu) = settings cpu := by
  simp [executeFirst]

@[simp] theorem sb_finishMUL_settings (Apex : CPU_Stage) (cpu : APEX_CPU) :
    settings (finishMUL Apex cpu) = settings cpu := by
  simp [finishMUL]

@[simp] theorem sb_finishBranch_settings (z : Int) (Apex : CPU_Stage) (cpu : APEX_CPU) :
    settings (finishBranch z Apex cpu) = settings cpu := by
  simp [finishBranch]

@[simp] theorem sb_execute_settings (Apex : CPU_Stage) (cpu : APEX_CPU) :
    settings (execute Apex cpu) = settings cpu := by
  simp [execute]

@[simp] theorem sb_loadWord_settings (cpu : APEX_CPU) :
    settings (loadWord cpu) = settings cpu := by
  simp [loadWord]

@[simp] theorem sb_memoryBody_settings (Apex : CPU_Stage) (cpu : APEX_CPU) :
    settings (memoryBody Apex cpu) = settings cpu := by
  simp [memoryBody]

@[simp] theorem sb_memory_settings (Apex : CPU_Stage) (cpu : APEX_CPU) :
    settings (memory Apex cpu) = settings cpu := by
  simp [memory]

@[simp] theorem sb_countCommit_settings (cpu : APEX_CPU) :
    settings (countCommit cpu) = settings cpu := by
  rfl

@[simp] theorem sb_retire_settings (cpu : APEX_CPU) :
    settings (retire cpu) = settings cpu := by
  simp [retire]

@[simp] theorem sb_retireArith_settings (cpu : APEX_CPU) :
    settings (retireArith cpu) = settings cpu := by
  simp [retireArith]

@[simp] theorem sb_writebackBody_settings (Apex : CPU_Stage) (cpu : APEX_CPU) :
    settings (writebackBody Apex cpu) = settings cpu := by
  simp [writebackBody]

@[simp] theorem sb_writeback_settings (Apex : CPU_Stage) (cpu : APEX_CPU) :
    settings (writeback Apex cpu) = settings cpu := by
  simp [writeback]

@[simp] theorem sb_stages_settings (u : Uninitialised) (cpu : APEX_CPU) :
    settings (stages u cpu) = settings cpu := by
  simp [stages]

end WithoutDependencies

namespace WithDependencies

@[simp] theorem fw_fetch_settings (cpu : APEX_CPU) :
    settings (fetch cpu) = settings cpu := by
  simp [fetch]

@[simp] theorem fw_unstallBranch_settings (cpu : APEX_CPU) :
    settings (unstallBranch cpu) = settings cpu := by
  simp [unstallBranch]

@[simp] theorem fw_unstallForwarded_settings (cpu : APEX_CPU) :
    settings (unstallForwarded cpu) = settings cpu := by
  simp [unstallForwarded]

@[simp] theorem fw_unstallTwoValid_settings (cpu : APEX_CPU) :
    settings (unstallTwoValid cpu) = settings cpu := by
  simp [unstallTwoValid]

@[simp] theorem fw_unstallOneValid_settings (cpu : APEX_CPU) :
    settings (unstallOneValid cpu) = settings cpu := by
  simp [unstallOneValid]

@[simp] theorem fw_decodeUnstall_settings (cpu : APEX_CPU) :
    settings (decodeUnstall cpu) = settings cpu := by
  simp [decodeUnstall]

@[simp] theorem fw_readRs1Guarded_settings (cpu : APEX_CPU) :
    settings (readRs1Guarded cpu) = settings cpu := by
  simp [readRs1Guarded]

@[simp] theorem fw_readRs2Guarded_settings (cpu : APEX_CPU) :
    settings (readRs2Guarded cpu) = settings cpu := by
  simp [readRs2Guarded]

@[simp] theorem fw_readRs1OrStall_settings (cpu : APEX_CPU) :
    settings (readRs1OrStall cpu) = settings cpu := by
  simp [readRs1OrStall]

@[simp] theorem fw_readRs1Jump_settings (cpu : APEX_CPU) :
    settings (readRs1Jump cpu) = settings cpu := by
  simp [readRs1Jump]

@[simp] theorem fw_readRs1NoElse_settings (cpu : APEX_CPU) :
    settings (readRs1NoElse cpu) = settings cpu := by
  simp [readRs1NoElse]

@[simp] theorem fw_readRs2OrStall_settings (cpu : APEX_CPU) :
    settings (readRs2OrStall cpu) = settings cpu := by
  simp [readRs2OrStall]

@[simp] theorem fw_claimIfIssued_settings (cpu : APEX_CPU) :
    settings (claimIfIssued cpu) = settings cpu := by
  simp [claimIfIssued]

@[simp] theorem fw_readStore_settings (cpu : APEX_CPU) :
    settings (readStore cpu) = settings cpu := by
  simp [readStore]

@[simp] theorem fw_readLoad_settings (cpu : APEX_CPU) :
    settings (readLoad cpu) = settings cpu := by
  simp [readLoad]

@[simp] theorem fw_readLdrBypass_settings (cpu : APEX_CPU) :
    settings (readLdrBypass cpu) = settings cpu := by
  simp [readLdrBypass]

@[simp] theorem fw_guardBranch_settings (cpu : APEX_CPU) :
    settings (guardBranch cpu) = settings cpu := by
  simp [guardBranch]

@[simp] theorem fw_readLogic_settings (cpu : APEX_CPU) :
    settings (readLogic cpu) = settings cpu := by
  simp [readLogic]

@[simp] theorem fw_readJump_settings (cpu : APEX_CPU) :
    settings (readJump cpu) = settings cpu := by
  simp [readJump]

@[simp] theorem fw_readArith_settings (cpu : APEX_CPU) :
    settings (readArith cpu) = settings cpu := by
  simp [readArith]

@[simp] theorem fw_readXorAgain_settings (cpu : APEX_CPU) :
    settings (readXorAgain cpu) = settings cpu := by
  simp [readXorAgain]

@[simp] theorem fw_readLdrOperands_settings (cpu : APEX_CPU) :
    settings (readLdrOperands cpu) = settings cpu := by
  simp [readLdrOperands]

@[simp] theorem fw_readLdrAgain_settings (cpu : APEX_CPU) :
    settings (readLdrAgain cpu) = settings cpu := by
  simp [readLdrAgain]

@[simp] theorem fw_issue_settings (cpu : APEX_CPU) :
    settings (issue cpu) = settings cpu := by
  simp [issue]

@[simp] theorem fw_decodeRead_settings (cpu : APEX_CPU) :
    settings (decodeRead cpu) = settings cpu := by
  simp [decodeRead]

@[simp] theorem fw_decodeGuarded_settings (cpu : APEX_CPU) :
    settings (decodeGuarded cpu) = settings cpu := by
  simp [decodeGuarded]

@[simp] theorem fw_decode_settings (cpu : APEX_CPU) :
    settings (decode cpu) = settings cpu := by
  simp [decode]

@[simp] theorem fw_publishEX_settings (i : Int) (cpu : APEX_CPU) :
    settings (publishEX i cpu) = settings cpu := by
  rfl

@[simp] theorem fw_loadEX_settings (cpu : APEX_CPU) :
    settings (loadEX cpu) = settings cpu := by
  simp [loadEX]

@[simp] theorem fw_ldrEX_settings (cpu : APEX_CPU) :
    settings (ldrEX cpu) = settings cpu := by
  simp [ldrEX]

@[simp] theorem fw_jump_settings (cpu : APEX_CPU) :
    settings (jump cpu) = settings cpu := by
  simp [jump]

@[simp] theorem fw_takeBranch_settings (cpu : APEX_CPU) :
    settings (takeBranch cpu) = settings cpu := by
  simp [takeBranch]

@[simp] theorem fw_takeBranchAfterStall_settings (cpu : APEX_CPU) :
    settings (takeBranchAfterStall cpu) = settings cpu := by
  simp [takeBranchAfterStall]

@[simp] theorem fw_branch_settings (z : Int) (cpu : APEX_CPU) :
    settings (branch z cpu) = settings cpu := by
  simp [branch]

@[simp] theorem fw_recordData_settings (cpu : APEX_CPU) :
    settings (recordData cpu) = settings cpu := by
  rfl

@[simp] theorem fw_movc_settings (cpu : APEX_CPU) :
    settings (movc cpu) = settings cpu := by
  simp [movc]

@[simp] theorem fw_alu_settings (op : Int → Int → Int) (cpu : APEX_CPU) :
    settings (alu op cpu) = settings cpu := by
  simp [alu]

@[simp] theorem fw_startMUL_settings (cpu : APEX_CPU) :
    settings (startMUL cpu) = settings cpu := by
  simp [startMUL]

@[simp] theorem fw_executeFirst_settings (Apex : CPU_Stage) (cpu : APEX_CPU) :
    settings (executeFirst Apex cpu) = settings cpu := by
  simp [executeFirst]

@[simp] theorem fw_finishMUL_settings (Apex : CPU_Stage) (cpu : APEX_CPU) :
    settings (finishMUL Apex cpu) = settings cpu := by
  simp [finishMUL]

@[simp] theorem fw_releaseEX_settings (cpu : APEX_CPU) :
    settings (releaseEX cpu) = settings cpu := by
  simp [releaseEX]

@[simp] theorem fw_finishBranch_settings (z : Int) (Apex : CPU_Stage) (cpu : APEX_CPU) :
    settings (finishBranch z Apex cpu) = settings cpu := by
  simp [finishBranch]

@[simp] theorem fw_executeArms_settings (Apex : CPU_Stage) (cpu : APEX_CPU) :
    settings (executeArms Apex cpu) = settings cpu := by
  simp [executeArms]

@[simp] theorem fw_haltToMEM_settings (cpu : APEX_CPU) :
    settings (haltToMEM cpu) = settings cpu := by
  simp [haltToMEM]

@[simp] theorem fw_execute_settings (Apex : CPU_Stage) (cpu : APEX_CPU) :
    settings (execute Apex cpu) = settings cpu := by
  simp [execute]

@[simp] theorem fw_refreshEntry_settings (n : Nat) (cpu : APEX_CPU) :
    settings (refreshEntry n cpu) = settings cpu := by
  rfl

@[simp] theorem fw_refreshBypass_settings (n : Nat) (cpu : APEX_CPU) :
    settings (refreshBypass n cpu) = settings cpu := by
  induction n with
  | zero => rfl
  | succ n ih => simp [refreshBypass, ih]

@[simp] theorem fw_revalidate_settings (n : Nat) (cpu : APEX_CPU) :
    settings (revalidate n cpu) = settings cpu := by
  induction n with
  | zero => rfl
  | succ n ih => simp [revalidate, ih]

@[simp] theorem fw_loadWord_settings (cpu : APEX_CPU) :
    settings (loadWord cpu) = settings cpu := by
  rfl

@[simp] theorem fw_memoryBody_settings (Apex : CPU_Stage) (cpu : APEX_CPU) :
    settings (memoryBody Apex cpu) = settings cpu := by
  simp [memoryBody]

@[simp] theorem fw_memoryGuarded_settings (Apex : CPU_Stage) (cpu : APEX_CPU) :
    settings (memoryGuarded Apex cpu) = settings cpu := by
  simp [memoryGuarded]

@[simp] theorem fw_memory_settings (Apex : CPU_Stage) (cpu : APEX_CPU) :
    settings (memory Apex cpu) = settings cpu := by
  simp [memory]

@[simp] theorem fw_recordCommit_settings (cpu : APEX_CPU) :
    settings (recordCommit cpu) = settings cpu := by
  rfl

@[simp] theorem fw_markWB_settings (cpu : APEX_CPU) :
    settings (markWB cpu) = settings cpu := by
  rfl

@[simp] theorem fw_clearMemForward_settings (cpu : APEX_CPU) :
    settings (clearMemForward cpu) = settings cpu := by
  rfl

@[simp] theorem fw_retire_settings (cpu : APEX_CPU) :
    settings (retire cpu) = settings cpu := by
  simp [retire]

@[simp] theorem fw_retireLogic_settings (cpu : APEX_CPU) :
    settings (retireLogic cpu) = settings cpu := by
  simp [retireLogic]

@[simp] theorem fw_retireArith_settings (cpu : APEX_CPU) :
    settings (retireArith cpu) = settings cpu := by
  simp [retireArith]

@[simp] theorem fw_retireMulAgain_settings (cpu : APEX_CPU) :
    settings (retireMulAgain cpu) = settings cpu := by
  rfl

@[simp] theorem fw_writebackBody_settings (Apex : CPU_Stage) (cpu : APEX_CPU) :
    settings (writebackBody Apex cpu) = settings cpu := by
  simp [writebackBody]

@[simp] theorem fw_writebackGuarded_settings (Apex : CPU_Stage) (cpu : APEX_CPU) :
    settings (writebackGuarded Apex cpu) = settings cpu := by
  simp [writebackGuarded]

@[simp] theorem fw_writeback_settings (Apex : CPU_Stage) (cpu : APEX_CPU) :
    settings (writeback Apex cpu) = settings cpu := by
  simp [writeback]

@[simp] theorem fw_stages_settings (u : Uninitialised) (cpu : APEX_CPU) :
    settings (stages u cpu) = settings cpu := by
  simp [stages]

end WithDependencies

/-! ## The simulation loop -/

theorem tick_clock (cpu : APEX_CPU) : (tick cpu).clock = cpu.clock + 1 := rfl

theorem tick_cycle (cpu : APEX_CPU) : (tick cpu).cycle = cpu.cycle := rfl

theorem clock_of_settings {a b : APEX_CPU} (h : settings a = settings b) : a.clock = b.clock :=
  congrArg Prod.fst h

theorem cycle_of_settings {a b : APEX_CPU} (h : settings a = settings b) : a.cycle = b.cycle :=
  congrArg (fun t => t.2.1) h

theorem whileRunning_succ (body : Nat → APEX_CPU → APEX_CPU) (fuel : Nat) (cpu : APEX_CPU) :
    whileRunning body (fuel + 1) cpu =
      if stops cpu then some cpu
      else whileRunning (fun k => body (k + 1)) fuel (body 0 cpu) := rfl

theorem repeatBody_succ (body : Nat → APEX_CPU → APEX_CPU) (n : Nat) (cpu : APEX_CPU) :
    repeatBody body (n + 1) cpu = repeatBody (fun k => body (k + 1)) n (body 0 cpu) := rfl

theorem whileRunning_clock_le :
    ∀ (fuel : Nat) (body : Nat → APEX_CPU → APEX_CPU),
      (∀ k c, (body k c).clock = c.clock + 1) →
      ∀ cpu s : APEX_CPU, whileRunning body fuel cpu = some s → cpu.clock ≤ s.clock := by
  intro fuel
  induction fuel with
  | zero => intro body _ cpu s h; simp [whileRunning] at h
  | succ fuel ih =>
    intro body hclock cpu s h
    rw [whileRunning_succ] at h
    split at h
    · cases h; exact le_refl _
    · have := ih (fun k => body (k + 1)) (fun k c => hclock (k + 1) c) (body 0 cpu) s h
      rw [hclock] at this
      omega

theorem whileRunning_same_iff (body : Nat → APEX_CPU → APEX_CPU)
    (hclock : ∀ k c, (body k c).clock = c.clock + 1) (fuel : Nat) (cpu : APEX_CPU) :
    whileRunning body (fuel + 1) cpu = some cpu ↔ stops cpu := by
  rw [whileRunning_succ]
  constructor
  · intro h
    by_contra hs
    rw [if_neg hs] at h
    have := whileRunning_clock_le fuel (fun k => body (k + 1)) (fun k c => hclock (k + 1) c)
      (body 0 cpu) cpu h
    rw [hclock] at this
    omega
  · intro hs
    rw [if_pos hs]

theorem whileRunning_within_budget :
    ∀ (d : Nat) (body : Nat → APEX_CPU → APEX_CPU),
      (∀ k c, (body k c).clock = c.clock + 1) → (∀ k c, (body k c).cycle = c.cycle) →
      ∀ cpu : APEX_CPU, cpu.cycle - cpu.clock = d →
        ∃ n : Nat, n ≤ d ∧ (repeatBody body n cpu).clock = cpu.clock + n ∧
          ∀ fuel, n < fuel → whileRunning body fuel cpu = some (repeatBody body n cpu) := by
  intro d
  induction d with
  | zero =>
    intro body _ _ cpu h
    refine ⟨0, le_refl _, by simp [repeatBody], ?_⟩
    intro fuel hf
    obtain ⟨k, rfl⟩ : ∃ k, fuel = k + 1 := ⟨fuel - 1, by omega⟩
    have hs : stops cpu := Or.inr (Or.inl (by simp at h; omega))
    rw [whileRunning_succ, if_pos hs]; rfl
  | succ d ih =>
    intro body hclock hcycle cpu h
    by_cases hs : stops cpu
    · refine ⟨0, Nat.zero_le _, by simp [repeatBody], ?_⟩
      intro fuel hf
      obtain ⟨k, rfl⟩ : ∃ k, fuel = k + 1 := ⟨fuel - 1, by omega⟩
      rw [whileRunning_succ, if_pos hs]; rfl
    · have h' : (body 0 cpu).cycle - (body 0 cpu).clock = d := by
        rw [hclock, hcycle]; push_cast at h; omega
      obtain ⟨n, hn, hc, hrun⟩ := ih (fun k => body (k + 1)) (fun k c => hclock (k + 1) c)
        (fun k c => hcycle (k + 1) c) (body 0 cpu) h'
      refine ⟨n + 1, by omega, ?_, ?_⟩
      · rw [repeatBody_succ, hc, hclock]; push_cast; omega
      · intro fuel hf
        obtain ⟨k, rfl⟩ : ∃ k, fuel = k + 1 := ⟨fuel - 1, by omega⟩
        rw [whileRunning_succ, if_neg hs, repeatBody_succ]
        exact hrun k (by omega)

theorem EndsWith.of_some {r : Option APEX_CPU} {p : APEX_CPU → Prop} {s : APEX_CPU}
    (h : EndsWith r p) (hr : r = some s) : p s := by
  obtain ⟨t, ht, hp⟩ := h
  rw [hr] at ht
  cases ht
  exact hp

namespace WithoutDependencies

theorem sb_loopBody_clock (u : Uninitialised) (cpu : APEX_CPU) :
    (loopBody u cpu).clock = cpu.clock + 1 := by
  show (tick (stages u cpu)).clock = _
  rw [tick_clock, clock_of_settings (sb_stages_settings u cpu)]

theorem sb_loopBody_cycle (u : Uninitialised) (cpu : APEX_CPU) :
    (loopBody u cpu).cycle = cpu.cycle := by
  show (tick (stages u cpu)).cycle = _
  rw [tick_cycle, cycle_of_settings (sb_stages_settings u cpu)]

end WithoutDependencies

namespace WithDependencies

theorem fw_loopBody_clock (u : Uninitialised) (cpu : APEX_CPU) :
    (loopBody u cpu).clock = cpu.clock + 1 := by
  show (tick (stages u cpu)).clock = _
  rw [tick_clock, clock_of_settings (fw_stages_settings u cpu)]

theorem fw_loopBody_cycle (u : Uninitialised) (cpu : APEX_CPU) :
    (loopBody u cpu).cycle = cpu.cycle := by
  show (tick (stages u cpu)).cycle = _
  rw [tick_cycle, cycle_of_settings (fw_stages_settings u cpu)]

end WithDependencies

/-- C8: in both variants a pass of the loop of `APEX_cpu_run` that the exit test does not stop is
followed by the rest of the run on the state that `writeback`, `memory`, `execute`, `decode`,
`fetch` produce in this order, with the clock set to the old clock plus one; every other field is
the one the five stage calls left. This holds whatever the uninitialised latches contain. -/
theorem C8_cycle_order (junk : Nat → Uninitialised) (u : Uninitialised) (fuel : Nat)
    (cpu : APEX_CPU) :
    (WithoutDependencies.APEX_cpu_run junk (fuel + 1) cpu =
        if stops cpu then some cpu
        else WithoutDependencies.APEX_cpu_run (fun k => junk (k + 1)) fuel
          (WithoutDependencies.loopBody (junk 0) cpu)) ∧
    WithoutDependencies.loopBody u cpu =
      { WithoutDependencies.fetch u.f (WithoutDependencies.decode u.drf
          (WithoutDependencies.execute u.ex (WithoutDependencies.memory u.mem
            (WithoutDependencies.writeback u.wb cpu)))) with clock := cpu.clock + 1 } ∧
    (WithDependencies.APEX_cpu_run junk (fuel + 1) cpu =
        if stops cpu then some cpu
        else WithDependencies.APEX_cpu_run (fun k => junk (k + 1)) fuel
          (WithDependencies.loopBody (junk 0) cpu)) ∧
    WithDependencies.loopBody u cpu =
      { WithDependencies.fetch (WithDependencies.decode
          (WithDependencies.execute u.ex (WithDependencies.memory u.mem
            (WithDependencies.writeback u.wb cpu)))) with clock := cpu.clock + 1 } := by
  refine ⟨rfl, ?_, rfl, ?_⟩
  · have h := clock_of_settings (WithoutDependencies.sb_stages_settings u cpu)
    show ({ WithoutDependencies.stages u cpu with
      clock := (WithoutDependencies.stages u cpu).clock + 1 } : APEX_CPU) = _
    rw [h]; rfl
  · have h := clock_of_settings (WithDependencies.fw_stages_settings u cpu)
    show ({ WithDependencies.stages u cpu with
      clock := (WithDependencies.stages u cpu).clock + 1 } : APEX_CPU) = _
    rw [h]; rfl

/-- C9: in both variants, from any state at the top of the loop, `APEX_cpu_run` returns that very
state (it runs no cycle) exactly when `ins_completed` equals `code_memory_size`, or `clock` equals
the cycle budget, or `halt` is at least 4; otherwise it runs the loop body and goes on. -/
theorem C9_stop_condition (junk : Nat → Uninitialised) (fuel : Nat) (cpu : APEX_CPU) :
    (WithoutDependencies.APEX_cpu_run junk (fuel + 1) cpu = some cpu ↔
      (cpu.ins_completed = cpu.code_memory_size ∨ cpu.clock = cpu.cycle ∨ cpu.halt ≥ 4)) ∧
    (WithDependencies.APEX_cpu_run junk (fuel + 1) cpu = some cpu ↔
      (cpu.ins_completed = cpu.code_memory_size ∨ cpu.clock = cpu.cycle ∨ cpu.halt ≥ 4)) ∧
    (¬ (cpu.ins_completed = cpu.code_memory_size ∨ cpu.clock = cpu.cycle ∨ cpu.halt ≥ 4) →
      WithoutDependencies.APEX_cpu_run junk (fuel + 1) cpu =
          WithoutDependencies.APEX_cpu_run (fun k => junk (k + 1)) fuel
            (WithoutDependencies.loopBody (junk 0) cpu) ∧
      WithDependencies.APEX_cpu_run junk (fuel + 1) cpu =
          WithDependencies.APEX_cpu_run (fun k => junk (k + 1)) fuel
            (WithDependencies.loopBody (junk 0) cpu)) := by
  refine ⟨?_, ?_, ?_⟩
  · exact whileRunning_same_iff _ (fun k c => WithoutDependencies.sb_loopBody_clock (junk k) c)
      fuel cpu
  · exact whileRunning_same_iff _ (fun k c => WithDependencies.fw_loopBody_clock (junk k) c)
      fuel cpu
  · intro h
    have hs : ¬ stops cpu := h
    exact ⟨by show whileRunning _ (fuel + 1) cpu = _; rw [whileRunning_succ, if_neg hs]; rfl,
      by show whileRunning _ (fuel + 1) cpu = _; rw [whileRunning_succ, if_neg hs]; rfl⟩

/-- C10: in both variants, from every state with `0 <= clock <= cycle` the loop of `APEX_cpu_run`
exits after `n` passes for some `n <= cycle - clock`, whatever the program and the uninitialised
latches are: every fuel above `n` returns the state after `n` passes, whose clock is `clock + n`,
at most `cycle`. -/
theorem C10_budget_bounds_run (junk : Nat → Uninitialised) (cpu : APEX_CPU)
    (_h0 : 0 ≤ cpu.clock) (h : cpu.clock ≤ cpu.cycle) :
    (∃ n : Nat, (n : Int) ≤ cpu.cycle - cpu.clock ∧
      (∀ fuel, n < fuel → WithoutDependencies.APEX_cpu_run junk fuel cpu =
        some (WithoutDependencies.passes junk n cpu)) ∧
      (WithoutDependencies.passes junk n cpu).clock = cpu.clock + n ∧
      (WithoutDependencies.passes junk n cpu).clock ≤ cpu.cycle) ∧
    (∃ n : Nat, (n : Int) ≤ cpu.cycle - cpu.clock ∧
      (∀ fuel, n < fuel → WithDependencies.APEX_cpu_run junk fuel cpu =
        some (WithDependencies.passes junk n cpu)) ∧
      (WithDependencies.passes junk n cpu).clock = cpu.clock + n ∧
      (WithDependencies.passes junk n cpu).clock ≤ cpu.cycle) := by
  have hd : cpu.cycle - cpu.clock = ((cpu.cycle - cpu.clock).toNat : Int) := by
    rw [Int.toNat_of_nonneg]; omega
  constructor
  · obtain ⟨n, hn, hc, hrun⟩ := whileRunning_within_budget _ _
      (fun k c => WithoutDependencies.sb_loopBody_clock (junk k) c)
      (fun k c => WithoutDependencies.sb_loopBody_cycle (junk k) c) cpu hd
    refine ⟨n, by omega, hrun, hc, ?_⟩
    show (repeatBody _ n cpu).clock ≤ _
    rw [hc]; omega
  · obtain ⟨n, hn, hc, hrun⟩ := whileRunning_within_budget _ _
      (fun k c => WithDependencies.fw_loopBody_clock (junk k) c)
      (fun k c => WithDependencies.fw_loopBody_cycle (junk k) c) cpu hd
    refine ⟨n, by omega, hrun, hc, ?_⟩
    show (repeatBody _ n cpu).clock ≤ _
    rw [hc]; omega

/-- Witness of C10 on the start state of scenario S1 with a budget of 1000 cycles. -/
theorem C10_budget_bounds_run_witness :
    (0 ≤ (WithDependencies.boot S1 1000 "silent").clock ∧
      (WithDependencies.boot S1 1000 "silent").clock ≤
        (WithDependencies.boot S1 1000 "silent").cycle) ∧
    ((∃ n : Nat, (n : Int) ≤ (WithDependencies.boot S1 1000 "silent").cycle -
          (WithDependencies.boot S1 1000 "silent").clock ∧
      (∀ fuel, n < fuel →
        WithoutDependencies.APEX_cpu_run zeroJunk fuel (WithDependencies.boot S1 1000 "silent") =
          some (WithoutDependencies.passes zeroJunk n (WithDependencies.boot S1 1000 "silent"))) ∧
      (WithoutDependencies.passes zeroJunk n (WithDependencies.boot S1 1000 "silent")).clock =
        (WithDependencies.boot S1 1000 "silent").clock + n ∧
      (WithoutDependencies.passes zeroJunk n (WithDependencies.boot S1 1000 "silent")).clock ≤
        (WithDependencies.boot S1 1000 "silent").cycle) ∧
    (∃ n : Nat, (n : Int) ≤ (WithDependencies.boot S1 1000 "silent").cycle -
          (WithDependencies.boot S1 1000 "silent").clock ∧
      (∀ fuel, n < fuel →
        WithDependencies.APEX_cpu_run zeroJunk fuel (WithDependencies.boot S1 1000 "silent") =
          some (WithDependencies.passes zeroJunk n (WithDependencies.boot S1 1000 "silent"))) ∧
      (WithDependencies.passes zeroJunk n (WithDependencies.boot S1 1000 "silent")).clock =
        (WithDependencies.boot S1 1000 "silent").clock + n ∧
      (WithDependencies.passes zeroJunk n (WithDependencies.boot S1 1000 "silent")).clock ≤
        (WithDependencies.boot S1 1000 "silent").cycle)) :=
  ⟨⟨by decide, by decide⟩,
    C10_budget_bounds_run zeroJunk (WithDependencies.boot S1 1000 "silent") (by decide)
      (by decide)⟩

/-! ## The scenarios of the specification

Each run starts from `boot`: `APEX_cpu_init` on a zero-filled block, clock 0, `ins_completed` 0, a
budget of 1000 cycles, in either display mode; the uninitialised latches are zero latches (`zeroJunk`).
The fuel 1001 is above the budget, so every larger fuel gives the same final state (C10).
-/

/-- C1 (forwarding correctness) fails on the code. On `loadAtOne` both variants stop by HALT
(`halt = 4`, budget not reached, `ins_completed` short of the program size), the pipeline without
forwarding ends with `regs[4] = 2` after 11 cycles, the pipeline with forwarding with
`regs[4] = 0` after 12 cycles: `LOAD` publishes its EX bypass at index `mem_address = 1`, not at
`rd`, and the following `ADD R4,R1,R1` reads that entry for `R1`. On `loadThenAnd` both stop by HALT
with `regs[4] = 42` without forwarding and `regs[4] = 0` with forwarding: `AND` reads `regs[3]`
before the load has written it. -/
theorem C1_forwarding_diverges : inEveryMode fun mode =>
    EndsWith (WithoutDependencies.APEX_cpu_run zeroJunk 1001
        (WithoutDependencies.boot loadAtOne 1000 mode))
      (fun s => s.halt = 4 ∧ s.clock ≠ s.cycle ∧ s.ins_completed ≠ s.code_memory_size ∧
        s.regs 4 = 2 ∧ s.clock = 11) ∧
    EndsWith (WithDependencies.APEX_cpu_run zeroJunk 1001
        (WithDependencies.boot loadAtOne 1000 mode))
      (fun s => s.halt = 4 ∧ s.clock ≠ s.cycle ∧ s.ins_completed ≠ s.code_memory_size ∧
        s.regs 4 = 0 ∧ s.clock = 12) ∧
    EndsWith (WithoutDependencies.APEX_cpu_run zeroJunk 1001
        (WithoutDependencies.boot loadThenAnd 1000 mode))
      (fun s => s.halt = 4 ∧ s.clock ≠ s.cycle ∧ s.ins_completed ≠ s.code_memory_size ∧
        s.regs 3 = 42 ∧ s.regs 4 = 42) ∧
    EndsWith (WithDependencies.APEX_cpu_run zeroJunk 1001
        (WithDependencies.boot loadThenAnd 1000 mode))
      (fun s => s.halt = 4 ∧ s.clock ≠ s.cycle ∧ s.ins_completed ≠ s.code_memory_size ∧
        s.regs 3 = 42 ∧ s.regs 4 = 0) := by
  decide!

/-- C2: scenario S1 ends with `regs[1] = 5`, `regs[2] = 7`, `regs[3] = 12`, `zflag = 0`,
`nzflag = 1` in both variants; `APEX_cpu_run` stops with `clock = 8` with forwarding and with
`clock = 10` without. -/
theorem C2_scenario_S1 : inEveryMode fun mode =>
    EndsWith (WithDependencies.APEX_cpu_run zeroJunk 1001 (WithDependencies.boot S1 1000 mode))
      (fun s => s.regs 1 = 5 ∧ s.regs 2 = 7 ∧ s.regs 3 = 12 ∧ s.zflag = 0 ∧ s.nzflag = 1 ∧
        s.clock = 8) ∧
    EndsWith (WithoutDependencies.APEX_cpu_run zeroJunk 1001
        (WithoutDependencies.boot S1 1000 mode))
      (fun s => s.regs 1 = 5 ∧ s.regs 2 = 7 ∧ s.regs 3 = 12 ∧ s.zflag = 0 ∧ s.nzflag = 1 ∧
        s.clock = 10) := by
  decide!

/-- C3: scenario S2 with forwarding ends with `data_memory[0] = 42`, `regs[3] = 42`,
`regs[4] = 84`. The `LOAD` (pc 4012) is in DRF after 4 passes and in EX after 5; the `ADD`
(pc 4016) enters DRF in the next pass, is still in DRF and not in EX after 6 passes, with
`stage_check[1][1] = 1`, and is in EX after 7 passes with both operands 42: one stall cycle. -/
theorem C3_scenario_S2 : inEveryMode fun mode =>
    EndsWith (WithDependencies.APEX_cpu_run zeroJunk 1001 (WithDependencies.boot S2 1000 mode))
      (fun s => s.data_memory 0 = 42 ∧ s.regs 3 = 42 ∧ s.regs 4 = 84) ∧
    holds (WithDependencies.passes zeroJunk 4 (WithDependencies.boot S2 1000 mode))
      DRF Opcode.LOAD 4012 ∧
    holds (WithDependencies.passes zeroJunk 5 (WithDependencies.boot S2 1000 mode))
      EX Opcode.LOAD 4012 ∧
    holds (WithDependencies.passes zeroJunk 5 (WithDependencies.boot S2 1000 mode))
      DRF Opcode.ADD 4016 ∧
    holds (WithDependencies.passes zeroJunk 6 (WithDependencies.boot S2 1000 mode))
      DRF Opcode.ADD 4016 ∧
    ¬ holds (WithDependencies.passes zeroJunk 6 (WithDependencies.boot S2 1000 mode))
      EX Opcode.ADD 4016 ∧
    (WithDependencies.passes zeroJunk 6 (WithDependencies.boot S2 1000 mode)).stage_check 1 1
      = 1 ∧
    holds (WithDependencies.passes zeroJunk 7 (WithDependencies.boot S2 1000 mode))
      EX Opcode.ADD 4016 ∧
    ((WithDependencies.passes zeroJunk 7 (WithDependencies.boot S2 1000 mode)).stage
      EX).rs1_value = 42 ∧
    ((WithDependencies.passes zeroJunk 7 (WithDependencies.boot S2 1000 mode)).stage
      EX).rs2_value = 42 := by
  decide!

/-- C4: scenario S3 ends, in both variants, with `regs[3] = 0` and `regs[4] = 7`; `regs[3]` is 0
after every pass of the run (`MOVC R3,#99` never commits). -/
theorem C4_scenario_S3 : inEveryMode fun mode =>
    EndsWith (WithDependencies.APEX_cpu_run zeroJunk 1001 (WithDependencies.boot S3 1000 mode))
      (fun s => s.regs 3 = 0 ∧ s.regs 4 = 7 ∧ s.clock = 13) ∧
    EndsWith (WithoutDependencies.APEX_cpu_run zeroJunk 1001
        (WithoutDependencies.boot S3 1000 mode))
      (fun s => s.regs 3 = 0 ∧ s.regs 4 = 7 ∧ s.clock = 14) ∧
    (∀ n ∈ List.range 14,
      (WithDependencies.passes zeroJunk n (WithDependencies.boot S3 1000 mode)).regs 3 = 0) ∧
    (∀ n ∈ List.range 15,
      (WithoutDependencies.passes zeroJunk n (WithoutDependencies.boot S3 1000 mode)).regs 3
        = 0) := by
  decide!

/-- C5 as stated fails: in neither variant is the final clock of scenario S4 the final clock of
scenario S1 plus one. -/
theorem C5_S4_not_one_more_than_S1 :
    ¬ (∃ s1 s4,
        WithDependencies.APEX_cpu_run zeroJunk 1001 (WithDependencies.boot S1 1000 "silent")
          = some s1 ∧
        WithDependencies.APEX_cpu_run zeroJunk 1001 (WithDependencies.boot S4 1000 "silent")
          = some s4 ∧
        s4.clock = s1.clock + 1) ∧
    ¬ (∃ s1 s4,
        WithoutDependencies.APEX_cpu_run zeroJunk 1001
          (WithoutDependencies.boot S1 1000 "silent") = some s1 ∧
        WithoutDependencies.APEX_cpu_run zeroJunk 1001
          (WithoutDependencies.boot S4 1000 "silent") = some s4 ∧
        s4.clock = s1.clock + 1) := by
  have a1 : EndsWith (WithDependencies.APEX_cpu_run zeroJunk 1001
      (WithDependencies.boot S1 1000 "silent")) (fun s => s.clock = 8) := by decide!
  have a4 : EndsWith (WithDependencies.APEX_cpu_run zeroJunk 1001
      (WithDependencies.boot S4 1000 "silent")) (fun s => s.clock = 10) := by decide!
  have b1 : EndsWith (WithoutDependencies.APEX_cpu_run zeroJunk 1001
      (WithoutDependencies.boot S1 1000 "silent")) (fun s => s.clock = 10) := by decide!
  have b4 : EndsWith (WithoutDependencies.APEX_cpu_run zeroJunk 1001
      (WithoutDependencies.boot S4 1000 "silent")) (fun s => s.clock = 14) := by decide!
  constructor
  · rintro ⟨s1, s4, h1, h4, h⟩
    have e1 : s1.clock = 8 := a1.of_some h1
    have e4 : s4.clock = 10 := a4.of_some h4
    omega
  · rintro ⟨s1, s4, h1, h4, h⟩
    have e1 : s1.clock = 10 := b1.of_some h1
    have e4 : s4.clock = 14 := b4.of_some h4
    omega

/-- C5, amended: scenario S4 ends with `regs[3] = 12` and `regs[4] = 24` in both variants; its
final clock is 10 with forwarding, two more than the 8 of scenario S1, and 14 without forwarding,
four more than the 10 of scenario S1. -/
theorem C5_scenario_S4 : inEveryMode fun mode =>
    EndsWith (WithDependencies.APEX_cpu_run zeroJunk 1001 (WithDependencies.boot S4 1000 mode))
      (fun s => s.regs 3 = 12 ∧ s.regs 4 = 24 ∧ s.clock = 8 + 2) ∧
    EndsWith (WithDependencies.APEX_cpu_run zeroJunk 1001 (WithDependencies.boot S1 1000 mode))
      (fun s => s.clock = 8) ∧
    EndsWith (WithoutDependencies.APEX_cpu_run zeroJunk 1001
        (WithoutDependencies.boot S4 1000 mode))
      (fun s => s.regs 3 = 12 ∧ s.regs 4 = 24 ∧ s.clock = 10 + 4) ∧
    EndsWith (WithoutDependencies.APEX_cpu_run zeroJunk 1001
        (WithoutDependencies.boot S1 1000 mode))
      (fun s => s.clock = 10) := by
  decide!

/-- C6: scenario S5 ends with `regs[2] = 2`, `regs[3] = 4`, `regs[4] = 8` in both variants. With
forwarding the `MOVC` and the three `ADD`s (pc 4004, 4008, 4012) are in EX after 2, 3, 4 and 5
passes: each `ADD` is issued in the cycle after its predecessor. Without forwarding the `MOVC` is in
EX after 2 passes and the `ADD`s after 5, 8 and 11 passes; in the two passes before each of these
the `ADD` is held in DRF with `stage_check[1][1] = 1`. -/
theorem C6_scenario_S5 : inEveryMode fun mode =>
    EndsWith (WithDependencies.APEX_cpu_run zeroJunk 1001 (WithDependencies.boot S5 1000 mode))
      (fun s => s.regs 2 = 2 ∧ s.regs 3 = 4 ∧ s.regs 4 = 8) ∧
    EndsWith (WithoutDependencies.APEX_cpu_run zeroJunk 1001
        (WithoutDependencies.boot S5 1000 mode))
      (fun s => s.regs 2 = 2 ∧ s.regs 3 = 4 ∧ s.regs 4 = 8) ∧
    holds (WithDependencies.passes zeroJunk 2 (WithDependencies.boot S5 1000 mode))
      EX Opcode.MOVC 4000 ∧
    holds (WithDependencies.passes zeroJunk 3 (WithDependencies.boot S5 1000 mode))
      EX Opcode.ADD 4004 ∧
    holds (WithDependencies.passes zeroJunk 4 (WithDependencies.boot S5 1000 mode))
      EX Opcode.ADD 4008 ∧
    holds (WithDependencies.passes zeroJunk 5 (WithDependencies.boot S5 1000 mode))
      EX Opcode.ADD 4012 ∧
    holds (WithoutDependencies.passes zeroJunk 2 (WithoutDependencies.boot S5 1000 mode))
      EX Opcode.MOVC 4000 ∧
    (∀ n ∈ [3, 4],
      holds (WithoutDependencies.passes zeroJunk n (WithoutDependencies.boot S5 1000 mode))
        DRF Opcode.ADD 4004 ∧
      ¬ holds (WithoutDependencies.passes zeroJunk n (WithoutDependencies.boot S5 1000 mode))
        EX Opcode.ADD 4004 ∧
      (WithoutDependencies.passes zeroJunk n
        (WithoutDependencies.boot S5 1000 mode)).stage_check 1 1 = 1) ∧
    holds (WithoutDependencies.passes zeroJunk 5 (WithoutDependencies.boot S5 1000 mode))
      EX Opcode.ADD 4004 ∧
    (∀ n ∈ [6, 7],
      holds (WithoutDependencies.passes zeroJunk n (WithoutDependencies.boot S5 1000 mode))
        DRF Opcode.ADD 4008 ∧
      ¬ holds (WithoutDependencies.passes zeroJunk n (WithoutDependencies.boot S5 1000 mode))
        EX Opcode.ADD 4008 ∧
      (WithoutDependencies.passes zeroJunk n
        (WithoutDependencies.boot S5 1000 mode)).stage_check 1 1 = 1) ∧
    holds (WithoutDependencies.passes zeroJunk 8 (WithoutDependencies.boot S5 1000 mode))
      EX Opcode.ADD 4008 ∧
    (∀ n ∈ [9, 10],
      holds (WithoutDependencies.passes zeroJunk n (WithoutDependencies.boot S5 1000 mode))
        DRF Opcode.ADD 4012 ∧
      ¬ holds (WithoutDependencies.passes zeroJunk n (WithoutDependencies.boot S5 1000 mode))
        EX Opcode.ADD 4012 ∧
      (WithoutDependencies.passes zeroJunk n
        (WithoutDependencies.boot S5 1000 mode)).stage_check 1 1 = 1) ∧
    holds (WithoutDependencies.passes zeroJunk 11 (WithoutDependencies.boot S5 1000 mode))
      EX Opcode.ADD 4012 := by
  decide!

/-- C7 as stated fails: with forwarding the run of scenario S6 does not end with `regs[2] = 0`
and `regs[3] = 9`. -/
theorem C7_S6_commits_R2 : inEveryMode fun mode =>
    ¬ EndsWith (WithDependencies.APEX_cpu_run zeroJunk 1001 (WithDependencies.boot S6 1000 mode))
      (fun s => s.regs 2 = 0 ∧ s.regs 3 = 9) := by
  decide!

/-- C7, amended: with forwarding, scenario S6 stops by HALT with `regs[2] = 1` and `regs[3] = 9`:
the jump target `8 + 4000 = 4008` is the address of `MOVC R2,#1`. With the target moved past that
instruction (`JUMP R1,#4004`) the run stops by HALT with `regs[2] = 0` and `regs[3] = 9`. -/
theorem C7_scenario_S6 : inEveryMode fun mode =>
    EndsWith (WithDependencies.APEX_cpu_run zeroJunk 1001 (WithDependencies.boot S6 1000 mode))
      (fun s => s.halt = 4 ∧ s.regs 2 = 1 ∧ s.regs 3 = 9) ∧
    EndsWith (WithDependencies.APEX_cpu_run zeroJunk 1001
        (WithDependencies.boot S6skip 1000 mode))
      (fun s => s.halt = 4 ∧ s.regs 2 = 0 ∧ s.regs 3 = 9) := by
  decide!

/-! ## The architectural state outside memory and writeback

Every block of `fetch`, `decode` and `execute`, in both files, leaves the register file, the flags
and the data memory (`architectural`) as it found them.
-/

@[simp] theorem architectural_ite (c : Prop) [Decidable c] (a b : APEX_CPU) :
    architectural (if c then a else b) = if c then architectural a else architectural b := by
  split <;> rfl

@[simp] theorem ifOp_architectural (i : Nat) (ops : List Opcode) (g : APEX_CPU → APEX_CPU)
    (cpu : APEX_CPU) (h : ∀ c, architectural (g c) = architectural c) :
    architectural (ifOp i ops g cpu) = architectural cpu := by
  unfold ifOp; split
  · exact h cpu
  · rfl

@[simp] theorem setStage_architectural (cpu : APEX_CPU) (i : Nat) (s : CPU_Stage) :
    architectural (APEX_CPU.setStage cpu i s) = architectural cpu := by
  rfl

@[simp] theorem setSet_architectural (cpu : APEX_CPU) (i : Nat) (j : Nat) (v : Int) :
    architectural (APEX_CPU.setSet cpu i j v) = architectural cpu := by
  rfl

@[simp] theorem setCheck_architectural (cpu : APEX_CPU) (i : Nat) (j : Nat) (v : Int) :
    architectural (APEX_CPU.setCheck cpu i j v) = architectural cpu := by
  rfl

@[simp] theorem stallDRF_architectural (cpu : APEX_CPU) :
    architectural (APEX_CPU.stallDRF cpu) = architectural cpu := by
  simp [APEX_CPU.stallDRF]

@[simp] theorem setRs1Value_architectural (cpu : APEX_CPU) (i : Nat) (v : Int) :
    architectural (APEX_CPU.setRs1Value cpu i v) = architectural cpu := by
  simp [APEX_CPU.setRs1Value]

@[simp] theorem setRs2Value_architectural (cpu : APEX_CPU) (i : Nat) (v : Int) :
    architectural (APEX_CPU.setRs2Value cpu i v) = architectural cpu := by
  simp [APEX_CPU.setRs2Value]

@[simp] theorem setBuffer_architectural (cpu : APEX_CPU) (i : Nat) (v : Int) :
    architectural (APEX_CPU.setBuffer cpu i v) = architectural cpu := by
  simp [APEX_CPU.setBuffer]

@[simp] theorem setMemAddress_architectural (cpu : APEX_CPU) (i : Nat) (v : Int) :
    architectural (APEX_CPU.setMemAddress cpu i v) = architectural cpu := by
  simp [APEX_CPU.setMemAddress]

@[simp] theorem setNOP_architectural (cpu : APEX_CPU) (i : Nat) :
    architectural (APEX_CPU.setNOP cpu i) = architectural cpu := by
  simp [APEX_CPU.setNOP]

@[simp] theorem setStalled_architectural (cpu : APEX_CPU) (i : Nat) :
    architectural (APEX_CPU.setStalled cpu i) = architectural cpu := by
  simp [APEX_CPU.setStalled]

@[simp] theorem setValid_architectural (cpu : APEX_CPU) (r : Int) (v : Int) :
    architectural (APEX_CPU.setValid cpu r v) = architectural cpu := by
  rfl

@[simp] theorem bumpHalt_architectural (cpu : APEX_CPU) :
    architectural (bumpHalt cpu) = architectural cpu := by
  rfl

@[simp] theorem raiseHalt_architectural (cpu : APEX_CPU) :
    architectural (raiseHalt cpu) = architectural cpu := by
  rfl

@[simp] theorem claimDest_architectural (cpu : APEX_CPU) :
    architectural (claimDest cpu) = architectural cpu := by
  simp [claimDest]

@[simp] theorem markForward_architectural (cpu : APEX_CPU) :
    architectural (markForward cpu) = architectural cpu := by
  rfl

@[simp] theorem storeAddress_architectural (cpu : APEX_CPU) :
    architectural (storeAddress cpu) = architectural cpu := by
  simp [storeAddress]

@[simp] theorem loadAddress_architectural (cpu : APEX_CPU) :
    architectural (loadAddress cpu) = architectural cpu := by
  simp [loadAddress]

@[simp] theorem ldrAddress_architectural (cpu : APEX_CPU) :
    architectural (ldrAddress cpu) = architectural cpu := by
  simp [ldrAddress]

@[simp] theorem stallBranch_architectural (cpu : APEX_CPU) :
    architectural (stallBranch cpu) = architectural cpu := by
  simp [stallBranch]

@[simp] theorem branchTarget_architectural (cpu : APEX_CPU) :
    architectural (branchTarget cpu) = architectural cpu := by
  rfl

@[simp] theorem jumpTarget_architectural (cpu : APEX_CPU) :
    architectural (jumpTarget cpu) = architectural cpu := by
  rfl

@[simp] theorem squashFetched_architectural (cpu : APEX_CPU) :
    architectural (squashFetched cpu) = architectural cpu := by
  simp [squashFetched]

@[simp] theorem clearHalt_architectural (cpu : APEX_CPU) :
    architectural (clearHalt cpu) = architectural cpu := by
  rfl

@[simp] theorem fetchInstruction_architectural (cpu : APEX_CPU) :
    architectural (fetchInstruction cpu) = architectural cpu := by
  rfl

@[simp] theorem handToDRF_architectural (cpu : APEX_CPU) :
    architectural (handToDRF cpu) = architectural cpu := by
  simp [handToDRF]

@[simp] theorem releaseHeld_architectural (cpu : APEX_CPU) :
    architectural (releaseHeld cpu) = architectural cpu := by
  simp [releaseHeld]

@[simp] theorem passToMEM_architectural (Apex : CPU_Stage) (cpu : APEX_CPU) :
    architectural (passToMEM Apex cpu) = architectural cpu := by
  simp [passToMEM]

@[simp] theorem moveToMEM_architectural (Apex : CPU_Stage) (cpu : APEX_CPU) :
    architectural (moveToMEM Apex cpu) = architectural cpu := by
  simp [moveToMEM]

namespace WithoutDependencies

@[simp] theorem sb_clearF_architectural (Apex : CPU_Stage) (cpu : APEX_CPU) :
    architectural (clearF Apex cpu) = architectural cpu := by
  simp [clearF]

@[simp] theorem sb_fetch_architectural (Apex : CPU_Stage) (cpu : APEX_CPU) :
    architectural (fetch Apex cpu) = architectural cpu := by
  simp [fetch]

@[simp] theorem sb_unstall_architectural (cpu : APEX_CPU) :
    architectural (unstall cpu) = architectural cpu := by
  simp [unstall]

@[simp] theorem sb_unstallBranch_architectural (cpu : APEX_CPU) :
    architectural (unstallBranch cpu) = architectural cpu := by
  simp [unstallBranch]

@[simp] theorem sb_unstallTwoSources_architectural (cpu : APEX_CPU) :
    architectural (unstallTwoSources cpu) = architectural cpu := by
  simp [unstallTwoSources]

@[simp] theorem sb_unstallOneSource_architectural (cpu : APEX_CPU) :
    architectural (unstallOneSource cpu) = architectural cpu := by
  simp [unstallOneSource]

@[simp] theorem sb_decodeUnstall_architectural (cpu : APEX_CPU) :
    architectural (decodeUnstall cpu) = architectural cpu := by
  simp [decodeUnstall]

@[simp] theorem sb_readStore_architectural (cpu : APEX_CPU) :
    architectural (readStore cpu) = architectural cpu := by
  simp [readStore]

@[simp] theorem sb_readLoad_architectural (cpu : APEX_CPU) :
    architectural (readLoad cpu) = architectural cpu := by
  simp [readLoad]

@[simp] theorem sb_guardBranch_architectural (cpu : APEX_CPU) :
    architectural (guardBranch cpu) = architectural cpu := by
  simp [guardBranch]

@[simp] theorem sb_readTwoSources_architectural (cpu : APEX_CPU) :
    architectural (readTwoSources cpu) = architectural cpu := by
  simp [readTwoSources]

@[simp] theorem sb_readJump_architectural (cpu : APEX_CPU) :
    architectural (readJump cpu) = architectural cpu := by
  simp [readJump]

@[simp] theorem sb_issue_architectural (Apex : CPU_Stage) (cpu : APEX_CPU) :
    architectural (issue Apex cpu) = architectural cpu := by
  simp [issue]

@[simp] theorem sb_decodeRead_architectural (cpu : APEX_CPU) :
    architectural (decodeRead cpu) = architectural cpu := by
  simp [decodeRead]

@[simp] theorem sb_decodeGuarded_architectural (Apex : CPU_Stage) (cpu : APEX_CPU) :
    architectural (decodeGuarded Apex cpu) = architectural cpu := by
  simp [decodeGuarded]

@[simp] theorem sb_decode_architectural (Apex : CPU_Stage) (cpu : APEX_CPU) :
    architectural (decode Apex cpu) = architectural cpu := by
  simp [decode]

@[simp] theorem sb_resetCompleted_architectural (cpu : APEX_CPU) :
    architectural (resetCompleted cpu) = architectural cpu := by
  rfl

@[simp] theorem sb_jump_architectural (cpu : APEX_CPU) :
    architectural (jump cpu) = architectural cpu := by
  simp [jump]

@[simp] theorem sb_takeBranch_architectural (cpu : APEX_CPU) :
    architectural (takeBranch cpu) = architectural cpu := by
  simp [takeBranch]

@[simp] theorem sb_takeBranchAfterStall_architectural (cpu : APEX_CPU) :
    architectural (takeBranchAfterStall cpu) = architectural cpu := by
  simp [takeBranchAfterStall]

@[simp] theorem sb_branch_architectural (z : Int) (cpu : APEX_CPU) :
    architectural (branch z cpu) = architectural cpu := by
  simp [branch]

@[simp] theorem sb_movc_architectural (cpu : APEX_CPU) :
    architectural (movc cpu) = architectural cpu := by
  simp [movc]

@[simp] theorem sb_alu_architectural (op : Int → Int → Int) (cpu : APEX_CPU) :
    architectural (alu op cpu) = architectural cpu := by
  simp [alu]

@[simp] theorem sb_startMUL_architectural (cpu : APEX_CPU) :
    architectural (startMUL cpu) = architectural cpu := by
  simp [startMUL]

@[simp] theorem sb_releaseEX_architectural (cpu : APEX_CPU) :
    architectural (releaseEX cpu) = architectural cpu := by
  simp [releaseEX]

@[simp] theorem sb_executeFirst_architectural (Apex : CPU_Stage) (cpu : APEX_CPU) :
    architectural (executeFirst Apex cpu) = architectural cpu := by
  simp [executeFirst]

@[simp] theorem sb_finishMUL_architectural (Apex : CPU_Stage) (cpu : APEX_CPU) :
    architectural (finishMUL Apex cpu) = architectural cpu := by
  simp [finishMUL]

@[simp] theorem sb_finishBranch_architectural (z : Int) (Apex : CPU_Stage) (cpu : APEX_CPU) :
    architectural (finishBranch z Apex cpu) = architectural cpu := by
  simp [finishBranch]

@[simp] theorem sb_execute_architectural (Apex : CPU_Stage) (cpu : APEX_CPU) :
    architectural (execute Apex cpu) = architectural cpu := by
  simp [execute]

end WithoutDependencies

namespace WithDependencies

@[simp] theorem fw_fetch_architectural (cpu : APEX_CPU) :
    architectural (fetch cpu) = architectural cpu := by
  simp [fetch]

@[simp] theorem fw_unstallBranch_architectural (cpu : APEX_CPU) :
    architectural (unstallBranch cpu) = architectural cpu := by
  simp [unstallBranch]

@[simp] theorem fw_unstallForwarded_architectural (cpu : APEX_CPU) :
    architectural (unstallForwarded cpu) = architectural cpu := by
  simp [unstallForwarded]

@[simp] theorem fw_unstallTwoValid_architectural (cpu : APEX_CPU) :
    architectural (unstallTwoValid cpu) = architectural cpu := by
  simp [unstallTwoValid]

@[simp] theorem fw_unstallOneValid_architectural (cpu : APEX_CPU) :
    architectural (unstallOneValid cpu) = architectural cpu := by
  simp [unstallOneValid]

@[simp] theorem fw_decodeUnstall_architectural (cpu : APEX_CPU) :
    architectural (decodeUnstall cpu) = architectural cpu := by
  simp [decodeUnstall]

@[simp] theorem fw_readRs1Guarded_architectural (cpu : APEX_CPU) :
    architectural (readRs1Guarded cpu) = architectural cpu := by
  simp [readRs1Guarded]

@[simp] theorem fw_readRs2Guarded_architectural (cpu : APEX_CPU) :
    architectural (readRs2Guarded cpu) = architectural cpu := by
  simp [readRs2Guarded]

@[simp] theorem fw_readRs1OrStall_architectural (cpu : APEX_CPU) :
    architectural (readRs1OrStall cpu) = architectural cpu := by
  simp [readRs1OrStall]

@[simp] theorem fw_readRs1Jump_architectural (cpu : APEX_CPU) :
    architectural (readRs1Jump cpu) = architectural cpu := by
  simp [readRs1Jump]

@[simp] theorem fw_readRs1NoElse_architectural (cpu : APEX_CPU) :
    architectural (readRs1NoElse cpu) = architectural cpu := by
  simp [readRs1NoElse]

@[simp] theorem fw_readRs2OrStall_architectural (cpu : APEX_CPU) :
    architectural (readRs2OrStall cpu) = architectural cpu := by
  simp [readRs2OrStall]

@[simp] theorem fw_claimIfIssued_architectural (cpu : APEX_CPU) :
    architectural (claimIfIssued cpu) = architectural cpu := by
  simp [claimIfIssued]

@[simp] theorem fw_readStore_architectural (cpu : APEX_CPU) :
    architectural (readStore cpu) = architectural cpu := by
  simp [readStore]

@[simp] theorem fw_readLoad_architectural (cpu : APEX_CPU) :
    architectural (readLoad cpu) = architectural cpu := by
  simp [readLoad]

@[simp] theorem fw_readLdrBypass_architectural (cpu : APEX_CPU) :
    architectural (readLdrBypass cpu) = architectural cpu := by
  simp [readLdrBypass]

@[simp] theorem fw_guardBranch_architectural (cpu : APEX_CPU) :
    architectural (guardBranch cpu) = architectural cpu := by
  simp [guardBranch]

@[simp] theorem fw_readLogic_architectural (cpu : APEX_CPU) :
    architectural (readLogic cpu) = architectural cpu := by
  simp [readLogic]

@[simp] theorem fw_readJump_architectural (cpu : APEX_CPU) :
    architectural (readJump cpu) = architectural cpu := by
  simp [readJump]

@[simp] theorem fw_readArith_architectural (cpu : APEX_CPU) :
    architectural (readArith cpu) = architectural cpu := by
  simp [readArith]

@[simp] theorem fw_readXorAgain_architectural (cpu : APEX_CPU) :
    architectural (readXorAgain cpu) = architectural cpu := by
  simp [readXorAgain]

@[simp] theorem fw_readLdrOperands_architectural (cpu : APEX_CPU) :
    architectural (readLdrOperands cpu) = architectural cpu := by
  simp [readLdrOperands]

@[simp] theorem fw_readLdrAgain_architectural (cpu : APEX_CPU) :
    architectural (readLdrAgain cpu) = architectural cpu := by
  simp [readLdrAgain]

@[simp] theorem fw_issue_architectural (cpu : APEX_CPU) :
    architectural (issue cpu) = architectural cpu := by
  simp [issue]

@[simp] theorem fw_decodeRead_architectural (cpu : APEX_CPU) :
    architectural (decodeRead cpu) = architectural cpu := by
  simp [decodeRead]

@[simp] theorem fw_decodeGuarded_architectural (cpu : APEX_CPU) :
    architectural (decodeGuarded cpu) = architectural cpu := by
  simp [decodeGuarded]

@[simp] theorem fw_decode_architectural (cpu : APEX_CPU) :
    architectural (decode cpu) = architectural cpu := by
  simp [decode]

@[simp] theorem fw_publishEX_architectural (i : Int) (cpu : APEX_CPU) :
    architectural (publishEX i cpu) = architectural cpu := by
  rfl

@[simp] theorem fw_loadEX_architectural (cpu : APEX_CPU) :
    architectural (loadEX cpu) = architectural cpu := by
  simp [loadEX]

@[simp] theorem fw_ldrEX_architectural (cpu : APEX_CPU) :
    architectural (ldrEX cpu) = architectural cpu := by
  simp [ldrEX]

@[simp] theorem fw_jump_architectural (cpu : APEX_CPU) :
    architectural (jump cpu) = architectural cpu := by
  simp [jump]

@[simp] theorem fw_takeBranch_architectural (cpu : APEX_CPU) :
    architectural (takeBranch cpu) = architectural cpu := by
  simp [takeBranch]

@[simp] theorem fw_takeBranchAfterStall_architectural (cpu : APEX_CPU) :
    architectural (takeBranchAfterStall cpu) = architectural cpu := by
  simp [takeBranchAfterStall]

@[simp] theorem fw_branch_architectural (z : Int) (cpu : APEX_CPU) :
    architectural (branch z cpu) = architectural cpu := by
  simp [branch]

@[simp] theorem fw_recordData_architectural (cpu : APEX_CPU) :
    architectural (recordData cpu) = architectural cpu := by
  rfl

@[simp] theorem fw_movc_architectural (cpu : APEX_CPU) :
    architectural (movc cpu) = architectural cpu := by
  simp [movc]

@[simp] theorem fw_alu_architectural (op : Int → Int → Int) (cpu : APEX_CPU) :
    architectural (alu op cpu) = architectural cpu := by
  simp [alu]

@[simp] theorem fw_startMUL_architectural (cpu : APEX_CPU) :
    architectural (startMUL cpu) = architectural cpu := by
  simp [startMUL]

@[simp] theorem fw_executeFirst_architectural (Apex : CPU_Stage) (cpu : APEX_CPU) :
    architectural (executeFirst Apex cpu) = architectural cpu := by
  simp [executeFirst]

@[simp] theorem fw_finishMUL_architectural (Apex : CPU_Stage) (cpu : APEX_CPU) :
    architectural (finishMUL Apex cpu) = architectural cpu := by
  simp [finishMUL]

@[simp] theorem fw_releaseEX_architectural (cpu : APEX_CPU) :
    architectural (releaseEX cpu) = architectural cpu := by
  simp [releaseEX]

@[simp] theorem fw_finishBranch_architectural (z : Int) (Apex : CPU_Stage) (cpu : APEX_CPU) :
    architectural (finishBranch z Apex cpu) = architectural cpu := by
  simp [finishBranch]

@[simp] theorem fw_executeArms_architectural (Apex : CPU_Stage) (cpu : APEX_CPU) :
    architectural (executeArms Apex cpu) = architectural cpu := by
  simp [executeArms]

@[simp] theorem fw_haltToMEM_architectural (cpu : APEX_CPU) :
    architectural (haltToMEM cpu) = architectural cpu := by
  simp [haltToMEM]

@[simp] theorem fw_execute_architectural (Apex : CPU_Stage) (cpu : APEX_CPU) :
    architectural (execute Apex cpu) = architectural cpu := by
  simp [execute]

end WithDependencies

/-! ## The commit counter in fetch and decode

Every block of `fetch` and `decode` of the pipeline without forwarding leaves `ins_completed`
(`committed`) as it found it.
-/

@[simp] theorem committed_ite (c : Prop) [Decidable c] (a b : APEX_CPU) :
    committed (if c then a else b) = if c then committed a else committed b := by
  split <;> rfl

@[simp] theorem ifOp_committed (i : Nat) (ops : List Opcode) (g : APEX_CPU → APEX_CPU)
    (cpu : APEX_CPU) (h : ∀ c, committed (g c) = committed c) :
    committed (ifOp i ops g cpu) = committed cpu := by
  unfold ifOp; split
  · exact h cpu
  · rfl

@[simp] theorem setStage_committed (cpu : APEX_CPU) (i : Nat) (s : CPU_Stage) :
    committed (APEX_CPU.setStage cpu i s) = committed cpu := by
  rfl

@[simp] theorem setSet_committed (cpu : APEX_CPU) (i : Nat) (j : Nat) (v : Int) :
    committed (APEX_CPU.setSet cpu i j v) = committed cpu := by
  rfl

@[simp] theorem setCheck_committed (cpu : APEX_CPU) (i : Nat) (j : Nat) (v : Int) :
    committed (APEX_CPU.setCheck cpu i j v) = committed cpu := by
  rfl

@[simp] theorem stallDRF_committed (cpu : APEX_CPU) :
    committed (APEX_CPU.stallDRF cpu) = committed cpu := by
  simp [APEX_CPU.stallDRF]

@[simp] theorem setRs1Value_committed (cpu : APEX_CPU) (i : Nat) (v : Int) :
    committed (APEX_CPU.setRs1Value cpu i v) = committed cpu := by
  simp [APEX_CPU.setRs1Value]

@[simp] theorem setRs2Value_committed (cpu : APEX_CPU) (i : Nat) (v : Int) :
    committed (APEX_CPU.setRs2Value cpu i v) = committed cpu := by
  simp [APEX_CPU.setRs2Value]

@[simp] theorem setValid_committed (cpu : APEX_CPU) (r : Int) (v : Int) :
    committed (APEX_CPU.setValid cpu r v) = committed cpu := by
  rfl

@[simp] theorem raiseHalt_committed (cpu : APEX_CPU) :
    committed (raiseHalt cpu) = committed cpu := by
  rfl

@[simp] theorem claimDest_committed (cpu : APEX_CPU) :
    committed (claimDest cpu) = committed cpu := by
  simp [claimDest]

@[simp] theorem fetchInstruction_committed (cpu : APEX_CPU) :
    committed (fetchInstruction cpu) = committed cpu := by
  rfl

@[simp] theorem handToDRF_committed (cpu : APEX_CPU) :
    committed (handToDRF cpu) = committed cpu := by
  simp [handToDRF]

@[simp] theorem releaseHeld_committed (cpu : APEX_CPU) :
    committed (releaseHeld cpu) = committed cpu := by
  simp [releaseHeld]

namespace WithoutDependencies

@[simp] theorem sb_clearF_committed (Apex : CPU_Stage) (cpu : APEX_CPU) :
    committed (clearF Apex cpu) = committed cpu := by
  simp [clearF]

@[simp] theorem sb_unstall_committed (cpu : APEX_CPU) :
    committed (unstall cpu) = committed cpu := by
  simp [unstall]

@[simp] theorem sb_unstallBranch_committed (cpu : APEX_CPU) :
    committed (unstallBranch cpu) = committed cpu := by
  simp [unstallBranch]

@[simp] theorem sb_unstallTwoSources_committed (cpu : APEX_CPU) :
    committed (unstallTwoSources cpu) = committed cpu := by
  simp [unstallTwoSources]

@[simp] theorem sb_unstallOneSource_committed (cpu : APEX_CPU) :
    committed (unstallOneSource cpu) = committed cpu := by
  simp [unstallOneSource]

@[simp] theorem sb_decodeUnstall_committed (cpu : APEX_CPU) :
    committed (decodeUnstall cpu) = committed cpu := by
  simp [decodeUnstall]

@[simp] theorem sb_readStore_committed (cpu : APEX_CPU) :
    committed (readStore cpu) = committed cpu := by
  simp [readStore]

@[simp] theorem sb_readLoad_committed (cpu : APEX_CPU) :
    committed (readLoad cpu) = committed cpu := by
  simp [readLoad]

@[simp] theorem sb_guardBranch_committed (cpu : APEX_CPU) :
    committed (guardBranch cpu) = committed cpu := by
  simp [guardBranch]

@[simp] theorem sb_readTwoSources_committed (cpu : APEX_CPU) :
    committed (readTwoSources cpu) = committed cpu := by
  simp [readTwoSources]

@[simp] theorem sb_readJump_committed (cpu : APEX_CPU) :
    committed (readJump cpu) = committed cpu := by
  simp [readJump]

@[simp] theorem sb_issue_committed (Apex : CPU_Stage) (cpu : APEX_CPU) :
    committed (issue Apex cpu) = committed cpu := by
  simp [issue]

@[simp] theorem sb_decodeRead_committed (cpu : APEX_CPU) :
    committed (decodeRead cpu) = committed cpu := by
  simp [decodeRead]

@[simp] theorem sb_decodeGuarded_committed (Apex : CPU_Stage) (cpu : APEX_CPU) :
    committed (decodeGuarded Apex cpu) = committed cpu := by
  simp [decodeGuarded]

end WithoutDependencies


/-! ## Array stores and latch fields

`upd` at the index just written, and the latch fields that the blocks of the stage functions leave
alone.
-/

@[simp] theorem upd_same (a : Int → Int) (i v : Int) : upd a i v i = v := by simp [upd]

@[simp] theorem upd_upd (a : Int → Int) (i v w : Int) : upd (upd a i v) i w = upd a i w := by
  funext j; simp only [upd]; split <;> rfl

theorem upd_ne (a : Int → Int) (i v j : Int) (h : j ≠ i) : upd a i v j = a j := by
  simp [upd, h]

@[simp] theorem setMemAddress_opcode (cpu : APEX_CPU) (i : Nat) (v : Int) (j : Nat) :
    ((cpu.setMemAddress i v).stage j).opcode = (cpu.stage j).opcode := by
  simp only [APEX_CPU.setMemAddress, APEX_CPU.setStage]; split
  · subst_vars; rfl
  · rfl

@[simp] theorem setBuffer_opcode (cpu : APEX_CPU) (i : Nat) (v : Int) (j : Nat) :
    ((cpu.setBuffer i v).stage j).opcode = (cpu.stage j).opcode := by
  simp only [APEX_CPU.setBuffer, APEX_CPU.setStage]; split
  · subst_vars; rfl
  · rfl

@[simp] theorem setRs1Value_opcode (cpu : APEX_CPU) (i : Nat) (v : Int) (j : Nat) :
    ((cpu.setRs1Value i v).stage j).opcode = (cpu.stage j).opcode := by
  simp only [APEX_CPU.setRs1Value, APEX_CPU.setStage]; split
  · subst_vars; rfl
  · rfl

@[simp] theorem setRs2Value_opcode (cpu : APEX_CPU) (i : Nat) (v : Int) (j : Nat) :
    ((cpu.setRs2Value i v).stage j).opcode = (cpu.stage j).opcode := by
  simp only [APEX_CPU.setRs2Value, APEX_CPU.setStage]; split
  · subst_vars; rfl
  · rfl

@[simp] theorem bumpHalt_stage (cpu : APEX_CPU) : (bumpHalt cpu).stage = cpu.stage := rfl

@[simp] theorem raiseHalt_stage (cpu : APEX_CPU) : (raiseHalt cpu).stage = cpu.stage := rfl

@[simp] theorem claimDest_stage (cpu : APEX_CPU) : (claimDest cpu).stage = cpu.stage := rfl

@[simp] theorem stallDRF_stage (cpu : APEX_CPU) : (cpu.stallDRF).stage = cpu.stage := rfl

@[simp] theorem markForward_stage (cpu : APEX_CPU) : (markForward cpu).stage = cpu.stage := rfl

@[simp] theorem storeWord_stage (cpu : APEX_CPU) : (storeWord cpu).stage = cpu.stage := rfl

@[simp] theorem commit_stage (cpu : APEX_CPU) : (commit cpu).stage = cpu.stage := rfl

@[simp] theorem setFlags_stage (cpu : APEX_CPU) : (setFlags cpu).stage = cpu.stage := by
  unfold setFlags; split <;> rfl

/-! ## The stage functions of the pipeline without forwarding, opcode by opcode -/

namespace WithoutDependencies

@[simp] theorem sb_countCommit_stage (cpu : APEX_CPU) : (countCommit cpu).stage = cpu.stage := rfl

@[simp] theorem sb_retire_stage (cpu : APEX_CPU) : (retire cpu).stage = cpu.stage := rfl

@[simp] theorem sb_retireArith_stage (cpu : APEX_CPU) : (retireArith cpu).stage = cpu.stage := by
  simp [retireArith]

/-- What `writeback` does when its guard holds, field by field. -/
theorem sb_writeback_eq (Apex : CPU_Stage) (cpu : APEX_CPU)
    (h : cpu.stage_check 4 0 = 0 ∧ cpu.stage_check 4 1 = 0) :
    writeback Apex cpu =
      { cpu with
        regs := if writesRegister (cpu.stage WB).opcode then
            upd cpu.regs (cpu.stage WB).rd (cpu.stage WB).buffer else cpu.regs
        regs_valid := if writesRegister (cpu.stage WB).opcode then
            upd cpu.regs_valid (cpu.stage WB).rd 1 else cpu.regs_valid
        zflag := if isArith (cpu.stage WB).opcode then
            (if (cpu.stage WB).buffer = 0 then 1 else 0) else cpu.zflag
        nzflag := if isArith (cpu.stage WB).opcode then
            (if (cpu.stage WB).buffer = 0 then 0 else 1) else cpu.nzflag
        ins_completed := if writesRegister (cpu.stage WB).opcode ∨
            (cpu.stage WB).opcode = Opcode.STORE then cpu.ins_completed + 1 else cpu.ins_completed
        halt := if (cpu.stage WB).opcode = Opcode.HALT then cpu.halt + 1 else cpu.halt
        stage := fun j => if j = WB then Apex else cpu.stage j } := by
  cases hop : (cpu.stage WB).opcode <;>
    simp only [writeback, writebackBody, ifOp, hop, h, setFlags_stage, commit_stage,
      bumpHalt_stage, sb_countCommit_stage, sb_retire_stage, sb_retireArith_stage,
      writesRegister, isArith, List.mem_cons, List.mem_singleton, reduceCtorEq, or_false,
      or_true, false_or, true_or, if_true, if_false, and_self, List.not_mem_nil,
      List.mem_nil_iff] <;>
    simp [retire, retireArith, countCommit, commit, bumpHalt, APEX_CPU.setStage,
      APEX_CPU.setValid, setFlags] <;>
    split <;> simp [*]

@[simp] theorem sb_loadWord_opcode (cpu : APEX_CPU) (j : Nat) :
    ((loadWord cpu).stage j).opcode = (cpu.stage j).opcode := by
  simp [loadWord]

/-- What `memory` does when its guard holds, field by field. -/
theorem sb_memory_eq (Apex : CPU_Stage) (cpu : APEX_CPU)
    (h : cpu.stage_check 3 0 = 0 ∧ cpu.stage_check 3 1 = 0) :
    memory Apex cpu =
      { cpu with
        data_memory := if (cpu.stage MEM).opcode = Opcode.STORE then
            upd cpu.data_memory (cpu.stage MEM).mem_address (cpu.stage MEM).rs1_value
          else cpu.data_memory
        halt := if (cpu.stage MEM).opcode = Opcode.HALT then cpu.halt + 1 else cpu.halt
        stage_set := upd2 cpu.stage_set 3 0 1
        stage := fun j =>
          if j = MEM then Apex
          else if j = WB then
            if (cpu.stage MEM).opcode ∈ [Opcode.LDR, Opcode.LOAD] then
              { cpu.stage MEM with buffer := cpu.data_memory (cpu.stage MEM).mem_address }
            else cpu.stage MEM
          else cpu.stage j } := by
  cases hop : (cpu.stage MEM).opcode <;>
    simp only [memory, memoryBody, ifOp, hop, h, bumpHalt_stage, storeWord_stage,
      sb_loadWord_opcode, List.mem_cons, List.mem_singleton, reduceCtorEq, or_false, or_true,
      false_or, true_or, if_true, if_false, and_self, List.not_mem_nil, List.mem_nil_iff] <;>
    simp [loadWord, storeWord, bumpHalt, passToWB, APEX_CPU.setStage, APEX_CPU.setSet,
      APEX_CPU.setBuffer, hop] <;>
    (funext j; split <;> simp [*])

@[simp] theorem sb_branch_EX (z : Int) (cpu : APEX_CPU) :
    (branch z cpu).stage EX = cpu.stage EX := by
  unfold branch
  split
  · simp [stallBranch, APEX_CPU.setStalled, APEX_CPU.setStage, APEX_CPU.setCheck]
  · split
    · simp [takeBranch, resetCompleted, clearHalt, squashFetched, APEX_CPU.setNOP,
        APEX_CPU.setStage, branchTarget]
    · rfl

@[simp] theorem sb_jump_stage (cpu : APEX_CPU) : (jump cpu).stage = cpu.stage := rfl

@[simp] theorem sb_startMUL_stage (cpu : APEX_CPU) : (startMUL cpu).stage = cpu.stage := rfl

/-- The `if` sequence of the first branch of `execute` runs the one block that the opcode of the
EX latch selects. -/
theorem sb_executeFirst_eq (Apex : CPU_Stage) (cpu : APEX_CPU) :
    executeFirst Apex cpu = passToMEM Apex (executeBlock cpu) := by
  cases hop : (cpu.stage EX).opcode <;>
    simp only [executeFirst, executeBlock, ifOp, hop, setMemAddress_opcode, setBuffer_opcode,
      bumpHalt_stage, markForward_stage, sb_branch_EX, sb_jump_stage, sb_startMUL_stage,
      storeAddress, loadAddress, ldrAddress, movc, alu, List.mem_cons, List.mem_singleton,
      reduceCtorEq, or_false, or_true, false_or, true_or, if_false, if_true, List.not_mem_nil,
      List.mem_nil_iff]

@[simp] theorem sb_unstall_stage (cpu : APEX_CPU) : (unstall cpu).stage = cpu.stage := rfl

@[simp] theorem sb_unstallBranch_stage (cpu : APEX_CPU) :
    (unstallBranch cpu).stage = cpu.stage := by
  unfold unstallBranch; split <;> rfl

@[simp] theorem sb_unstallTwoSources_stage (cpu : APEX_CPU) :
    (unstallTwoSources cpu).stage = cpu.stage := by
  unfold unstallTwoSources; split <;> rfl

@[simp] theorem sb_unstallOneSource_stage (cpu : APEX_CPU) :
    (unstallOneSource cpu).stage = cpu.stage := by
  unfold unstallOneSource; split <;> rfl

/-- The `if` sequence of the pre-checks of `decode` runs the one block that the opcode of the DRF
latch selects. -/
theorem sb_decodeUnstall_eq (cpu : APEX_CPU) : decodeUnstall cpu = unstallBlock cpu := by
  cases hop : (cpu.stage DRF).opcode <;>
    simp only [decodeUnstall, unstallBlock, ifOp, hop, sb_unstallBranch_stage,
      sb_unstallTwoSources_stage, sb_unstallOneSource_stage, List.mem_cons, List.mem_singleton,
      reduceCtorEq, or_false, or_true, false_or, true_or, if_false, if_true, List.not_mem_nil,
      List.mem_nil_iff]

@[simp] theorem sb_readStore_opcode (cpu : APEX_CPU) (j : Nat) :
    ((readStore cpu).stage j).opcode = (cpu.stage j).opcode := by
  simp only [readStore]; split <;> simp

@[simp] theorem sb_readLoad_opcode (cpu : APEX_CPU) (j : Nat) :
    ((readLoad cpu).stage j).opcode = (cpu.stage j).opcode := by
  simp only [readLoad]; split <;> simp

@[simp] theorem sb_guardBranch_stage (cpu : APEX_CPU) : (guardBranch cpu).stage = cpu.stage := by
  unfold guardBranch; split <;> rfl

@[simp] theorem sb_readTwoSources_opcode (cpu : APEX_CPU) (j : Nat) :
    ((readTwoSources cpu).stage j).opcode = (cpu.stage j).opcode := by
  simp only [readTwoSources]; split <;> simp

@[simp] theorem sb_readJump_opcode (cpu : APEX_CPU) (j : Nat) :
    ((readJump cpu).stage j).opcode = (cpu.stage j).opcode := by
  simp only [readJump]; split <;> simp

/-- The `if` sequence inside the guard of `decode` runs the one block that the opcode of the DRF
latch selects. -/
theorem sb_decodeRead_eq (cpu : APEX_CPU) : decodeRead cpu = readBlock cpu := by
  cases hop : (cpu.stage DRF).opcode <;>
    simp only [decodeRead, readBlock, ifOp, hop, sb_readStore_opcode, sb_readLoad_opcode,
      sb_guardBranch_stage, claimDest_stage, sb_readTwoSources_opcode, raiseHalt_stage,
      sb_readJump_opcode, List.mem_cons, List.mem_singleton, reduceCtorEq, or_false, or_true,
      false_or, true_or, if_false, if_true, List.not_mem_nil, List.mem_nil_iff]

/-- The pre-checks of `decode` either do nothing or un-stall. -/
theorem sb_decodeUnstall_cases (cpu : APEX_CPU) :
    decodeUnstall cpu = cpu ∨ decodeUnstall cpu = unstall cpu := by
  rw [sb_decodeUnstall_eq]
  cases hop : (cpu.stage DRF).opcode <;>
    simp only [unstallBlock, hop, unstallBranch, unstallTwoSources, unstallOneSource] <;>
    first
    | exact Or.inl rfl
    | exact Or.inl trivial
    | (split
       · exact Or.inr rfl
       · exact Or.inl rfl)

/-- The block that `decode` runs inside its guard either stalls, or leaves the stall bits alone,
keeps opcode and destination of the DRF latch, and clears `regs_valid[rd]` exactly when the
opcode writes a register; a BZ or BNZ is not stalled only if MEM holds no ADD, SUB or MUL. -/
theorem sb_readBlock_cases (cpu : APEX_CPU) :
    readBlock cpu = cpu.stallDRF ∨
    ((readBlock cpu).stage_check = cpu.stage_check ∧
      (∀ j, j ≠ DRF → (readBlock cpu).stage j = cpu.stage j) ∧
      ((readBlock cpu).stage DRF).opcode = (cpu.stage DRF).opcode ∧
      ((readBlock cpu).stage DRF).rd = (cpu.stage DRF).rd ∧
      (readBlock cpu).regs_valid =
        (if writesRegister (cpu.stage DRF).opcode then
          upd cpu.regs_valid (cpu.stage DRF).rd 0 else cpu.regs_valid) ∧
      ((cpu.stage DRF).opcode = Opcode.BZ ∨ (cpu.stage DRF).opcode = Opcode.BNZ →
        ¬ isArith (cpu.stage MEM).opcode)) := by
  cases hop : (cpu.stage DRF).opcode <;>
    simp only [readBlock, hop, readStore, readLoad, guardBranch, readTwoSources, readJump,
      writesRegister, List.mem_cons, List.mem_singleton, reduceCtorEq, or_false, or_true,
      false_or, true_or, if_false, if_true, List.not_mem_nil, List.mem_nil_iff] <;>
    (try split) <;>
    first
    | exact Or.inl rfl
    | (refine Or.inr ?_
       simp_all [claimDest, raiseHalt, APEX_CPU.setStage, APEX_CPU.setRs1Value,
         APEX_CPU.setRs2Value, APEX_CPU.setValid])

/-- One call of the guarded part of `decode`: the MEM and WB latches and every stall bit but
`stage_check[1][1]` stay; the EX latch either stays, or receives the uninitialised latch (a
stalled DRF instruction), or receives the DRF instruction, whose destination is then marked
invalid when it writes a register. -/
theorem sb_decodeGuarded_step (Apex : CPU_Stage) (cpu : APEX_CPU) :
    (decodeGuarded Apex cpu).stage MEM = cpu.stage MEM ∧
    (decodeGuarded Apex cpu).stage WB = cpu.stage WB ∧
    (∀ i j, ¬ (i = 1 ∧ j = 1) →
      (decodeGuarded Apex cpu).stage_check i j = cpu.stage_check i j) ∧
    (((decodeGuarded Apex cpu).stage EX = cpu.stage EX ∧
        (decodeGuarded Apex cpu).regs_valid = cpu.regs_valid) ∨
     ((decodeGuarded Apex cpu).stage EX = Apex ∧
        (decodeGuarded Apex cpu).regs_valid = cpu.regs_valid ∧
        cpu.stage_check 2 0 = 0 ∧ cpu.stage_check 1 0 = 0) ∨
     (cpu.stage_check 1 0 = 0 ∧
        ((decodeGuarded Apex cpu).stage EX).opcode = (cpu.stage DRF).opcode ∧
        ((decodeGuarded Apex cpu).stage EX).rd = (cpu.stage DRF).rd ∧
        (decodeGuarded Apex cpu).regs_valid =
          (if writesRegister (cpu.stage DRF).opcode then
            upd cpu.regs_valid (cpu.stage DRF).rd 0 else cpu.regs_valid) ∧
        ((cpu.stage DRF).opcode = Opcode.BZ ∨ (cpu.stage DRF).opcode = Opcode.BNZ →
          ¬ isArith (cpu.stage MEM).opcode))) := by
  by_cases hg : cpu.stage_check 1 0 = 0 ∧ cpu.stage_check 1 1 = 0 ∧ cpu.halt = 0
  · have hd : decodeGuarded Apex cpu = issue Apex (readBlock cpu) := by
      simp only [decodeGuarded, hg, and_self, if_true, sb_decodeRead_eq]
    rw [hd]
    obtain ⟨h10, h11, -⟩ := hg
    rcases sb_readBlock_cases cpu with hs | ⟨hc, hst, hop, hrd, hv, hb⟩
    · rw [hs]
      by_cases h20 : cpu.stage_check 2 0 = 0
      · refine ⟨?_, ?_, ?_, Or.inr (Or.inl ?_)⟩ <;>
          simp [issue, APEX_CPU.stallDRF, APEX_CPU.setCheck, APEX_CPU.setSet, APEX_CPU.setStage,
            upd2, h20, h10]
        intro i j hij hi hj
        exact absurd hj (hij hi)
      · refine ⟨?_, ?_, ?_, Or.inl ?_⟩ <;>
          simp [issue, APEX_CPU.stallDRF, APEX_CPU.setCheck, APEX_CPU.setSet, APEX_CPU.setStage,
            upd2, h20, h10]
        intro i j hij hi hj
        exact absurd hj (hij hi)
    · have h11b : (readBlock cpu).stage_check 1 1 = 0 := by rw [hc]; exact h11
      refine ⟨?_, ?_, ?_, Or.inr (Or.inr ⟨h10, ?_, ?_, ?_, hb⟩)⟩ <;>
        simp [issue, h11b, APEX_CPU.setSet, APEX_CPU.setStage, hst, hc, hop, hrd, hv]
  · simp only [decodeGuarded, hg, if_false]
    split
    · simp [APEX_CPU.setSet]
    · simp

/-- One call of `decode`, as `sb_decodeGuarded_step`: the pre-checks change `stage_check[1][1]`
and `stage_set[1][0]` only. -/
theorem sb_decode_step (Apex : CPU_Stage) (cpu : APEX_CPU) :
    (decode Apex cpu).stage MEM = cpu.stage MEM ∧
    (decode Apex cpu).stage WB = cpu.stage WB ∧
    (∀ i j, ¬ (i = 1 ∧ j = 1) → (decode Apex cpu).stage_check i j = cpu.stage_check i j) ∧
    (((decode Apex cpu).stage EX = cpu.stage EX ∧
        (decode Apex cpu).regs_valid = cpu.regs_valid) ∨
     ((decode Apex cpu).stage EX = Apex ∧ (decode Apex cpu).regs_valid = cpu.regs_valid ∧
        cpu.stage_check 2 0 = 0 ∧ cpu.stage_check 1 0 = 0) ∨
     (cpu.stage_check 1 0 = 0 ∧
        ((decode Apex cpu).stage EX).opcode = (cpu.stage DRF).opcode ∧
        ((decode Apex cpu).stage EX).rd = (cpu.stage DRF).rd ∧
        (decode Apex cpu).regs_valid =
          (if writesRegister (cpu.stage DRF).opcode then
            upd cpu.regs_valid (cpu.stage DRF).rd 0 else cpu.regs_valid) ∧
        ((cpu.stage DRF).opcode = Opcode.BZ ∨ (cpu.stage DRF).opcode = Opcode.BNZ →
          ¬ isArith (cpu.stage MEM).opcode))) := by
  unfold decode
  rcases sb_decodeUnstall_cases cpu with h | h
  · rw [h]; exact sb_decodeGuarded_step Apex cpu
  · rw [h]
    have hs := sb_decodeGuarded_step Apex (unstall cpu)
    have hc : ∀ i j, ¬ (i = 1 ∧ j = 1) → (unstall cpu).stage_check i j = cpu.stage_check i j := by
      intro i j hij
      simp only [unstall, APEX_CPU.setSet, APEX_CPU.setCheck, upd2]
      split
      · exact absurd ‹_› hij
      · rfl
    have h20 := hc 2 0 (by omega)
    have h10 := hc 1 0 (by omega)
    rw [h20, h10] at hs
    obtain ⟨h1, h2, h3, h4⟩ := hs
    exact ⟨h1, h2, fun i j hij => (h3 i j hij).trans (hc i j hij), h4⟩

set_option maxHeartbeats 1000000 in
/-- One call of `execute` on a state in which an EX stall belongs to a MUL and no BZ or BNZ meets
an ADD, SUB or MUL in WB: the scoreboard and the WB latch stay, and either a MUL starts (it stays
in EX behind the stall bits and MEM receives the uninitialised latch), or the EX instruction
moves to MEM and EX receives the uninitialised latch. -/
theorem sb_execute_step (Apex : CPU_Stage) (cpu : APEX_CPU)
    (h21 : cpu.stage_check 2 1 = 0)
    (hmul : cpu.stage_check 2 0 ≠ 0 → (cpu.stage EX).opcode = Opcode.MUL)
    (hbr : (cpu.stage EX).opcode = Opcode.BZ ∨ (cpu.stage EX).opcode = Opcode.BNZ →
      ¬ isArith (cpu.stage WB).opcode) :
    (execute Apex cpu).regs_valid = cpu.regs_valid ∧
    (execute Apex cpu).stage WB = cpu.stage WB ∧
    (∀ i j, 2 < i ∨ j = 1 → (execute Apex cpu).stage_check i j = cpu.stage_check i j) ∧
    ((cpu.stage_check 2 0 = 0 ∧ (cpu.stage EX).opcode = Opcode.MUL ∧
        (execute Apex cpu).stage_check 2 0 = 1 ∧ (execute Apex cpu).stage_check 1 0 = 1 ∧
        (execute Apex cpu).stage EX = cpu.stage EX ∧ (execute Apex cpu).stage MEM = Apex) ∨
     ((execute Apex cpu).stage_check 2 0 = 0 ∧ (execute Apex cpu).stage EX = Apex ∧
        ((execute Apex cpu).stage MEM).opcode = (cpu.stage EX).opcode ∧
        ((execute Apex cpu).stage MEM).rd = (cpu.stage EX).rd)) := by
  by_cases h20 : cpu.stage_check 2 0 = 0
  · have hg : cpu.stage_check 2 0 = 0 ∧ cpu.stage_check 2 1 = 0 := ⟨h20, h21⟩
    simp only [execute, hg, and_self, if_true, sb_executeFirst_eq, executeBlock]
    cases hop : (cpu.stage EX).opcode with
    | BZ =>
      have hb := hbr (Or.inl hop)
      simp only [branch, hb, if_false]
      split <;>
        simp [passToMEM, APEX_CPU.setStage, APEX_CPU.setSet, takeBranch, resetCompleted,
          clearHalt, squashFetched, APEX_CPU.setNOP, branchTarget, h20, hop]
    | BNZ =>
      have hb := hbr (Or.inr hop)
      simp only [branch, hb, if_false]
      split <;>
        simp [passToMEM, APEX_CPU.setStage, APEX_CPU.setSet, takeBranch, resetCompleted,
          clearHalt, squashFetched, APEX_CPU.setNOP, branchTarget, h20, hop]
    | MUL =>
      simp [passToMEM, APEX_CPU.setStage, APEX_CPU.setSet, APEX_CPU.setCheck, startMUL, upd2,
        h20, hop]
      intro i j hij
      split_ifs <;> first | rfl | omega
    | _ =>
      simp [passToMEM, APEX_CPU.setStage, APEX_CPU.setSet, APEX_CPU.setCheck,
        APEX_CPU.setMemAddress, APEX_CPU.setBuffer, bumpHalt, markForward, jump, resetCompleted,
        jumpTarget, upd2, h20, hop, storeAddress, loadAddress, ldrAddress, movc, alu]
  · have hop := hmul h20
    have hg : ¬ (cpu.stage_check 2 0 = 0 ∧ cpu.stage_check 2 1 = 0) := fun h => h20 h.1
    simp only [execute, hg, if_false, hop, true_and, h20, not_false_eq_true, if_true, ne_eq]
    simp [finishMUL, moveToMEM, alu, markForward, releaseEX, APEX_CPU.setStage,
      APEX_CPU.setCheck, APEX_CPU.setBuffer, upd2, hop]
    intro i j hij
    split_ifs <;> first | rfl | omega

/-- The stages behind DRF, the stall bits and the scoreboard are out of reach of `fetch`. -/
theorem sb_fetch_later (Apex : CPU_Stage) (cpu : APEX_CPU) :
    (∀ j, 2 ≤ j → (fetch Apex cpu).stage j = cpu.stage j) ∧
    (fetch Apex cpu).stage_check = cpu.stage_check ∧
    (fetch Apex cpu).regs_valid = cpu.regs_valid := by
  refine ⟨fun j hj => ?_, ?_, ?_⟩
  · have hF : j ≠ F := by simp only [F]; omega
    have hD : j ≠ DRF := by simp only [DRF]; omega
    simp only [fetch, clearF, handToDRF, fetchInstruction, releaseHeld]
    split_ifs <;> simp [APEX_CPU.setStage, APEX_CPU.setSet, hF, hD]
  · simp only [fetch, clearF, handToDRF, fetchInstruction, releaseHeld]
    split_ifs <;> simp [APEX_CPU.setStage, APEX_CPU.setSet]
  · simp only [fetch, clearF, handToDRF, fetchInstruction, releaseHeld]
    split_ifs <;> simp [APEX_CPU.setStage, APEX_CPU.setSet]

end WithoutDependencies

/-! ## The scoreboard of the pipeline without forwarding -/

theorem inert_not_writer {s : CPU_Stage} (h : inert s) : ¬ writesRegister s.opcode := by
  unfold inert at h
  cases hop : s.opcode <;> simp [hop, writesRegister] at h ⊢

theorem inert_not_branch {s : CPU_Stage} (h : inert s) :
    ¬ (s.opcode = Opcode.BZ ∨ s.opcode = Opcode.BNZ) := by
  unfold inert at h
  cases hop : s.opcode <;> simp [hop] at h ⊢

theorem inert_not_MUL {s : CPU_Stage} (h : inert s) : s.opcode ≠ Opcode.MUL := by
  unfold inert at h
  cases hop : s.opcode <;> simp [hop] at h ⊢

namespace WithoutDependencies

/-- The scoreboard condition survives one pass of the loop body, whatever inert content the
uninitialised latches have. -/
theorem sb_loopBody_scoreboard (u : Uninitialised) (hu : inertJunk u) (cpu : APEX_CPU)
    (h : scoreboardSafe cpu) : scoreboardSafe (loopBody u cpu) := by
  obtain ⟨⟨c21, c30, c31, c40, c41⟩, hmul, hbr, hsb⟩ := h
  obtain ⟨-, -, huex, hudrf⟩ := hu
  unfold loopBody stages
  -- writeback
  have hw := sb_writeback_eq u.wb cpu ⟨c40, c41⟩
  have hwc : (writeback u.wb cpu).stage_check = cpu.stage_check := by rw [hw]
  have hwEX : (writeback u.wb cpu).stage EX = cpu.stage EX := by rw [hw]; simp
  have hwMEM : (writeback u.wb cpu).stage MEM = cpu.stage MEM := by rw [hw]; simp
  have hwv : ∀ r, (writeback u.wb cpu).regs_valid r = 0 →
      cpu.regs_valid r = 0 ∧ ¬ writerOf cpu WB r := by
    intro r hr
    rw [hw] at hr
    simp only [writerOf] at hr ⊢
    by_cases hwr : writesRegister (cpu.stage WB).opcode
    · simp only [hwr, if_true, upd] at hr
      split at hr
      · omega
      · exact ⟨hr, fun hh => ‹¬ r = (cpu.stage WB).rd› hh.2.symm⟩
    · simp only [hwr, if_false] at hr
      exact ⟨hr, fun hh => hwr hh.1⟩
  clear hw
  generalize writeback u.wb cpu = w at hwc hwEX hwMEM hwv ⊢
  -- memory
  have hm := sb_memory_eq u.mem w (by rw [hwc]; exact ⟨c30, c31⟩)
  have hmc : (memory u.mem w).stage_check = w.stage_check := by rw [hm]
  have hmv : (memory u.mem w).regs_valid = w.regs_valid := by rw [hm]
  have hmEX : (memory u.mem w).stage EX = w.stage EX := by rw [hm]; simp
  have hmWBo : ((memory u.mem w).stage WB).opcode = (w.stage MEM).opcode := by
    rw [hm]; simp; split <;> rfl
  have hmWBr : ((memory u.mem w).stage WB).rd = (w.stage MEM).rd := by
    rw [hm]; simp; split <;> rfl
  clear hm
  generalize memory u.mem w = m at hmc hmv hmEX hmWBo hmWBr ⊢
  -- the state that execute meets
  have mc : m.stage_check = cpu.stage_check := hmc.trans hwc
  have mEX : m.stage EX = cpu.stage EX := hmEX.trans hwEX
  have mWBo : (m.stage WB).opcode = (cpu.stage MEM).opcode := by rw [hmWBo, hwMEM]
  have mWBr : (m.stage WB).rd = (cpu.stage MEM).rd := by rw [hmWBr, hwMEM]
  have msb : ∀ r : Int, 0 ≤ r → r < 32 → m.regs_valid r = 0 →
      writerOf m EX r ∨ writerOf m WB r := by
    intro r h0 h32 hr
    rw [hmv] at hr
    obtain ⟨hr0, hnw⟩ := hwv r hr
    rcases hsb r h0 h32 hr0 with hx | hx | hx
    · left; simpa only [writerOf, mEX] using hx
    · right; simpa only [writerOf, mWBo, mWBr] using hx
    · exact absurd hx hnw
  clear hmc hmv hmEX hmWBo hmWBr hwc hwEX hwMEM hwv hsb
  -- execute
  obtain ⟨hev, heWB, hec, hecase⟩ := sb_execute_step u.ex m (by rw [mc]; exact c21)
    (by rw [mc, mEX]; exact fun h => (hmul h).1) (by rw [mEX, mWBo]; exact hbr)
  have ec : ∀ i j, 2 < i ∨ j = 1 → (execute u.ex m).stage_check i j = cpu.stage_check i j := by
    intro i j hij; rw [hec i j hij, mc]
  have esb : ∀ r : Int, 0 ≤ r → r < 32 → (execute u.ex m).regs_valid r = 0 →
      ((execute u.ex m).stage_check 1 0 ≠ 0 ∧ (execute u.ex m).stage_check 2 0 ≠ 0 ∧
        writerOf (execute u.ex m) EX r) ∨
      writerOf (execute u.ex m) MEM r ∨ writerOf (execute u.ex m) WB r := by
    intro r h0 h32 hr
    rw [hev] at hr
    rcases msb r h0 h32 hr with hx | hx
    · rcases hecase with ⟨-, -, h1, h2, h3, -⟩ | ⟨-, -, h3, h4⟩
      · left; refine ⟨by rw [h2]; decide, by rw [h1]; decide, ?_⟩
        simpa only [writerOf, h3] using hx
      · right; left; simpa only [writerOf, h3, h4] using hx
    · right; right; simpa only [writerOf, heWB] using hx
  have eEX : (execute u.ex m).stage_check 2 0 ≠ 0 →
      ((execute u.ex m).stage EX).opcode = Opcode.MUL ∧
        (execute u.ex m).stage_check 1 0 ≠ 0 := by
    intro h
    rcases hecase with ⟨-, h0, -, h2, h3, -⟩ | ⟨h1, -⟩
    · exact ⟨by rw [h3]; exact h0, by rw [h2]; decide⟩
    · exact absurd h1 h
  have eIn : (execute u.ex m).stage_check 2 0 = 0 → inert ((execute u.ex m).stage EX) := by
    intro h
    rcases hecase with ⟨-, -, h1, -⟩ | ⟨-, h2, -⟩
    · rw [h1] at h; exact absurd h (by decide)
    · rw [h2]; exact huex
  clear hev heWB hec hecase msb mc mEX mWBo mWBr
  generalize execute u.ex m = e at ec esb eEX eIn ⊢
  -- decode
  obtain ⟨hdMEM, hdWB, hdc, hdcase⟩ := sb_decode_step u.drf e
  -- fetch and the clock
  obtain ⟨hfs, hfc, hfv⟩ := sb_fetch_later u.f (decode u.drf e)
  have fEX : (tick (fetch u.f (decode u.drf e))).stage EX = (decode u.drf e).stage EX :=
    hfs 2 (by omega)
  have fMEM : (tick (fetch u.f (decode u.drf e))).stage MEM = (decode u.drf e).stage MEM :=
    hfs 3 (by omega)
  have fWB : (tick (fetch u.f (decode u.drf e))).stage WB = (decode u.drf e).stage WB :=
    hfs 4 (by omega)
  have fc : (tick (fetch u.f (decode u.drf e))).stage_check = (decode u.drf e).stage_check :=
    hfc
  have fv : (tick (fetch u.f (decode u.drf e))).regs_valid = (decode u.drf e).regs_valid := hfv
  unfold scoreboardSafe
  simp only [writerOf, fEX, fMEM, fWB, fc, fv]
  clear hfs hfc hfv fEX fMEM fWB fc fv
  have d20 := hdc 2 0 (by omega)
  have d10 := hdc 1 0 (by omega)
  refine ⟨⟨?_, ?_, ?_, ?_, ?_⟩, ?_, ?_, ?_⟩
  · rw [hdc 2 1 (by omega), ec 2 1 (by omega)]; exact c21
  · rw [hdc 3 0 (by omega), ec 3 0 (by omega)]; exact c30
  · rw [hdc 3 1 (by omega), ec 3 1 (by omega)]; exact c31
  · rw [hdc 4 0 (by omega), ec 4 0 (by omega)]; exact c40
  · rw [hdc 4 1 (by omega), ec 4 1 (by omega)]; exact c41
  · rw [d20, d10]
    intro h
    obtain ⟨h1, h2⟩ := eEX h
    rcases hdcase with ⟨hx, -⟩ | ⟨-, -, hx, -⟩ | ⟨hx, -⟩
    · exact ⟨by rw [hx]; exact h1, h2⟩
    · exact absurd hx h
    · exact absurd hx h2
  · intro hb
    rw [hdMEM]
    rcases hdcase with ⟨hx, -⟩ | ⟨hx, -⟩ | ⟨-, ho, -, -, hx⟩
    · rw [hx] at hb
      by_cases h : e.stage_check 2 0 = 0
      · exact absurd hb (inert_not_branch (eIn h))
      · rw [(eEX h).1] at hb; simp at hb
    · rw [hx] at hb; exact absurd hb (inert_not_branch hudrf)
    · rw [ho] at hb; exact hx hb
  · intro r h0 h32 hr
    rw [hdMEM, hdWB]
    rcases hdcase with ⟨hx, hv⟩ | ⟨hx, hv, h20, h10⟩ | ⟨h10, ho, hrd, hv, -⟩
    · rw [hv] at hr
      rcases esb r h0 h32 hr with ⟨-, -, hy⟩ | hy | hy
      · left; rw [hx]; exact hy
      · right; left; exact hy
      · right; right; exact hy
    · rw [hv] at hr
      rcases esb r h0 h32 hr with ⟨hy, -⟩ | hy | hy
      · exact absurd h10 hy
      · right; left; exact hy
      · right; right; exact hy
    · rw [hv] at hr
      by_cases hwr : writesRegister (e.stage DRF).opcode
      · simp only [hwr, if_true, upd] at hr
        split at hr
        · left; rw [ho, hrd]; exact ⟨hwr, Eq.symm ‹r = (e.stage DRF).rd›⟩
        · rcases esb r h0 h32 hr with ⟨hy, -⟩ | hy | hy
          · exact absurd h10 hy
          · right; left; exact hy
          · right; right; exact hy
      · simp only [hwr, if_false] at hr
        rcases esb r h0 h32 hr with ⟨hy, -⟩ | hy | hy
        · exact absurd h10 hy
        · right; left; exact hy
        · right; right; exact hy

end WithoutDependencies

/-! ## The scoreboard in execute and memory

Every block of `execute` and `memory` of the pipeline without forwarding leaves `regs_valid`
(`scoreboard`) as it found it.
-/

@[simp] theorem scoreboard_ite (c : Prop) [Decidable c] (a b : APEX_CPU) :
    scoreboard (if c then a else b) = if c then scoreboard a else scoreboard b := by
  split <;> rfl

@[simp] theorem ifOp_scoreboard (i : Nat) (ops : List Opcode) (g : APEX_CPU → APEX_CPU)
    (cpu : APEX_CPU) (h : ∀ c, scoreboard (g c) = scoreboard c) :
    scoreboard (ifOp i ops g cpu) = scoreboard cpu := by
  unfold ifOp; split
  · exact h cpu
  · rfl

@[simp] theorem setStage_scoreboard (cpu : APEX_CPU) (i : Nat) (s : CPU_Stage) :
    scoreboard (APEX_CPU.setStage cpu i s) = scoreboard cpu := by
  rfl

@[simp] theorem setSet_scoreboard (cpu : APEX_CPU) (i : Nat) (j : Nat) (v : Int) :
    scoreboard (APEX_CPU.setSet cpu i j v) = scoreboard cpu := by
  rfl

@[simp] theorem setCheck_scoreboard (cpu : APEX_CPU) (i : Nat) (j : Nat) (v : Int) :
    scoreboard (APEX_CPU.setCheck cpu i j v) = scoreboard cpu := by
  rfl

@[simp] theorem setBuffer_scoreboard (cpu : APEX_CPU) (i : Nat) (v : Int) :
    scoreboard (APEX_CPU.setBuffer cpu i v) = scoreboard cpu := by
  simp [APEX_CPU.setBuffer]

@[simp] theorem setMemAddress_scoreboard (cpu : APEX_CPU) (i : Nat) (v : Int) :
    scoreboard (APEX_CPU.setMemAddress cpu i v) = scoreboard cpu := by
  simp [APEX_CPU.setMemAddress]

@[simp] theorem setNOP_scoreboard (cpu : APEX_CPU) (i : Nat) :
    scoreboard (APEX_CPU.setNOP cpu i) = scoreboard cpu := by
  simp [APEX_CPU.setNOP]

@[simp] theorem setStalled_scoreboard (cpu : APEX_CPU) (i : Nat) :
    scoreboard (APEX_CPU.setStalled cpu i) = scoreboard cpu := by
  simp [APEX_CPU.setStalled]

@[simp] theorem bumpHalt_scoreboard (cpu : APEX_CPU) :
    scoreboard (bumpHalt cpu) = scoreboard cpu := by
  rfl

@[simp] theorem markForward_scoreboard (cpu : APEX_CPU) :
    scoreboard (markForward cpu) = scoreboard cpu := by
  rfl

@[simp] theorem storeAddress_scoreboard (cpu : APEX_CPU) :
    scoreboard (storeAddress cpu) = scoreboard cpu := by
  simp [storeAddress]

@[simp] theorem loadAddress_scoreboard (cpu : APEX_CPU) :
    scoreboard (loadAddress cpu) = scoreboard cpu := by
  simp [loadAddress]

@[simp] theorem ldrAddress_scoreboard (cpu : APEX_CPU) :
    scoreboard (ldrAddress cpu) = scoreboard cpu := by
  simp [ldrAddress]

@[simp] theorem stallBranch_scoreboard (cpu : APEX_CPU) :
    scoreboard (stallBranch cpu) = scoreboard cpu := by
  simp [stallBranch]

@[simp] theorem branchTarget_scoreboard (cpu : APEX_CPU) :
    scoreboard (branchTarget cpu) = scoreboard cpu := by
  rfl

@[simp] theorem jumpTarget_scoreboard (cpu : APEX_CPU) :
    scoreboard (jumpTarget cpu) = scoreboard cpu := by
  rfl

@[simp] theorem squashFetched_scoreboard (cpu : APEX_CPU) :
    scoreboard (squashFetched cpu) = scoreboard cpu := by
  simp [squashFetched]

@[simp] theorem clearHalt_scoreboard (cpu : APEX_CPU) :
    scoreboard (clearHalt cpu) = scoreboard cpu := by
  rfl

@[simp] theorem storeWord_scoreboard (cpu : APEX_CPU) :
    scoreboard (storeWord cpu) = scoreboard cpu := by
  rfl

@[simp] theorem passToWB_scoreboard (Apex : CPU_Stage) (cpu : APEX_CPU) :
    scoreboard (passToWB Apex cpu) = scoreboard cpu := by
  simp [passToWB]

@[simp] theorem passToMEM_scoreboard (Apex : CPU_Stage) (cpu : APEX_CPU) :
    scoreboard (passToMEM Apex cpu) = scoreboard cpu := by
  simp [passToMEM]

@[simp] theorem moveToMEM_scoreboard (Apex : CPU_Stage) (cpu : APEX_CPU) :
    scoreboard (moveToMEM Apex cpu) = scoreboard cpu := by
  simp [moveToMEM]

namespace WithoutDependencies

@[simp] theorem sb_resetCompleted_scoreboard (cpu : APEX_CPU) :
    scoreboard (resetCompleted cpu) = scoreboard cpu := by
  rfl

@[simp] theorem sb_jump_scoreboard (cpu : APEX_CPU) :
    scoreboard (jump cpu) = scoreboard cpu := by
  simp [jump]

@[simp] theorem sb_takeBranch_scoreboard (cpu : APEX_CPU) :
    scoreboard (takeBranch cpu) = scoreboard cpu := by
  simp [takeBranch]

@[simp] theorem sb_takeBranchAfterStall_scoreboard (cpu : APEX_CPU) :
    scoreboard (takeBranchAfterStall cpu) = scoreboard cpu := by
  simp [takeBranchAfterStall]

@[simp] theorem sb_branch_scoreboard (z : Int) (cpu : APEX_CPU) :
    scoreboard (branch z cpu) = scoreboard cpu := by
  simp [branch]

@[simp] theorem sb_movc_scoreboard (cpu : APEX_CPU) :
    scoreboard (movc cpu) = scoreboard cpu := by
  simp [movc]

@[simp] theorem sb_alu_scoreboard (op : Int → Int → Int) (cpu : APEX_CPU) :
    scoreboard (alu op cpu) = scoreboard cpu := by
  simp [alu]

@[simp] theorem sb_startMUL_scoreboard (cpu : APEX_CPU) :
    scoreboard (startMUL cpu) = scoreboard cpu := by
  simp [startMUL]

@[simp] theorem sb_releaseEX_scoreboard (cpu : APEX_CPU) :
    scoreboard (releaseEX cpu) = scoreboard cpu := by
  simp [releaseEX]

@[simp] theorem sb_executeFirst_scoreboard (Apex : CPU_Stage) (cpu : APEX_CPU) :
    scoreboard (executeFirst Apex cpu) = scoreboard cpu := by
  simp [executeFirst]

@[simp] theorem sb_finishMUL_scoreboard (Apex : CPU_Stage) (cpu : APEX_CPU) :
    scoreboard (finishMUL Apex cpu) = scoreboard cpu := by
  simp [finishMUL]

@[simp] theorem sb_finishBranch_scoreboard (z : Int) (Apex : CPU_Stage) (cpu : APEX_CPU) :
    scoreboard (finishBranch z Apex cpu) = scoreboard cpu := by
  simp [finishBranch]

@[simp] theorem sb_execute_scoreboard (Apex : CPU_Stage) (cpu : APEX_CPU) :
    scoreboard (execute Apex cpu) = scoreboard cpu := by
  simp [execute]

@[simp] theorem sb_loadWord_scoreboard (cpu : APEX_CPU) :
    scoreboard (loadWord cpu) = scoreboard cpu := by
  simp [loadWord]

@[simp] theorem sb_memoryBody_scoreboard (Apex : CPU_Stage) (cpu : APEX_CPU) :
    scoreboard (memoryBody Apex cpu) = scoreboard cpu := by
  simp [memoryBody]

@[simp] theorem sb_memory_scoreboard (Apex : CPU_Stage) (cpu : APEX_CPU) :
    scoreboard (memory Apex cpu) = scoreboard cpu := by
  simp [memory]

end WithoutDependencies


/-! ## The register file between writeback and decode (C11) -/

namespace WithoutDependencies

/-- `memory` leaves the register file, the scoreboard and the flags alone. -/
theorem sb_memory_registers (Apex : CPU_Stage) (cpu : APEX_CPU) :
    (memory Apex cpu).regs = cpu.regs ∧ (memory Apex cpu).regs_valid = cpu.regs_valid ∧
    (memory Apex cpu).zflag = cpu.zflag ∧ (memory Apex cpu).nzflag = cpu.nzflag ∧
    (memory Apex cpu).ins_completed = cpu.ins_completed := by
  by_cases h : cpu.stage_check 3 0 = 0 ∧ cpu.stage_check 3 1 = 0
  · rw [sb_memory_eq Apex cpu h]; exact ⟨rfl, rfl, rfl, rfl, rfl⟩
  · simp [memory, h]

/-- `decode` of an instruction with two register sources (ADD, SUB, MUL, AND, OR, XOR, LDR) whose
sources are both valid, with no hold on DRF and no HALT decoded: both values come from the
register file and the instruction moves to EX. -/
theorem sb_decode_reads (Apex : CPU_Stage) (cpu : APEX_CPU)
    (hop : (cpu.stage DRF).opcode ∈
      [Opcode.ADD, Opcode.SUB, Opcode.MUL, Opcode.AND, Opcode.OR, Opcode.XOR, Opcode.LDR])
    (h10 : cpu.stage_check 1 0 = 0) (hh : cpu.halt = 0)
    (hv1 : cpu.regs_valid (cpu.stage DRF).rs1 ≠ 0)
    (hv2 : cpu.regs_valid (cpu.stage DRF).rs2 ≠ 0) :
    (decode Apex cpu).stage EX =
      { cpu.stage DRF with rs1_value := cpu.regs (cpu.stage DRF).rs1
                           rs2_value := cpu.regs (cpu.stage DRF).rs2 } := by
  have hu : decodeUnstall cpu = unstall cpu := by
    rw [sb_decodeUnstall_eq]
    simp only [List.mem_cons, List.mem_singleton, List.mem_nil_iff, or_false] at hop
    rcases hop with h | h | h | h | h | h | h <;>
      simp only [unstallBlock, h, unstallTwoSources, hv1, hv2, ne_eq, not_false_eq_true,
        and_self, if_true]
  have hg : (unstall cpu).stage_check 1 0 = 0 ∧ (unstall cpu).stage_check 1 1 = 0 ∧
      (unstall cpu).halt = 0 := by
    refine ⟨?_, ?_, hh⟩ <;> simp [unstall, APEX_CPU.setSet, APEX_CPU.setCheck, upd2, h10]
  have hr : readBlock (unstall cpu) = readTwoSources (unstall cpu) := by
    simp only [List.mem_cons, List.mem_singleton, List.mem_nil_iff, or_false] at hop
    have hs : ((unstall cpu).stage DRF).opcode = (cpu.stage DRF).opcode := rfl
    rcases hop with h | h | h | h | h | h | h <;> simp only [readBlock, hs, h]
  unfold decode
  rw [hu]
  simp only [decodeGuarded, hg, and_self, if_true, sb_decodeRead_eq, hr]
  have hv1b : (unstall cpu).regs_valid ((unstall cpu).stage DRF).rs1 ≠ 0 := hv1
  have hv2b : (unstall cpu).regs_valid ((unstall cpu).stage DRF).rs2 ≠ 0 := hv2
  simp only [readTwoSources, hv1b, hv2b, ne_eq, not_false_eq_true, and_self, if_true]
  simp [issue, claimDest, APEX_CPU.setValid, APEX_CPU.setRs1Value, APEX_CPU.setRs2Value,
    APEX_CPU.setStage, APEX_CPU.setSet, unstall, APEX_CPU.setCheck, upd2]

/-- The EX latch at the end of a pass is the one `decode` left. -/
theorem sb_loopBody_EX (u : Uninitialised) (cpu : APEX_CPU) :
    (loopBody u cpu).stage EX = (decode u.drf (beforeDecode u cpu)).stage EX :=
  (sb_fetch_later u.f (decode u.drf (beforeDecode u cpu))).1 2 (by omega)

/-- A register that `writeback` commits holds the committed value, and is marked valid, when
`decode` runs in the same pass. -/
theorem sb_beforeDecode_commit (u : Uninitialised) (cpu : APEX_CPU)
    (hg : cpu.stage_check 4 0 = 0 ∧ cpu.stage_check 4 1 = 0)
    (hw : writesRegister (cpu.stage WB).opcode) :
    (beforeDecode u cpu).regs (cpu.stage WB).rd = (cpu.stage WB).buffer ∧
    (beforeDecode u cpu).regs_valid (cpu.stage WB).rd = 1 := by
  have hr : (beforeDecode u cpu).regs = (writeback u.wb cpu).regs := by
    have h := sb_execute_architectural u.ex (memory u.mem (writeback u.wb cpu))
    simp only [architectural, Prod.mk.injEq] at h
    exact h.1.trans (sb_memory_registers u.mem _).1
  have hv : (beforeDecode u cpu).regs_valid = (writeback u.wb cpu).regs_valid := by
    have h := sb_execute_scoreboard u.ex (memory u.mem (writeback u.wb cpu))
    simp only [scoreboard] at h
    exact h.trans (sb_memory_registers u.mem _).2.1
  rw [hr, hv, sb_writeback_eq u.wb cpu hg]
  simp [hw]

end WithoutDependencies

/-- C11 as stated fails. In the run of S5 without forwarding, the state after seven cycles has
`ADD R2,R1,R1` (value 2) in WB, `regs[2] = 0`, and `ADD R3,R2,R2` in DRF. The eighth cycle commits
`regs[2] = 2` and, in the same cycle, `decode` reads `R2` for the DRF instruction from the register
file: it is in EX with `rs1_value = 2` at the end of that cycle, not stalled. -/
theorem C11_S5_reads_in_commit_cycle : inEveryMode fun mode =>
    EndsWith (WithoutDependencies.APEX_cpu_run zeroJunk 8 (WithoutDependencies.boot S5 7 mode))
      (fun s => s.clock = 7 ∧ holds s WB Opcode.ADD 4004 ∧ (s.stage WB).rd = 2 ∧
        (s.stage WB).buffer = 2 ∧ s.regs 2 = 0 ∧ s.regs_valid 2 = 0 ∧
        holds s DRF Opcode.ADD 4008 ∧ (s.stage DRF).rs1 = 2) ∧
    EndsWith (WithoutDependencies.APEX_cpu_run zeroJunk 9 (WithoutDependencies.boot S5 8 mode))
      (fun s => s.clock = 8 ∧ s.regs 2 = 2 ∧ holds s EX Opcode.ADD 4008 ∧
        (s.stage EX).rs1 = 2 ∧ (s.stage EX).rs1_value = 2 ∧ s.stage_check 1 1 = 0) := by
  decide!

/-- C11, amended (pipeline without forwarding): `writeback` runs before `decode` in the loop
body, so a value `v` that `writeback` commits to register `r` in cycle N is in `regs[r]`, with
`regs_valid[r] = 1`, when `decode` runs in cycle N. An instruction with two register sources that
`decode` meets in DRF in that cycle with `rs1 = r` (no hold on DRF, no HALT decoded, `rs2` valid)
is not stalled on `r`: it is in EX at the end of cycle N with `rs1_value = v`. -/
theorem C11_commit_read_same_cycle (u : Uninitialised) (cpu : APEX_CPU)
    (hg : cpu.stage_check 4 0 = 0 ∧ cpu.stage_check 4 1 = 0)
    (hw : writesRegister (cpu.stage WB).opcode)
    (hop : ((WithoutDependencies.beforeDecode u cpu).stage DRF).opcode ∈
      [Opcode.ADD, Opcode.SUB, Opcode.MUL, Opcode.AND, Opcode.OR, Opcode.XOR, Opcode.LDR])
    (hrs : ((WithoutDependencies.beforeDecode u cpu).stage DRF).rs1 = (cpu.stage WB).rd)
    (h10 : (WithoutDependencies.beforeDecode u cpu).stage_check 1 0 = 0)
    (hh : (WithoutDependencies.beforeDecode u cpu).halt = 0)
    (hv2 : (WithoutDependencies.beforeDecode u cpu).regs_valid
      ((WithoutDependencies.beforeDecode u cpu).stage DRF).rs2 ≠ 0) :
    (WithoutDependencies.beforeDecode u cpu).regs (cpu.stage WB).rd = (cpu.stage WB).buffer ∧
    (WithoutDependencies.beforeDecode u cpu).regs_valid (cpu.stage WB).rd = 1 ∧
    ((WithoutDependencies.loopBody u cpu).stage EX).opcode =
      ((WithoutDependencies.beforeDecode u cpu).stage DRF).opcode ∧
    ((WithoutDependencies.loopBody u cpu).stage EX).rs1 = (cpu.stage WB).rd ∧
    ((WithoutDependencies.loopBody u cpu).stage EX).rs1_value = (cpu.stage WB).buffer := by
  obtain ⟨hr, hv⟩ := WithoutDependencies.sb_beforeDecode_commit u cpu hg hw
  have hv1 : (WithoutDependencies.beforeDecode u cpu).regs_valid
      ((WithoutDependencies.beforeDecode u cpu).stage DRF).rs1 ≠ 0 := by
    rw [hrs, hv]; decide
  have hd := WithoutDependencies.sb_decode_reads u.drf _ hop h10 hh hv1 hv2
  rw [WithoutDependencies.sb_loopBody_EX, hd]
  exact ⟨hr, hv, rfl, hrs, by simp only [hrs, hr]⟩

/-- Witness of C11 on the run of S5: the eighth pass, from the state after seven passes, commits
`R2 = 2` and issues `ADD R3,R2,R2` with `rs1_value = 2`. -/
theorem C11_commit_read_same_cycle_witness :
    ((S5cycle7.stage_check 4 0 = 0 ∧ S5cycle7.stage_check 4 1 = 0) ∧
      writesRegister (S5cycle7.stage WB).opcode ∧
      ((WithoutDependencies.beforeDecode (zeroJunk 7) S5cycle7).stage DRF).opcode ∈
        [Opcode.ADD, Opcode.SUB, Opcode.MUL, Opcode.AND, Opcode.OR, Opcode.XOR, Opcode.LDR] ∧
      ((WithoutDependencies.beforeDecode (zeroJunk 7) S5cycle7).stage DRF).rs1 =
        (S5cycle7.stage WB).rd ∧
      (WithoutDependencies.beforeDecode (zeroJunk 7) S5cycle7).stage_check 1 0 = 0 ∧
      (WithoutDependencies.beforeDecode (zeroJunk 7) S5cycle7).halt = 0 ∧
      (WithoutDependencies.beforeDecode (zeroJunk 7) S5cycle7).regs_valid
        ((WithoutDependencies.beforeDecode (zeroJunk 7) S5cycle7).stage DRF).rs2 ≠ 0) ∧
    (S5cycle7.stage WB).rd = 2 ∧ (S5cycle7.stage WB).buffer = 2 ∧
    ((WithoutDependencies.loopBody (zeroJunk 7) S5cycle7).stage EX).rs1_value =
      (S5cycle7.stage WB).buffer :=
  ⟨by decide!, by decide!, by decide!,
    (C11_commit_read_same_cycle (zeroJunk 7) S5cycle7 (by decide!) (by decide!) (by decide!)
      (by decide!) (by decide!) (by decide!) (by decide!)).2.2.2.2⟩

/-! ## Scoreboard safety (C12) -/

namespace WithoutDependencies

/-- The scoreboard condition holds in every state that `APEX_cpu_init` and the driver set up. -/
theorem sb_init_scoreboard (raw : APEX_CPU) (prog : List APEX_Instruction)
    (rest : Int → APEX_Instruction) (budget : Int) (mode : String) :
    scoreboardSafe (configure (APEX_cpu_init raw prog rest) budget mode) := by
  refine ⟨⟨rfl, rfl, rfl, rfl, rfl⟩, fun h => absurd rfl h, fun h => ?_, fun r h0 h32 hr => ?_⟩
  · simp [configure, APEX_cpu_init, initCommon, zeroLatch, EX] at h
  · simp [configure, APEX_cpu_init, initCommon, h0, h32, onesWord] at hr

/-- The scoreboard condition holds after any number of passes of the loop body. -/
theorem sb_passes_scoreboard (n : Nat) :
    ∀ (junk : Nat → Uninitialised), (∀ k, inertJunk (junk k)) → ∀ cpu : APEX_CPU,
      scoreboardSafe cpu → scoreboardSafe (passes junk n cpu) := by
  induction n with
  | zero => intro junk _ cpu h; exact h
  | succ n ih =>
    intro junk hj cpu h
    exact ih (fun k => junk (k + 1)) (fun k => hj (k + 1)) _
      (sb_loopBody_scoreboard (junk 0) (hj 0) cpu h)

end WithoutDependencies

/-- Zero-filled uninitialised latches are inert. -/
theorem zeroJunk_inert (k : Nat) : inertJunk (zeroJunk k) :=
  ⟨trivial, trivial, trivial, trivial⟩

/-- C12 as stated fails. The run of `writeTwice` (`MOVC R1,#5; MOVC R1,#6; HALT`) that a budget of
three cycles stops is at a cycle boundary with `regs_valid[1] = 0` and two register-writing
instructions with `rd = 1` in flight: the second MOVC in EX and the first in MEM. -/
theorem C12_two_writers_in_flight : inEveryMode fun mode =>
    EndsWith (WithoutDependencies.APEX_cpu_run zeroJunk 4
      (WithoutDependencies.boot writeTwice 3 mode))
      (fun s => s.clock = 3 ∧ s.regs_valid 1 = 0 ∧ writersInFlight s 1 = 2 ∧
        holds s EX Opcode.MOVC 4004 ∧ (s.stage EX).rd = 1 ∧
        holds s MEM Opcode.MOVC 4000 ∧ (s.stage MEM).rd = 1) := by
  decide!

/-- C12, amended (scoreboard safety, pipeline without forwarding): in every state at a cycle
boundary, reached from the initial state of any program by any number of passes of the loop body
with inert uninitialised latches, every architectural register `r` in `0..31` with
`regs_valid[r] = 0` is the destination of at least one register-writing instruction in the EX, MEM
or WB latch (so among DRF, EX, MEM, WB). There can be more than one: `decode` does not look at the
destination register. -/
theorem C12_scoreboard_safety (junk : Nat → Uninitialised) (hj : ∀ k, inertJunk (junk k))
    (raw : APEX_CPU) (prog : List APEX_Instruction) (rest : Int → APEX_Instruction)
    (budget : Int) (mode : String) (n : Nat) (r : Int) (h0 : 0 ≤ r) (h32 : r < 32)
    (hv : (WithoutDependencies.passes junk n
      (configure (WithoutDependencies.APEX_cpu_init raw prog rest) budget mode)).regs_valid r
        = 0) :
    writerOf (WithoutDependencies.passes junk n
        (configure (WithoutDependencies.APEX_cpu_init raw prog rest) budget mode)) EX r ∨
      writerOf (WithoutDependencies.passes junk n
        (configure (WithoutDependencies.APEX_cpu_init raw prog rest) budget mode)) MEM r ∨
      writerOf (WithoutDependencies.passes junk n
        (configure (WithoutDependencies.APEX_cpu_init raw prog rest) budget mode)) WB r :=
  (WithoutDependencies.sb_passes_scoreboard n junk hj _
    (WithoutDependencies.sb_init_scoreboard raw prog rest budget mode)).2.2.2 r h0 h32 hv

/-- Witness of C12 on scenario S1 after two passes: `R1` is marked invalid and `MOVC R1,#5` is in
EX. -/
theorem C12_scoreboard_safety_witness :
    (∀ k, inertJunk (zeroJunk k)) ∧ (0 : Int) ≤ 1 ∧ (1 : Int) < 32 ∧
    (WithoutDependencies.passes zeroJunk 2
      (configure (WithoutDependencies.APEX_cpu_init zeroCPU S1 (fun _ => zeroInstruction))
        1000 "silent")).regs_valid 1 = 0 ∧
    (writerOf (WithoutDependencies.passes zeroJunk 2
        (configure (WithoutDependencies.APEX_cpu_init zeroCPU S1 (fun _ => zeroInstruction))
          1000 "silent")) EX 1 ∨
      writerOf (WithoutDependencies.passes zeroJunk 2
        (configure (WithoutDependencies.APEX_cpu_init zeroCPU S1 (fun _ => zeroInstruction))
          1000 "silent")) MEM 1 ∨
      writerOf (WithoutDependencies.passes zeroJunk 2
        (configure (WithoutDependencies.APEX_cpu_init zeroCPU S1 (fun _ => zeroInstruction))
          1000 "silent")) WB 1) :=
  ⟨zeroJunk_inert, by decide, by decide, by decide!,
    C12_scoreboard_safety zeroJunk zeroJunk_inert zeroCPU S1 (fun _ => zeroInstruction)
      1000 "silent" 2 1 (by decide) (by decide) (by decide!)⟩

/-! ## The commit counter (C13, C14) -/

namespace WithoutDependencies

end WithoutDependencies

namespace WithDependencies

/-- The loop at the top of `writeback` sets `regs_valid[0 .. n-1]` and nothing else. -/
theorem fw_revalidate_eq (n : Nat) (cpu : APEX_CPU) :
    revalidate n cpu =
      { cpu with regs_valid := fun r => if 0 ≤ r ∧ r < n then 1 else cpu.regs_valid r } := by
  induction n with
  | zero =>
    have : (fun r : Int => if 0 ≤ r ∧ r < ((0 : Nat) : Int) then (1 : Int) else cpu.regs_valid r) =
        cpu.regs_valid := by
      funext r; split
      · omega
      · rfl
    rw [this]; rfl
  | succ n ih =>
    rw [revalidate, ih]
    simp only [APEX_CPU.setValid]
    congr 1
    funext r
    simp only [upd]
    push_cast
    split
    · subst_vars; simp
    · split <;> split <;> first | rfl | omega

@[simp] theorem fw_recordCommit_stage (cpu : APEX_CPU) :
    (recordCommit cpu).stage = cpu.stage := rfl

@[simp] theorem fw_retire_stage (cpu : APEX_CPU) : (retire cpu).stage = cpu.stage := rfl

@[simp] theorem fw_retireLogic_stage (cpu : APEX_CPU) : (retireLogic cpu).stage = cpu.stage := rfl

@[simp] theorem fw_retireArith_stage (cpu : APEX_CPU) : (retireArith cpu).stage = cpu.stage := by
  simp [retireArith, recordCommit, clearMemForward, markWB]

@[simp] theorem fw_retireMulAgain_stage (cpu : APEX_CPU) :
    (retireMulAgain cpu).stage = cpu.stage := rfl

/-- What the guarded part of `writeback` does when its guard holds, field by field. -/
theorem fw_writebackGuarded_eq (Apex : CPU_Stage) (cpu : APEX_CPU)
    (h : cpu.stage_check 4 0 = 0 ∧ cpu.stage_check 4 1 = 0) :
    writebackGuarded Apex cpu =
      { cpu with
        regs := if writesRegister (cpu.stage WB).opcode then
            upd cpu.regs (cpu.stage WB).rd (cpu.stage WB).buffer else cpu.regs
        regs_valid := if writesRegister (cpu.stage WB).opcode then
            upd (upd cpu.regs_valid 0 1) (cpu.stage WB).rd 1 else upd cpu.regs_valid 0 1
        mem_forward := if writesRegister (cpu.stage WB).opcode then
            upd cpu.mem_forward (cpu.stage WB).rd 0 else cpu.mem_forward
        wb_forward := if (cpu.stage WB).opcode ∈
            [Opcode.ADD, Opcode.SUB, Opcode.MUL, Opcode.AND, Opcode.OR, Opcode.XOR] then
            upd cpu.wb_forward (cpu.stage WB).rd 1 else cpu.wb_forward
        zflag := if isArith (cpu.stage WB).opcode then
            (if (cpu.stage WB).buffer = 0 then 1 else 0) else cpu.zflag
        nzflag := if isArith (cpu.stage WB).opcode then
            (if (cpu.stage WB).buffer = 0 then 0 else 1) else cpu.nzflag
        ins_completed := if writesRegister (cpu.stage WB).opcode ∨
            (cpu.stage WB).opcode = Opcode.STORE then Int.tdiv (sub32 (cpu.stage WB).pc 4000) 4
          else cpu.ins_completed
        halt := if (cpu.stage WB).opcode = Opcode.HALT then cpu.halt + 1 else cpu.halt
        stage := fun j => if j = WB then Apex else cpu.stage j } := by
  cases hop : (cpu.stage WB).opcode <;>
    simp only [writebackGuarded, writebackBody, ifOp, hop, h, setFlags_stage, commit_stage,
      bumpHalt_stage, fw_recordCommit_stage, fw_retire_stage, fw_retireLogic_stage,
      fw_retireArith_stage, fw_retireMulAgain_stage, writesRegister, isArith, List.mem_cons,
      List.mem_singleton, reduceCtorEq, or_false, or_true, false_or, true_or, if_true, if_false,
      and_self, List.not_mem_nil, List.mem_nil_iff, APEX_CPU.setValid] <;>
    simp [retire, retireArith, retireLogic, retireMulAgain, recordCommit, clearMemForward,
      markWB, commit, bumpHalt, APEX_CPU.setStage, APEX_CPU.setValid, setFlags] <;>
    split <;> simp [*]

/-- The loop at the top of `memory` moves the EX bypass entries `0 .. n-1` to the MEM bypass and
clears their EX bit, and nothing else. -/
theorem fw_refreshBypass_eq (n : Nat) (cpu : APEX_CPU) :
    refreshBypass n cpu =
      { cpu with
        mem_data := fun r => if 0 ≤ r ∧ r < n then cpu.ex_data r else cpu.mem_data r
        mem_forward := fun r => if 0 ≤ r ∧ r < n then cpu.ex_forward r else cpu.mem_forward r
        ex_forward := fun r => if 0 ≤ r ∧ r < n then 0 else cpu.ex_forward r } := by
  induction n with
  | zero =>
    have h1 : (fun r : Int => if 0 ≤ r ∧ r < ((0 : Nat) : Int) then cpu.ex_data r
        else cpu.mem_data r) = cpu.mem_data := by
      funext r; split
      · omega
      · rfl
    have h2 : (fun r : Int => if 0 ≤ r ∧ r < ((0 : Nat) : Int) then cpu.ex_forward r
        else cpu.mem_forward r) = cpu.mem_forward := by
      funext r; split
      · omega
      · rfl
    have h3 : (fun r : Int => if 0 ≤ r ∧ r < ((0 : Nat) : Int) then (0 : Int)
        else cpu.ex_forward r) = cpu.ex_forward := by
      funext r; split
      · omega
      · rfl
    rw [h1, h2, h3]; rfl
  | succ n ih =>
    rw [refreshBypass, ih]
    simp only [refreshEntry]
    congr 1 <;> funext r <;> simp only [upd] <;> push_cast <;> split
    · subst_vars; simp
    · split <;> split <;> first | rfl | omega
    · subst_vars; simp
    · split <;> split <;> first | rfl | omega
    · subst_vars; simp
    · split <;> split <;> first | rfl | omega

@[simp] theorem fw_loadWord_opcode (cpu : APEX_CPU) (j : Nat) :
    ((loadWord cpu).stage j).opcode = (cpu.stage j).opcode := by
  simp [loadWord]

/-- What the guarded part of `memory` does when its guard holds, field by field. -/
theorem fw_memoryGuarded_eq (Apex : CPU_Stage) (cpu : APEX_CPU)
    (h : cpu.stage_check 3 0 = 0 ∧ cpu.stage_check 3 1 = 0) :
    memoryGuarded Apex cpu =
      { cpu with
        data_memory := if (cpu.stage MEM).opcode = Opcode.STORE then
            upd cpu.data_memory (cpu.stage MEM).mem_address (cpu.stage MEM).rs1_value
          else cpu.data_memory
        halt := if (cpu.stage MEM).opcode = Opcode.HALT then cpu.halt + 1 else cpu.halt
        mem_forward := if (cpu.stage MEM).opcode ∈ [Opcode.LDR, Opcode.LOAD] then
            upd cpu.mem_forward (cpu.stage MEM).rd 1 else cpu.mem_forward
        mem_data := if (cpu.stage MEM).opcode ∈ [Opcode.LDR, Opcode.LOAD] then
            upd cpu.mem_data (cpu.stage MEM).rd
              (cpu.data_memory (Int.tmod (cpu.stage MEM).mem_address 4000))
          else cpu.mem_data
        stage_set := upd2 cpu.stage_set 3 0 1
        stage := fun j =>
          if j = MEM then Apex
          else if j = WB then
            if (cpu.stage MEM).opcode ∈ [Opcode.LDR, Opcode.LOAD] then
              { cpu.stage MEM with
                buffer := cpu.data_memory (Int.tmod (cpu.stage MEM).mem_address 4000) }
            else cpu.stage MEM
          else cpu.stage j } := by
  cases hop : (cpu.stage MEM).opcode <;>
    simp only [memoryGuarded, memoryBody, ifOp, hop, h, bumpHalt_stage, storeWord_stage,
      fw_loadWord_opcode, List.mem_cons, List.mem_singleton, reduceCtorEq, or_false, or_true,
      false_or, true_or, if_true, if_false, and_self, List.not_mem_nil, List.mem_nil_iff] <;>
    simp [loadWord, storeWord, bumpHalt, passToWB, APEX_CPU.setStage, APEX_CPU.setSet,
      APEX_CPU.setBuffer, hop] <;>
    (funext j; split <;> simp [*])

end WithDependencies

namespace WithDependencies

/-- `writeback` on a state whose guard holds, as `fw_writebackGuarded_eq` on the state that the
loop at the top of `writeback` leaves. -/
theorem fw_writeback_eq (Apex : CPU_Stage) (cpu : APEX_CPU)
    (h : cpu.stage_check 4 0 = 0 ∧ cpu.stage_check 4 1 = 0) :
    writeback Apex cpu = writebackGuarded Apex
      { cpu with regs_valid := fun r => if 0 ≤ r ∧ r < (16 : Nat) then 1 else cpu.regs_valid r } ∧
    ({ cpu with regs_valid := fun r => if 0 ≤ r ∧ r < (16 : Nat) then 1 else cpu.regs_valid r } :
      APEX_CPU).stage_check 4 0 = 0 ∧
    ({ cpu with regs_valid := fun r => if 0 ≤ r ∧ r < (16 : Nat) then 1 else cpu.regs_valid r } :
      APEX_CPU).stage_check 4 1 = 0 := by
  refine ⟨?_, h.1, h.2⟩
  rw [writeback, fw_revalidate_eq]

/-- What `writeback` does to `ins_completed` when its guard holds. -/
theorem fw_writeback_completed (Apex : CPU_Stage) (cpu : APEX_CPU)
    (h : cpu.stage_check 4 0 = 0 ∧ cpu.stage_check 4 1 = 0) :
    (writeback Apex cpu).ins_completed =
      if writesRegister (cpu.stage WB).opcode ∨ (cpu.stage WB).opcode = Opcode.STORE then
        Int.tdiv (sub32 (cpu.stage WB).pc 4000) 4
      else cpu.ins_completed := by
  obtain ⟨h1, h2, h3⟩ := fw_writeback_eq Apex cpu h
  rw [h1, fw_writebackGuarded_eq _ _ ⟨h2, h3⟩]

end WithDependencies

/-- C14 fails on the code. `writeback` of the pipeline with forwarding, for a latch with `pc = p`
and one of the opcodes MOVC, LOAD, LDR, STORE, ADD, SUB, MUL, AND, OR, XOR, stores
`(p - 4000) / 4`, the index of the instruction, in `ins_completed`, not the index plus one. On the
one-instruction program `MOVC R1,#5` the commit leaves `ins_completed = 0`, the exit test
`ins_completed == code_memory_size` never holds and the run lasts until the cycle budget (40
here); the pipeline without forwarding counts the commit and stops after 5 cycles. -/
theorem C14_commit_stores_index :
    (∀ (Apex : CPU_Stage) (cpu : APEX_CPU),
      cpu.stage_check 4 0 = 0 ∧ cpu.stage_check 4 1 = 0 →
      writesRegister (cpu.stage WB).opcode ∨ (cpu.stage WB).opcode = Opcode.STORE →
      (WithDependencies.writeback Apex cpu).ins_completed =
        Int.tdiv (sub32 (cpu.stage WB).pc 4000) 4) ∧
    inEveryMode fun mode =>
      EndsWith (WithDependencies.APEX_cpu_run zeroJunk 41 (WithDependencies.boot oneMOVC 40 mode))
        (fun s => s.clock = 40 ∧ s.ins_completed = 0 ∧ s.code_memory_size = 1 ∧ s.regs 1 = 5 ∧
          s.halt = 0) ∧
      EndsWith (WithoutDependencies.APEX_cpu_run zeroJunk 41
          (WithoutDependencies.boot oneMOVC 40 mode))
        (fun s => s.clock = 5 ∧ s.ins_completed = 1 ∧ s.code_memory_size = 1 ∧ s.regs 1 = 5) := by
  refine ⟨fun Apex cpu h hw => ?_, by decide!⟩
  rw [WithDependencies.fw_writeback_completed Apex cpu h, if_pos hw]

/-! ## Register file, flags and data memory, stage by stage (C15 to C18) -/

/-- An integer in the 32-bit range is its own 32-bit reduction. -/
theorem wrap32_of_range (x : Int) (h0 : -2147483648 ≤ x) (h1 : x < 2147483648) :
    wrap32 x = x := by
  unfold wrap32 ofU32 toU32
  split <;> omega

namespace WithoutDependencies

/-- `memory` changes the data memory for a STORE only. -/
theorem sb_memory_data (Apex : CPU_Stage) (cpu : APEX_CPU)
    (h : (cpu.stage MEM).opcode ≠ Opcode.STORE) :
    (memory Apex cpu).data_memory = cpu.data_memory := by
  by_cases hg : cpu.stage_check 3 0 = 0 ∧ cpu.stage_check 3 1 = 0
  · rw [sb_memory_eq Apex cpu hg]; simp [h]
  · simp [memory, hg]

/-- `writeback` leaves the data memory alone. -/
theorem sb_writeback_data (Apex : CPU_Stage) (cpu : APEX_CPU) :
    (writeback Apex cpu).data_memory = cpu.data_memory := by
  by_cases hg : cpu.stage_check 4 0 = 0 ∧ cpu.stage_check 4 1 = 0
  · rw [sb_writeback_eq Apex cpu hg]
  · simp [writeback, hg]

/-- STORE in `execute`: the latch that reaches MEM. -/
theorem sb_execute_store (Apex : CPU_Stage) (cpu : APEX_CPU)
    (hg : cpu.stage_check 2 0 = 0 ∧ cpu.stage_check 2 1 = 0)
    (hop : (cpu.stage EX).opcode = Opcode.STORE) :
    (execute Apex cpu).stage MEM =
      { cpu.stage EX with mem_address := add32 (cpu.stage EX).rs2_value (cpu.stage EX).imm } := by
  simp only [execute, hg, and_self, if_true, sb_executeFirst_eq, executeBlock, hop]
  simp [passToMEM, storeAddress, APEX_CPU.setMemAddress, APEX_CPU.setStage, APEX_CPU.setSet,
    hg.1, hop]

end WithoutDependencies

namespace WithDependencies

/-- The fields that the loop at the top of `memory` leaves alone. -/
theorem fw_refreshBypass_frame (n : Nat) (cpu : APEX_CPU) :
    (refreshBypass n cpu).regs = cpu.regs ∧ (refreshBypass n cpu).zflag = cpu.zflag ∧
    (refreshBypass n cpu).nzflag = cpu.nzflag ∧
    (refreshBypass n cpu).data_memory = cpu.data_memory ∧
    (refreshBypass n cpu).stage = cpu.stage ∧
    (refreshBypass n cpu).stage_check = cpu.stage_check := by
  rw [fw_refreshBypass_eq]; exact ⟨rfl, rfl, rfl, rfl, rfl, rfl⟩

/-- The fields that the loop at the top of `writeback` leaves alone. -/
theorem fw_revalidate_frame (n : Nat) (cpu : APEX_CPU) :
    (revalidate n cpu).regs = cpu.regs ∧ (revalidate n cpu).zflag = cpu.zflag ∧
    (revalidate n cpu).nzflag = cpu.nzflag ∧
    (revalidate n cpu).data_memory = cpu.data_memory ∧
    (revalidate n cpu).stage = cpu.stage ∧
    (revalidate n cpu).stage_check = cpu.stage_check ∧
    (revalidate n cpu).mem_forward = cpu.mem_forward ∧
    (revalidate n cpu).ins_completed = cpu.ins_completed := by
  rw [fw_revalidate_eq]; exact ⟨rfl, rfl, rfl, rfl, rfl, rfl, rfl, rfl⟩

/-- `memory` leaves the register file and the flags alone. -/
theorem fw_memory_registers (Apex : CPU_Stage) (cpu : APEX_CPU) :
    (memory Apex cpu).regs = cpu.regs ∧ (memory Apex cpu).zflag = cpu.zflag ∧
    (memory Apex cpu).nzflag = cpu.nzflag := by
  obtain ⟨h1, h2, h3, -⟩ := fw_refreshBypass_frame 16 cpu
  unfold memory
  rw [← h1, ← h2, ← h3]
  by_cases hg : (refreshBypass 16 cpu).stage_check 3 0 = 0 ∧
      (refreshBypass 16 cpu).stage_check 3 1 = 0
  · rw [fw_memoryGuarded_eq _ _ hg]; exact ⟨rfl, rfl, rfl⟩
  · simp [memoryGuarded, hg]

/-- `memory` changes the data memory for a STORE only. -/
theorem fw_memory_data (Apex : CPU_Stage) (cpu : APEX_CPU)
    (h : (cpu.stage MEM).opcode ≠ Opcode.STORE) :
    (memory Apex cpu).data_memory = cpu.data_memory := by
  obtain ⟨-, -, -, h1, h2, -⟩ := fw_refreshBypass_frame 16 cpu
  unfold memory
  rw [← h1]
  rw [← h2] at h
  by_cases hg : (refreshBypass 16 cpu).stage_check 3 0 = 0 ∧
      (refreshBypass 16 cpu).stage_check 3 1 = 0
  · rw [fw_memoryGuarded_eq _ _ hg]; simp [h]
  · simp [memoryGuarded, hg]

/-- STORE in `memory`. -/
theorem fw_memory_store (Apex : CPU_Stage) (cpu : APEX_CPU)
    (hg : cpu.stage_check 3 0 = 0 ∧ cpu.stage_check 3 1 = 0)
    (h : (cpu.stage MEM).opcode = Opcode.STORE) :
    (memory Apex cpu).data_memory =
      upd cpu.data_memory (cpu.stage MEM).mem_address (cpu.stage MEM).rs1_value := by
  obtain ⟨-, -, -, h1, h2, h3⟩ := fw_refreshBypass_frame 16 cpu
  unfold memory
  rw [← h1, ← h2]
  rw [← h2] at h
  rw [← h3] at hg
  rw [fw_memoryGuarded_eq _ _ hg]; simp [h]

/-- `writeback` on any state: the data memory stays; the register file and the flags stay when
the guard fails. -/
theorem fw_writeback_data (Apex : CPU_Stage) (cpu : APEX_CPU) :
    (writeback Apex cpu).data_memory = cpu.data_memory ∧
    (¬ (cpu.stage_check 4 0 = 0 ∧ cpu.stage_check 4 1 = 0) →
      (writeback Apex cpu).regs = cpu.regs ∧ (writeback Apex cpu).zflag = cpu.zflag ∧
      (writeback Apex cpu).nzflag = cpu.nzflag) := by
  obtain ⟨h1, h2, h3, h4, -, h6, -⟩ := fw_revalidate_frame 16 cpu
  unfold writeback
  rw [← h1, ← h2, ← h3, ← h4, ← h6]
  by_cases hg : (revalidate 16 cpu).stage_check 4 0 = 0 ∧ (revalidate 16 cpu).stage_check 4 1 = 0
  · rw [fw_writebackGuarded_eq _ _ hg]; exact ⟨rfl, fun h => absurd hg h⟩
  · simp [writebackGuarded, hg]

/-- STORE in `execute`: the latch that reaches MEM, when the uninitialised latch that replaces the
EX latch does not read as a HALT. -/
theorem fw_execute_store (Apex : CPU_Stage) (cpu : APEX_CPU)
    (hg : cpu.stage_check 2 0 = 0 ∧ cpu.stage_check 2 1 = 0)
    (hop : (cpu.stage EX).opcode = Opcode.STORE) (hA : Apex.opcode ≠ Opcode.HALT) :
    (execute Apex cpu).stage MEM =
      { cpu.stage EX with mem_address := add32 (cpu.stage EX).rs2_value (cpu.stage EX).imm } := by
  have h1 : executeFirst Apex cpu = passToMEM Apex (storeAddress cpu) := by
    simp only [executeFirst, ifOp, hop, storeAddress, setMemAddress_opcode, List.mem_cons,
      List.mem_singleton, reduceCtorEq, or_false, or_true, false_or, true_or, if_false, if_true,
      List.not_mem_nil, List.mem_nil_iff]
  have h2 : executeArms Apex cpu =
      (((storeAddress cpu).setStage MEM ((storeAddress cpu).stage EX)).setSet 2 0 1).setStage
        EX Apex := by
    simp only [executeArms, hg, and_self, if_true, h1, passToMEM]
    have : (storeAddress cpu).stage_check 2 0 = 0 := hg.1
    simp only [this, if_true]
  simp only [execute, ifOp, h2]
  simp [APEX_CPU.setStage, APEX_CPU.setSet, hA, storeAddress, APEX_CPU.setMemAddress]

end WithDependencies

namespace WithDependencies

/-- What `writeback` does to the register file, the scoreboard, the MEM bypass bits and the flags
when its guard holds. -/
theorem fw_writeback_commit (Apex : CPU_Stage) (cpu : APEX_CPU)
    (h : cpu.stage_check 4 0 = 0 ∧ cpu.stage_check 4 1 = 0) :
    (writeback Apex cpu).regs =
      (if writesRegister (cpu.stage WB).opcode then
        upd cpu.regs (cpu.stage WB).rd (cpu.stage WB).buffer else cpu.regs) ∧
    (writesRegister (cpu.stage WB).opcode →
      (writeback Apex cpu).regs_valid (cpu.stage WB).rd = 1 ∧
      (writeback Apex cpu).mem_forward (cpu.stage WB).rd = 0) ∧
    (writeback Apex cpu).zflag =
      (if isArith (cpu.stage WB).opcode then (if (cpu.stage WB).buffer = 0 then 1 else 0)
        else cpu.zflag) ∧
    (writeback Apex cpu).nzflag =
      (if isArith (cpu.stage WB).opcode then (if (cpu.stage WB).buffer = 0 then 0 else 1)
        else cpu.nzflag) := by
  obtain ⟨h1, h2, h3, -, h5, h6, h7, -⟩ := fw_revalidate_frame 16 cpu
  rw [← h6] at h
  unfold writeback
  rw [fw_writebackGuarded_eq _ _ h, h1, h2, h3, h5, h7]
  refine ⟨rfl, fun hw => ?_, rfl, rfl⟩
  simp [hw]

end WithDependencies

/-- C15 (register-file frame). In both variants, for every CPU state and every content of the
uninitialised latch, `fetch`, `decode`, `execute` and `memory` return a state with the same
register file `regs` (every entry, so `regs[0..31]`); `writeback` is the stage that can change it
(it does on a MOVC latch). -/
theorem C15_regs_written_by_writeback_only (Apex : CPU_Stage) (cpu : APEX_CPU) :
    ((WithoutDependencies.fetch Apex cpu).regs = cpu.regs ∧
      (WithoutDependencies.decode Apex cpu).regs = cpu.regs ∧
      (WithoutDependencies.execute Apex cpu).regs = cpu.regs ∧
      (WithoutDependencies.memory Apex cpu).regs = cpu.regs) ∧
    ((WithDependencies.fetch cpu).regs = cpu.regs ∧
      (WithDependencies.decode cpu).regs = cpu.regs ∧
      (WithDependencies.execute Apex cpu).regs = cpu.regs ∧
      (WithDependencies.memory Apex cpu).regs = cpu.regs) ∧
    (∃ c : APEX_CPU, (WithoutDependencies.writeback Apex c).regs 3 ≠ c.regs 3 ∧
      (WithDependencies.writeback Apex c).regs 3 ≠ c.regs 3) := by
  refine ⟨⟨?_, ?_, ?_, (WithoutDependencies.sb_memory_registers Apex cpu).1⟩,
    ⟨?_, ?_, ?_, (WithDependencies.fw_memory_registers Apex cpu).1⟩,
    ⟨withLatch WB addLatch, ?_, ?_⟩⟩
  · exact congrArg Prod.fst (WithoutDependencies.sb_fetch_architectural Apex cpu)
  · exact congrArg Prod.fst (WithoutDependencies.sb_decode_architectural Apex cpu)
  · exact congrArg Prod.fst (WithoutDependencies.sb_execute_architectural Apex cpu)
  · exact congrArg Prod.fst (WithDependencies.fw_fetch_architectural cpu)
  · exact congrArg Prod.fst (WithDependencies.fw_decode_architectural cpu)
  · exact congrArg Prod.fst (WithDependencies.fw_execute_architectural Apex cpu)
  · rw [WithoutDependencies.sb_writeback_eq Apex _ ⟨rfl, rfl⟩]
    simp [withLatch, addLatch, APEX_CPU.setStage, writesRegister, zeroCPU, zeroLatch]
  · rw [(WithDependencies.fw_writeback_commit Apex _ ⟨rfl, rfl⟩).1]
    simp [withLatch, addLatch, APEX_CPU.setStage, writesRegister, zeroCPU, zeroLatch]

/-- C16 (writeback and the register file). In both variants, when no WB stall bit is set, a WB
latch with opcode MOVC, LOAD, LDR, ADD, SUB, MUL, AND, OR or XOR, destination `d` and buffer `v`
gives `regs[d] = v`, `regs_valid[d] = 1` and `regs[r]` unchanged for `r ≠ d` (and
`mem_forward[d] = 0` in the pipeline with forwarding). For a WB latch with opcode STORE, HALT, BZ,
BNZ, JUMP or NOP, stall bit or not, `regs` is unchanged. -/
theorem C16_writeback_commits (Apex : CPU_Stage) (cpu : APEX_CPU) :
    (cpu.stage_check 4 0 = 0 ∧ cpu.stage_check 4 1 = 0 →
      writesRegister (cpu.stage WB).opcode →
      ((WithoutDependencies.writeback Apex cpu).regs (cpu.stage WB).rd = (cpu.stage WB).buffer ∧
        (WithoutDependencies.writeback Apex cpu).regs_valid (cpu.stage WB).rd = 1 ∧
        ∀ r, r ≠ (cpu.stage WB).rd →
          (WithoutDependencies.writeback Apex cpu).regs r = cpu.regs r) ∧
      ((WithDependencies.writeback Apex cpu).regs (cpu.stage WB).rd = (cpu.stage WB).buffer ∧
        (WithDependencies.writeback Apex cpu).regs_valid (cpu.stage WB).rd = 1 ∧
        (WithDependencies.writeback Apex cpu).mem_forward (cpu.stage WB).rd = 0 ∧
        ∀ r, r ≠ (cpu.stage WB).rd →
          (WithDependencies.writeback Apex cpu).regs r = cpu.regs r)) ∧
    ((cpu.stage WB).opcode ∈ [Opcode.STORE, Opcode.HALT, Opcode.BZ, Opcode.BNZ, Opcode.JUMP,
        Opcode.NOP] →
      (WithoutDependencies.writeback Apex cpu).regs = cpu.regs ∧
      (WithDependencies.writeback Apex cpu).regs = cpu.regs) := by
  constructor
  · intro h hw
    obtain ⟨f1, f2, -, -⟩ := WithDependencies.fw_writeback_commit Apex cpu h
    rw [WithoutDependencies.sb_writeback_eq Apex cpu h, f1]
    simp only [hw, if_true, upd_same, true_and]
    exact ⟨fun r hr => upd_ne _ _ _ _ hr, (f2 hw).1, (f2 hw).2, fun r hr => upd_ne _ _ _ _ hr⟩
  · intro hop
    have hw : ¬ writesRegister (cpu.stage WB).opcode := by
      simp only [List.mem_cons, List.mem_singleton, List.mem_nil_iff, or_false] at hop
      rcases hop with h | h | h | h | h | h <;> simp [writesRegister, h]
    by_cases h : cpu.stage_check 4 0 = 0 ∧ cpu.stage_check 4 1 = 0
    · rw [WithoutDependencies.sb_writeback_eq Apex cpu h,
        (WithDependencies.fw_writeback_commit Apex cpu h).1]
      simp [hw]
    · exact ⟨by simp [WithoutDependencies.writeback, h],
        ((WithDependencies.fw_writeback_data Apex cpu).2 h).1⟩

/-- Witness of C16: an `ADD` latch with destination `R3` and buffer 12 in WB, no stall bit set. -/
theorem C16_writeback_commits_witness :
    ((withLatch WB addLatch).stage_check 4 0 = 0 ∧ (withLatch WB addLatch).stage_check 4 1 = 0) ∧
    writesRegister ((withLatch WB addLatch).stage WB).opcode ∧
    (WithoutDependencies.writeback zeroLatch (withLatch WB addLatch)).regs 3 = 12 ∧
    (WithDependencies.writeback zeroLatch (withLatch WB addLatch)).regs 3 = 12 :=
  ⟨⟨rfl, rfl⟩, by decide,
    ((C16_writeback_commits zeroLatch (withLatch WB addLatch)).1 ⟨rfl, rfl⟩ (by decide)).1.1,
    ((C16_writeback_commits zeroLatch (withLatch WB addLatch)).1 ⟨rfl, rfl⟩ (by decide)).2.1⟩

/-- C17 (flags). In both variants, when no WB stall bit is set, `writeback` of an ADD, SUB or MUL
latch with buffer `v` gives `zflag = 1, nzflag = 0` when `v = 0` and `zflag = 0, nzflag = 1`
otherwise; `writeback` of any other opcode, and every call of `fetch`, `decode`, `execute` and
`memory`, leaves `zflag` and `nzflag` unchanged. -/
theorem C17_flags (Apex : CPU_Stage) (cpu : APEX_CPU) :
    (cpu.stage_check 4 0 = 0 ∧ cpu.stage_check 4 1 = 0 → isArith (cpu.stage WB).opcode →
      ((cpu.stage WB).buffer = 0 →
        (WithoutDependencies.writeback Apex cpu).zflag = 1 ∧
        (WithoutDependencies.writeback Apex cpu).nzflag = 0 ∧
        (WithDependencies.writeback Apex cpu).zflag = 1 ∧
        (WithDependencies.writeback Apex cpu).nzflag = 0) ∧
      ((cpu.stage WB).buffer ≠ 0 →
        (WithoutDependencies.writeback Apex cpu).zflag = 0 ∧
        (WithoutDependencies.writeback Apex cpu).nzflag = 1 ∧
        (WithDependencies.writeback Apex cpu).zflag = 0 ∧
        (WithDependencies.writeback Apex cpu).nzflag = 1)) ∧
    (¬ isArith (cpu.stage WB).opcode →
      (WithoutDependencies.writeback Apex cpu).zflag = cpu.zflag ∧
      (WithoutDependencies.writeback Apex cpu).nzflag = cpu.nzflag ∧
      (WithDependencies.writeback Apex cpu).zflag = cpu.zflag ∧
      (WithDependencies.writeback Apex cpu).nzflag = cpu.nzflag) ∧
    ((WithoutDependencies.fetch Apex cpu).zflag = cpu.zflag ∧
      (WithoutDependencies.fetch Apex cpu).nzflag = cpu.nzflag ∧
      (WithoutDependencies.decode Apex cpu).zflag = cpu.zflag ∧
      (WithoutDependencies.decode Apex cpu).nzflag = cpu.nzflag ∧
      (WithoutDependencies.execute Apex cpu).zflag = cpu.zflag ∧
      (WithoutDependencies.execute Apex cpu).nzflag = cpu.nzflag ∧
      (WithoutDependencies.memory Apex cpu).zflag = cpu.zflag ∧
      (WithoutDependencies.memory Apex cpu).nzflag = cpu.nzflag) ∧
    ((WithDependencies.fetch cpu).zflag = cpu.zflag ∧
      (WithDependencies.fetch cpu).nzflag = cpu.nzflag ∧
      (WithDependencies.decode cpu).zflag = cpu.zflag ∧
      (WithDependencies.decode cpu).nzflag = cpu.nzflag ∧
      (WithDependencies.execute Apex cpu).zflag = cpu.zflag ∧
      (WithDependencies.execute Apex cpu).nzflag = cpu.nzflag ∧
      (WithDependencies.memory Apex cpu).zflag = cpu.zflag ∧
      (WithDependencies.memory Apex cpu).nzflag = cpu.nzflag) := by
  have a1 := WithoutDependencies.sb_fetch_architectural Apex cpu
  have a2 := WithoutDependencies.sb_decode_architectural Apex cpu
  have a3 := WithoutDependencies.sb_execute_architectural Apex cpu
  have b1 := WithDependencies.fw_fetch_architectural cpu
  have b2 := WithDependencies.fw_decode_architectural cpu
  have b3 := WithDependencies.fw_execute_architectural Apex cpu
  simp only [architectural, Prod.mk.injEq] at a1 a2 a3 b1 b2 b3
  obtain ⟨-, -, m3, m4, -⟩ := WithoutDependencies.sb_memory_registers Apex cpu
  obtain ⟨-, n2, n3⟩ := WithDependencies.fw_memory_registers Apex cpu
  refine ⟨fun h ha => ?_, fun ha => ?_,
    ⟨a1.2.1, a1.2.2.1, a2.2.1, a2.2.2.1, a3.2.1, a3.2.2.1, m3, m4⟩,
    ⟨b1.2.1, b1.2.2.1, b2.2.1, b2.2.2.1, b3.2.1, b3.2.2.1, n2, n3⟩⟩
  · obtain ⟨-, -, f3, f4⟩ := WithDependencies.fw_writeback_commit Apex cpu h
    rw [WithoutDependencies.sb_writeback_eq Apex cpu h, f3, f4]
    constructor <;> intro hb <;> simp [ha, hb]
  · by_cases h : cpu.stage_check 4 0 = 0 ∧ cpu.stage_check 4 1 = 0
    · obtain ⟨-, -, f3, f4⟩ := WithDependencies.fw_writeback_commit Apex cpu h
      rw [WithoutDependencies.sb_writeback_eq Apex cpu h, f3, f4]
      simp [ha]
    · obtain ⟨-, g2, g3⟩ := (WithDependencies.fw_writeback_data Apex cpu).2 h
      exact ⟨by simp [WithoutDependencies.writeback, h], by simp [WithoutDependencies.writeback, h],
        g2, g3⟩

/-- Witness of C17: an `ADD` latch with buffer 12 in WB, no stall bit set. -/
theorem C17_flags_witness :
    ((withLatch WB addLatch).stage_check 4 0 = 0 ∧ (withLatch WB addLatch).stage_check 4 1 = 0) ∧
    isArith ((withLatch WB addLatch).stage WB).opcode ∧
    ((withLatch WB addLatch).stage WB).buffer ≠ 0 ∧
    (WithoutDependencies.writeback zeroLatch (withLatch WB addLatch)).zflag = 0 ∧
    (WithoutDependencies.writeback zeroLatch (withLatch WB addLatch)).nzflag = 1 ∧
    (WithDependencies.writeback zeroLatch (withLatch WB addLatch)).zflag = 0 ∧
    (WithDependencies.writeback zeroLatch (withLatch WB addLatch)).nzflag = 1 :=
  ⟨⟨rfl, rfl⟩, by decide, by decide,
    ((C17_flags zeroLatch (withLatch WB addLatch)).1 ⟨rfl, rfl⟩ (by decide)).2 (by decide)⟩

/-- C18 (STORE and the data memory). In both variants: a STORE latch in EX with `rs1_value = v`,
`rs2_value = b`, literal `i` and `0 <= b + i < 4000`, when no EX stall bit is set, reaches MEM
with `mem_address = b + i` and `rs1_value = v` (in the pipeline with forwarding when the
uninitialised latch that replaces the EX latch does not read as a HALT); `memory`, for a STORE
latch in MEM with `mem_address = a` and `rs1_value = v`, when no MEM stall bit is set, gives
`data_memory[a] = v` and leaves every other cell unchanged; `fetch`, `decode`, `execute` and
`writeback` never change the data memory, and `memory` does not change it for an opcode other
than STORE. -/
theorem C18_store_writes_memory (Apex : CPU_Stage) (cpu : APEX_CPU) :
    (cpu.stage_check 2 0 = 0 ∧ cpu.stage_check 2 1 = 0 →
      (cpu.stage EX).opcode = Opcode.STORE →
      0 ≤ (cpu.stage EX).rs2_value + (cpu.stage EX).imm →
      (cpu.stage EX).rs2_value + (cpu.stage EX).imm < 4000 →
      (((WithoutDependencies.execute Apex cpu).stage MEM).opcode = Opcode.STORE ∧
        ((WithoutDependencies.execute Apex cpu).stage MEM).mem_address =
          (cpu.stage EX).rs2_value + (cpu.stage EX).imm ∧
        ((WithoutDependencies.execute Apex cpu).stage MEM).rs1_value =
          (cpu.stage EX).rs1_value) ∧
      (Apex.opcode ≠ Opcode.HALT →
        ((WithDependencies.execute Apex cpu).stage MEM).opcode = Opcode.STORE ∧
        ((WithDependencies.execute Apex cpu).stage MEM).mem_address =
          (cpu.stage EX).rs2_value + (cpu.stage EX).imm ∧
        ((WithDependencies.execute Apex cpu).stage MEM).rs1_value =
          (cpu.stage EX).rs1_value)) ∧
    (cpu.stage_check 3 0 = 0 ∧ cpu.stage_check 3 1 = 0 →
      (cpu.stage MEM).opcode = Opcode.STORE →
      ((WithoutDependencies.memory Apex cpu).data_memory (cpu.stage MEM).mem_address =
          (cpu.stage MEM).rs1_value ∧
        ∀ j, j ≠ (cpu.stage MEM).mem_address →
          (WithoutDependencies.memory Apex cpu).data_memory j = cpu.data_memory j) ∧
      ((WithDependencies.memory Apex cpu).data_memory (cpu.stage MEM).mem_address =
          (cpu.stage MEM).rs1_value ∧
        ∀ j, j ≠ (cpu.stage MEM).mem_address →
          (WithDependencies.memory Apex cpu).data_memory j = cpu.data_memory j)) ∧
    ((WithoutDependencies.fetch Apex cpu).data_memory = cpu.data_memory ∧
      (WithoutDependencies.decode Apex cpu).data_memory = cpu.data_memory ∧
      (WithoutDependencies.execute Apex cpu).data_memory = cpu.data_memory ∧
      (WithoutDependencies.writeback Apex cpu).data_memory = cpu.data_memory ∧
      ((cpu.stage MEM).opcode ≠ Opcode.STORE →
        (WithoutDependencies.memory Apex cpu).data_memory = cpu.data_memory)) ∧
    ((WithDependencies.fetch cpu).data_memory = cpu.data_memory ∧
      (WithDependencies.decode cpu).data_memory = cpu.data_memory ∧
      (WithDependencies.execute Apex cpu).data_memory = cpu.data_memory ∧
      (WithDependencies.writeback Apex cpu).data_memory = cpu.data_memory ∧
      ((cpu.stage MEM).opcode ≠ Opcode.STORE →
        (WithDependencies.memory Apex cpu).data_memory = cpu.data_memory)) := by
  have a1 := WithoutDependencies.sb_fetch_architectural Apex cpu
  have a2 := WithoutDependencies.sb_decode_architectural Apex cpu
  have a3 := WithoutDependencies.sb_execute_architectural Apex cpu
  have b1 := WithDependencies.fw_fetch_architectural cpu
  have b2 := WithDependencies.fw_decode_architectural cpu
  have b3 := WithDependencies.fw_execute_architectural Apex cpu
  simp only [architectural, Prod.mk.injEq] at a1 a2 a3 b1 b2 b3
  refine ⟨fun hg hop h0 h1 => ?_, fun hg hop => ?_,
    ⟨a1.2.2.2, a2.2.2.2, a3.2.2.2, WithoutDependencies.sb_writeback_data Apex cpu,
      WithoutDependencies.sb_memory_data Apex cpu⟩,
    ⟨b1.2.2.2, b2.2.2.2, b3.2.2.2, (WithDependencies.fw_writeback_data Apex cpu).1,
      WithDependencies.fw_memory_data Apex cpu⟩⟩
  · have hw : add32 (cpu.stage EX).rs2_value (cpu.stage EX).imm =
        (cpu.stage EX).rs2_value + (cpu.stage EX).imm :=
      wrap32_of_range _ (by omega) (by omega)
    refine ⟨?_, fun hA => ?_⟩
    · rw [WithoutDependencies.sb_execute_store Apex cpu hg hop]
      exact ⟨hop, hw, rfl⟩
    · rw [WithDependencies.fw_execute_store Apex cpu hg hop hA]
      exact ⟨hop, hw, rfl⟩
  · rw [WithoutDependencies.sb_memory_eq Apex cpu hg,
      WithDependencies.fw_memory_store Apex cpu hg hop]
    simp only [hop, if_true, upd_same, true_and]
    exact ⟨fun j hj => upd_ne _ _ _ _ hj, fun j hj => upd_ne _ _ _ _ hj⟩

/-- Witness of C18: the STORE latch with value 42, base 10 and literal 6, in EX and in MEM. -/
theorem C18_store_writes_memory_witness :
    ((withLatch EX storeLatch).stage_check 2 0 = 0 ∧
      (withLatch EX storeLatch).stage_check 2 1 = 0) ∧
    ((withLatch EX storeLatch).stage EX).opcode = Opcode.STORE ∧
    ((WithoutDependencies.execute zeroLatch (withLatch EX storeLatch)).stage MEM).mem_address
      = 16 ∧
    ((WithDependencies.execute zeroLatch (withLatch EX storeLatch)).stage MEM).mem_address
      = 16 ∧
    (WithoutDependencies.memory zeroLatch (withLatch MEM storeLatch)).data_memory 16 = 42 ∧
    (WithDependencies.memory zeroLatch (withLatch MEM storeLatch)).data_memory 16 = 42 :=
  ⟨⟨rfl, rfl⟩, rfl,
    ((C18_store_writes_memory zeroLatch (withLatch EX storeLatch)).1 ⟨rfl, rfl⟩ rfl
      (by decide) (by decide)).1.2.1,
    (((C18_store_writes_memory zeroLatch (withLatch EX storeLatch)).1 ⟨rfl, rfl⟩ rfl
      (by decide) (by decide)).2 (by decide)).2.1,
    ((C18_store_writes_memory zeroLatch (withLatch MEM storeLatch)).2.1 ⟨rfl, rfl⟩ rfl).1.1,
    ((C18_store_writes_memory zeroLatch (withLatch MEM storeLatch)).2.1 ⟨rfl, rfl⟩ rfl).2.1⟩

/-! ## Data-memory reads and code fetch out of range (C19, C20) -/

/-- C19 fails on the code. For a LOAD or LDR latch in MEM (no MEM stall bit set), `memory` of the
pipeline without forwarding sets `buffer = data_memory[mem_address]`, with no reduction of the
index, and `memory` of the pipeline with forwarding sets
`buffer = data_memory[mem_address % 4000]` with the C remainder, which is -1 for address -1. On
`loadPastEnd` the pipeline without forwarding loads the word behind the array (99 here, where
`data_memory[0]` is 0); on `loadBelowStart` the pipeline with forwarding loads the word in front
of the array (99 here, where `data_memory[3999]` is 0). -/
theorem C19_load_index_not_reduced :
    (∀ (Apex : CPU_Stage) (cpu : APEX_CPU),
      cpu.stage_check 3 0 = 0 ∧ cpu.stage_check 3 1 = 0 →
      (cpu.stage MEM).opcode ∈ [Opcode.LOAD, Opcode.LDR] →
      ((WithoutDependencies.memory Apex cpu).stage WB).buffer =
        cpu.data_memory (cpu.stage MEM).mem_address ∧
      ((WithDependencies.memory Apex cpu).stage WB).buffer =
        cpu.data_memory (Int.tmod (cpu.stage MEM).mem_address 4000)) ∧
    Int.tmod (-1) 4000 = -1 ∧
    inEveryMode fun mode =>
      EndsWith (WithoutDependencies.APEX_cpu_run zeroJunk 41
          (configure (WithoutDependencies.APEX_cpu_init blockOf99 loadPastEnd
            (fun _ => zeroInstruction)) 40 mode))
        (fun s => s.halt = 4 ∧ s.regs 1 = 4000 ∧ s.regs 2 = 99 ∧ s.data_memory 0 = 0 ∧
          s.data_memory 4000 = 99) ∧
      EndsWith (WithDependencies.APEX_cpu_run zeroJunk 41
          (configure (WithDependencies.APEX_cpu_init blockOf99 loadBelowStart
            (fun _ => zeroInstruction)) 40 mode))
        (fun s => s.halt = 4 ∧ s.regs 3 = -1 ∧ s.regs 4 = 99 ∧ s.data_memory 3999 = 0 ∧
          s.data_memory (-1) = 99) := by
  refine ⟨fun Apex cpu hg hop => ?_, by decide, by decide!⟩
  have hop2 : (cpu.stage MEM).opcode ∈ [Opcode.LDR, Opcode.LOAD] := by
    simp only [List.mem_cons, List.mem_singleton, List.mem_nil_iff, or_false] at hop ⊢
    exact hop.symm
  obtain ⟨-, -, -, h1, h2, h3⟩ := WithDependencies.fw_refreshBypass_frame 16 cpu
  have hg2 := hg
  rw [← h3] at hg2
  rw [← h2] at hop2
  rw [WithoutDependencies.sb_memory_eq Apex cpu hg]
  unfold WithDependencies.memory
  rw [WithDependencies.fw_memoryGuarded_eq _ _ hg2]
  simp only [hop2, if_true]
  rw [h2] at hop2
  simp [hop2, h1, h2]

/-- C20 as stated fails. With the one-instruction program `MOVC R1,#5` and memory behind the code
array that reads as `MOVC R1,#77`: after the first pass `pc = 4004`, the code index 1 is outside
`0..code_memory_size-1`, the guard of `fetch` holds in both variants, and `fetch` hands DRF an
instruction with opcode MOVC, not NOP. The run of the pipeline with forwarding then commits it:
it ends after 6 cycles with `regs[1] = 77`. -/
theorem C20_fetch_past_end_not_NOP : inEveryMode fun mode =>
    (EndsWith (WithoutDependencies.APEX_cpu_run zeroJunk 2
        (configure (WithoutDependencies.APEX_cpu_init zeroCPU oneMOVC strayMOVC) 1 mode))
      (fun s => s.pc = 4004 ∧ get_code_index s.pc = 1 ∧ s.code_memory_size = 1 ∧
        (s.stage_check 0 0 = 0 ∧ s.stage_check 0 1 = 0 ∧ s.stage_set 0 0 ≠ 0 ∧ s.halt = 0) ∧
        ((WithoutDependencies.fetch zeroLatch s).stage DRF).opcode = Opcode.MOVC ∧
        ((WithoutDependencies.fetch zeroLatch s).stage DRF).pc = 4004)) ∧
    (EndsWith (WithDependencies.APEX_cpu_run zeroJunk 2
        (configure (WithDependencies.APEX_cpu_init zeroCPU oneMOVC strayMOVC) 1 mode))
      (fun s => s.pc = 4004 ∧ get_code_index s.pc = 1 ∧ s.code_memory_size = 1 ∧
        WithDependencies.fetchGuard s ∧
        ((WithDependencies.fetch s).stage DRF).opcode = Opcode.MOVC ∧
        ((WithDependencies.fetch s).stage DRF).pc = 4004)) ∧
    EndsWith (WithDependencies.APEX_cpu_run zeroJunk 41
        (configure (WithDependencies.APEX_cpu_init zeroCPU oneMOVC strayMOVC) 40 mode))
      (fun s => s.clock = 6 ∧ s.regs 1 = 77 ∧ s.ins_completed = 1) := by
  decide!

/-- C20, amended (fetch has no bounds check). In both variants, for every state in which the
guard of `fetch` holds, whether `get_code_index(pc)` lies in `0..code_memory_size-1` or not,
`fetch` copies `pc` and the opcode, `rd`, `rs1`, `rs2` and `imm` of
`code_memory[get_code_index(pc)]` into the fetch latch, hands that latch to DRF when
`stage_set[1][0]` is set (it stays in F otherwise), and adds 4 to `pc`. No NOP is substituted:
the opcode fetched is the one code memory holds at that index. -/
theorem C20_fetch_copies_code_memory (Apex : CPU_Stage) (cpu : APEX_CPU) :
    (cpu.stage_check 0 0 = 0 ∧ cpu.stage_check 0 1 = 0 ∧ cpu.stage_set 0 0 ≠ 0 ∧ cpu.halt = 0 →
      ((WithoutDependencies.fetch Apex cpu).stage
          (if cpu.stage_set 1 0 ≠ 0 then DRF else F)).pc = cpu.pc ∧
      ((WithoutDependencies.fetch Apex cpu).stage
          (if cpu.stage_set 1 0 ≠ 0 then DRF else F)).opcode =
        (cpu.code_memory (get_code_index cpu.pc)).opcode ∧
      ((WithoutDependencies.fetch Apex cpu).stage
          (if cpu.stage_set 1 0 ≠ 0 then DRF else F)).rd =
        (cpu.code_memory (get_code_index cpu.pc)).rd ∧
      ((WithoutDependencies.fetch Apex cpu).stage
          (if cpu.stage_set 1 0 ≠ 0 then DRF else F)).rs1 =
        (cpu.code_memory (get_code_index cpu.pc)).rs1 ∧
      ((WithoutDependencies.fetch Apex cpu).stage
          (if cpu.stage_set 1 0 ≠ 0 then DRF else F)).rs2 =
        (cpu.code_memory (get_code_index cpu.pc)).rs2 ∧
      ((WithoutDependencies.fetch Apex cpu).stage
          (if cpu.stage_set 1 0 ≠ 0 then DRF else F)).imm =
        (cpu.code_memory (get_code_index cpu.pc)).imm ∧
      (WithoutDependencies.fetch Apex cpu).pc = add32 cpu.pc 4) ∧
    (WithDependencies.fetchGuard cpu →
      ((WithDependencies.fetch cpu).stage (if cpu.stage_set 1 0 ≠ 0 then DRF else F)).pc
        = cpu.pc ∧
      ((WithDependencies.fetch cpu).stage (if cpu.stage_set 1 0 ≠ 0 then DRF else F)).opcode =
        (cpu.code_memory (get_code_index cpu.pc)).opcode ∧
      ((WithDependencies.fetch cpu).stage (if cpu.stage_set 1 0 ≠ 0 then DRF else F)).rd =
        (cpu.code_memory (get_code_index cpu.pc)).rd ∧
      ((WithDependencies.fetch cpu).stage (if cpu.stage_set 1 0 ≠ 0 then DRF else F)).rs1 =
        (cpu.code_memory (get_code_index cpu.pc)).rs1 ∧
      ((WithDependencies.fetch cpu).stage (if cpu.stage_set 1 0 ≠ 0 then DRF else F)).rs2 =
        (cpu.code_memory (get_code_index cpu.pc)).rs2 ∧
      ((WithDependencies.fetch cpu).stage (if cpu.stage_set 1 0 ≠ 0 then DRF else F)).imm =
        (cpu.code_memory (get_code_index cpu.pc)).imm ∧
      (WithDependencies.fetch cpu).pc = add32 cpu.pc 4) := by
  constructor
  · intro hg
    simp only [WithoutDependencies.fetch, hg, and_self, if_true, ne_eq, not_false_eq_true,
      WithoutDependencies.clearF, handToDRF, fetchInstruction]
    by_cases h : cpu.stage_set 1 0 = 0 <;>
      simp [h, APEX_CPU.setStage, APEX_CPU.setSet, upd2]
  · intro hg
    simp only [WithDependencies.fetch, hg, if_true, handToDRF, fetchInstruction]
    by_cases h : cpu.stage_set 1 0 = 0 <;>
      simp [h, APEX_CPU.setStage, APEX_CPU.setSet, upd2]

/-- Witness of C20 on the start state of scenario S1: the guard of `fetch` holds and the first
instruction, `MOVC`, reaches DRF. -/
theorem C20_fetch_copies_code_memory_witness :
    ((WithoutDependencies.boot S1 1000 "silent").stage_check 0 0 = 0 ∧
      (WithoutDependencies.boot S1 1000 "silent").stage_check 0 1 = 0 ∧
      (WithoutDependencies.boot S1 1000 "silent").stage_set 0 0 ≠ 0 ∧
      (WithoutDependencies.boot S1 1000 "silent").halt = 0) ∧
    WithDependencies.fetchGuard (WithoutDependencies.boot S1 1000 "silent") ∧
    (WithoutDependencies.fetch zeroLatch (WithoutDependencies.boot S1 1000 "silent")).pc
      = 4004 ∧
    (WithDependencies.fetch (WithoutDependencies.boot S1 1000 "silent")).pc = 4004 :=
  ⟨by decide, by decide,
    ((C20_fetch_copies_code_memory zeroLatch (WithoutDependencies.boot S1 1000 "silent")).1
      (by decide)).2.2.2.2.2.2,
    ((C20_fetch_copies_code_memory zeroLatch (WithoutDependencies.boot S1 1000 "silent")).2
      (by decide)).2.2.2.2.2.2⟩

/-! ## The opcode dispatch of the pipeline with forwarding -/

namespace WithDependencies

@[simp] theorem fw_publishEX_stage (i : Int) (cpu : APEX_CPU) :
    (publishEX i cpu).stage = cpu.stage := rfl

@[simp] theorem fw_recordData_stage (cpu : APEX_CPU) : (recordData cpu).stage = cpu.stage := rfl

@[simp] theorem fw_loadEX_opcode (cpu : APEX_CPU) (j : Nat) :
    ((loadEX cpu).stage j).opcode = (cpu.stage j).opcode := by
  simp [loadEX, loadAddress]

@[simp] theorem fw_ldrEX_opcode (cpu : APEX_CPU) (j : Nat) :
    ((ldrEX cpu).stage j).opcode = (cpu.stage j).opcode := by
  simp [ldrEX, ldrAddress]

@[simp] theorem fw_jump_EX (cpu : APEX_CPU) : (jump cpu).stage EX = cpu.stage EX := by
  simp [jump, clearHalt, squashFetched, jumpTarget, APEX_CPU.setNOP, APEX_CPU.setStage]

@[simp] theorem fw_branch_EX (z : Int) (cpu : APEX_CPU) :
    (branch z cpu).stage EX = cpu.stage EX := by
  unfold branch
  split
  · simp [stallBranch, APEX_CPU.setStalled, APEX_CPU.setStage, APEX_CPU.setCheck]
  · split
    · simp [takeBranch, clearHalt, squashFetched, APEX_CPU.setNOP, APEX_CPU.setStage,
        branchTarget]
    · rfl

@[simp] theorem fw_movc_opcode (cpu : APEX_CPU) (j : Nat) :
    ((movc cpu).stage j).opcode = (cpu.stage j).opcode := by
  simp [movc]

@[simp] theorem fw_alu_opcode (op : Int → Int → Int) (cpu : APEX_CPU) (j : Nat) :
    ((alu op cpu).stage j).opcode = (cpu.stage j).opcode := by
  simp [alu]

@[simp] theorem fw_startMUL_stage (cpu : APEX_CPU) : (startMUL cpu).stage = cpu.stage := rfl

/-- The `if` sequence of the first branch of `execute` runs the one block that the opcode of the
EX latch selects. -/
theorem fw_executeFirst_eq (Apex : CPU_Stage) (cpu : APEX_CPU) :
    executeFirst Apex cpu = passToMEM Apex (executeBlock cpu) := by
  cases hop : (cpu.stage EX).opcode <;>
    simp only [executeFirst, executeBlock, ifOp, hop, setMemAddress_opcode, setBuffer_opcode,
      bumpHalt_stage, markForward_stage, fw_branch_EX, fw_jump_EX, fw_startMUL_stage,
      fw_loadEX_opcode, fw_ldrEX_opcode, fw_movc_opcode, fw_alu_opcode,
      storeAddress, List.mem_cons, List.mem_singleton,
      reduceCtorEq, or_false, or_true, false_or, true_or, if_false, if_true, List.not_mem_nil,
      List.mem_nil_iff]

@[simp] theorem fw_unstallBranch_stage (cpu : APEX_CPU) :
    (unstallBranch cpu).stage = cpu.stage := by
  unfold unstallBranch; split <;> rfl

@[simp] theorem fw_unstallForwarded_stage (cpu : APEX_CPU) :
    (unstallForwarded cpu).stage = cpu.stage := by
  unfold unstallForwarded; split <;> rfl

@[simp] theorem fw_unstallTwoValid_stage (cpu : APEX_CPU) :
    (unstallTwoValid cpu).stage = cpu.stage := by
  unfold unstallTwoValid; split <;> rfl

@[simp] theorem fw_unstallOneValid_stage (cpu : APEX_CPU) :
    (unstallOneValid cpu).stage = cpu.stage := by
  unfold unstallOneValid; split <;> rfl

/-- The `if` sequence of the pre-checks of `decode` runs the one block that the opcode of the DRF
latch selects. -/
theorem fw_decodeUnstall_eq (cpu : APEX_CPU) : decodeUnstall cpu = unstallBlock cpu := by
  cases hop : (cpu.stage DRF).opcode <;>
    simp only [decodeUnstall, unstallBlock, ifOp, hop, fw_unstallBranch_stage,
      fw_unstallForwarded_stage, fw_unstallTwoValid_stage, fw_unstallOneValid_stage,
      List.mem_cons, List.mem_singleton,
      reduceCtorEq, or_false, or_true, false_or, true_or, if_false, if_true, List.not_mem_nil,
      List.mem_nil_iff]

@[simp] theorem fw_readRs1Guarded_opcode (cpu : APEX_CPU) (j : Nat) :
    ((readRs1Guarded cpu).stage j).opcode = (cpu.stage j).opcode := by
  simp only [readRs1Guarded]; split_ifs <;> simp

@[simp] theorem fw_readRs2Guarded_opcode (cpu : APEX_CPU) (j : Nat) :
    ((readRs2Guarded cpu).stage j).opcode = (cpu.stage j).opcode := by
  simp only [readRs2Guarded]; split_ifs <;> simp

@[simp] theorem fw_readRs1OrStall_opcode (cpu : APEX_CPU) (j : Nat) :
    ((readRs1OrStall cpu).stage j).opcode = (cpu.stage j).opcode := by
  simp only [readRs1OrStall]; split_ifs <;> simp

@[simp] theorem fw_readRs1Jump_opcode (cpu : APEX_CPU) (j : Nat) :
    ((readRs1Jump cpu).stage j).opcode = (cpu.stage j).opcode := by
  simp only [readRs1Jump]; split_ifs <;> simp

@[simp] theorem fw_readRs1NoElse_opcode (cpu : APEX_CPU) (j : Nat) :
    ((readRs1NoElse cpu).stage j).opcode = (cpu.stage j).opcode := by
  simp only [readRs1NoElse]; split_ifs <;> simp

@[simp] theorem fw_readRs2OrStall_opcode (cpu : APEX_CPU) (j : Nat) :
    ((readRs2OrStall cpu).stage j).opcode = (cpu.stage j).opcode := by
  simp only [readRs2OrStall]; split_ifs <;> simp

@[simp] theorem fw_claimIfIssued_stage (cpu : APEX_CPU) :
    (claimIfIssued cpu).stage = cpu.stage := by
  unfold claimIfIssued; split <;> rfl

@[simp] theorem fw_guardBranch_stage (cpu : APEX_CPU) : (guardBranch cpu).stage = cpu.stage := by
  unfold guardBranch; split <;> rfl

@[simp] theorem fw_readLdrOperands_opcode (cpu : APEX_CPU) (j : Nat) :
    ((readLdrOperands cpu).stage j).opcode = (cpu.stage j).opcode := by
  simp only [readLdrOperands]; split_ifs <;> simp

@[simp] theorem fw_readStore_opcode (cpu : APEX_CPU) (j : Nat) :
    ((readStore cpu).stage j).opcode = (cpu.stage j).opcode := by
  simp [readStore]

@[simp] theorem fw_readLoad_opcode (cpu : APEX_CPU) (j : Nat) :
    ((readLoad cpu).stage j).opcode = (cpu.stage j).opcode := by
  simp [readLoad]

@[simp] theorem fw_readLdrBypass_opcode (cpu : APEX_CPU) (j : Nat) :
    ((readLdrBypass cpu).stage j).opcode = (cpu.stage j).opcode := by
  simp [readLdrBypass]

@[simp] theorem fw_readLogic_opcode (cpu : APEX_CPU) (j : Nat) :
    ((readLogic cpu).stage j).opcode = (cpu.stage j).opcode := by
  simp [readLogic]

@[simp] theorem fw_readJump_opcode (cpu : APEX_CPU) (j : Nat) :
    ((readJump cpu).stage j).opcode = (cpu.stage j).opcode := by
  simp [readJump]

@[simp] theorem fw_readArith_opcode (cpu : APEX_CPU) (j : Nat) :
    ((readArith cpu).stage j).opcode = (cpu.stage j).opcode := by
  simp [readArith]

@[simp] theorem fw_readXorAgain_opcode (cpu : APEX_CPU) (j : Nat) :
    ((readXorAgain cpu).stage j).opcode = (cpu.stage j).opcode := by
  simp [readXorAgain]

@[simp] theorem fw_readLdrAgain_opcode (cpu : APEX_CPU) (j : Nat) :
    ((readLdrAgain cpu).stage j).opcode = (cpu.stage j).opcode := by
  simp [readLdrAgain]

/-- The `if` sequence inside the guard of `decode` runs the blocks that the opcode of the DRF
latch selects. -/
theorem fw_decodeRead_eq (cpu : APEX_CPU) : decodeRead cpu = readBlock cpu := by
  cases hop : (cpu.stage DRF).opcode <;>
    simp only [decodeRead, readBlock, ifOp, hop, fw_readStore_opcode, fw_readLoad_opcode,
      fw_readLdrBypass_opcode, fw_guardBranch_stage, claimDest_stage, fw_readLogic_opcode,
      raiseHalt_stage, fw_readJump_opcode, fw_readArith_opcode, fw_readXorAgain_opcode,
      fw_readLdrAgain_opcode, List.mem_cons, List.mem_singleton, reduceCtorEq, or_false, or_true,
      false_or, true_or, if_false, if_true, List.not_mem_nil, List.mem_nil_iff]

end WithDependencies

/-! ## Latches without an instruction (C21) -/

namespace WithoutDependencies

/-- `decode` on a DRF latch that holds no instruction changes latches and `stage_set` only. -/
theorem sb_decode_inert (Apex : CPU_Stage) (cpu : APEX_CPU) (h : inert (cpu.stage DRF)) :
    sideEffects (decode Apex cpu) = sideEffects cpu := by
  cases hop : (cpu.stage DRF).opcode <;> simp only [inert, hop] at h <;>
    simp only [decode, sb_decodeUnstall_eq, unstallBlock, hop, decodeGuarded, sb_decodeRead_eq,
      readBlock, issue] <;>
    split_ifs <;> rfl

/-- `execute` on an EX latch that holds no instruction changes latches and `stage_set` only. -/
theorem sb_execute_inert (Apex : CPU_Stage) (cpu : APEX_CPU) (h : inert (cpu.stage EX)) :
    sideEffects (execute Apex cpu) = sideEffects cpu := by
  cases hop : (cpu.stage EX).opcode <;> simp only [inert, hop] at h <;>
    simp only [execute, sb_executeFirst_eq, executeBlock, hop, passToMEM, reduceCtorEq,
      false_and, if_false] <;>
    split_ifs <;> rfl

/-- `memory` on a MEM latch that holds no instruction changes latches and `stage_set` only. -/
theorem sb_memory_inert (Apex : CPU_Stage) (cpu : APEX_CPU) (h : inert (cpu.stage MEM)) :
    sideEffects (memory Apex cpu) = sideEffects cpu := by
  by_cases hg : cpu.stage_check 3 0 = 0 ∧ cpu.stage_check 3 1 = 0
  · rw [sb_memory_eq Apex cpu hg]
    cases hop : (cpu.stage MEM).opcode <;> simp only [inert, hop] at h <;>
      simp [sideEffects]
  · simp [memory, hg]

/-- `writeback` on a WB latch that holds no instruction changes the WB latch only. -/
theorem sb_writeback_inert (Apex : CPU_Stage) (cpu : APEX_CPU) (h : inert (cpu.stage WB)) :
    sideEffects (writeback Apex cpu) = sideEffects cpu := by
  by_cases hg : cpu.stage_check 4 0 = 0 ∧ cpu.stage_check 4 1 = 0
  · rw [sb_writeback_eq Apex cpu hg]
    cases hop : (cpu.stage WB).opcode <;> simp only [inert, hop] at h <;>
      simp [sideEffects, writesRegister, isArith]
  · simp [writeback, hg]

end WithoutDependencies

namespace WithDependencies

/-- `decode` on a DRF latch that holds no instruction changes latches and `stage_set` only. -/
theorem fw_decode_inert (cpu : APEX_CPU) (h : inert (cpu.stage DRF)) :
    sideEffects (decode cpu) = sideEffects cpu := by
  cases hop : (cpu.stage DRF).opcode <;> simp only [inert, hop] at h <;>
    simp only [decode, fw_decodeUnstall_eq, unstallBlock, hop, decodeGuarded, fw_decodeRead_eq,
      readBlock, issue] <;>
    split_ifs <;> rfl

/-- `execute` on an EX latch that holds no instruction changes latches and `stage_set` only. -/
theorem fw_execute_inert (Apex : CPU_Stage) (cpu : APEX_CPU) (h : inert (cpu.stage EX)) :
    sideEffects (execute Apex cpu) = sideEffects cpu := by
  have hA : sideEffects (executeArms Apex cpu) = sideEffects cpu := by
    cases hop : (cpu.stage EX).opcode <;> simp only [inert, hop] at h <;>
      simp only [executeArms, fw_executeFirst_eq, executeBlock, hop, passToMEM, reduceCtorEq,
        false_and, if_false] <;>
      split_ifs <;> rfl
  rw [← hA]
  simp only [execute, ifOp, haltToMEM]
  split <;> rfl

/-- `memory` on a MEM latch that holds no instruction changes latches, `stage_set` and the bypass
tables only. -/
theorem fw_memory_inert (Apex : CPU_Stage) (cpu : APEX_CPU) (h : inert (cpu.stage MEM)) :
    sideEffects (memory Apex cpu) = sideEffects cpu := by
  have hr : sideEffects (refreshBypass 16 cpu) = sideEffects cpu := by
    rw [fw_refreshBypass_eq]; rfl
  have hs : (refreshBypass 16 cpu).stage = cpu.stage := (fw_refreshBypass_frame 16 cpu).2.2.2.2.1
  rw [← hr]
  rw [← hs] at h
  unfold memory
  generalize refreshBypass 16 cpu = c at h ⊢
  by_cases hg : c.stage_check 3 0 = 0 ∧ c.stage_check 3 1 = 0
  · rw [fw_memoryGuarded_eq Apex c hg]
    cases hop : (c.stage MEM).opcode <;> simp only [inert, hop] at h <;>
      simp [sideEffects]
  · simp [memoryGuarded, hg]

/-- The guarded part of `writeback` on a WB latch that holds no instruction, once register 0 is
marked valid. -/
theorem fw_writebackGuarded_inert (Apex : CPU_Stage) (c : APEX_CPU) (h : inert (c.stage WB))
    (h0 : c.regs_valid 0 = 1) :
    sideEffects (writebackGuarded Apex c) = sideEffects c := by
  by_cases hg : c.stage_check 4 0 = 0 ∧ c.stage_check 4 1 = 0
  · rw [fw_writebackGuarded_eq Apex c hg]
    have hu : upd c.regs_valid 0 1 = c.regs_valid := by
      funext r; simp only [upd]; split
      · subst_vars; exact h0.symm
      · rfl
    cases hop : (c.stage WB).opcode <;> simp only [inert, hop] at h <;>
      simp [sideEffects, writesRegister, isArith, hu]
  · simp [writebackGuarded, hg]

/-- `writeback` on a WB latch that holds no instruction still marks the registers 0 to 15 valid;
the other side effects stay away. -/
theorem fw_writeback_inert (Apex : CPU_Stage) (cpu : APEX_CPU) (h : inert (cpu.stage WB)) :
    sideEffects (writeback Apex cpu) =
      sideEffects { cpu with
        regs_valid := fun r => if 0 ≤ r ∧ r < 16 then 1 else cpu.regs_valid r } := by
  have hs : (revalidate 16 cpu).stage = cpu.stage := (fw_revalidate_frame 16 cpu).2.2.2.2.1
  have h0 : (revalidate 16 cpu).regs_valid 0 = 1 := by rw [fw_revalidate_eq]; simp
  unfold writeback
  rw [fw_writebackGuarded_inert Apex _ (by rw [hs]; exact h) h0, fw_revalidate_eq]
  simp [sideEffects]

end WithDependencies

/-- C21 as stated fails. `writeback` of the pipeline with forwarding, called on a WB latch that
holds a NOP while `regs_valid[3]` is 0, leaves `regs_valid[3] = 1`: the loop at the top of the
function marks the registers 0 to 15 valid whatever the latch holds. -/
theorem C21_writeback_revalidates :
    inert ((withLatch WB nopLatch).stage WB) ∧
    (withLatch WB nopLatch).regs_valid 3 = 0 ∧
    (WithDependencies.writeback zeroLatch (withLatch WB nopLatch)).regs_valid 3 = 1 := by
  decide!

/-- C21, amended. When the latch that a stage processes holds NOP or an opcode that is none of
the 15 mnemonics, `decode`, `execute`, `memory` and `writeback` of both variants leave `regs`,
`zflag`, `nzflag`, `data_memory`, `pc`, `halt` and `ins_completed` unchanged; `regs_valid` is
unchanged too, except in `writeback` of the pipeline with forwarding, which sets
`regs_valid[0 .. 15]` to 1 and leaves the other entries. -/
theorem C21_inert_latch_no_side_effect :
    (∀ (Apex : CPU_Stage) (cpu : APEX_CPU), inert (cpu.stage DRF) →
      sideEffects (WithoutDependencies.decode Apex cpu) = sideEffects cpu ∧
      sideEffects (WithDependencies.decode cpu) = sideEffects cpu) ∧
    (∀ (Apex : CPU_Stage) (cpu : APEX_CPU), inert (cpu.stage EX) →
      sideEffects (WithoutDependencies.execute Apex cpu) = sideEffects cpu ∧
      sideEffects (WithDependencies.execute Apex cpu) = sideEffects cpu) ∧
    (∀ (Apex : CPU_Stage) (cpu : APEX_CPU), inert (cpu.stage MEM) →
      sideEffects (WithoutDependencies.memory Apex cpu) = sideEffects cpu ∧
      sideEffects (WithDependencies.memory Apex cpu) = sideEffects cpu) ∧
    (∀ (Apex : CPU_Stage) (cpu : APEX_CPU), inert (cpu.stage WB) →
      sideEffects (WithoutDependencies.writeback Apex cpu) = sideEffects cpu ∧
      sideEffects (WithDependencies.writeback Apex cpu) =
        sideEffects { cpu with
          regs_valid := fun r => if 0 ≤ r ∧ r < 16 then 1 else cpu.regs_valid r }) :=
  ⟨fun Apex cpu h =>
      ⟨WithoutDependencies.sb_decode_inert Apex cpu h, WithDependencies.fw_decode_inert cpu h⟩,
    fun Apex cpu h =>
      ⟨WithoutDependencies.sb_execute_inert Apex cpu h,
        WithDependencies.fw_execute_inert Apex cpu h⟩,
    fun Apex cpu h =>
      ⟨WithoutDependencies.sb_memory_inert Apex cpu h,
        WithDependencies.fw_memory_inert Apex cpu h⟩,
    fun Apex cpu h =>
      ⟨WithoutDependencies.sb_writeback_inert Apex cpu h,
        WithDependencies.fw_writeback_inert Apex cpu h⟩⟩

/-- C21 at work: the four stage functions of both variants on a state whose four latches hold
NOP. -/
theorem C21_inert_latch_no_side_effect_witness :
    inert ((zeroCPU.setStage DRF nopLatch).stage DRF) ∧
    sideEffects (WithoutDependencies.decode zeroLatch (zeroCPU.setStage DRF nopLatch)) =
      sideEffects (zeroCPU.setStage DRF nopLatch) ∧
    sideEffects (WithDependencies.decode (zeroCPU.setStage DRF nopLatch)) =
      sideEffects (zeroCPU.setStage DRF nopLatch) :=
  ⟨trivial, C21_inert_latch_no_side_effect.1 zeroLatch (zeroCPU.setStage DRF nopLatch) trivial⟩

/-! ## The halt counter (C22) -/

theorem inert_not_HALT (s : CPU_Stage) (h : inert s) : s.opcode ≠ Opcode.HALT := by
  intro hop; simp [inert, hop] at h

theorem inert_not_JUMP (s : CPU_Stage) (h : inert s) : s.opcode ≠ Opcode.JUMP := by
  intro hop; simp [inert, hop] at h

/-- An empty latch, or one with a HALT, holds none of MUL, BZ, BNZ, JUMP. -/
theorem inert_plain (s : CPU_Stage) (h : inert s) :
    s.opcode ∉ [Opcode.MUL, Opcode.BZ, Opcode.BNZ, Opcode.JUMP] := by
  cases hop : s.opcode <;> simp [inert, hop] at h ⊢

namespace WithoutDependencies

/-- One call of `writeback` whose guard holds: the halt counter, the stall bits and the latches. -/
theorem sb_writeback_flow (Apex : CPU_Stage) (cpu : APEX_CPU)
    (hg : cpu.stage_check 4 0 = 0 ∧ cpu.stage_check 4 1 = 0) :
    (writeback Apex cpu).halt = cpu.halt + haltsIn cpu WB ∧
    (writeback Apex cpu).stage_check = cpu.stage_check ∧
    (writeback Apex cpu).stage_set = cpu.stage_set ∧
    (writeback Apex cpu).stage WB = Apex ∧
    (∀ j, j ≠ WB → (writeback Apex cpu).stage j = cpu.stage j) := by
  rw [sb_writeback_eq Apex cpu hg]
  refine ⟨?_, rfl, rfl, ?_, ?_⟩
  · simp only [haltsIn]; split <;> simp
  · simp
  · intro j hj; simp [hj]

/-- One call of `memory` whose guard holds: the halt counter, the stall bits and the latches. -/
theorem sb_memory_flow (Apex : CPU_Stage) (cpu : APEX_CPU)
    (hg : cpu.stage_check 3 0 = 0 ∧ cpu.stage_check 3 1 = 0) :
    (memory Apex cpu).halt = cpu.halt + haltsIn cpu MEM ∧
    (memory Apex cpu).stage_check = cpu.stage_check ∧
    (∀ i j, i ≠ 3 → (memory Apex cpu).stage_set i j = cpu.stage_set i j) ∧
    ((memory Apex cpu).stage WB).opcode = (cpu.stage MEM).opcode ∧
    (memory Apex cpu).stage MEM = Apex ∧
    (∀ j, j < 3 → (memory Apex cpu).stage j = cpu.stage j) := by
  rw [sb_memory_eq Apex cpu hg]
  refine ⟨?_, rfl, ?_, ?_, ?_, ?_⟩
  · simp only [haltsIn]; split <;> simp
  · intro i j hi; simp [upd2, hi]
  · have h43 : (4 : Nat) ≠ 3 := by decide
    simp only [WB, MEM, h43, if_false, if_true]; split <;> rfl
  · simp
  · intro j hj
    have h3 : j ≠ MEM := by simp only [MEM]; omega
    have h4 : j ≠ WB := by simp only [WB]; omega
    simp [h3, h4]

/-- One call of `execute` with no EX stall bit set, on a latch that holds none of MUL, BZ, BNZ,
JUMP: the instruction moves to MEM and a HALT is counted. -/
theorem sb_execute_flow (Apex : CPU_Stage) (cpu : APEX_CPU)
    (hg : cpu.stage_check 2 0 = 0 ∧ cpu.stage_check 2 1 = 0)
    (hop : (cpu.stage EX).opcode ∉ [Opcode.MUL, Opcode.BZ, Opcode.BNZ, Opcode.JUMP]) :
    (execute Apex cpu).halt = cpu.halt + haltsIn cpu EX ∧
    (execute Apex cpu).stage_check = cpu.stage_check ∧
    (execute Apex cpu).stage_set 2 0 = 1 ∧
    (execute Apex cpu).stage WB = cpu.stage WB ∧
    (execute Apex cpu).stage DRF = cpu.stage DRF ∧
    ((execute Apex cpu).stage MEM).opcode = (cpu.stage EX).opcode ∧
    (execute Apex cpu).stage EX = Apex := by
  simp only [execute, hg, and_self, if_true, sb_executeFirst_eq, executeBlock, haltsIn]
  cases hop2 : (cpu.stage EX).opcode <;> simp [hop2] at hop <;>
    simp [passToMEM, APEX_CPU.setStage, APEX_CPU.setSet, APEX_CPU.setCheck,
      APEX_CPU.setMemAddress, APEX_CPU.setBuffer, bumpHalt, markForward, upd2, hg.1, hop2,
      storeAddress, loadAddress, ldrAddress, movc, alu]

/-- `decode` of a HALT with `halt = 0` and no DRF stall bit set. -/
theorem sb_decode_HALT (Apex : CPU_Stage) (cpu : APEX_CPU)
    (hg : cpu.stage_check 1 0 = 0 ∧ cpu.stage_check 1 1 = 0 ∧ cpu.halt = 0)
    (hop : (cpu.stage DRF).opcode = Opcode.HALT) :
    decode Apex cpu = ((raiseHalt cpu).setSet 1 0 1).setStage EX (cpu.stage DRF) := by
  have h1 : decodeUnstall cpu = cpu := by rw [sb_decodeUnstall_eq]; simp only [unstallBlock, hop]
  have h2 : decodeRead cpu = raiseHalt cpu := by rw [sb_decodeRead_eq]; simp only [readBlock, hop]
  have h3 : (raiseHalt cpu).stage_check 1 1 = 0 := hg.2.1
  simp only [decode, h1, decodeGuarded, hg, and_self, if_true, h2, issue, h3]
  rfl

/-- `decode` while the halt counter is not 0: the guard fails. -/
theorem sb_decode_halted (Apex : CPU_Stage) (cpu : APEX_CPU) (hh : cpu.halt ≠ 0) :
    (decode Apex cpu).halt = cpu.halt ∧ (decode Apex cpu).stage = cpu.stage ∧
    (∀ i j, 2 ≤ i → (decode Apex cpu).stage_check i j = cpu.stage_check i j) := by
  unfold decode
  rcases sb_decodeUnstall_cases cpu with h | h <;> rw [h]
  · have hg : ¬ (cpu.stage_check 1 0 = 0 ∧ cpu.stage_check 1 1 = 0 ∧ cpu.halt = 0) :=
      fun hg => hh hg.2.2
    simp only [decodeGuarded, hg, if_false]
    split <;> simp [APEX_CPU.setSet]
  · have hg : ¬ ((unstall cpu).stage_check 1 0 = 0 ∧ (unstall cpu).stage_check 1 1 = 0 ∧
        (unstall cpu).halt = 0) := fun hg => hh hg.2.2
    simp only [decodeGuarded, hg, if_false]
    have hc : ∀ i j, 2 ≤ i → (unstall cpu).stage_check i j = cpu.stage_check i j := by
      intro i j hi
      have : i ≠ 1 := by omega
      simp [unstall, APEX_CPU.setSet, APEX_CPU.setCheck, upd2, this]
    split
    · exact ⟨rfl, rfl, hc⟩
    · exact ⟨rfl, rfl, hc⟩

/-- The halt counter is out of reach of `fetch`. -/
theorem sb_fetch_halt (Apex : CPU_Stage) (cpu : APEX_CPU) : (fetch Apex cpu).halt = cpu.halt := by
  simp only [fetch, clearF, handToDRF, fetchInstruction, releaseHeld]
  split_ifs <;> rfl

end WithoutDependencies

theorem haltsIn_nonneg (cpu : APEX_CPU) (i : Nat) : 0 ≤ haltsIn cpu i := by
  unfold haltsIn; split <;> decide

theorem haltsIn_of_ne (cpu : APEX_CPU) (i : Nat) (h : (cpu.stage i).opcode ≠ Opcode.HALT) :
    haltsIn cpu i = 0 := by
  simp [haltsIn, h]

theorem haltsIn_of_eq (cpu : APEX_CPU) (i : Nat) (h : (cpu.stage i).opcode = Opcode.HALT) :
    haltsIn cpu i = 1 := by
  simp [haltsIn, h]

theorem haltsIn_congr {a b : APEX_CPU} {i j : Nat}
    (h : (a.stage i).opcode = (b.stage j).opcode) : haltsIn a i = haltsIn b j := by
  simp only [haltsIn, h]

namespace WithoutDependencies

/-- One pass of the loop body up to `execute`, from a state with no stall bit in EX, MEM and WB
and none of MUL, BZ, BNZ, JUMP in EX: every latch moves on by one stage and each HALT in WB, MEM
and EX is counted once. -/
theorem sb_beforeDecode_flow (u : Uninitialised) (cpu : APEX_CPU) (hq : stallFree cpu)
    (hex : (cpu.stage EX).opcode ∉ [Opcode.MUL, Opcode.BZ, Opcode.BNZ, Opcode.JUMP]) :
    (beforeDecode u cpu).halt = cpu.halt + haltsIn cpu WB + haltsIn cpu MEM + haltsIn cpu EX ∧
    (beforeDecode u cpu).stage_check = cpu.stage_check ∧
    (beforeDecode u cpu).stage_set 2 0 = 1 ∧
    ((beforeDecode u cpu).stage WB).opcode = (cpu.stage MEM).opcode ∧
    ((beforeDecode u cpu).stage MEM).opcode = (cpu.stage EX).opcode ∧
    (beforeDecode u cpu).stage EX = u.ex ∧
    (beforeDecode u cpu).stage DRF = cpu.stage DRF := by
  obtain ⟨c20, c21, c30, c31, c40, c41⟩ := hq
  obtain ⟨w1, w2, -, -, w5⟩ := sb_writeback_flow u.wb cpu ⟨c40, c41⟩
  have hD3 : DRF < 3 := by decide
  have hE3 : EX < 3 := by decide
  have hE4 : EX ≠ WB := by decide
  have hM4 : MEM ≠ WB := by decide
  have hD4 : DRF ≠ WB := by decide
  obtain ⟨m1, m2, -, m4, -, m6⟩ := sb_memory_flow u.mem (writeback u.wb cpu)
    (by rw [w2]; exact ⟨c30, c31⟩)
  obtain ⟨e1, e2, e3, e4, e5, e6, e7⟩ := sb_execute_flow u.ex (memory u.mem (writeback u.wb cpu))
    (by rw [m2, w2]; exact ⟨c20, c21⟩) (by rw [m6 EX hE3, w5 EX hE4]; exact hex)
  unfold beforeDecode
  refine ⟨?_, ?_, e3, ?_, ?_, e7, ?_⟩
  · rw [e1, m1, w1, haltsIn_congr (congrArg CPU_Stage.opcode ((m6 EX hE3).trans (w5 EX hE4))),
      haltsIn_congr (congrArg CPU_Stage.opcode (w5 MEM hM4))]
  · rw [e2, m2, w2]
  · rw [e4, m4, w5 MEM hM4]
  · rw [e6, m6 EX hE3, w5 EX hE4]
  · rw [e5, m6 DRF hD3, w5 DRF hD4]

/-- One pass of the loop body while the halt counter is positive, from a state as in
`sb_beforeDecode_flow`: `decode` and `fetch` leave the later latches alone. -/
theorem sb_pass_halted (u : Uninitialised) (cpu : APEX_CPU) (hq : stallFree cpu)
    (hh : 0 < cpu.halt)
    (hex : (cpu.stage EX).opcode ∉ [Opcode.MUL, Opcode.BZ, Opcode.BNZ, Opcode.JUMP]) :
    (loopBody u cpu).halt = cpu.halt + haltsIn cpu WB + haltsIn cpu MEM + haltsIn cpu EX ∧
    stallFree (loopBody u cpu) ∧
    ((loopBody u cpu).stage WB).opcode = (cpu.stage MEM).opcode ∧
    ((loopBody u cpu).stage MEM).opcode = (cpu.stage EX).opcode ∧
    (loopBody u cpu).stage EX = u.ex := by
  obtain ⟨b1, b2, -, b4, b5, b6, -⟩ := sb_beforeDecode_flow u cpu hq hex
  have hpos : (beforeDecode u cpu).halt ≠ 0 := by
    have := haltsIn_nonneg cpu WB
    have := haltsIn_nonneg cpu MEM
    have := haltsIn_nonneg cpu EX
    rw [b1]; omega
  obtain ⟨d1, d2, d3⟩ := sb_decode_halted u.drf (beforeDecode u cpu) hpos
  obtain ⟨f1, f2, -⟩ := sb_fetch_later u.f (decode u.drf (beforeDecode u cpu))
  have f3 := sb_fetch_halt u.f (decode u.drf (beforeDecode u cpu))
  obtain ⟨c20, c21, c30, c31, c40, c41⟩ := hq
  have hE : 2 ≤ EX := by decide
  have hM : 2 ≤ MEM := by decide
  have hW : 2 ≤ WB := by decide
  show (tick (fetch u.f (decode u.drf (beforeDecode u cpu)))).halt = _ ∧
    stallFree (tick (fetch u.f (decode u.drf (beforeDecode u cpu)))) ∧
    ((tick (fetch u.f (decode u.drf (beforeDecode u cpu)))).stage WB).opcode = _ ∧
    ((tick (fetch u.f (decode u.drf (beforeDecode u cpu)))).stage MEM).opcode = _ ∧
    (tick (fetch u.f (decode u.drf (beforeDecode u cpu)))).stage EX = _
  simp only [tick, stallFree]
  refine ⟨by rw [f3, d1, b1], ?_, by rw [f1 WB hW, d2, b4], by rw [f1 MEM hM, d2, b5],
    by rw [f1 EX hE, d2, b6]⟩
  rw [f2, d3 2 0 (le_refl _), d3 2 1 (le_refl _), d3 3 0 (by omega), d3 3 1 (by omega),
    d3 4 0 (by omega), d3 4 1 (by omega), b2]
  exact ⟨c20, c21, c30, c31, c40, c41⟩

/-- The pass of the loop body in which `decode` meets a HALT: the halt counter becomes 1 and the
HALT enters EX. -/
theorem sb_pass_decodes_HALT (u : Uninitialised) (cpu : APEX_CPU) (hq : stallFree cpu)
    (h1 : cpu.stage_check 1 0 = 0 ∧ cpu.stage_check 1 1 = 0) (hh : cpu.halt = 0)
    (hd : (cpu.stage DRF).opcode = Opcode.HALT)
    (hex : (cpu.stage EX).opcode ∉
      [Opcode.MUL, Opcode.BZ, Opcode.BNZ, Opcode.JUMP, Opcode.HALT])
    (hm : (cpu.stage MEM).opcode ≠ Opcode.HALT) (hw : (cpu.stage WB).opcode ≠ Opcode.HALT) :
    (loopBody u cpu).halt = 1 ∧ stallFree (loopBody u cpu) ∧
    ((loopBody u cpu).stage WB).opcode = (cpu.stage MEM).opcode ∧
    ((loopBody u cpu).stage MEM).opcode = (cpu.stage EX).opcode ∧
    ((loopBody u cpu).stage EX).opcode = Opcode.HALT := by
  have hex1 : (cpu.stage EX).opcode ∉ [Opcode.MUL, Opcode.BZ, Opcode.BNZ, Opcode.JUMP] := by
    intro h; apply hex; simp only [List.mem_cons] at h ⊢; tauto
  have hex2 : (cpu.stage EX).opcode ≠ Opcode.HALT := by
    intro h; apply hex; simp [h]
  obtain ⟨b1, b2, -, b4, b5, -, b7⟩ := sb_beforeDecode_flow u cpu hq hex1
  rw [haltsIn_of_ne cpu WB hw, haltsIn_of_ne cpu MEM hm, haltsIn_of_ne cpu EX hex2, hh] at b1
  have hg : (beforeDecode u cpu).stage_check 1 0 = 0 ∧
      (beforeDecode u cpu).stage_check 1 1 = 0 ∧ (beforeDecode u cpu).halt = 0 := by
    rw [b2, b1]; exact ⟨h1.1, h1.2, rfl⟩
  have hdq := sb_decode_HALT u.drf (beforeDecode u cpu) hg (by rw [b7]; exact hd)
  obtain ⟨f1, f2, -⟩ := sb_fetch_later u.f (decode u.drf (beforeDecode u cpu))
  have f3 := sb_fetch_halt u.f (decode u.drf (beforeDecode u cpu))
  obtain ⟨c20, c21, c30, c31, c40, c41⟩ := hq
  have hE : 2 ≤ EX := by decide
  have hM : 2 ≤ MEM := by decide
  have hW : 2 ≤ WB := by decide
  show (tick (fetch u.f (decode u.drf (beforeDecode u cpu)))).halt = _ ∧
    stallFree (tick (fetch u.f (decode u.drf (beforeDecode u cpu)))) ∧
    ((tick (fetch u.f (decode u.drf (beforeDecode u cpu)))).stage WB).opcode = _ ∧
    ((tick (fetch u.f (decode u.drf (beforeDecode u cpu)))).stage MEM).opcode = _ ∧
    ((tick (fetch u.f (decode u.drf (beforeDecode u cpu)))).stage EX).opcode = _
  simp only [tick, stallFree]
  rw [f3, f2, f1 WB hW, f1 MEM hM, f1 EX hE, hdq]
  refine ⟨rfl, ?_, ?_, ?_, ?_⟩
  · show (beforeDecode u cpu).stage_check 2 0 = 0 ∧ (beforeDecode u cpu).stage_check 2 1 = 0 ∧
      (beforeDecode u cpu).stage_check 3 0 = 0 ∧ (beforeDecode u cpu).stage_check 3 1 = 0 ∧
      (beforeDecode u cpu).stage_check 4 0 = 0 ∧ (beforeDecode u cpu).stage_check 4 1 = 0
    rw [b2]; exact ⟨c20, c21, c30, c31, c40, c41⟩
  · simpa [APEX_CPU.setStage, APEX_CPU.setSet, raiseHalt] using b4
  · simpa [APEX_CPU.setStage, APEX_CPU.setSet, raiseHalt] using b5
  · simp [APEX_CPU.setStage, b7, hd]

end WithoutDependencies

namespace WithDependencies

/-- One call of `writeback` whose guard holds: the halt counter, the stall bits and the latches. -/
theorem fw_writeback_flow (Apex : CPU_Stage) (cpu : APEX_CPU)
    (hg : cpu.stage_check 4 0 = 0 ∧ cpu.stage_check 4 1 = 0) :
    (writeback Apex cpu).halt = cpu.halt + haltsIn cpu WB ∧
    (writeback Apex cpu).stage_check = cpu.stage_check ∧
    (writeback Apex cpu).stage_set = cpu.stage_set ∧
    (writeback Apex cpu).stage WB = Apex ∧
    (∀ j, j ≠ WB → (writeback Apex cpu).stage j = cpu.stage j) := by
  obtain ⟨h1, h2, h3⟩ := fw_writeback_eq Apex cpu hg
  rw [h1, fw_writebackGuarded_eq _ _ ⟨h2, h3⟩]
  refine ⟨?_, rfl, rfl, ?_, ?_⟩
  · simp only [haltsIn]; split <;> simp
  · simp
  · intro j hj; simp [hj]

/-- One call of the guarded part of `memory` whose guard holds: the halt counter, the stall bits
and the latches. -/
theorem fw_memoryGuarded_flow (Apex : CPU_Stage) (cpu : APEX_CPU)
    (hg : cpu.stage_check 3 0 = 0 ∧ cpu.stage_check 3 1 = 0) :
    (memoryGuarded Apex cpu).halt = cpu.halt + haltsIn cpu MEM ∧
    (memoryGuarded Apex cpu).stage_check = cpu.stage_check ∧
    (∀ i j, i ≠ 3 → (memoryGuarded Apex cpu).stage_set i j = cpu.stage_set i j) ∧
    ((memoryGuarded Apex cpu).stage WB).opcode = (cpu.stage MEM).opcode ∧
    (memoryGuarded Apex cpu).stage MEM = Apex ∧
    (∀ j, j < 3 → (memoryGuarded Apex cpu).stage j = cpu.stage j) := by
  rw [fw_memoryGuarded_eq _ _ hg]
  refine ⟨?_, rfl, ?_, ?_, ?_, ?_⟩
  · simp only [haltsIn]; split <;> simp
  · intro i j hi; simp [upd2, hi]
  · have h43 : (4 : Nat) ≠ 3 := by decide
    simp only [WB, MEM, h43, if_false, if_true]; split <;> rfl
  · simp
  · intro j hj
    have h3 : j ≠ MEM := by simp only [MEM]; omega
    have h4 : j ≠ WB := by simp only [WB]; omega
    simp [h3, h4]

/-- One call of `memory` whose guard holds: the halt counter, the stall bits and the latches. -/
theorem fw_memory_flow (Apex : CPU_Stage) (cpu : APEX_CPU)
    (hg : cpu.stage_check 3 0 = 0 ∧ cpu.stage_check 3 1 = 0) :
    (memory Apex cpu).halt = cpu.halt + haltsIn cpu MEM ∧
    (memory Apex cpu).stage_check = cpu.stage_check ∧
    (∀ i j, i ≠ 3 → (memory Apex cpu).stage_set i j = cpu.stage_set i j) ∧
    ((memory Apex cpu).stage WB).opcode = (cpu.stage MEM).opcode ∧
    (memory Apex cpu).stage MEM = Apex ∧
    (∀ j, j < 3 → (memory Apex cpu).stage j = cpu.stage j) := by
  have hr := fw_refreshBypass_eq 16 cpu
  have r1 : (refreshBypass 16 cpu).halt = cpu.halt := by rw [hr]
  have r2 : (refreshBypass 16 cpu).stage = cpu.stage := by rw [hr]
  have r3 : (refreshBypass 16 cpu).stage_check = cpu.stage_check := by rw [hr]
  have r4 : (refreshBypass 16 cpu).stage_set = cpu.stage_set := by rw [hr]
  have hm := fw_memoryGuarded_flow Apex (refreshBypass 16 cpu) (by rw [r3]; exact hg)
  simp only [haltsIn, r1, r2, r3, r4] at hm
  exact hm

/-- One call of `execute` with no EX stall bit set, on a latch that holds none of MUL, BZ, BNZ,
JUMP: the instruction moves to MEM and a HALT is counted. The uninitialised latch must not read
as a HALT, or the closing test of `execute` copies it to MEM. -/
theorem fw_execute_flow (Apex : CPU_Stage) (cpu : APEX_CPU)
    (hg : cpu.stage_check 2 0 = 0 ∧ cpu.stage_check 2 1 = 0)
    (hop : (cpu.stage EX).opcode ∉ [Opcode.MUL, Opcode.BZ, Opcode.BNZ, Opcode.JUMP])
    (hA : Apex.opcode ≠ Opcode.HALT) :
    (execute Apex cpu).halt = cpu.halt + haltsIn cpu EX ∧
    (execute Apex cpu).stage_check = cpu.stage_check ∧
    (execute Apex cpu).stage_set 2 0 = 1 ∧
    (execute Apex cpu).stage WB = cpu.stage WB ∧
    (execute Apex cpu).stage DRF = cpu.stage DRF ∧
    ((execute Apex cpu).stage MEM).opcode = (cpu.stage EX).opcode ∧
    (execute Apex cpu).stage EX = Apex := by
  have hE : ((executeArms Apex cpu).stage EX) = Apex := by
    simp only [executeArms, hg, and_self, if_true, fw_executeFirst_eq, executeBlock]
    cases hop2 : (cpu.stage EX).opcode <;> simp [hop2] at hop <;>
      simp [passToMEM, APEX_CPU.setStage, APEX_CPU.setSet, APEX_CPU.setCheck,
        APEX_CPU.setMemAddress, APEX_CPU.setBuffer, bumpHalt, markForward, upd2, hg.1, hop2,
        storeAddress, loadAddress, ldrAddress, movc, alu, loadEX, ldrEX, publishEX, recordData]
  have hx : execute Apex cpu = executeArms Apex cpu := by
    simp only [execute, ifOp, hE, List.mem_singleton, hA, if_false]
  rw [hx]
  simp only [executeArms, hg, and_self, if_true, fw_executeFirst_eq, executeBlock, haltsIn]
  cases hop2 : (cpu.stage EX).opcode <;> simp [hop2] at hop <;>
    simp [passToMEM, APEX_CPU.setStage, APEX_CPU.setSet, APEX_CPU.setCheck,
      APEX_CPU.setMemAddress, APEX_CPU.setBuffer, bumpHalt, markForward, upd2, hg.1, hop2,
      storeAddress, loadAddress, ldrAddress, movc, alu, loadEX, ldrEX, publishEX, recordData]

/-- `decode` of a HALT with `halt = 0`, no DRF stall bit set and the EX latch free. -/
theorem fw_decode_HALT (cpu : APEX_CPU)
    (hg : cpu.stage_check 1 0 = 0 ∧ cpu.stage_check 1 1 = 0 ∧ cpu.halt = 0)
    (hs : cpu.stage_set 2 0 ≠ 0) (hop : (cpu.stage DRF).opcode = Opcode.HALT) :
    decode cpu = ((raiseHalt cpu).setSet 1 0 1).setStage EX (cpu.stage DRF) := by
  have h1 : decodeUnstall cpu = cpu := by rw [fw_decodeUnstall_eq]; simp only [unstallBlock, hop]
  have h2 : decodeRead cpu = raiseHalt cpu := by rw [fw_decodeRead_eq]; simp only [readBlock, hop]
  have h3 : (raiseHalt cpu).stage_check 1 1 = 0 ∧ (raiseHalt cpu).stage_set 2 0 ≠ 0 :=
    ⟨hg.2.1, hs⟩
  rw [decode, h1, decodeGuarded, if_pos hg, h2, issue, if_pos h3]
  rfl

/-- The pre-checks of `decode` either do nothing or clear `stage_check[1][1]`. -/
theorem fw_decodeUnstall_cases (cpu : APEX_CPU) :
    decodeUnstall cpu = cpu ∨ decodeUnstall cpu = cpu.setCheck 1 1 0 := by
  rw [fw_decodeUnstall_eq]
  cases hop : (cpu.stage DRF).opcode <;>
    simp only [unstallBlock, hop, unstallBranch, unstallForwarded, unstallTwoValid,
      unstallOneValid] <;>
    first
    | exact Or.inl rfl
    | exact Or.inl trivial
    | (split
       · exact Or.inr rfl
       · exact Or.inl rfl)

/-- `decode` while the halt counter is not 0: the guard fails. -/
theorem fw_decode_halted (cpu : APEX_CPU) (hh : cpu.halt ≠ 0) :
    (decode cpu).halt = cpu.halt ∧ (decode cpu).stage = cpu.stage ∧
    (∀ i j, 2 ≤ i → (decode cpu).stage_check i j = cpu.stage_check i j) := by
  unfold decode
  rcases fw_decodeUnstall_cases cpu with h | h <;> rw [h]
  · have hg : ¬ (cpu.stage_check 1 0 = 0 ∧ cpu.stage_check 1 1 = 0 ∧ cpu.halt = 0) :=
      fun hg => hh hg.2.2
    rw [decodeGuarded, if_neg hg]
    exact ⟨rfl, rfl, fun _ _ _ => rfl⟩
  · have hg : ¬ ((cpu.setCheck 1 1 0).stage_check 1 0 = 0 ∧
        (cpu.setCheck 1 1 0).stage_check 1 1 = 0 ∧ (cpu.setCheck 1 1 0).halt = 0) :=
      fun hg => hh hg.2.2
    rw [decodeGuarded, if_neg hg]
    refine ⟨rfl, rfl, ?_⟩
    intro i j hi
    have : i ≠ 1 := by omega
    simp [APEX_CPU.setCheck, upd2, this]

/-- The stages behind DRF, the stall bits and the halt counter are out of reach of `fetch`. -/
theorem fw_fetch_later (cpu : APEX_CPU) :
    (∀ j, 2 ≤ j → (fetch cpu).stage j = cpu.stage j) ∧
    (fetch cpu).stage_check = cpu.stage_check ∧ (fetch cpu).halt = cpu.halt := by
  refine ⟨fun j hj => ?_, ?_, ?_⟩
  · have hF : j ≠ F := by simp only [F]; omega
    have hD : j ≠ DRF := by simp only [DRF]; omega
    simp only [fetch, handToDRF, fetchInstruction, releaseHeld]
    split_ifs <;> simp [APEX_CPU.setStage, APEX_CPU.setSet, hF, hD]
  · simp only [fetch, handToDRF, fetchInstruction, releaseHeld]
    split_ifs <;> simp [APEX_CPU.setStage, APEX_CPU.setSet]
  · simp only [fetch, handToDRF, fetchInstruction, releaseHeld]
    split_ifs <;> rfl

/-- One pass of the loop body up to `execute`, as `sb_beforeDecode_flow`. -/
theorem fw_beforeDecode_flow (u : Uninitialised) (hu : inertJunk u) (cpu : APEX_CPU)
    (hq : stallFree cpu)
    (hex : (cpu.stage EX).opcode ∉ [Opcode.MUL, Opcode.BZ, Opcode.BNZ, Opcode.JUMP]) :
    (beforeDecode u cpu).halt = cpu.halt + haltsIn cpu WB + haltsIn cpu MEM + haltsIn cpu EX ∧
    (beforeDecode u cpu).stage_check = cpu.stage_check ∧
    (beforeDecode u cpu).stage_set 2 0 = 1 ∧
    ((beforeDecode u cpu).stage WB).opcode = (cpu.stage MEM).opcode ∧
    ((beforeDecode u cpu).stage MEM).opcode = (cpu.stage EX).opcode ∧
    (beforeDecode u cpu).stage EX = u.ex ∧
    (beforeDecode u cpu).stage DRF = cpu.stage DRF := by
  obtain ⟨c20, c21, c30, c31, c40, c41⟩ := hq
  obtain ⟨w1, w2, -, -, w5⟩ := fw_writeback_flow u.wb cpu ⟨c40, c41⟩
  have hD3 : DRF < 3 := by decide
  have hE3 : EX < 3 := by decide
  have hE4 : EX ≠ WB := by decide
  have hM4 : MEM ≠ WB := by decide
  have hD4 : DRF ≠ WB := by decide
  obtain ⟨m1, m2, -, m4, -, m6⟩ := fw_memory_flow u.mem (writeback u.wb cpu)
    (by rw [w2]; exact ⟨c30, c31⟩)
  obtain ⟨e1, e2, e3, e4, e5, e6, e7⟩ := fw_execute_flow u.ex (memory u.mem (writeback u.wb cpu))
    (by rw [m2, w2]; exact ⟨c20, c21⟩) (by rw [m6 EX hE3, w5 EX hE4]; exact hex)
    (inert_not_HALT _ hu.2.2.1)
  unfold beforeDecode
  refine ⟨?_, ?_, e3, ?_, ?_, e7, ?_⟩
  · rw [e1, m1, w1, haltsIn_congr (congrArg CPU_Stage.opcode ((m6 EX hE3).trans (w5 EX hE4))),
      haltsIn_congr (congrArg CPU_Stage.opcode (w5 MEM hM4))]
  · rw [e2, m2, w2]
  · rw [e4, m4, w5 MEM hM4]
  · rw [e6, m6 EX hE3, w5 EX hE4]
  · rw [e5, m6 DRF hD3, w5 DRF hD4]

/-- One pass of the loop body while the halt counter is positive, as `sb_pass_halted`. -/
theorem fw_pass_halted (u : Uninitialised) (hu : inertJunk u) (cpu : APEX_CPU)
    (hq : stallFree cpu) (hh : 0 < cpu.halt)
    (hex : (cpu.stage EX).opcode ∉ [Opcode.MUL, Opcode.BZ, Opcode.BNZ, Opcode.JUMP]) :
    (loopBody u cpu).halt = cpu.halt + haltsIn cpu WB + haltsIn cpu MEM + haltsIn cpu EX ∧
    stallFree (loopBody u cpu) ∧
    ((loopBody u cpu).stage WB).opcode = (cpu.stage MEM).opcode ∧
    ((loopBody u cpu).stage MEM).opcode = (cpu.stage EX).opcode ∧
    (loopBody u cpu).stage EX = u.ex := by
  obtain ⟨b1, b2, -, b4, b5, b6, -⟩ := fw_beforeDecode_flow u hu cpu hq hex
  have hpos : (beforeDecode u cpu).halt ≠ 0 := by
    have := haltsIn_nonneg cpu WB
    have := haltsIn_nonneg cpu MEM
    have := haltsIn_nonneg cpu EX
    rw [b1]; omega
  obtain ⟨d1, d2, d3⟩ := fw_decode_halted (beforeDecode u cpu) hpos
  obtain ⟨f1, f2, f3⟩ := fw_fetch_later (decode (beforeDecode u cpu))
  obtain ⟨c20, c21, c30, c31, c40, c41⟩ := hq
  have hE : 2 ≤ EX := by decide
  have hM : 2 ≤ MEM := by decide
  have hW : 2 ≤ WB := by decide
  show (tick (fetch (decode (beforeDecode u cpu)))).halt = _ ∧
    stallFree (tick (fetch (decode (beforeDecode u cpu)))) ∧
    ((tick (fetch (decode (beforeDecode u cpu)))).stage WB).opcode = _ ∧
    ((tick (fetch (decode (beforeDecode u cpu)))).stage MEM).opcode = _ ∧
    (tick (fetch (decode (beforeDecode u cpu)))).stage EX = _
  simp only [tick, stallFree]
  refine ⟨by rw [f3, d1, b1], ?_, by rw [f1 WB hW, d2, b4], by rw [f1 MEM hM, d2, b5],
    by rw [f1 EX hE, d2, b6]⟩
  rw [f2, d3 2 0 (le_refl _), d3 2 1 (le_refl _), d3 3 0 (by omega), d3 3 1 (by omega),
    d3 4 0 (by omega), d3 4 1 (by omega), b2]
  exact ⟨c20, c21, c30, c31, c40, c41⟩

/-- The pass of the loop body in which `decode` meets a HALT, as `sb_pass_decodes_HALT`. -/
theorem fw_pass_decodes_HALT (u : Uninitialised) (hu : inertJunk u) (cpu : APEX_CPU)
    (hq : stallFree cpu)
    (h1 : cpu.stage_check 1 0 = 0 ∧ cpu.stage_check 1 1 = 0) (hh : cpu.halt = 0)
    (hd : (cpu.stage DRF).opcode = Opcode.HALT)
    (hex : (cpu.stage EX).opcode ∉
      [Opcode.MUL, Opcode.BZ, Opcode.BNZ, Opcode.JUMP, Opcode.HALT])
    (hm : (cpu.stage MEM).opcode ≠ Opcode.HALT) (hw : (cpu.stage WB).opcode ≠ Opcode.HALT) :
    (loopBody u cpu).halt = 1 ∧ stallFree (loopBody u cpu) ∧
    ((loopBody u cpu).stage WB).opcode = (cpu.stage MEM).opcode ∧
    ((loopBody u cpu).stage MEM).opcode = (cpu.stage EX).opcode ∧
    ((loopBody u cpu).stage EX).opcode = Opcode.HALT := by
  have hex1 : (cpu.stage EX).opcode ∉ [Opcode.MUL, Opcode.BZ, Opcode.BNZ, Opcode.JUMP] := by
    intro h; apply hex; simp only [List.mem_cons] at h ⊢; tauto
  have hex2 : (cpu.stage EX).opcode ≠ Opcode.HALT := by
    intro h; apply hex; simp [h]
  obtain ⟨b1, b2, b3, b4, b5, -, b7⟩ := fw_beforeDecode_flow u hu cpu hq hex1
  rw [haltsIn_of_ne cpu WB hw, haltsIn_of_ne cpu MEM hm, haltsIn_of_ne cpu EX hex2, hh] at b1
  have hg : (beforeDecode u cpu).stage_check 1 0 = 0 ∧
      (beforeDecode u cpu).stage_check 1 1 = 0 ∧ (beforeDecode u cpu).halt = 0 := by
    rw [b2, b1]; exact ⟨h1.1, h1.2, rfl⟩
  have hdq := fw_decode_HALT (beforeDecode u cpu) hg (by rw [b3]; decide) (by rw [b7]; exact hd)
  obtain ⟨f1, f2, f3⟩ := fw_fetch_later (decode (beforeDecode u cpu))
  obtain ⟨c20, c21, c30, c31, c40, c41⟩ := hq
  have hE : 2 ≤ EX := by decide
  have hM : 2 ≤ MEM := by decide
  have hW : 2 ≤ WB := by decide
  show (tick (fetch (decode (beforeDecode u cpu)))).halt = _ ∧
    stallFree (tick (fetch (decode (beforeDecode u cpu)))) ∧
    ((tick (fetch (decode (beforeDecode u cpu)))).stage WB).opcode = _ ∧
    ((tick (fetch (decode (beforeDecode u cpu)))).stage MEM).opcode = _ ∧
    ((tick (fetch (decode (beforeDecode u cpu)))).stage EX).opcode = _
  simp only [tick, stallFree]
  rw [f3, f2, f1 WB hW, f1 MEM hM, f1 EX hE, hdq]
  refine ⟨rfl, ?_, ?_, ?_, ?_⟩
  · show (beforeDecode u cpu).stage_check 2 0 = 0 ∧ (beforeDecode u cpu).stage_check 2 1 = 0 ∧
      (beforeDecode u cpu).stage_check 3 0 = 0 ∧ (beforeDecode u cpu).stage_check 3 1 = 0 ∧
      (beforeDecode u cpu).stage_check 4 0 = 0 ∧ (beforeDecode u cpu).stage_check 4 1 = 0
    rw [b2]; exact ⟨c20, c21, c30, c31, c40, c41⟩
  · simpa [APEX_CPU.setStage, APEX_CPU.setSet, raiseHalt] using b4
  · simpa [APEX_CPU.setStage, APEX_CPU.setSet, raiseHalt] using b5
  · simp [APEX_CPU.setStage, b7, hd]

end WithDependencies

theorem passToMEM_halt (Apex : CPU_Stage) (cpu : APEX_CPU) :
    (passToMEM Apex cpu).halt = cpu.halt := by
  unfold passToMEM; split <;> rfl

theorem moveToMEM_halt (Apex : CPU_Stage) (cpu : APEX_CPU) :
    (moveToMEM Apex cpu).halt = cpu.halt := rfl

namespace WithoutDependencies

/-- A HALT that `decode` meets in a state with no stall bit set, behind an EX latch without MUL,
BZ, BNZ, JUMP, HALT and with no other HALT in MEM and WB: the halt counter is 1, 2, 3 after this
pass and the next two, 4 after the `writeback` call of the fourth pass and at its end. -/
theorem sb_HALT_flow (u1 u2 u3 u4 : Uninitialised) (h2 : inertJunk u2) (h3 : inertJunk u3)
    (cpu : APEX_CPU) (hc : ∀ i j, cpu.stage_check i j = 0) (hh : cpu.halt = 0)
    (hd : (cpu.stage DRF).opcode = Opcode.HALT)
    (hex : (cpu.stage EX).opcode ∉
      [Opcode.MUL, Opcode.BZ, Opcode.BNZ, Opcode.JUMP, Opcode.HALT])
    (hm : (cpu.stage MEM).opcode ≠ Opcode.HALT) (hw : (cpu.stage WB).opcode ≠ Opcode.HALT) :
    (loopBody u1 cpu).halt = 1 ∧ (loopBody u2 (loopBody u1 cpu)).halt = 2 ∧
    (loopBody u3 (loopBody u2 (loopBody u1 cpu))).halt = 3 ∧
    (writeback u4.wb (loopBody u3 (loopBody u2 (loopBody u1 cpu)))).halt = 4 ∧
    (loopBody u4 (loopBody u3 (loopBody u2 (loopBody u1 cpu)))).halt = 4 := by
  have hex2 : (cpu.stage EX).opcode ≠ Opcode.HALT := by
    intro h; apply hex; simp [h]
  obtain ⟨a1, a2, a3, a4, a5⟩ := sb_pass_decodes_HALT u1 cpu
    ⟨hc 2 0, hc 2 1, hc 3 0, hc 3 1, hc 4 0, hc 4 1⟩ ⟨hc 1 0, hc 1 1⟩ hh hd hex hm hw
  obtain ⟨b1, b2, b3, b4, b5⟩ := sb_pass_halted u2 (loopBody u1 cpu) a2 (by rw [a1]; decide)
    (by rw [a5]; decide)
  rw [a1, haltsIn_of_ne _ WB (by rw [a3]; exact hm), haltsIn_of_ne _ MEM (by rw [a4]; exact hex2),
    haltsIn_of_eq _ EX a5] at b1
  obtain ⟨c1, c2, c3, c4, c5⟩ := sb_pass_halted u3 (loopBody u2 (loopBody u1 cpu)) b2
    (by rw [b1]; decide) (by rw [b5]; exact inert_plain _ h2.2.2.1)
  rw [b1, haltsIn_of_ne _ WB (by rw [b3, a4]; exact hex2), haltsIn_of_eq _ MEM (by rw [b4, a5]),
    haltsIn_of_ne _ EX (by rw [b5]; exact inert_not_HALT _ h2.2.2.1)] at c1
  obtain ⟨d1, -⟩ := sb_pass_halted u4 (loopBody u3 (loopBody u2 (loopBody u1 cpu))) c2
    (by rw [c1]; decide) (by rw [c5]; exact inert_plain _ h3.2.2.1)
  rw [c1, haltsIn_of_eq _ WB (by rw [c3, b4, a5]),
    haltsIn_of_ne _ MEM (by rw [c4, b5]; exact inert_not_HALT _ h2.2.2.1),
    haltsIn_of_ne _ EX (by rw [c5]; exact inert_not_HALT _ h3.2.2.1)] at d1
  obtain ⟨w1, -⟩ := sb_writeback_flow u4.wb (loopBody u3 (loopBody u2 (loopBody u1 cpu)))
    ⟨c2.2.2.2.2.1, c2.2.2.2.2.2⟩
  rw [c1, haltsIn_of_eq _ WB (by rw [c3, b4, a5])] at w1
  exact ⟨a1, by rw [b1]; rfl, by rw [c1]; rfl, by rw [w1]; rfl, by rw [d1]; rfl⟩

/-- `decode` of a HALT with `halt = 0` and no DRF stall bit set leaves `halt = 1`. -/
theorem sb_decode_HALT_halt (Apex : CPU_Stage) (cpu : APEX_CPU)
    (hg : cpu.stage_check 1 0 = 0 ∧ cpu.stage_check 1 1 = 0 ∧ cpu.halt = 0)
    (hop : (cpu.stage DRF).opcode = Opcode.HALT) : (decode Apex cpu).halt = 1 := by
  rw [sb_decode_HALT Apex cpu hg hop]; rfl

theorem sb_branch_halt (z : Int) (cpu : APEX_CPU) :
    (branch z cpu).halt = cpu.halt ∨ (branch z cpu).halt = 0 := by
  unfold branch
  split
  · exact Or.inl (by simp only [stallBranch, APEX_CPU.setStalled, APEX_CPU.setStage,
      APEX_CPU.setCheck])
  · split
    · exact Or.inr (by simp only [takeBranch, resetCompleted, clearHalt])
    · exact Or.inl rfl

theorem sb_finishBranch_halt (z : Int) (Apex : CPU_Stage) (cpu : APEX_CPU) :
    (finishBranch z Apex cpu).halt = cpu.halt := by
  show (moveToMEM Apex (if (releaseEX cpu).zflag = z then takeBranchAfterStall (releaseEX cpu)
    else releaseEX cpu)).halt = cpu.halt
  rw [moveToMEM_halt]
  split
  · simp only [takeBranchAfterStall, resetCompleted, squashFetched, branchTarget, releaseEX,
      APEX_CPU.setNOP, APEX_CPU.setStage, APEX_CPU.setCheck]
  · simp only [releaseEX, APEX_CPU.setCheck]

theorem sb_finishMUL_halt (Apex : CPU_Stage) (cpu : APEX_CPU) :
    (finishMUL Apex cpu).halt = cpu.halt := by
  simp only [finishMUL, moveToMEM, alu, markForward, releaseEX, APEX_CPU.setStage,
    APEX_CPU.setCheck, APEX_CPU.setBuffer]

theorem sb_executeBlock_halt (cpu : APEX_CPU) (hop : (cpu.stage EX).opcode ≠ Opcode.HALT) :
    (executeBlock cpu).halt = cpu.halt ∨ (executeBlock cpu).halt = 0 := by
  cases hop2 : (cpu.stage EX).opcode <;> simp only [executeBlock, hop2] <;>
    first
    | exact absurd hop2 hop
    | exact sb_branch_halt _ cpu
    | exact Or.inl (by simp only [storeAddress, loadAddress, ldrAddress, movc, alu, markForward,
        jump, resetCompleted, jumpTarget, startMUL, APEX_CPU.setMemAddress, APEX_CPU.setBuffer,
        APEX_CPU.setStage, APEX_CPU.setCheck])

/-- `execute` on a latch without a HALT leaves the halt counter, or clears it for a taken
branch. -/
theorem sb_execute_halt (Apex : CPU_Stage) (cpu : APEX_CPU)
    (hop : (cpu.stage EX).opcode ≠ Opcode.HALT) :
    (execute Apex cpu).halt = cpu.halt ∨ (execute Apex cpu).halt = 0 := by
  by_cases hg : cpu.stage_check 2 0 = 0 ∧ cpu.stage_check 2 1 = 0
  · rw [execute, if_pos hg, sb_executeFirst_eq, passToMEM_halt]
    exact sb_executeBlock_halt cpu hop
  · rw [execute, if_neg hg]
    split
    · exact Or.inl (sb_finishMUL_halt Apex cpu)
    · split
      · exact Or.inl (sb_finishBranch_halt 1 Apex cpu)
      · split
        · exact Or.inl (sb_finishBranch_halt 0 Apex cpu)
        · exact Or.inl rfl

/-- `execute` on a HALT with no EX stall bit set counts it. -/
theorem sb_execute_HALT_halt (Apex : CPU_Stage) (cpu : APEX_CPU)
    (hg : cpu.stage_check 2 0 = 0 ∧ cpu.stage_check 2 1 = 0)
    (hop : (cpu.stage EX).opcode = Opcode.HALT) : (execute Apex cpu).halt = cpu.halt + 1 := by
  rw [execute, if_pos hg, sb_executeFirst_eq, passToMEM_halt]
  simp only [executeBlock, hop, bumpHalt]

/-- `memory` counts a HALT when no MEM stall bit is set, and leaves the halt counter otherwise. -/
theorem sb_memory_halt (Apex : CPU_Stage) (cpu : APEX_CPU) :
    (cpu.stage_check 3 0 = 0 ∧ cpu.stage_check 3 1 = 0 →
      (cpu.stage MEM).opcode = Opcode.HALT → (memory Apex cpu).halt = cpu.halt + 1) ∧
    ((cpu.stage MEM).opcode ≠ Opcode.HALT → (memory Apex cpu).halt = cpu.halt) := by
  constructor
  · intro hg hop
    rw [(sb_memory_flow Apex cpu hg).1, haltsIn_of_eq cpu MEM hop]
  · intro hop
    by_cases hg : cpu.stage_check 3 0 = 0 ∧ cpu.stage_check 3 1 = 0
    · rw [(sb_memory_flow Apex cpu hg).1, haltsIn_of_ne cpu MEM hop, add_zero]
    · rw [memory, if_neg hg]

/-- `writeback` counts a HALT when no WB stall bit is set, and leaves the halt counter
otherwise. -/
theorem sb_writeback_halt (Apex : CPU_Stage) (cpu : APEX_CPU) :
    (cpu.stage_check 4 0 = 0 ∧ cpu.stage_check 4 1 = 0 →
      (cpu.stage WB).opcode = Opcode.HALT → (writeback Apex cpu).halt = cpu.halt + 1) ∧
    ((cpu.stage WB).opcode ≠ Opcode.HALT → (writeback Apex cpu).halt = cpu.halt) := by
  constructor
  · intro hg hop
    rw [(sb_writeback_flow Apex cpu hg).1, haltsIn_of_eq cpu WB hop]
  · intro hop
    by_cases hg : cpu.stage_check 4 0 = 0 ∧ cpu.stage_check 4 1 = 0
    · rw [(sb_writeback_flow Apex cpu hg).1, haltsIn_of_ne cpu WB hop, add_zero]
    · rw [writeback, if_neg hg]

end WithoutDependencies

namespace WithDependencies

/-- A HALT that `decode` meets, as `sb_HALT_flow`. -/
theorem fw_HALT_flow (u1 u2 u3 u4 : Uninitialised) (h1 : inertJunk u1) (h2 : inertJunk u2)
    (h3 : inertJunk u3) (h4 : inertJunk u4)
    (cpu : APEX_CPU) (hc : ∀ i j, cpu.stage_check i j = 0) (hh : cpu.halt = 0)
    (hd : (cpu.stage DRF).opcode = Opcode.HALT)
    (hex : (cpu.stage EX).opcode ∉
      [Opcode.MUL, Opcode.BZ, Opcode.BNZ, Opcode.JUMP, Opcode.HALT])
    (hm : (cpu.stage MEM).opcode ≠ Opcode.HALT) (hw : (cpu.stage WB).opcode ≠ Opcode.HALT) :
    (loopBody u1 cpu).halt = 1 ∧ (loopBody u2 (loopBody u1 cpu)).halt = 2 ∧
    (loopBody u3 (loopBody u2 (loopBody u1 cpu))).halt = 3 ∧
    (writeback u4.wb (loopBody u3 (loopBody u2 (loopBody u1 cpu)))).halt = 4 ∧
    (loopBody u4 (loopBody u3 (loopBody u2 (loopBody u1 cpu)))).halt = 4 := by
  have hex2 : (cpu.stage EX).opcode ≠ Opcode.HALT := by
    intro h; apply hex; simp [h]
  obtain ⟨a1, a2, a3, a4, a5⟩ := fw_pass_decodes_HALT u1 h1 cpu
    ⟨hc 2 0, hc 2 1, hc 3 0, hc 3 1, hc 4 0, hc 4 1⟩ ⟨hc 1 0, hc 1 1⟩ hh hd hex hm hw
  obtain ⟨b1, b2, b3, b4, b5⟩ := fw_pass_halted u2 h2 (loopBody u1 cpu) a2 (by rw [a1]; decide)
    (by rw [a5]; decide)
  rw [a1, haltsIn_of_ne _ WB (by rw [a3]; exact hm), haltsIn_of_ne _ MEM (by rw [a4]; exact hex2),
    haltsIn_of_eq _ EX a5] at b1
  obtain ⟨c1, c2, c3, c4, c5⟩ := fw_pass_halted u3 h3 (loopBody u2 (loopBody u1 cpu)) b2
    (by rw [b1]; decide) (by rw [b5]; exact inert_plain _ h2.2.2.1)
  rw [b1, haltsIn_of_ne _ WB (by rw [b3, a4]; exact hex2), haltsIn_of_eq _ MEM (by rw [b4, a5]),
    haltsIn_of_ne _ EX (by rw [b5]; exact inert_not_HALT _ h2.2.2.1)] at c1
  obtain ⟨d1, -⟩ := fw_pass_halted u4 h4 (loopBody u3 (loopBody u2 (loopBody u1 cpu))) c2
    (by rw [c1]; decide) (by rw [c5]; exact inert_plain _ h3.2.2.1)
  rw [c1, haltsIn_of_eq _ WB (by rw [c3, b4, a5]),
    haltsIn_of_ne _ MEM (by rw [c4, b5]; exact inert_not_HALT _ h2.2.2.1),
    haltsIn_of_ne _ EX (by rw [c5]; exact inert_not_HALT _ h3.2.2.1)] at d1
  obtain ⟨w1, -⟩ := fw_writeback_flow u4.wb (loopBody u3 (loopBody u2 (loopBody u1 cpu)))
    ⟨c2.2.2.2.2.1, c2.2.2.2.2.2⟩
  rw [c1, haltsIn_of_eq _ WB (by rw [c3, b4, a5])] at w1
  exact ⟨a1, by rw [b1]; rfl, by rw [c1]; rfl, by rw [w1]; rfl, by rw [d1]; rfl⟩

/-- `decode` of a HALT with `halt = 0` and no DRF stall bit set leaves `halt = 1`. -/
theorem fw_decode_HALT_halt (cpu : APEX_CPU)
    (hg : cpu.stage_check 1 0 = 0 ∧ cpu.stage_check 1 1 = 0 ∧ cpu.halt = 0)
    (hop : (cpu.stage DRF).opcode = Opcode.HALT) : (decode cpu).halt = 1 := by
  have h1 : decodeUnstall cpu = cpu := by rw [fw_decodeUnstall_eq]; simp only [unstallBlock, hop]
  have h2 : decodeRead cpu = raiseHalt cpu := by rw [fw_decodeRead_eq]; simp only [readBlock, hop]
  rw [decode, h1, decodeGuarded, if_pos hg, h2, issue]
  split <;> rfl

theorem fw_branch_halt (z : Int) (cpu : APEX_CPU) :
    (branch z cpu).halt = cpu.halt ∨ (branch z cpu).halt = 0 := by
  unfold branch
  split
  · exact Or.inl (by simp only [stallBranch, APEX_CPU.setStalled, APEX_CPU.setStage,
      APEX_CPU.setCheck])
  · split
    · exact Or.inr (by simp only [takeBranch, clearHalt])
    · exact Or.inl rfl

theorem fw_finishBranch_halt (z : Int) (Apex : CPU_Stage) (cpu : APEX_CPU) :
    (finishBranch z Apex cpu).halt = cpu.halt := by
  show (moveToMEM Apex (if (releaseEX cpu).zflag = z then takeBranchAfterStall (releaseEX cpu)
    else releaseEX cpu)).halt = cpu.halt
  rw [moveToMEM_halt]
  split
  · simp only [takeBranchAfterStall, squashFetched, branchTarget, releaseEX,
      APEX_CPU.setNOP, APEX_CPU.setStage, APEX_CPU.setCheck]
  · simp only [releaseEX, APEX_CPU.setCheck]

theorem fw_finishMUL_halt (Apex : CPU_Stage) (cpu : APEX_CPU) :
    (finishMUL Apex cpu).halt = cpu.halt := by
  simp only [finishMUL, moveToMEM, markForward, publishEX, APEX_CPU.setStage,
    APEX_CPU.setCheck, APEX_CPU.setSet, APEX_CPU.setBuffer]

theorem fw_execute_arms_halt (Apex : CPU_Stage) (cpu : APEX_CPU) :
    (execute Apex cpu).halt = (executeArms Apex cpu).halt := by
  simp only [execute, ifOp, haltToMEM]
  split
  · simp only [APEX_CPU.setStage]
  · rfl

theorem fw_executeBlock_halt (cpu : APEX_CPU) (hop : (cpu.stage EX).opcode ≠ Opcode.HALT) :
    (executeBlock cpu).halt = cpu.halt ∨ (executeBlock cpu).halt = 0 := by
  cases hop2 : (cpu.stage EX).opcode <;> simp only [executeBlock, hop2] <;>
    first
    | exact absurd hop2 hop
    | exact fw_branch_halt _ cpu
    | exact Or.inr (by simp only [jump, clearHalt])
    | exact Or.inl (by simp only [storeAddress, loadAddress, ldrAddress, movc, alu, markForward,
        loadEX, ldrEX, publishEX, recordData, startMUL, APEX_CPU.setMemAddress,
        APEX_CPU.setBuffer, APEX_CPU.setStage, APEX_CPU.setCheck, APEX_CPU.setSet])

/-- `execute` on a latch without a HALT leaves the halt counter, or clears it for a taken branch
or a JUMP. -/
theorem fw_execute_halt (Apex : CPU_Stage) (cpu : APEX_CPU)
    (hop : (cpu.stage EX).opcode ≠ Opcode.HALT) :
    (execute Apex cpu).halt = cpu.halt ∨ (execute Apex cpu).halt = 0 := by
  rw [fw_execute_arms_halt]
  by_cases hg : cpu.stage_check 2 0 = 0 ∧ cpu.stage_check 2 1 = 0
  · rw [executeArms, if_pos hg, fw_executeFirst_eq, passToMEM_halt]
    exact fw_executeBlock_halt cpu hop
  · rw [executeArms, if_neg hg]
    split
    · exact Or.inl (fw_finishMUL_halt Apex cpu)
    · split
      · exact Or.inl (fw_finishBranch_halt 1 Apex cpu)
      · split
        · exact Or.inl (fw_finishBranch_halt 0 Apex cpu)
        · exact Or.inl rfl

/-- `execute` on a HALT with no EX stall bit set counts it. -/
theorem fw_execute_HALT_halt (Apex : CPU_Stage) (cpu : APEX_CPU)
    (hg : cpu.stage_check 2 0 = 0 ∧ cpu.stage_check 2 1 = 0)
    (hop : (cpu.stage EX).opcode = Opcode.HALT) : (execute Apex cpu).halt = cpu.halt + 1 := by
  rw [fw_execute_arms_halt, executeArms, if_pos hg, fw_executeFirst_eq, passToMEM_halt]
  simp only [executeBlock, hop, bumpHalt]

/-- `memory` counts a HALT when no MEM stall bit is set, and leaves the halt counter otherwise. -/
theorem fw_memory_halt (Apex : CPU_Stage) (cpu : APEX_CPU) :
    (cpu.stage_check 3 0 = 0 ∧ cpu.stage_check 3 1 = 0 →
      (cpu.stage MEM).opcode = Opcode.HALT → (memory Apex cpu).halt = cpu.halt + 1) ∧
    ((cpu.stage MEM).opcode ≠ Opcode.HALT → (memory Apex cpu).halt = cpu.halt) := by
  constructor
  · intro hg hop
    rw [(fw_memory_flow Apex cpu hg).1, haltsIn_of_eq cpu MEM hop]
  · intro hop
    by_cases hg : cpu.stage_check 3 0 = 0 ∧ cpu.stage_check 3 1 = 0
    · rw [(fw_memory_flow Apex cpu hg).1, haltsIn_of_ne cpu MEM hop, add_zero]
    · have hr := fw_refreshBypass_eq 16 cpu
      have r3 : (refreshBypass 16 cpu).stage_check = cpu.stage_check := by rw [hr]
      have r1 : (refreshBypass 16 cpu).halt = cpu.halt := by rw [hr]
      rw [memory, memoryGuarded, if_neg (by rw [r3]; exact hg), r1]

/-- `writeback` counts a HALT when no WB stall bit is set, and leaves the halt counter
otherwise. -/
theorem fw_writeback_halt (Apex : CPU_Stage) (cpu : APEX_CPU) :
    (cpu.stage_check 4 0 = 0 ∧ cpu.stage_check 4 1 = 0 →
      (cpu.stage WB).opcode = Opcode.HALT → (writeback Apex cpu).halt = cpu.halt + 1) ∧
    ((cpu.stage WB).opcode ≠ Opcode.HALT → (writeback Apex cpu).halt = cpu.halt) := by
  constructor
  · intro hg hop
    rw [(fw_writeback_flow Apex cpu hg).1, haltsIn_of_eq cpu WB hop]
  · intro hop
    by_cases hg : cpu.stage_check 4 0 = 0 ∧ cpu.stage_check 4 1 = 0
    · rw [(fw_writeback_flow Apex cpu hg).1, haltsIn_of_ne cpu WB hop, add_zero]
    · have hr := fw_revalidate_eq 16 cpu
      have r3 : (revalidate 16 cpu).stage_check = cpu.stage_check := by rw [hr]
      have r1 : (revalidate 16 cpu).halt = cpu.halt := by rw [hr]
      rw [writeback, writebackGuarded, if_neg (by rw [r3]; exact hg), r1]

end WithDependencies

namespace WithoutDependencies

theorem sb_passes_one (junk : Nat → Uninitialised) (cpu : APEX_CPU) :
    passes junk 1 cpu = loopBody (junk 0) cpu := rfl

theorem sb_passes_two (junk : Nat → Uninitialised) (cpu : APEX_CPU) :
    passes junk 2 cpu = loopBody (junk 1) (loopBody (junk 0) cpu) := rfl

theorem sb_passes_three (junk : Nat → Uninitialised) (cpu : APEX_CPU) :
    passes junk 3 cpu = loopBody (junk 2) (loopBody (junk 1) (loopBody (junk 0) cpu)) := rfl

theorem sb_passes_four (junk : Nat → Uninitialised) (cpu : APEX_CPU) :
    passes junk 4 cpu =
      loopBody (junk 3) (loopBody (junk 2) (loopBody (junk 1) (loopBody (junk 0) cpu))) := rfl

/-- A state whose halt counter is 4 or more ends the run at once. -/
theorem sb_run_of_halt (junk : Nat → Uninitialised) (fuel : Nat) (cpu : APEX_CPU)
    (h : cpu.halt = 4) : APEX_cpu_run junk (fuel + 1) cpu = some cpu := by
  have hs : stops cpu := Or.inr (Or.inr (by omega))
  unfold APEX_cpu_run
  rw [whileRunning_succ, if_pos hs]

end WithoutDependencies

namespace WithDependencies

theorem fw_passes_one (junk : Nat → Uninitialised) (cpu : APEX_CPU) :
    passes junk 1 cpu = loopBody (junk 0) cpu := rfl

theorem fw_passes_two (junk : Nat → Uninitialised) (cpu : APEX_CPU) :
    passes junk 2 cpu = loopBody (junk 1) (loopBody (junk 0) cpu) := rfl

theorem fw_passes_three (junk : Nat → Uninitialised) (cpu : APEX_CPU) :
    passes junk 3 cpu = loopBody (junk 2) (loopBody (junk 1) (loopBody (junk 0) cpu)) := rfl

theorem fw_passes_four (junk : Nat → Uninitialised) (cpu : APEX_CPU) :
    passes junk 4 cpu =
      loopBody (junk 3) (loopBody (junk 2) (loopBody (junk 1) (loopBody (junk 0) cpu))) := rfl

/-- A state whose halt counter is 4 or more ends the run at once. -/
theorem fw_run_of_halt (junk : Nat → Uninitialised) (fuel : Nat) (cpu : APEX_CPU)
    (h : cpu.halt = 4) : APEX_cpu_run junk (fuel + 1) cpu = some cpu := by
  have hs : stops cpu := Or.inr (Or.inr (by omega))
  unfold APEX_cpu_run
  rw [whileRunning_succ, if_pos hs]

end WithDependencies

/-- C22: in both variants `decode` of a HALT with `halt = 0` and no DRF stall bit set leaves
`halt = 1`; `execute`, `memory` and `writeback` add exactly 1 to `halt` when the latch they
process (no stall bit of the stage set) holds a HALT, and never add to it for another latch
(`memory` and `writeback` leave it, `execute` leaves it or clears it for a taken branch). So a
HALT that `decode` meets in a state with no stall bit set, with nothing in EX that stalls or
redirects (no MUL, BZ, BNZ, JUMP) and no other HALT ahead of it, gives `halt` = 1, 2, 3 at the end
of this pass and the next two and `halt = 4` after the `writeback` call of the fourth pass and at
its end, where the exit test of `APEX_cpu_run` stops the run. The uninitialised latches are taken
to hold no instruction. -/
theorem C22_halt_counter :
    (∀ (Apex : CPU_Stage) (cpu : APEX_CPU),
      cpu.stage_check 1 0 = 0 ∧ cpu.stage_check 1 1 = 0 ∧ cpu.halt = 0 →
      (cpu.stage DRF).opcode = Opcode.HALT →
      (WithoutDependencies.decode Apex cpu).halt = 1 ∧ (WithDependencies.decode cpu).halt = 1) ∧
    (∀ (Apex : CPU_Stage) (cpu : APEX_CPU),
      (cpu.stage_check 2 0 = 0 ∧ cpu.stage_check 2 1 = 0 →
        (cpu.stage EX).opcode = Opcode.HALT →
        (WithoutDependencies.execute Apex cpu).halt = cpu.halt + 1 ∧
        (WithDependencies.execute Apex cpu).halt = cpu.halt + 1) ∧
      ((cpu.stage EX).opcode ≠ Opcode.HALT →
        ((WithoutDependencies.execute Apex cpu).halt = cpu.halt ∨
          (WithoutDependencies.execute Apex cpu).halt = 0) ∧
        ((WithDependencies.execute Apex cpu).halt = cpu.halt ∨
          (WithDependencies.execute Apex cpu).halt = 0))) ∧
    (∀ (Apex : CPU_Stage) (cpu : APEX_CPU),
      (cpu.stage_check 3 0 = 0 ∧ cpu.stage_check 3 1 = 0 →
        (cpu.stage MEM).opcode = Opcode.HALT →
        (WithoutDependencies.memory Apex cpu).halt = cpu.halt + 1 ∧
        (WithDependencies.memory Apex cpu).halt = cpu.halt + 1) ∧
      ((cpu.stage MEM).opcode ≠ Opcode.HALT →
        (WithoutDependencies.memory Apex cpu).halt = cpu.halt ∧
        (WithDependencies.memory Apex cpu).halt = cpu.halt)) ∧
    (∀ (Apex : CPU_Stage) (cpu : APEX_CPU),
      (cpu.stage_check 4 0 = 0 ∧ cpu.stage_check 4 1 = 0 →
        (cpu.stage WB).opcode = Opcode.HALT →
        (WithoutDependencies.writeback Apex cpu).halt = cpu.halt + 1 ∧
        (WithDependencies.writeback Apex cpu).halt = cpu.halt + 1) ∧
      ((cpu.stage WB).opcode ≠ Opcode.HALT →
        (WithoutDependencies.writeback Apex cpu).halt = cpu.halt ∧
        (WithDependencies.writeback Apex cpu).halt = cpu.halt)) ∧
    (∀ (junk : Nat → Uninitialised) (cpu : APEX_CPU), (∀ k, inertJunk (junk k)) →
      (∀ i j, cpu.stage_check i j = 0) → cpu.halt = 0 →
      (cpu.stage DRF).opcode = Opcode.HALT →
      (cpu.stage EX).opcode ∉ [Opcode.MUL, Opcode.BZ, Opcode.BNZ, Opcode.JUMP, Opcode.HALT] →
      (cpu.stage MEM).opcode ≠ Opcode.HALT → (cpu.stage WB).opcode ≠ Opcode.HALT →
      ((WithoutDependencies.passes junk 1 cpu).halt = 1 ∧
        (WithoutDependencies.passes junk 2 cpu).halt = 2 ∧
        (WithoutDependencies.passes junk 3 cpu).halt = 3 ∧
        (WithoutDependencies.writeback (junk 3).wb
          (WithoutDependencies.passes junk 3 cpu)).halt = 4 ∧
        (WithoutDependencies.passes junk 4 cpu).halt = 4 ∧
        ∀ fuel, WithoutDependencies.APEX_cpu_run (fun k => junk (k + 4)) (fuel + 1)
            (WithoutDependencies.passes junk 4 cpu) =
          some (WithoutDependencies.passes junk 4 cpu)) ∧
      ((WithDependencies.passes junk 1 cpu).halt = 1 ∧
        (WithDependencies.passes junk 2 cpu).halt = 2 ∧
        (WithDependencies.passes junk 3 cpu).halt = 3 ∧
        (WithDependencies.writeback (junk 3).wb (WithDependencies.passes junk 3 cpu)).halt = 4 ∧
        (WithDependencies.passes junk 4 cpu).halt = 4 ∧
        ∀ fuel, WithDependencies.APEX_cpu_run (fun k => junk (k + 4)) (fuel + 1)
            (WithDependencies.passes junk 4 cpu) =
          some (WithDependencies.passes junk 4 cpu))) := by
  refine ⟨fun Apex cpu hg hop => ?_, fun Apex cpu => ⟨fun hg hop => ?_, fun hop => ?_⟩,
    fun Apex cpu => ⟨fun hg hop => ?_, fun hop => ?_⟩,
    fun Apex cpu => ⟨fun hg hop => ?_, fun hop => ?_⟩,
    fun junk cpu hj hc hh hd hex hm hw => ⟨?_, ?_⟩⟩
  · exact ⟨WithoutDependencies.sb_decode_HALT_halt Apex cpu hg hop,
      WithDependencies.fw_decode_HALT_halt cpu hg hop⟩
  · exact ⟨WithoutDependencies.sb_execute_HALT_halt Apex cpu hg hop,
      WithDependencies.fw_execute_HALT_halt Apex cpu hg hop⟩
  · exact ⟨WithoutDependencies.sb_execute_halt Apex cpu hop,
      WithDependencies.fw_execute_halt Apex cpu hop⟩
  · exact ⟨(WithoutDependencies.sb_memory_halt Apex cpu).1 hg hop,
      (WithDependencies.fw_memory_halt Apex cpu).1 hg hop⟩
  · exact ⟨(WithoutDependencies.sb_memory_halt Apex cpu).2 hop,
      (WithDependencies.fw_memory_halt Apex cpu).2 hop⟩
  · exact ⟨(WithoutDependencies.sb_writeback_halt Apex cpu).1 hg hop,
      (WithDependencies.fw_writeback_halt Apex cpu).1 hg hop⟩
  · exact ⟨(WithoutDependencies.sb_writeback_halt Apex cpu).2 hop,
      (WithDependencies.fw_writeback_halt Apex cpu).2 hop⟩
  · obtain ⟨a, b, c, d, e⟩ := WithoutDependencies.sb_HALT_flow (junk 0) (junk 1) (junk 2)
      (junk 3) (hj 1) (hj 2) cpu hc hh hd hex hm hw
    rw [WithoutDependencies.sb_passes_one, WithoutDependencies.sb_passes_two,
      WithoutDependencies.sb_passes_three, WithoutDependencies.sb_passes_four]
    exact ⟨a, b, c, d, e, fun fuel => WithoutDependencies.sb_run_of_halt _ fuel _ e⟩
  · obtain ⟨a, b, c, d, e⟩ := WithDependencies.fw_HALT_flow (junk 0) (junk 1) (junk 2)
      (junk 3) (hj 0) (hj 1) (hj 2) (hj 3) cpu hc hh hd hex hm hw
    rw [WithDependencies.fw_passes_one, WithDependencies.fw_passes_two,
      WithDependencies.fw_passes_three, WithDependencies.fw_passes_four]
    exact ⟨a, b, c, d, e, fun fuel => WithDependencies.fw_run_of_halt _ fuel _ e⟩

/-- C22 at work: a HALT in the DRF latch of an otherwise empty pipeline brings the halt counter
to 4 in four passes, in both variants. -/
theorem C22_halt_counter_witness :
    (WithoutDependencies.passes zeroJunk 4 (zeroCPU.setStage DRF haltLatch)).halt = 4 ∧
    (WithDependencies.passes zeroJunk 4 (zeroCPU.setStage DRF haltLatch)).halt = 4 :=
  have h := C22_halt_counter.2.2.2.2 zeroJunk (zeroCPU.setStage DRF haltLatch) zeroJunk_inert
    (fun _ _ => rfl) rfl (by decide) (by decide) (by decide) (by decide)
  ⟨h.1.2.2.2.2.1, h.2.2.2.2.2.1⟩

/-! ## The fetch stage (C23) -/

theorem fetchedLatch_fields (cpu : APEX_CPU) :
    (fetchedLatch cpu).pc = cpu.pc ∧
    (fetchedLatch cpu).opcode = (cpu.code_memory (get_code_index cpu.pc)).opcode ∧
    (fetchedLatch cpu).rd = (cpu.code_memory (get_code_index cpu.pc)).rd ∧
    (fetchedLatch cpu).rs1 = (cpu.code_memory (get_code_index cpu.pc)).rs1 ∧
    (fetchedLatch cpu).rs2 = (cpu.code_memory (get_code_index cpu.pc)).rs2 ∧
    (fetchedLatch cpu).imm = (cpu.code_memory (get_code_index cpu.pc)).imm := by
  simp [fetchedLatch, fetchInstruction, APEX_CPU.setStage]

theorem fetchInstruction_frame (cpu : APEX_CPU) :
    (fetchInstruction cpu).pc = add32 cpu.pc 4 ∧
    (fetchInstruction cpu).stage_set = cpu.stage_set ∧
    (fetchInstruction cpu).stage DRF = cpu.stage DRF := by
  simp [fetchInstruction, APEX_CPU.setStage]

theorem releaseHeld_pc (cpu : APEX_CPU) : (releaseHeld cpu).pc = cpu.pc := by
  unfold releaseHeld; split
  · simp only [APEX_CPU.setStage, APEX_CPU.setSet]
  · rfl

theorem handToDRF_fetched (cpu : APEX_CPU) :
    (handToDRF (fetchInstruction cpu)).pc = add32 cpu.pc 4 ∧
    (handToDRF (fetchInstruction cpu)).stage_set 1 0 = cpu.stage_set 1 0 ∧
    (handToDRF (fetchInstruction cpu)).stage F = fetchedLatch cpu ∧
    (cpu.stage_set 1 0 ≠ 0 → (handToDRF (fetchInstruction cpu)).stage DRF = fetchedLatch cpu) ∧
    (cpu.stage_set 1 0 = 0 → (handToDRF (fetchInstruction cpu)).stage DRF = cpu.stage DRF) := by
  obtain ⟨h1, h2, h3⟩ := fetchInstruction_frame cpu
  unfold handToDRF
  rw [h2]
  by_cases hs : cpu.stage_set 1 0 ≠ 0
  · rw [if_pos hs]
    refine ⟨?_, ?_, ?_, fun _ => ?_, fun h => absurd h hs⟩
    · simpa [APEX_CPU.setStage, APEX_CPU.setSet] using h1
    · simp [APEX_CPU.setStage, APEX_CPU.setSet, upd2, h2]
    · simp [APEX_CPU.setStage, APEX_CPU.setSet, fetchedLatch]
    · simp [APEX_CPU.setStage, APEX_CPU.setSet, fetchedLatch]
  · rw [if_neg hs]
    refine ⟨?_, ?_, ?_, fun h => absurd h hs, fun _ => ?_⟩
    · simpa [APEX_CPU.setSet] using h1
    · simp [APEX_CPU.setSet, upd2, h2]
    · simp [APEX_CPU.setSet, fetchedLatch]
    · simpa [APEX_CPU.setSet] using h3

/-- C23: in both variants, when the guard of `fetch` holds (no fetch stall bit, `stage_set[0][0]`
nonzero, `halt = 0`, and with forwarding no JUMP, no BZ with `zflag` set and no BNZ with `nzflag`
set in the MEM latch), `fetch` builds the latch `fetchedLatch`, whose `pc` is the old `cpu.pc` and
whose opcode, `rd`, `rs1`, `rs2`, `imm` are those of `code_memory[get_code_index(pc)]`, adds 4 to
`cpu.pc` (in 32-bit arithmetic; exactly 4 when `pc + 4` is representable), and copies the latch
into DRF when `stage_set[1][0]` is nonzero, while DRF keeps its latch when `stage_set[1][0]` is 0;
when the guard does not hold, `cpu.pc` is unchanged. Without forwarding the fetch latch itself is
overwritten with the uninitialised latch once DRF has the copy. -/
theorem C23_fetch :
    (∀ cpu : APEX_CPU,
      (fetchedLatch cpu).pc = cpu.pc ∧
      (fetchedLatch cpu).opcode = (cpu.code_memory (get_code_index cpu.pc)).opcode ∧
      (fetchedLatch cpu).rd = (cpu.code_memory (get_code_index cpu.pc)).rd ∧
      (fetchedLatch cpu).rs1 = (cpu.code_memory (get_code_index cpu.pc)).rs1 ∧
      (fetchedLatch cpu).rs2 = (cpu.code_memory (get_code_index cpu.pc)).rs2 ∧
      (fetchedLatch cpu).imm = (cpu.code_memory (get_code_index cpu.pc)).imm) ∧
    (∀ (Apex : CPU_Stage) (cpu : APEX_CPU),
      cpu.stage_check 0 0 = 0 ∧ cpu.stage_check 0 1 = 0 ∧ cpu.stage_set 0 0 ≠ 0 ∧ cpu.halt = 0 →
      (WithoutDependencies.fetch Apex cpu).pc = add32 cpu.pc 4 ∧
      (-2147483648 ≤ cpu.pc → cpu.pc + 4 < 2147483648 →
        (WithoutDependencies.fetch Apex cpu).pc = cpu.pc + 4) ∧
      (cpu.stage_set 1 0 ≠ 0 →
        (WithoutDependencies.fetch Apex cpu).stage DRF = fetchedLatch cpu ∧
        (WithoutDependencies.fetch Apex cpu).stage F = Apex) ∧
      (cpu.stage_set 1 0 = 0 →
        (WithoutDependencies.fetch Apex cpu).stage F = fetchedLatch cpu ∧
        (WithoutDependencies.fetch Apex cpu).stage DRF = cpu.stage DRF)) ∧
    (∀ cpu : APEX_CPU, WithDependencies.fetchGuard cpu →
      (WithDependencies.fetch cpu).pc = add32 cpu.pc 4 ∧
      (-2147483648 ≤ cpu.pc → cpu.pc + 4 < 2147483648 →
        (WithDependencies.fetch cpu).pc = cpu.pc + 4) ∧
      (WithDependencies.fetch cpu).stage F = fetchedLatch cpu ∧
      (cpu.stage_set 1 0 ≠ 0 → (WithDependencies.fetch cpu).stage DRF = fetchedLatch cpu) ∧
      (cpu.stage_set 1 0 = 0 → (WithDependencies.fetch cpu).stage DRF = cpu.stage DRF)) ∧
    (∀ (Apex : CPU_Stage) (cpu : APEX_CPU),
      ¬ (cpu.stage_check 0 0 = 0 ∧ cpu.stage_check 0 1 = 0 ∧ cpu.stage_set 0 0 ≠ 0 ∧
        cpu.halt = 0) →
      (WithoutDependencies.fetch Apex cpu).pc = cpu.pc) ∧
    (∀ cpu : APEX_CPU, ¬ WithDependencies.fetchGuard cpu →
      (WithDependencies.fetch cpu).pc = cpu.pc) := by
  refine ⟨fetchedLatch_fields, fun Apex cpu hg => ?_, fun cpu hg => ?_, fun Apex cpu hg => ?_,
    fun cpu hg => ?_⟩
  · obtain ⟨h1, h2, h3, h4, h5⟩ := handToDRF_fetched cpu
    rw [WithoutDependencies.fetch, if_pos hg, WithoutDependencies.clearF, h2]
    by_cases hs : cpu.stage_set 1 0 ≠ 0
    · rw [if_pos hs]
      have hp : ((handToDRF (fetchInstruction cpu)).setStage F Apex).pc = add32 cpu.pc 4 := h1
      refine ⟨hp, fun l u => ?_, fun _ => ⟨?_, ?_⟩, fun h => absurd h hs⟩
      · rw [hp, add32, wrap32_of_range _ (by omega) u]
      · have := h4 hs
        simpa [APEX_CPU.setStage] using this
      · simp [APEX_CPU.setStage]
    · rw [if_neg hs]
      refine ⟨h1, fun l u => ?_, fun h => absurd h hs, fun h => ⟨h3, h5 h⟩⟩
      rw [h1, add32, wrap32_of_range _ (by omega) u]
  · obtain ⟨h1, -, h3, h4, h5⟩ := handToDRF_fetched cpu
    rw [WithDependencies.fetch, if_pos hg]
    refine ⟨h1, fun l u => ?_, h3, h4, h5⟩
    rw [h1, add32, wrap32_of_range _ (by omega) u]
  · rw [WithoutDependencies.fetch, if_neg hg, releaseHeld_pc]
  · rw [WithDependencies.fetch, if_neg hg, releaseHeld_pc]

/-- C23 at work: with `pc = 4008` and the program `S1` in code memory, `fetch` of both variants
puts `ADD R3,R1,R2` into DRF and moves `pc` to 4012 when `stage_set[1][0] = 1`. -/
theorem C23_fetch_witness :
    ((WithoutDependencies.fetch zeroLatch (fetching 1)).pc = 4012 ∧
      ((WithoutDependencies.fetch zeroLatch (fetching 1)).stage DRF).opcode = Opcode.ADD ∧
      ((WithoutDependencies.fetch zeroLatch (fetching 1)).stage DRF).pc = 4008) ∧
    ((WithDependencies.fetch (fetching 1)).pc = 4012 ∧
      ((WithDependencies.fetch (fetching 1)).stage DRF).opcode = Opcode.ADD ∧
      ((WithDependencies.fetch (fetching 1)).stage DRF).pc = 4008) := by
  have hf := C23_fetch.1 (fetching 1)
  have hs := C23_fetch.2.1 zeroLatch (fetching 1) (by decide)
  have hw := C23_fetch.2.2.1 (fetching 1) (by decide)
  have h1 : (fetching 1).stage_set 1 0 ≠ 0 := by decide
  have hc : ((fetching 1).code_memory (get_code_index (fetching 1).pc)).opcode = Opcode.ADD := by
    decide
  have hpc : (fetching 1).pc = 4008 := rfl
  refine ⟨⟨?_, ?_, ?_⟩, ?_, ?_, ?_⟩
  · rw [hs.2.1 (by decide) (by decide), hpc]; rfl
  · rw [(hs.2.2.1 h1).1, hf.2.1, hc]
  · rw [(hs.2.2.1 h1).1, hf.1, hpc]
  · rw [hw.2.1 (by decide) (by decide), hpc]; rfl
  · rw [hw.2.2.2.1 h1, hf.2.1, hc]
  · rw [hw.2.2.2.1 h1, hf.1, hpc]

/-! ## Fetch behind a taken branch (C24) -/

theorem releaseHeld_F (cpu : APEX_CPU) : (releaseHeld cpu).stage F = cpu.stage F := by
  unfold releaseHeld; split
  · simp [APEX_CPU.setStage, APEX_CPU.setSet]
  · rfl

/-- C24 fails on the code. `fetch` of the pipeline with forwarding holds back behind a JUMP, a BZ
with `zflag` set and a BNZ with `nzflag` set in the MEM latch, but `execute` takes a BNZ when
`zflag` is 0. With both flags 0, as `APEX_cpu_init` leaves them, a taken BNZ in MEM does not stop
`fetch`: it fetches and adds 4 to `pc`. In the run of `BNZ #8; MOVC R1,#1; MOVC R2,#2; HALT` the
third pass takes the branch (`pc = 4008`, fetch latch squashed to NOP, BNZ in MEM), and `fetch` of
the same pass then leaves `pc = 4012` with the MOVC of address 4008 in its latch. -/
theorem C24_taken_BNZ_not_blocked :
    (∀ cpu : APEX_CPU,
      cpu.stage_check 0 0 = 0 ∧ cpu.stage_check 0 1 = 0 ∧ cpu.stage_set 0 0 ≠ 0 ∧ cpu.halt = 0 →
      (cpu.stage MEM).opcode = Opcode.BNZ → cpu.nzflag = 0 →
      (WithDependencies.fetch cpu).pc = add32 cpu.pc 4 ∧
      (WithDependencies.fetch cpu).stage F = fetchedLatch cpu) ∧
    (∀ cpu : APEX_CPU,
      (cpu.stage MEM).opcode = Opcode.JUMP ∨
        ((cpu.stage MEM).opcode = Opcode.BZ ∧ cpu.zflag ≠ 0) ∨
        ((cpu.stage MEM).opcode = Opcode.BNZ ∧ cpu.nzflag ≠ 0) →
      (WithDependencies.fetch cpu).pc = cpu.pc ∧
      (WithDependencies.fetch cpu).stage F = cpu.stage F) ∧
    (((WithDependencies.passes zeroJunk 2 (WithDependencies.boot branchFirst 40 "silent")).stage
        EX).opcode = Opcode.BNZ ∧
      (WithDependencies.passes zeroJunk 2 (WithDependencies.boot branchFirst 40 "silent")).zflag
        = 0 ∧
      (WithDependencies.beforeDecode (zeroJunk 2)
        (WithDependencies.passes zeroJunk 2 (WithDependencies.boot branchFirst 40 "silent"))).pc
        = 4008 ∧
      ((WithDependencies.beforeDecode (zeroJunk 2)
        (WithDependencies.passes zeroJunk 2
          (WithDependencies.boot branchFirst 40 "silent"))).stage MEM).opcode = Opcode.BNZ ∧
      ((WithDependencies.beforeDecode (zeroJunk 2)
        (WithDependencies.passes zeroJunk 2
          (WithDependencies.boot branchFirst 40 "silent"))).stage F).opcode = Opcode.NOP ∧
      (WithDependencies.passes zeroJunk 3 (WithDependencies.boot branchFirst 40 "silent")).pc
        = 4012 ∧
      ((WithDependencies.passes zeroJunk 3
        (WithDependencies.boot branchFirst 40 "silent")).stage F).opcode = Opcode.MOVC ∧
      ((WithDependencies.passes zeroJunk 3
        (WithDependencies.boot branchFirst 40 "silent")).stage F).pc = 4008) := by
  refine ⟨fun cpu hg hop hnz => ?_, fun cpu h => ?_, by decide!⟩
  · have hG : WithDependencies.fetchGuard cpu := by
      refine ⟨hg.1, hg.2.1, hg.2.2.1, hg.2.2.2, ?_, Or.inl ?_, Or.inr hnz⟩ <;>
        rw [hop] <;> decide
    obtain ⟨h1, -, h3, -⟩ := handToDRF_fetched cpu
    rw [WithDependencies.fetch, if_pos hG]
    exact ⟨h1, h3⟩
  · have hG : ¬ WithDependencies.fetchGuard cpu := by
      rintro ⟨-, -, -, -, hj, hz, hn⟩
      rcases h with h | ⟨h, hf⟩ | ⟨h, hf⟩
      · exact hj h
      · rcases hz with hz | hz
        · exact hz h
        · exact hf hz
      · rcases hn with hn | hn
        · exact hn h
        · exact hf hn
    rw [WithDependencies.fetch, if_neg hG]
    exact ⟨releaseHeld_pc cpu, releaseHeld_F cpu⟩

/-! ## The operand choice of decode with forwarding (C25) -/

theorem setCheck_same (cpu : APEX_CPU) (i j : Nat) (v : Int) (h : cpu.stage_check i j = v) :
    cpu.setCheck i j v = cpu := by
  have : upd2 cpu.stage_check i j v = cpu.stage_check := by
    funext a b; simp only [upd2]; split
    · rename_i hab; rw [hab.1, hab.2, h]
    · rfl
  simp only [APEX_CPU.setCheck, this]

namespace WithDependencies

/-- When the guard of `decode` holds after the pre-checks, `decode` runs the blocks of the opcode
and the copy to EX on the state with `stage_check[1][1]` cleared. -/
theorem fw_decode_processed (cpu : APEX_CPU)
    (h : cpu.stage_check 1 0 = 0 ∧ (decodeUnstall cpu).stage_check 1 1 = 0 ∧ cpu.halt = 0) :
    decode cpu = issue (readBlock (cpu.setCheck 1 1 0)) := by
  obtain ⟨h10, h11, hh⟩ := h
  rcases fw_decodeUnstall_cases cpu with hu | hu
  · rw [hu] at h11
    rw [decode, hu, decodeGuarded, if_pos ⟨h10, h11, hh⟩, fw_decodeRead_eq,
      setCheck_same cpu 1 1 0 h11]
  · have hg : (cpu.setCheck 1 1 0).stage_check 1 0 = 0 ∧
        (cpu.setCheck 1 1 0).stage_check 1 1 = 0 ∧ (cpu.setCheck 1 1 0).halt = 0 := by
      refine ⟨?_, ?_, hh⟩ <;> simp [APEX_CPU.setCheck, upd2, h10]
    rw [decode, hu, decodeGuarded, if_pos hg, fw_decodeRead_eq]

theorem fw_guardedChoice_congr (a b : APEX_CPU) (r : Int)
    (h1 : b.ex_forward = a.ex_forward) (h2 : b.ex_data = a.ex_data)
    (h3 : b.mem_forward = a.mem_forward) (h4 : b.mem_data = a.mem_data)
    (h5 : b.regs_valid = a.regs_valid) (h6 : b.regs = a.regs)
    (h7 : b.stage MEM = a.stage MEM) : guardedChoice b r = guardedChoice a r := by
  simp only [guardedChoice, h1, h2, h3, h4, h5, h6, h7]

theorem fw_readRs1Guarded_some (cpu : APEX_CPU) (v : Int)
    (h : guardedChoice cpu (cpu.stage DRF).rs1 = some v) :
    readRs1Guarded cpu = cpu.setRs1Value DRF v := by
  simp only [guardedChoice] at h
  simp only [readRs1Guarded]
  split_ifs at h ⊢ <;> simp_all

theorem fw_readRs1Guarded_none (cpu : APEX_CPU)
    (h : guardedChoice cpu (cpu.stage DRF).rs1 = none) :
    readRs1Guarded cpu = cpu.stallDRF := by
  simp only [guardedChoice] at h
  simp only [readRs1Guarded]
  split_ifs at h ⊢
  rfl

theorem fw_readRs2Guarded_some (cpu : APEX_CPU) (v : Int)
    (h : guardedChoice cpu (cpu.stage DRF).rs2 = some v) :
    readRs2Guarded cpu = cpu.setRs2Value DRF v := by
  simp only [guardedChoice] at h
  simp only [readRs2Guarded]
  split_ifs at h ⊢ <;> simp_all

theorem fw_readRs2Guarded_none (cpu : APEX_CPU)
    (h : guardedChoice cpu (cpu.stage DRF).rs2 = none) :
    readRs2Guarded cpu = cpu.stallDRF := by
  simp only [guardedChoice] at h
  simp only [readRs2Guarded]
  split_ifs at h ⊢
  rfl

end WithDependencies

namespace WithDependencies

/-- The STORE block of `decode`, by the outcome of the two operand choices. -/
theorem fw_readStore_cases (c : APEX_CPU) :
    (∀ v1 v2, guardedChoice c (c.stage DRF).rs1 = some v1 →
      guardedChoice c (c.stage DRF).rs2 = some v2 →
      readStore c = (c.setRs1Value DRF v1).setRs2Value DRF v2) ∧
    (∀ v1, guardedChoice c (c.stage DRF).rs1 = some v1 →
      guardedChoice c (c.stage DRF).rs2 = none →
      readStore c = (c.setRs1Value DRF v1).stallDRF) ∧
    (∀ v2, guardedChoice c (c.stage DRF).rs1 = none →
      guardedChoice c (c.stage DRF).rs2 = some v2 →
      readStore c = (c.stallDRF).setRs2Value DRF v2) ∧
    (guardedChoice c (c.stage DRF).rs1 = none → guardedChoice c (c.stage DRF).rs2 = none →
      readStore c = (c.stallDRF).stallDRF) := by
  have e1 : ∀ v, guardedChoice (c.setRs1Value DRF v) ((c.setRs1Value DRF v).stage DRF).rs2 =
      guardedChoice c (c.stage DRF).rs2 := by
    intro v
    have : ((c.setRs1Value DRF v).stage DRF).rs2 = (c.stage DRF).rs2 := by
      simp [APEX_CPU.setRs1Value, APEX_CPU.setStage]
    rw [this]
    exact fw_guardedChoice_congr _ _ _ rfl rfl rfl rfl rfl rfl
      (by simp [APEX_CPU.setRs1Value, APEX_CPU.setStage])
  have e2 : guardedChoice c.stallDRF (c.stallDRF.stage DRF).rs2 =
      guardedChoice c (c.stage DRF).rs2 :=
    fw_guardedChoice_congr _ _ _ rfl rfl rfl rfl rfl rfl rfl
  refine ⟨fun v1 v2 h1 h2 => ?_, fun v1 h1 h2 => ?_, fun v2 h1 h2 => ?_, fun h1 h2 => ?_⟩
  · rw [readStore, fw_readRs1Guarded_some c v1 h1, fw_readRs2Guarded_some _ v2 ((e1 v1).trans h2)]
  · rw [readStore, fw_readRs1Guarded_some c v1 h1, fw_readRs2Guarded_none _ ((e1 v1).trans h2)]
  · rw [readStore, fw_readRs1Guarded_none c h1, fw_readRs2Guarded_some _ v2 (e2.trans h2)]
  · rw [readStore, fw_readRs1Guarded_none c h1, fw_readRs2Guarded_none _ (e2.trans h2)]

/-- The STORE and SUB/ADD/MUL blocks of `decode` and the copy to EX, on a state with
`stage_check[1][1] = 0`: what the two operand choices give. -/
theorem fw_guarded_blocks (c : APEX_CPU) (h11 : c.stage_check 1 1 = 0)
    (b : APEX_CPU → APEX_CPU) (hb : b = readStore ∨ b = readArith) :
    (∀ v, guardedChoice c (c.stage DRF).rs1 = some v →
      ((issue (b c)).stage DRF).rs1_value = v) ∧
    (∀ v, guardedChoice c (c.stage DRF).rs2 = some v →
      ((issue (b c)).stage DRF).rs2_value = v) ∧
    (guardedChoice c (c.stage DRF).rs1 ≠ none → guardedChoice c (c.stage DRF).rs2 ≠ none →
      (issue (b c)).stage_check 1 1 = 0 ∧
      (c.stage_set 2 0 ≠ 0 → (issue (b c)).stage EX = (issue (b c)).stage DRF)) ∧
    (guardedChoice c (c.stage DRF).rs1 = none ∨ guardedChoice c (c.stage DRF).rs2 = none →
      (issue (b c)).stage_check 1 1 = 1 ∧ (issue (b c)).stage_set 1 0 = 0 ∧
      (issue (b c)).stage EX = c.stage EX) := by
  obtain ⟨s1, s2, s3, s4⟩ := fw_readStore_cases c
  have hb2 : b c = readStore c ∨ b c = claimIfIssued (readStore c) := by
    rcases hb with rfl | rfl
    · exact Or.inl rfl
    · exact Or.inr rfl
  cases h1 : guardedChoice c (c.stage DRF).rs1 with
  | none =>
    cases h2 : guardedChoice c (c.stage DRF).rs2 with
    | none =>
      have hs := s4 h1 h2
      rcases hb2 with e | e <;> rw [e, hs] <;>
        simp [issue, claimIfIssued, claimDest, APEX_CPU.stallDRF, APEX_CPU.setCheck,
          APEX_CPU.setSet, APEX_CPU.setValid, upd2]
    | some v2 =>
      have hs := s3 v2 h1 h2
      rcases hb2 with e | e <;> rw [e, hs] <;>
        simp [issue, claimIfIssued, claimDest, APEX_CPU.stallDRF, APEX_CPU.setCheck,
          APEX_CPU.setSet, APEX_CPU.setValid, APEX_CPU.setRs2Value, APEX_CPU.setStage, upd2]
  | some v1 =>
    cases h2 : guardedChoice c (c.stage DRF).rs2 with
    | none =>
      have hs := s2 v1 h1 h2
      rcases hb2 with e | e <;> rw [e, hs] <;>
        simp [issue, claimIfIssued, claimDest, APEX_CPU.stallDRF, APEX_CPU.setCheck,
          APEX_CPU.setSet, APEX_CPU.setValid, APEX_CPU.setRs1Value, APEX_CPU.setStage, upd2]
    | some v2 =>
      have hs := s1 v1 v2 h1 h2
      rcases hb2 with e | e <;> rw [e, hs] <;>
        simp [issue, claimIfIssued, claimDest, APEX_CPU.setCheck, h11,
          APEX_CPU.setSet, APEX_CPU.setValid, APEX_CPU.setRs1Value, APEX_CPU.setRs2Value,
          APEX_CPU.setStage, upd2] <;>
        (split <;> simp_all [APEX_CPU.setStage])

end WithDependencies

/-- C25 as stated fails. `ADD R3,R1,R2` is in DRF, the EX bypass holds 7 for `R1` and 8 for `R2`,
both registers are valid, and MEM holds a LOAD whose destination is `R5`: `decode` with
forwarding takes neither the EX bypass nor the register file, it stalls the ADD
(`stage_check[1][1] = 1`) and does not copy it to EX. The test of the source is
`MEM holds no LOAD`, whatever the destination of the LOAD. -/
theorem C25_any_LOAD_in_MEM_blocks :
    ((addBehindLoad.stage DRF).opcode = Opcode.ADD ∧ (addBehindLoad.stage DRF).rs1 = 1 ∧
      (addBehindLoad.stage MEM).opcode = Opcode.LOAD ∧ (addBehindLoad.stage MEM).rd = 5 ∧
      addBehindLoad.ex_forward 1 = 1 ∧ addBehindLoad.ex_data 1 = 7 ∧
      addBehindLoad.regs_valid 1 = 1) ∧
    (WithDependencies.decode addBehindLoad).stage_check 1 1 = 1 ∧
    ((WithDependencies.decode addBehindLoad).stage DRF).rs1_value ≠ 7 ∧
    ((WithDependencies.decode addBehindLoad).stage EX).opcode ≠ Opcode.ADD := by
  decide!

/-- C25, amended. When `decode` with forwarding processes an ADD, SUB, MUL or STORE (no
`stage_check[1][0]`, `stage_check[1][1]` clear after the pre-checks, `halt = 0`), each source
`rs` gets `ex_data[rs]` if `ex_forward[rs]` is 1 and the MEM latch holds no LOAD, whatever the
destination of that LOAD; otherwise `mem_data[rs]` if `mem_forward[rs]` is 1; otherwise
`regs[rs]` if the MEM latch holds no LOAD and `regs_valid[rs]` is 1; otherwise the instruction
stalls: `stage_check[1][1] = 1`, `stage_set[1][0] = 0` and the EX latch keeps its content. With a
value for both sources there is no stall and the latch is copied to EX when `stage_set[2][0]` is
nonzero. -/
theorem C25_guarded_operand_choice (cpu : APEX_CPU)
    (hg : cpu.stage_check 1 0 = 0 ∧ (WithDependencies.decodeUnstall cpu).stage_check 1 1 = 0 ∧
      cpu.halt = 0)
    (hop : (cpu.stage DRF).opcode ∈ [Opcode.ADD, Opcode.SUB, Opcode.MUL, Opcode.STORE]) :
    (∀ r,
      (cpu.ex_forward r = 1 ∧ (cpu.stage MEM).opcode ≠ Opcode.LOAD →
        WithDependencies.guardedChoice cpu r = some (cpu.ex_data r)) ∧
      (¬ (cpu.ex_forward r = 1 ∧ (cpu.stage MEM).opcode ≠ Opcode.LOAD) →
        cpu.mem_forward r = 1 → WithDependencies.guardedChoice cpu r = some (cpu.mem_data r)) ∧
      (cpu.ex_forward r ≠ 1 → cpu.mem_forward r ≠ 1 →
        (cpu.stage MEM).opcode ≠ Opcode.LOAD → cpu.regs_valid r = 1 →
        WithDependencies.guardedChoice cpu r = some (cpu.regs r)) ∧
      (cpu.mem_forward r ≠ 1 →
        (cpu.stage MEM).opcode = Opcode.LOAD ∨ (cpu.ex_forward r ≠ 1 ∧ cpu.regs_valid r ≠ 1) →
        WithDependencies.guardedChoice cpu r = none)) ∧
    (∀ v, WithDependencies.guardedChoice cpu (cpu.stage DRF).rs1 = some v →
      ((WithDependencies.decode cpu).stage DRF).rs1_value = v) ∧
    (∀ v, WithDependencies.guardedChoice cpu (cpu.stage DRF).rs2 = some v →
      ((WithDependencies.decode cpu).stage DRF).rs2_value = v) ∧
    (WithDependencies.guardedChoice cpu (cpu.stage DRF).rs1 ≠ none →
      WithDependencies.guardedChoice cpu (cpu.stage DRF).rs2 ≠ none →
      (WithDependencies.decode cpu).stage_check 1 1 = 0 ∧
      (cpu.stage_set 2 0 ≠ 0 →
        (WithDependencies.decode cpu).stage EX = (WithDependencies.decode cpu).stage DRF)) ∧
    (WithDependencies.guardedChoice cpu (cpu.stage DRF).rs1 = none ∨
        WithDependencies.guardedChoice cpu (cpu.stage DRF).rs2 = none →
      (WithDependencies.decode cpu).stage_check 1 1 = 1 ∧
      (WithDependencies.decode cpu).stage_set 1 0 = 0 ∧
      (WithDependencies.decode cpu).stage EX = cpu.stage EX) := by
  refine ⟨fun r => ⟨fun h => ?_, fun h1 h2 => ?_, fun h1 h2 h3 h4 => ?_, fun h1 h2 => ?_⟩, ?_⟩
  · rw [WithDependencies.guardedChoice, if_pos h]
  · rw [WithDependencies.guardedChoice, if_neg h1, if_pos h2]
  · simp [WithDependencies.guardedChoice, h1, h2, h3, h4]
  · rcases h2 with h2 | ⟨h2, h3⟩
    · simp [WithDependencies.guardedChoice, h1, h2]
    · simp [WithDependencies.guardedChoice, h1, h2, h3]
  · rw [WithDependencies.fw_decode_processed cpu hg]
    have hb : WithDependencies.readBlock (cpu.setCheck 1 1 0) =
          WithDependencies.readStore (cpu.setCheck 1 1 0) ∨
        WithDependencies.readBlock (cpu.setCheck 1 1 0) =
          WithDependencies.readArith (cpu.setCheck 1 1 0) := by
      have hs : (cpu.setCheck 1 1 0).stage = cpu.stage := rfl
      simp only [List.mem_cons, List.mem_singleton, List.not_mem_nil, or_false] at hop
      rcases hop with h | h | h | h <;>
        simp only [WithDependencies.readBlock, hs, h, true_or, or_true]
    have h11 : (cpu.setCheck 1 1 0).stage_check 1 1 = 0 := by
      simp [APEX_CPU.setCheck, upd2]
    have key : ∀ b : APEX_CPU → APEX_CPU,
        b = WithDependencies.readStore ∨ b = WithDependencies.readArith → _ :=
      fun b hb => WithDependencies.fw_guarded_blocks (cpu.setCheck 1 1 0) h11 b hb
    rcases hb with e | e <;> rw [e]
    · exact key _ (Or.inl rfl)
    · exact key _ (Or.inr rfl)

/-- C25 at work: `ADD R3,R1,R2` in DRF with 7 and 8 in the EX bypass and nothing in MEM takes
both operands from the EX bypass and goes to EX. -/
theorem C25_guarded_operand_choice_witness :
    ((WithDependencies.decode addAlone).stage EX).rs1_value = 7 ∧
    ((WithDependencies.decode addAlone).stage EX).rs2_value = 8 ∧
    ((WithDependencies.decode addAlone).stage EX).opcode = Opcode.ADD := by
  have h := C25_guarded_operand_choice addAlone (by decide) (by decide)
  have h1 : WithDependencies.guardedChoice addAlone (addAlone.stage DRF).rs1 = some 7 := by
    decide
  have h2 : WithDependencies.guardedChoice addAlone (addAlone.stage DRF).rs2 = some 8 := by
    decide
  have he := (h.2.2.2.1 (by rw [h1]; exact Option.some_ne_none _)
    (by rw [h2]; exact Option.some_ne_none _)).2 (by decide)
  rw [he]
  exact ⟨h.2.1 7 h1, h.2.2.1 8 h2, by decide!⟩

/-! ## A reader behind a load, with forwarding (C26) -/

namespace WithDependencies

/-- The AND and OR blocks of `decode` when neither bypass has an entry for the sources and both
count as valid: the operands come from the register file and the instruction goes to EX. No
latch is consulted. -/
theorem fw_decode_logic_from_regs (cpu : APEX_CPU)
    (hg : cpu.stage_check 1 0 = 0 ∧ cpu.stage_check 1 1 = 0 ∧ cpu.halt = 0)
    (hop : (cpu.stage DRF).opcode = Opcode.AND ∨ (cpu.stage DRF).opcode = Opcode.OR)
    (he1 : cpu.ex_forward (cpu.stage DRF).rs1 ≠ 1) (hm1 : cpu.mem_forward (cpu.stage DRF).rs1 ≠ 1)
    (hv1 : cpu.regs_valid (cpu.stage DRF).rs1 = 1)
    (he2 : cpu.ex_forward (cpu.stage DRF).rs2 ≠ 1) (hm2 : cpu.mem_forward (cpu.stage DRF).rs2 ≠ 1)
    (hv2 : cpu.regs_valid (cpu.stage DRF).rs2 = 1) (hs : cpu.stage_set 2 0 ≠ 0) :
    (decode cpu).stage_check 1 1 = 0 ∧
    ((decode cpu).stage EX).opcode = (cpu.stage DRF).opcode ∧
    ((decode cpu).stage EX).rs1_value = cpu.regs (cpu.stage DRF).rs1 ∧
    ((decode cpu).stage EX).rs2_value = cpu.regs (cpu.stage DRF).rs2 := by
  have hu : (decodeUnstall cpu).stage_check 1 1 = 0 := by
    rcases fw_decodeUnstall_cases cpu with h | h <;> rw [h]
    · exact hg.2.1
    · simp [APEX_CPU.setCheck, upd2]
  rw [fw_decode_processed cpu ⟨hg.1, hu, hg.2.2⟩, setCheck_same cpu 1 1 0 hg.2.1]
  have hb : readBlock cpu = readLogic cpu := by
    rcases hop with h | h <;> simp only [readBlock, h]
  have h1 : readRs1NoElse cpu = cpu.setRs1Value DRF (cpu.regs (cpu.stage DRF).rs1) := by
    simp only [readRs1NoElse, he1, hm1, hv1, if_false, if_true]
  have h2 : readRs2OrStall (cpu.setRs1Value DRF (cpu.regs (cpu.stage DRF).rs1)) =
      (cpu.setRs1Value DRF (cpu.regs (cpu.stage DRF).rs1)).setRs2Value DRF
        (cpu.regs (cpu.stage DRF).rs2) := by
    have hr : ((cpu.setRs1Value DRF (cpu.regs (cpu.stage DRF).rs1)).stage DRF).rs2 =
        (cpu.stage DRF).rs2 := by simp [APEX_CPU.setRs1Value, APEX_CPU.setStage]
    have e1 : (cpu.setRs1Value DRF (cpu.regs (cpu.stage DRF).rs1)).ex_forward =
        cpu.ex_forward := rfl
    have e2 : (cpu.setRs1Value DRF (cpu.regs (cpu.stage DRF).rs1)).mem_forward =
        cpu.mem_forward := rfl
    have e3 : (cpu.setRs1Value DRF (cpu.regs (cpu.stage DRF).rs1)).regs_valid =
        cpu.regs_valid := rfl
    have e4 : (cpu.setRs1Value DRF (cpu.regs (cpu.stage DRF).rs1)).regs = cpu.regs := rfl
    simp only [readRs2OrStall, hr, e1, e2, e3, e4, he2, hm2, hv2, if_false, if_true]
  rw [hb, readLogic, h1, h2]
  simp [issue, claimIfIssued, claimDest, APEX_CPU.setValid, APEX_CPU.setSet,
    APEX_CPU.setRs1Value, APEX_CPU.setRs2Value, APEX_CPU.setStage, hg.2.1, hs]

end WithDependencies

/-- C26 fails on the code. The AND and OR blocks of `decode` with forwarding test no latch: with
no bypass entry for the sources and `regs_valid` at 1 they read the register file and issue,
whatever MEM holds. In the run of `MOVC R1,#0; MOVC R2,#42; STORE R2,R1,#0; LOAD R3,R1,#0;
AND R4,R3,R3; HALT` the sixth pass has the LOAD of `R3` in MEM, just executed, and the AND in DRF;
`writeback` has marked `R3` valid again at the top of the pass, so `decode` does not stall and
sends the AND to EX with both operands 0, the stale `regs[3]`. The run ends with `regs[3] = 42`
and `regs[4] = 0`. -/
theorem C26_reader_behind_load_not_stalled :
    (∀ cpu : APEX_CPU,
      cpu.stage_check 1 0 = 0 ∧ cpu.stage_check 1 1 = 0 ∧ cpu.halt = 0 →
      (cpu.stage DRF).opcode = Opcode.AND ∨ (cpu.stage DRF).opcode = Opcode.OR →
      ((cpu.stage MEM).opcode = Opcode.LOAD ∨ (cpu.stage MEM).opcode = Opcode.LDR) ∧
        (cpu.stage MEM).rd = (cpu.stage DRF).rs1 →
      cpu.ex_forward (cpu.stage DRF).rs1 ≠ 1 ∧ cpu.mem_forward (cpu.stage DRF).rs1 ≠ 1 ∧
        cpu.regs_valid (cpu.stage DRF).rs1 = 1 →
      cpu.ex_forward (cpu.stage DRF).rs2 ≠ 1 ∧ cpu.mem_forward (cpu.stage DRF).rs2 ≠ 1 ∧
        cpu.regs_valid (cpu.stage DRF).rs2 = 1 →
      cpu.stage_set 2 0 ≠ 0 →
      (WithDependencies.decode cpu).stage_check 1 1 = 0 ∧
      ((WithDependencies.decode cpu).stage EX).opcode = (cpu.stage DRF).opcode ∧
      ((WithDependencies.decode cpu).stage EX).rs1_value = cpu.regs (cpu.stage DRF).rs1 ∧
      ((WithDependencies.decode cpu).stage EX).rs2_value = cpu.regs (cpu.stage DRF).rs2) ∧
    (((WithDependencies.beforeDecode (zeroJunk 5)
        (WithDependencies.passes zeroJunk 5
          (WithDependencies.boot loadThenAnd 40 "silent"))).stage MEM).opcode = Opcode.LOAD ∧
      ((WithDependencies.beforeDecode (zeroJunk 5)
        (WithDependencies.passes zeroJunk 5
          (WithDependencies.boot loadThenAnd 40 "silent"))).stage MEM).rd = 3 ∧
      ((WithDependencies.beforeDecode (zeroJunk 5)
        (WithDependencies.passes zeroJunk 5
          (WithDependencies.boot loadThenAnd 40 "silent"))).stage DRF).opcode = Opcode.AND ∧
      ((WithDependencies.beforeDecode (zeroJunk 5)
        (WithDependencies.passes zeroJunk 5
          (WithDependencies.boot loadThenAnd 40 "silent"))).stage DRF).rs1 = 3 ∧
      (WithDependencies.beforeDecode (zeroJunk 5)
        (WithDependencies.passes zeroJunk 5
          (WithDependencies.boot loadThenAnd 40 "silent"))).regs_valid 3 = 1 ∧
      (WithDependencies.beforeDecode (zeroJunk 5)
        (WithDependencies.passes zeroJunk 5
          (WithDependencies.boot loadThenAnd 40 "silent"))).data_memory 0 = 42) ∧
    (((WithDependencies.passes zeroJunk 6
        (WithDependencies.boot loadThenAnd 40 "silent")).stage EX).opcode = Opcode.AND ∧
      ((WithDependencies.passes zeroJunk 6
        (WithDependencies.boot loadThenAnd 40 "silent")).stage EX).rs1_value = 0 ∧
      ((WithDependencies.passes zeroJunk 6
        (WithDependencies.boot loadThenAnd 40 "silent")).stage EX).rs2_value = 0 ∧
      (WithDependencies.passes zeroJunk 6
        (WithDependencies.boot loadThenAnd 40 "silent")).stage_check 1 1 = 0) ∧
    EndsWith (WithDependencies.APEX_cpu_run zeroJunk 41
        (WithDependencies.boot loadThenAnd 40 "silent"))
      (fun s => s.halt = 4 ∧ s.data_memory 0 = 42 ∧ s.regs 3 = 42 ∧ s.regs 4 = 0) := by
  refine ⟨fun cpu hg hop _ h1 h2 hs => ?_, by decide!, by decide!, by decide!⟩
  exact WithDependencies.fw_decode_logic_from_regs cpu hg hop h1.1 h1.2.1 h1.2.2 h2.1 h2.2.1
    h2.2.2 hs

/-! ## The operand read of decode without forwarding (C27) -/

namespace WithoutDependencies

theorem sb_unstall_frame (cpu : APEX_CPU) :
    (unstall cpu).stage = cpu.stage ∧ (unstall cpu).regs_valid = cpu.regs_valid ∧
    (unstall cpu).regs = cpu.regs ∧ (unstall cpu).halt = cpu.halt ∧
    (unstall cpu).stage_check 1 0 = cpu.stage_check 1 0 ∧ (unstall cpu).stage_check 1 1 = 0 ∧
    (unstall cpu).stage_check 2 0 = cpu.stage_check 2 0 := by
  simp [unstall, APEX_CPU.setCheck, APEX_CPU.setSet, upd2]

/-- The guarded part of `decode` on an instruction with two sources, both valid: the latch goes
to EX with the two register values, and the destination of a register-writing opcode is marked
invalid. -/
theorem sb_decodeGuarded_two_valid (Apex : CPU_Stage) (c : APEX_CPU)
    (hg : c.stage_check 1 0 = 0 ∧ c.stage_check 1 1 = 0 ∧ c.halt = 0)
    (hop : (c.stage DRF).opcode ∈ [Opcode.ADD, Opcode.SUB, Opcode.MUL, Opcode.AND, Opcode.OR,
      Opcode.XOR, Opcode.LDR, Opcode.STORE])
    (hv : c.regs_valid (c.stage DRF).rs1 ≠ 0 ∧ c.regs_valid (c.stage DRF).rs2 ≠ 0) :
    (decodeGuarded Apex c).stage EX =
      { c.stage DRF with rs1_value := c.regs (c.stage DRF).rs1,
                         rs2_value := c.regs (c.stage DRF).rs2 } ∧
    (decodeGuarded Apex c).regs_valid =
      (if writesRegister (c.stage DRF).opcode then upd c.regs_valid (c.stage DRF).rd 0
        else c.regs_valid) ∧
    (decodeGuarded Apex c).stage_check 1 1 = 0 := by
  rw [decodeGuarded, if_pos hg, sb_decodeRead_eq]
  simp only [List.mem_cons, List.mem_singleton, List.not_mem_nil, or_false] at hop
  rcases hop with h | h | h | h | h | h | h | h <;>
    simp [readBlock, h, readTwoSources, readStore, hv, claimDest, issue, writesRegister,
      APEX_CPU.setValid, APEX_CPU.setSet, APEX_CPU.setRs1Value, APEX_CPU.setRs2Value,
      APEX_CPU.setStage, hg.2.1]

/-- The guarded part of `decode` on an instruction with two sources, one of them invalid: the
stall. -/
theorem sb_decodeGuarded_two_invalid (Apex : CPU_Stage) (c : APEX_CPU)
    (hg : c.stage_check 1 0 = 0 ∧ c.stage_check 1 1 = 0 ∧ c.halt = 0)
    (hop : (c.stage DRF).opcode ∈ [Opcode.ADD, Opcode.SUB, Opcode.MUL, Opcode.AND, Opcode.OR,
      Opcode.XOR, Opcode.LDR, Opcode.STORE])
    (hv : ¬ (c.regs_valid (c.stage DRF).rs1 ≠ 0 ∧ c.regs_valid (c.stage DRF).rs2 ≠ 0)) :
    (decodeGuarded Apex c).stage_check 1 1 = 1 ∧ (decodeGuarded Apex c).stage_set 1 0 = 0 ∧
    (decodeGuarded Apex c).regs_valid = c.regs_valid ∧
    (decodeGuarded Apex c).stage DRF = c.stage DRF ∧
    ((decodeGuarded Apex c).stage EX = c.stage EX ∨ (decodeGuarded Apex c).stage EX = Apex) := by
  rw [decodeGuarded, if_pos hg, sb_decodeRead_eq]
  have hb : readBlock c = c.stallDRF := by
    simp only [List.mem_cons, List.mem_singleton, List.not_mem_nil, or_false] at hop
    rcases hop with h | h | h | h | h | h | h | h <;>
      simp only [readBlock, h, readTwoSources, readStore, hv, if_false]
  rw [hb]
  by_cases h20 : c.stage_check 2 0 = 0 <;>
    simp [issue, APEX_CPU.stallDRF, APEX_CPU.setCheck, APEX_CPU.setSet, APEX_CPU.setStage, upd2,
      h20]

/-- The guarded part of `decode` on a LOAD or a JUMP with a valid source. -/
theorem sb_decodeGuarded_one_valid (Apex : CPU_Stage) (c : APEX_CPU)
    (hg : c.stage_check 1 0 = 0 ∧ c.stage_check 1 1 = 0 ∧ c.halt = 0)
    (hop : (c.stage DRF).opcode = Opcode.LOAD ∨ (c.stage DRF).opcode = Opcode.JUMP)
    (hv : c.regs_valid (c.stage DRF).rs1 ≠ 0) :
    (decodeGuarded Apex c).stage EX =
      { c.stage DRF with rs1_value := c.regs (c.stage DRF).rs1 } ∧
    (decodeGuarded Apex c).regs_valid =
      (if writesRegister (c.stage DRF).opcode then upd c.regs_valid (c.stage DRF).rd 0
        else c.regs_valid) ∧
    (decodeGuarded Apex c).stage_check 1 1 = 0 := by
  rw [decodeGuarded, if_pos hg, sb_decodeRead_eq]
  rcases hop with h | h <;>
    simp [readBlock, h, readLoad, readJump, hv, claimDest, issue, writesRegister,
      APEX_CPU.setValid, APEX_CPU.setSet, APEX_CPU.setRs1Value, APEX_CPU.setStage, hg.2.1]

/-- The guarded part of `decode` on a LOAD or a JUMP with an invalid source: the stall. -/
theorem sb_decodeGuarded_one_invalid (Apex : CPU_Stage) (c : APEX_CPU)
    (hg : c.stage_check 1 0 = 0 ∧ c.stage_check 1 1 = 0 ∧ c.halt = 0)
    (hop : (c.stage DRF).opcode = Opcode.LOAD ∨ (c.stage DRF).opcode = Opcode.JUMP)
    (hv : c.regs_valid (c.stage DRF).rs1 = 0) :
    (decodeGuarded Apex c).stage_check 1 1 = 1 ∧ (decodeGuarded Apex c).stage_set 1 0 = 0 ∧
    (decodeGuarded Apex c).regs_valid = c.regs_valid ∧
    (decodeGuarded Apex c).stage DRF = c.stage DRF ∧
    ((decodeGuarded Apex c).stage EX = c.stage EX ∨ (decodeGuarded Apex c).stage EX = Apex) := by
  rw [decodeGuarded, if_pos hg, sb_decodeRead_eq]
  have hb : readBlock c = c.stallDRF := by
    rcases hop with h | h <;>
      simp only [readBlock, h, readLoad, readJump, hv, ne_eq, not_true_eq_false, if_false]
  rw [hb]
  by_cases h20 : c.stage_check 2 0 = 0 <;>
    simp [issue, APEX_CPU.stallDRF, APEX_CPU.setCheck, APEX_CPU.setSet, APEX_CPU.setStage, upd2,
      h20]

/-- The pre-check of `decode` for an instruction with two sources. -/
theorem sb_unstallBlock_two (cpu : APEX_CPU)
    (hop : (cpu.stage DRF).opcode ∈ [Opcode.ADD, Opcode.SUB, Opcode.MUL, Opcode.AND, Opcode.OR,
      Opcode.XOR, Opcode.LDR, Opcode.STORE]) :
    unstallBlock cpu = unstallTwoSources cpu := by
  simp only [List.mem_cons, List.mem_singleton, List.not_mem_nil, or_false] at hop
  rcases hop with h | h | h | h | h | h | h | h <;> simp only [unstallBlock, h]

/-- A JUMP that has stalled stays in DRF: `decode` has no pre-check that clears
`stage_check[1][1]` for it. -/
theorem sb_decode_JUMP_held (Apex : CPU_Stage) (cpu : APEX_CPU)
    (h11 : cpu.stage_check 1 1 ≠ 0) (hop : (cpu.stage DRF).opcode = Opcode.JUMP) :
    (decode Apex cpu).stage = cpu.stage ∧ (decode Apex cpu).stage_check = cpu.stage_check ∧
    (decode Apex cpu).regs_valid = cpu.regs_valid := by
  have hu : decodeUnstall cpu = cpu := by rw [sb_decodeUnstall_eq]; simp only [unstallBlock, hop]
  have hg : ¬ (cpu.stage_check 1 0 = 0 ∧ cpu.stage_check 1 1 = 0 ∧ cpu.halt = 0) :=
    fun h => h11 h.2.1
  rw [decode, hu, decodeGuarded, if_neg hg]
  split
  · simp only [APEX_CPU.setSet, and_self]
  · exact ⟨rfl, rfl, rfl⟩

end WithoutDependencies

/-- C27 fails on the code for JUMP. In `decode` without forwarding an ADD, SUB, MUL, AND, OR, XOR,
LDR, STORE or LOAD whose sources are valid is copied to EX with the register values, whatever
`stage_check[1][1]` was (the pre-check clears it), and is stalled when a source is invalid. A
JUMP is treated the same way only while `stage_check[1][1]` is 0: there is no pre-check for
JUMP, so a JUMP that has stalled once keeps `stage_check[1][1]` set and `decode` leaves every
latch as it is, also after its source has become valid. The run of `S6` (`MOVC R1,#8;
JUMP R1,#4000; ...`) ends at the cycle budget with the JUMP in DRF, `regs_valid[1] = 1` and
`regs[1] = 8`. -/
theorem C27_stalled_JUMP_never_released :
    (∀ (Apex : CPU_Stage) (cpu : APEX_CPU), cpu.halt = 0 → cpu.stage_check 1 0 = 0 →
      (cpu.stage DRF).opcode ∈ [Opcode.ADD, Opcode.SUB, Opcode.MUL, Opcode.AND, Opcode.OR,
        Opcode.XOR, Opcode.LDR, Opcode.STORE] →
      (cpu.regs_valid (cpu.stage DRF).rs1 ≠ 0 ∧ cpu.regs_valid (cpu.stage DRF).rs2 ≠ 0 →
        (WithoutDependencies.decode Apex cpu).stage EX =
          { cpu.stage DRF with rs1_value := cpu.regs (cpu.stage DRF).rs1,
                               rs2_value := cpu.regs (cpu.stage DRF).rs2 } ∧
        (WithoutDependencies.decode Apex cpu).regs_valid =
          (if writesRegister (cpu.stage DRF).opcode then
            upd cpu.regs_valid (cpu.stage DRF).rd 0 else cpu.regs_valid) ∧
        (WithoutDependencies.decode Apex cpu).stage_check 1 1 = 0) ∧
      (¬ (cpu.regs_valid (cpu.stage DRF).rs1 ≠ 0 ∧ cpu.regs_valid (cpu.stage DRF).rs2 ≠ 0) →
        cpu.stage_check 1 1 = 0 →
        (WithoutDependencies.decode Apex cpu).stage_check 1 1 = 1 ∧
        (WithoutDependencies.decode Apex cpu).stage_set 1 0 = 0 ∧
        (WithoutDependencies.decode Apex cpu).regs_valid = cpu.regs_valid ∧
        (WithoutDependencies.decode Apex cpu).stage DRF = cpu.stage DRF ∧
        ((WithoutDependencies.decode Apex cpu).stage EX = cpu.stage EX ∨
          (WithoutDependencies.decode Apex cpu).stage EX = Apex))) ∧
    (∀ (Apex : CPU_Stage) (cpu : APEX_CPU), cpu.halt = 0 → cpu.stage_check 1 0 = 0 →
      (cpu.stage DRF).opcode = Opcode.LOAD →
      (cpu.regs_valid (cpu.stage DRF).rs1 ≠ 0 →
        (WithoutDependencies.decode Apex cpu).stage EX =
          { cpu.stage DRF with rs1_value := cpu.regs (cpu.stage DRF).rs1 } ∧
        (WithoutDependencies.decode Apex cpu).regs_valid =
          upd cpu.regs_valid (cpu.stage DRF).rd 0 ∧
        (WithoutDependencies.decode Apex cpu).stage_check 1 1 = 0) ∧
      (cpu.regs_valid (cpu.stage DRF).rs1 = 0 → cpu.stage_check 1 1 = 0 →
        (WithoutDependencies.decode Apex cpu).stage_check 1 1 = 1 ∧
        (WithoutDependencies.decode Apex cpu).stage_set 1 0 = 0 ∧
        (WithoutDependencies.decode Apex cpu).regs_valid = cpu.regs_valid ∧
        (WithoutDependencies.decode Apex cpu).stage DRF = cpu.stage DRF ∧
        ((WithoutDependencies.decode Apex cpu).stage EX = cpu.stage EX ∨
          (WithoutDependencies.decode Apex cpu).stage EX = Apex))) ∧
    (∀ (Apex : CPU_Stage) (cpu : APEX_CPU), cpu.halt = 0 → cpu.stage_check 1 0 = 0 →
      cpu.stage_check 1 1 = 0 → (cpu.stage DRF).opcode = Opcode.JUMP →
      (cpu.regs_valid (cpu.stage DRF).rs1 ≠ 0 →
        (WithoutDependencies.decode Apex cpu).stage EX =
          { cpu.stage DRF with rs1_value := cpu.regs (cpu.stage DRF).rs1 } ∧
        (WithoutDependencies.decode Apex cpu).regs_valid = cpu.regs_valid ∧
        (WithoutDependencies.decode Apex cpu).stage_check 1 1 = 0) ∧
      (cpu.regs_valid (cpu.stage DRF).rs1 = 0 →
        (WithoutDependencies.decode Apex cpu).stage_check 1 1 = 1 ∧
        (WithoutDependencies.decode Apex cpu).stage_set 1 0 = 0 ∧
        (WithoutDependencies.decode Apex cpu).regs_valid = cpu.regs_valid ∧
        (WithoutDependencies.decode Apex cpu).stage DRF = cpu.stage DRF ∧
        ((WithoutDependencies.decode Apex cpu).stage EX = cpu.stage EX ∨
          (WithoutDependencies.decode Apex cpu).stage EX = Apex))) ∧
    (∀ (Apex : CPU_Stage) (cpu : APEX_CPU), cpu.stage_check 1 1 ≠ 0 →
      (cpu.stage DRF).opcode = Opcode.JUMP →
      (WithoutDependencies.decode Apex cpu).stage = cpu.stage ∧
      (WithoutDependencies.decode Apex cpu).stage_check = cpu.stage_check ∧
      (WithoutDependencies.decode Apex cpu).regs_valid = cpu.regs_valid) ∧
    inEveryMode fun mode =>
      EndsWith (WithoutDependencies.APEX_cpu_run zeroJunk 41
          (WithoutDependencies.boot S6 40 mode))
        (fun s => s.clock = 40 ∧ s.halt = 0 ∧ (s.stage DRF).opcode = Opcode.JUMP ∧
          (s.stage DRF).rs1 = 1 ∧ s.stage_check 1 1 = 1 ∧ s.regs_valid 1 = 1 ∧ s.regs 1 = 8 ∧
          s.regs 3 = 0) := by
  refine ⟨fun Apex cpu hh h10 hop => ⟨fun hv => ?_, fun hv h11 => ?_⟩,
    fun Apex cpu hh h10 hop => ⟨fun hv => ?_, fun hv h11 => ?_⟩,
    fun Apex cpu hh h10 h11 hop => ⟨fun hv => ?_, fun hv => ?_⟩,
    fun Apex cpu h11 hop => WithoutDependencies.sb_decode_JUMP_held Apex cpu h11 hop,
    by decide!⟩
  · obtain ⟨f1, f2, f3, f4, f5, f6, -⟩ := WithoutDependencies.sb_unstall_frame cpu
    have hu : WithoutDependencies.decodeUnstall cpu = WithoutDependencies.unstall cpu := by
      rw [WithoutDependencies.sb_decodeUnstall_eq, WithoutDependencies.sb_unstallBlock_two cpu hop,
        WithoutDependencies.unstallTwoSources, if_pos hv]
    have key := WithoutDependencies.sb_decodeGuarded_two_valid Apex
      (WithoutDependencies.unstall cpu) ⟨by rw [f5]; exact h10, f6, by rw [f4]; exact hh⟩
      (by rw [f1]; exact hop) (by rw [f1, f2]; exact hv)
    rw [f1, f2, f3] at key
    rw [WithoutDependencies.decode, hu]
    exact key
  · have hu : WithoutDependencies.decodeUnstall cpu = cpu := by
      rw [WithoutDependencies.sb_decodeUnstall_eq, WithoutDependencies.sb_unstallBlock_two cpu hop,
        WithoutDependencies.unstallTwoSources, if_neg hv]
    rw [WithoutDependencies.decode, hu]
    exact WithoutDependencies.sb_decodeGuarded_two_invalid Apex cpu ⟨h10, h11, hh⟩ hop hv
  · obtain ⟨f1, f2, f3, f4, f5, f6, -⟩ := WithoutDependencies.sb_unstall_frame cpu
    have hu : WithoutDependencies.decodeUnstall cpu = WithoutDependencies.unstall cpu := by
      rw [WithoutDependencies.sb_decodeUnstall_eq]
      simp only [WithoutDependencies.unstallBlock, hop, WithoutDependencies.unstallOneSource, hv,
        ne_eq, not_false_eq_true, if_true]
    have key := WithoutDependencies.sb_decodeGuarded_one_valid Apex
      (WithoutDependencies.unstall cpu) ⟨by rw [f5]; exact h10, f6, by rw [f4]; exact hh⟩
      (by rw [f1]; exact Or.inl hop) (by rw [f1, f2]; exact hv)
    rw [f1, f2, f3] at key
    rw [WithoutDependencies.decode, hu]
    have hw : writesRegister (cpu.stage DRF).opcode := by rw [hop]; decide
    rw [if_pos hw] at key
    exact key
  · have hu : WithoutDependencies.decodeUnstall cpu = cpu := by
      rw [WithoutDependencies.sb_decodeUnstall_eq]
      simp only [WithoutDependencies.unstallBlock, hop, WithoutDependencies.unstallOneSource, hv,
        ne_eq, not_true_eq_false, if_false]
    rw [WithoutDependencies.decode, hu]
    exact WithoutDependencies.sb_decodeGuarded_one_invalid Apex cpu ⟨h10, h11, hh⟩ (Or.inl hop) hv
  · have hu : WithoutDependencies.decodeUnstall cpu = cpu := by
      rw [WithoutDependencies.sb_decodeUnstall_eq]
      simp only [WithoutDependencies.unstallBlock, hop]
    have key := WithoutDependencies.sb_decodeGuarded_one_valid Apex cpu ⟨h10, h11, hh⟩
      (Or.inr hop) hv
    have hw : ¬ writesRegister (cpu.stage DRF).opcode := by rw [hop]; decide
    rw [if_neg hw] at key
    rw [WithoutDependencies.decode, hu]
    exact key
  · have hu : WithoutDependencies.decodeUnstall cpu = cpu := by
      rw [WithoutDependencies.sb_decodeUnstall_eq]
      simp only [WithoutDependencies.unstallBlock, hop]
    rw [WithoutDependencies.decode, hu]
    exact WithoutDependencies.sb_decodeGuarded_one_invalid Apex cpu ⟨h10, h11, hh⟩ (Or.inr hop) hv

/-! ## The scoreboard in decode with forwarding (C28) -/

namespace WithDependencies

theorem fw_readRs1NoElse_claims (c : APEX_CPU) :
    (readRs1NoElse c).regs_valid = c.regs_valid ∧
    ((readRs1NoElse c).stage DRF).rd = (c.stage DRF).rd := by
  simp only [readRs1NoElse]
  split_ifs <;> simp [APEX_CPU.setRs1Value, APEX_CPU.setStage]

theorem fw_readRs2OrStall_claims (c : APEX_CPU) :
    (readRs2OrStall c).regs_valid = c.regs_valid ∧
    ((readRs2OrStall c).stage DRF).rd = (c.stage DRF).rd := by
  simp only [readRs2OrStall]
  split_ifs <;> simp [APEX_CPU.setRs2Value, APEX_CPU.setStage, APEX_CPU.stallDRF,
    APEX_CPU.setCheck, APEX_CPU.setSet]

theorem fw_readRs1Jump_claims (c : APEX_CPU) :
    (readRs1Jump c).regs_valid = c.regs_valid ∧
    ((readRs1Jump c).stage DRF).rd = (c.stage DRF).rd := by
  simp only [readRs1Jump]
  split_ifs <;> simp [APEX_CPU.setRs1Value, APEX_CPU.setStage, APEX_CPU.stallDRF,
    APEX_CPU.setCheck, APEX_CPU.setSet]

theorem fw_readLdrOperands_claims (c : APEX_CPU) :
    (readLdrOperands c).regs_valid = c.regs_valid ∧
    ((readLdrOperands c).stage DRF).rd = (c.stage DRF).rd := by
  simp only [readLdrOperands]
  split_ifs <;> simp [APEX_CPU.setRs1Value, APEX_CPU.setRs2Value, APEX_CPU.setStage,
    APEX_CPU.stallDRF, APEX_CPU.setCheck, APEX_CPU.setSet]

/-- `claimIfIssued` on a state whose entry for the destination is already 0 changes no entry. -/
theorem fw_claimIfIssued_claimed (c : APEX_CPU) (v : Int → Int) (r : Int)
    (h1 : c.regs_valid = upd v r 0) (h2 : (c.stage DRF).rd = r) :
    (claimIfIssued c).regs_valid = upd v r 0 := by
  unfold claimIfIssued
  split
  · simp only [claimDest, APEX_CPU.setValid, h1, h2, upd_upd]
  · exact h1

theorem fw_issue_regs_valid (c : APEX_CPU) : (issue c).regs_valid = c.regs_valid := by
  unfold issue; split
  · simp only [APEX_CPU.setStage, APEX_CPU.setSet]
  · rfl

theorem fw_issue_stage_check (c : APEX_CPU) : (issue c).stage_check = c.stage_check := by
  unfold issue; split
  · simp only [APEX_CPU.setStage, APEX_CPU.setSet]
  · rfl

/-- The two LDR blocks of `decode` clear `regs_valid[rd]`, stalled or not. -/
theorem fw_readLdr_claims (c : APEX_CPU) :
    (readLdrAgain (readLdrBypass c)).regs_valid = upd c.regs_valid (c.stage DRF).rd 0 := by
  obtain ⟨a1, a2⟩ := fw_readRs1NoElse_claims (claimDest c)
  obtain ⟨b1, b2⟩ := fw_readRs2OrStall_claims (readRs1NoElse (claimDest c))
  obtain ⟨d1, d2⟩ := fw_readLdrOperands_claims (readRs2OrStall (readRs1NoElse (claimDest c)))
  have h0 : (claimDest c).regs_valid = upd c.regs_valid (c.stage DRF).rd 0 := rfl
  have h0s : ((claimDest c).stage DRF).rd = (c.stage DRF).rd := rfl
  unfold readLdrAgain readLdrBypass
  exact fw_claimIfIssued_claimed _ _ _ (by rw [d1, b1, a1, h0]) (by rw [d2, b2, a2, h0s])

/-- The two XOR blocks of `decode` clear `regs_valid[rd]`, stalled or not. -/
theorem fw_readXor_claims (c : APEX_CPU) :
    (readXorAgain (readLogic c)).regs_valid = upd c.regs_valid (c.stage DRF).rd 0 := by
  obtain ⟨a1, a2⟩ := fw_readRs1NoElse_claims c
  obtain ⟨b1, b2⟩ := fw_readRs2OrStall_claims (readRs1NoElse c)
  have hrd : ((readLogic c).stage DRF).rd = (c.stage DRF).rd := by
    unfold readLogic; rw [fw_claimIfIssued_stage, b2, a2]
  have hv : (claimDest (readLogic c)).regs_valid = upd c.regs_valid (c.stage DRF).rd 0 := by
    show upd (readLogic c).regs_valid ((readLogic c).stage DRF).rd 0 = _
    rw [hrd]
    unfold readLogic claimIfIssued
    split
    · simp only [claimDest, APEX_CPU.setValid, b1, b2, a1, a2, upd_upd]
    · rw [b1, a1]
  have hs : ((claimDest (readLogic c)).stage DRF).rd = (c.stage DRF).rd := hrd
  obtain ⟨e1, e2⟩ := fw_readRs1NoElse_claims (claimDest (readLogic c))
  obtain ⟨f1, f2⟩ := fw_readRs2OrStall_claims (readRs1NoElse (claimDest (readLogic c)))
  unfold readXorAgain
  show (claimIfIssued (readRs2OrStall (readRs1NoElse (claimDest (readLogic c))))).regs_valid = _
  exact fw_claimIfIssued_claimed _ _ _ (by rw [f1, e1, hv]) (by rw [f2, e2, hs])

/-- The JUMP block of `decode` clears `regs_valid[rd]` when it does not stall. -/
theorem fw_readJump_claims (c : APEX_CPU) (h : (readJump c).stage_check 1 1 = 0) :
    (readJump c).regs_valid = upd c.regs_valid (c.stage DRF).rd 0 := by
  obtain ⟨a1, a2⟩ := fw_readRs1Jump_claims c
  have hc : (readJump c).stage_check = (readRs1Jump c).stage_check := by
    unfold readJump claimIfIssued; split <;> rfl
  rw [hc] at h
  unfold readJump claimIfIssued
  rw [if_pos h]
  simp only [claimDest, APEX_CPU.setValid, a1, a2]

end WithDependencies

/-- C28 fails on the code. In `decode` with forwarding the first LDR block and the second XOR
block assign `regs_valid[rd] = 0` before the operands are looked up, and the JUMP block assigns it
when the JUMP does not stall. So every LDR and every XOR that `decode` processes clears
`regs_valid[rd]`, stalled or not, and an issued JUMP clears the entry that its `rd` field names.
On `LDR R3,R1,R2` and on `XOR R3,R1,R2` with no source available `decode` stalls
(`stage_check[1][1] = 1`) and `regs_valid[3]` goes from 1 to 0; on a JUMP through `R3` whose `rd`
field is 3 the JUMP is issued and `regs_valid[3]` goes from 1 to 0. -/
theorem C28_claims_before_reading :
    (∀ cpu : APEX_CPU,
      cpu.stage_check 1 0 = 0 ∧ (WithDependencies.decodeUnstall cpu).stage_check 1 1 = 0 ∧
        cpu.halt = 0 →
      ((cpu.stage DRF).opcode = Opcode.LDR ∨ (cpu.stage DRF).opcode = Opcode.XOR →
        (WithDependencies.decode cpu).regs_valid = upd cpu.regs_valid (cpu.stage DRF).rd 0) ∧
      ((cpu.stage DRF).opcode = Opcode.JUMP → (WithDependencies.decode cpu).stage_check 1 1 = 0 →
        (WithDependencies.decode cpu).regs_valid = upd cpu.regs_valid (cpu.stage DRF).rd 0)) ∧
    ((sourcesMissing ldrLatch).regs_valid 3 = 1 ∧
      (WithDependencies.decode (sourcesMissing ldrLatch)).stage_check 1 1 = 1 ∧
      (WithDependencies.decode (sourcesMissing ldrLatch)).regs_valid 3 = 0) ∧
    ((sourcesMissing xorLatch).regs_valid 3 = 1 ∧
      (WithDependencies.decode (sourcesMissing xorLatch)).stage_check 1 1 = 1 ∧
      (WithDependencies.decode (sourcesMissing xorLatch)).regs_valid 3 = 0) ∧
    ((sourcesMissing jumpLatch).regs_valid 3 = 1 ∧
      (WithDependencies.decode (sourcesMissing jumpLatch)).stage_check 1 1 = 0 ∧
      ((WithDependencies.decode (sourcesMissing jumpLatch)).stage EX).opcode = Opcode.JUMP ∧
      (WithDependencies.decode (sourcesMissing jumpLatch)).regs_valid 3 = 0) := by
  refine ⟨fun cpu hg => ?_, by decide!, by decide!, by decide!⟩
  have hv : (cpu.setCheck 1 1 0).regs_valid = cpu.regs_valid := rfl
  have hs : (cpu.setCheck 1 1 0).stage = cpu.stage := rfl
  rw [WithDependencies.fw_decode_processed cpu hg, WithDependencies.fw_issue_regs_valid,
    WithDependencies.fw_issue_stage_check]
  refine ⟨fun hop => ?_, fun hop h => ?_⟩
  · rcases hop with hop | hop
    · have hb : WithDependencies.readBlock (cpu.setCheck 1 1 0) =
          WithDependencies.readLdrAgain (WithDependencies.readLdrBypass (cpu.setCheck 1 1 0)) := by
        simp only [WithDependencies.readBlock, hs, hop]
      rw [hb, WithDependencies.fw_readLdr_claims, hv, hs]
    · have hb : WithDependencies.readBlock (cpu.setCheck 1 1 0) =
          WithDependencies.readXorAgain (WithDependencies.readLogic (cpu.setCheck 1 1 0)) := by
        simp only [WithDependencies.readBlock, hs, hop]
      rw [hb, WithDependencies.fw_readXor_claims, hv, hs]
  · have hb : WithDependencies.readBlock (cpu.setCheck 1 1 0) =
        WithDependencies.readJump (cpu.setCheck 1 1 0) := by
      simp only [WithDependencies.readBlock, hs, hop]
    rw [hb] at h ⊢
    rw [WithDependencies.fw_readJump_claims _ h, hv, hs]

/-! ## The branch guard of decode (C29) -/

namespace WithoutDependencies

/-- `decode` of a BZ or BNZ while MEM or WB holds ADD, SUB or MUL, first meeting: the stall. -/
theorem sb_decode_branch_stalls (Apex : CPU_Stage) (cpu : APEX_CPU)
    (hg : cpu.stage_check 1 0 = 0 ∧ cpu.stage_check 1 1 = 0 ∧ cpu.halt = 0)
    (hop : (cpu.stage DRF).opcode = Opcode.BZ ∨ (cpu.stage DRF).opcode = Opcode.BNZ)
    (hz : isArith (cpu.stage MEM).opcode ∨ isArith (cpu.stage WB).opcode) :
    (decode Apex cpu).stage_check 1 1 = 1 ∧ (decode Apex cpu).stage_set 1 0 = 0 ∧
    (decode Apex cpu).stage DRF = cpu.stage DRF ∧
    ((decode Apex cpu).stage EX = cpu.stage EX ∨ (decode Apex cpu).stage EX = Apex) := by
  have hn : ¬ (¬ isArith (cpu.stage MEM).opcode ∧ ¬ isArith (cpu.stage WB).opcode) := by tauto
  have hu : decodeUnstall cpu = cpu := by
    rw [sb_decodeUnstall_eq]
    rcases hop with h | h <;> simp only [unstallBlock, h, unstallBranch, hn, if_false]
  have hb : readBlock cpu = cpu.stallDRF := by
    rcases hop with h | h <;> simp only [readBlock, h, guardBranch, hz, if_true]
  rw [decode, hu, decodeGuarded, if_pos hg, sb_decodeRead_eq, hb]
  by_cases h20 : cpu.stage_check 2 0 = 0 <;>
    simp [issue, APEX_CPU.stallDRF, APEX_CPU.setCheck, APEX_CPU.setSet, APEX_CPU.setStage, upd2,
      h20]

/-- `decode` of a BZ or BNZ that is already stalled while MEM or WB holds ADD, SUB or MUL: no
latch and no stall bit changes. -/
theorem sb_decode_branch_held (Apex : CPU_Stage) (cpu : APEX_CPU)
    (h11 : cpu.stage_check 1 1 ≠ 0)
    (hop : (cpu.stage DRF).opcode = Opcode.BZ ∨ (cpu.stage DRF).opcode = Opcode.BNZ)
    (hz : isArith (cpu.stage MEM).opcode ∨ isArith (cpu.stage WB).opcode) :
    (decode Apex cpu).stage = cpu.stage ∧ (decode Apex cpu).stage_check = cpu.stage_check := by
  have hn : ¬ (¬ isArith (cpu.stage MEM).opcode ∧ ¬ isArith (cpu.stage WB).opcode) := by tauto
  have hu : decodeUnstall cpu = cpu := by
    rw [sb_decodeUnstall_eq]
    rcases hop with h | h <;> simp only [unstallBlock, h, unstallBranch, hn, if_false]
  have hg : ¬ (cpu.stage_check 1 0 = 0 ∧ cpu.stage_check 1 1 = 0 ∧ cpu.halt = 0) :=
    fun h => h11 h.2.1
  rw [decode, hu, decodeGuarded, if_neg hg]
  split
  · simp only [APEX_CPU.setSet, and_self]
  · exact ⟨rfl, rfl⟩

/-- `decode` of a BZ or BNZ while neither MEM nor WB holds ADD, SUB or MUL: the branch goes to
EX, stalled before or not. -/
theorem sb_decode_branch_issues (Apex : CPU_Stage) (cpu : APEX_CPU)
    (h10 : cpu.stage_check 1 0 = 0) (hh : cpu.halt = 0)
    (hop : (cpu.stage DRF).opcode = Opcode.BZ ∨ (cpu.stage DRF).opcode = Opcode.BNZ)
    (hz : ¬ isArith (cpu.stage MEM).opcode ∧ ¬ isArith (cpu.stage WB).opcode) :
    (decode Apex cpu).stage EX = cpu.stage DRF ∧ (decode Apex cpu).stage_check 1 1 = 0 ∧
    (decode Apex cpu).stage_set 1 0 = 1 := by
  obtain ⟨f1, -, -, f4, f5, f6, -⟩ := sb_unstall_frame cpu
  have hu : decodeUnstall cpu = unstall cpu := by
    rw [sb_decodeUnstall_eq]
    rcases hop with h | h <;> simp only [unstallBlock, h, unstallBranch] <;> rw [if_pos hz]
  have hn : ¬ (isArith (cpu.stage MEM).opcode ∨ isArith (cpu.stage WB).opcode) := by tauto
  have hb : readBlock (unstall cpu) = unstall cpu := by
    rcases hop with h | h <;> simp only [readBlock, f1, h, guardBranch] <;> rw [if_neg hn]
  rw [decode, hu, decodeGuarded, if_pos ⟨by rw [f5]; exact h10, f6, by rw [f4]; exact hh⟩,
    sb_decodeRead_eq, hb, issue, if_pos f6]
  simp [unstall, APEX_CPU.setCheck, APEX_CPU.setSet, APEX_CPU.setStage, upd2]

end WithoutDependencies

namespace WithDependencies

/-- `decode` of a BZ or BNZ while MEM or WB holds ADD, SUB or MUL, first meeting: the stall. -/
theorem fw_decode_branch_stalls (cpu : APEX_CPU)
    (hg : cpu.stage_check 1 0 = 0 ∧ cpu.stage_check 1 1 = 0 ∧ cpu.halt = 0)
    (hop : (cpu.stage DRF).opcode = Opcode.BZ ∨ (cpu.stage DRF).opcode = Opcode.BNZ)
    (hz : isArith (cpu.stage MEM).opcode ∨ isArith (cpu.stage WB).opcode) :
    (decode cpu).stage_check 1 1 = 1 ∧ (decode cpu).stage_set 1 0 = 0 ∧
    (decode cpu).stage = cpu.stage := by
  have hn : ¬ (¬ isArith (cpu.stage MEM).opcode ∧ ¬ isArith (cpu.stage WB).opcode) := by tauto
  have hu : decodeUnstall cpu = cpu := by
    rw [fw_decodeUnstall_eq]
    rcases hop with h | h <;> simp only [unstallBlock, h, unstallBranch, hn, if_false]
  have hb : readBlock cpu = cpu.stallDRF := by
    rcases hop with h | h <;> simp only [readBlock, h, guardBranch, hz, if_true]
  rw [decode, hu, decodeGuarded, if_pos hg, fw_decodeRead_eq, hb]
  simp [issue, APEX_CPU.stallDRF, APEX_CPU.setCheck, APEX_CPU.setSet, upd2]

/-- `decode` of a BZ or BNZ that is already stalled while MEM or WB holds ADD, SUB or MUL:
nothing changes. -/
theorem fw_decode_branch_held (cpu : APEX_CPU) (h11 : cpu.stage_check 1 1 ≠ 0)
    (hop : (cpu.stage DRF).opcode = Opcode.BZ ∨ (cpu.stage DRF).opcode = Opcode.BNZ)
    (hz : isArith (cpu.stage MEM).opcode ∨ isArith (cpu.stage WB).opcode) :
    decode cpu = cpu := by
  have hn : ¬ (¬ isArith (cpu.stage MEM).opcode ∧ ¬ isArith (cpu.stage WB).opcode) := by tauto
  have hu : decodeUnstall cpu = cpu := by
    rw [fw_decodeUnstall_eq]
    rcases hop with h | h <;> simp only [unstallBlock, h, unstallBranch, hn, if_false]
  have hg : ¬ (cpu.stage_check 1 0 = 0 ∧ cpu.stage_check 1 1 = 0 ∧ cpu.halt = 0) :=
    fun h => h11 h.2.1
  rw [decode, hu, decodeGuarded, if_neg hg]

/-- `decode` of a BZ or BNZ while neither MEM nor WB holds ADD, SUB or MUL: the stall bit is
cleared, and the branch goes to EX when `stage_set[2][0]` is nonzero. -/
theorem fw_decode_branch_issues (cpu : APEX_CPU)
    (h10 : cpu.stage_check 1 0 = 0) (hh : cpu.halt = 0)
    (hop : (cpu.stage DRF).opcode = Opcode.BZ ∨ (cpu.stage DRF).opcode = Opcode.BNZ)
    (hz : ¬ isArith (cpu.stage MEM).opcode ∧ ¬ isArith (cpu.stage WB).opcode) :
    (decode cpu).stage_check 1 1 = 0 ∧
    (cpu.stage_set 2 0 ≠ 0 →
      (decode cpu).stage EX = cpu.stage DRF ∧ (decode cpu).stage_set 1 0 = 1) ∧
    (cpu.stage_set 2 0 = 0 → (decode cpu).stage = cpu.stage) := by
  have hu : (decodeUnstall cpu).stage_check 1 1 = 0 := by
    rw [fw_decodeUnstall_eq]
    rcases hop with h | h <;>
      simp [unstallBlock, h, unstallBranch, hz, APEX_CPU.setCheck, upd2]
  have hs : (cpu.setCheck 1 1 0).stage = cpu.stage := rfl
  have hn : ¬ (isArith (cpu.stage MEM).opcode ∨ isArith (cpu.stage WB).opcode) := by tauto
  have hb : readBlock (cpu.setCheck 1 1 0) = cpu.setCheck 1 1 0 := by
    rcases hop with h | h <;> simp only [readBlock, hs, h, guardBranch] <;> rw [if_neg hn]
  rw [fw_decode_processed cpu ⟨h10, hu, hh⟩, hb]
  refine ⟨?_, fun h => ?_, fun h => ?_⟩
  · unfold issue; split <;> simp [APEX_CPU.setCheck, APEX_CPU.setSet, APEX_CPU.setStage, upd2]
  · simp [issue, APEX_CPU.setCheck, APEX_CPU.setSet, APEX_CPU.setStage, upd2, h]
  · simp [issue, APEX_CPU.setCheck, APEX_CPU.setSet, APEX_CPU.setStage, upd2, h]

end WithDependencies

/-- C29: in both variants, when `decode` meets a BZ or BNZ (`halt = 0`, `stage_check[1][0] = 0`)
and the MEM latch or the WB latch holds ADD, SUB or MUL, the branch is not copied to EX: at the
first meeting (`stage_check[1][1] = 0`) `stage_check[1][1]` becomes 1 and `stage_set[1][0]`
becomes 0, the DRF latch keeps the branch and EX keeps its latch or, without forwarding, receives
the uninitialised latch; while the stall lasts (`stage_check[1][1]` set) no latch and no stall bit
changes. When neither MEM nor WB holds ADD, SUB or MUL, `stage_check[1][1]` is 0 after `decode`,
whether the branch was stalled before or not, and the branch is copied to EX (with forwarding
when `stage_set[2][0]` is nonzero, the EX latch being free). -/
theorem C29_branch_guard :
    (∀ (Apex : CPU_Stage) (cpu : APEX_CPU), cpu.halt = 0 → cpu.stage_check 1 0 = 0 →
      (cpu.stage DRF).opcode = Opcode.BZ ∨ (cpu.stage DRF).opcode = Opcode.BNZ →
      isArith (cpu.stage MEM).opcode ∨ isArith (cpu.stage WB).opcode →
      (cpu.stage_check 1 1 = 0 →
        ((WithoutDependencies.decode Apex cpu).stage_check 1 1 = 1 ∧
          (WithoutDependencies.decode Apex cpu).stage_set 1 0 = 0 ∧
          (WithoutDependencies.decode Apex cpu).stage DRF = cpu.stage DRF ∧
          ((WithoutDependencies.decode Apex cpu).stage EX = cpu.stage EX ∨
            (WithoutDependencies.decode Apex cpu).stage EX = Apex)) ∧
        ((WithDependencies.decode cpu).stage_check 1 1 = 1 ∧
          (WithDependencies.decode cpu).stage_set 1 0 = 0 ∧
          (WithDependencies.decode cpu).stage = cpu.stage)) ∧
      (cpu.stage_check 1 1 ≠ 0 →
        ((WithoutDependencies.decode Apex cpu).stage = cpu.stage ∧
          (WithoutDependencies.decode Apex cpu).stage_check = cpu.stage_check) ∧
        WithDependencies.decode cpu = cpu)) ∧
    (∀ (Apex : CPU_Stage) (cpu : APEX_CPU), cpu.halt = 0 → cpu.stage_check 1 0 = 0 →
      (cpu.stage DRF).opcode = Opcode.BZ ∨ (cpu.stage DRF).opcode = Opcode.BNZ →
      ¬ isArith (cpu.stage MEM).opcode ∧ ¬ isArith (cpu.stage WB).opcode →
      ((WithoutDependencies.decode Apex cpu).stage EX = cpu.stage DRF ∧
        (WithoutDependencies.decode Apex cpu).stage_check 1 1 = 0 ∧
        (WithoutDependencies.decode Apex cpu).stage_set 1 0 = 1) ∧
      ((WithDependencies.decode cpu).stage_check 1 1 = 0 ∧
        (cpu.stage_set 2 0 ≠ 0 →
          (WithDependencies.decode cpu).stage EX = cpu.stage DRF ∧
          (WithDependencies.decode cpu).stage_set 1 0 = 1) ∧
        (cpu.stage_set 2 0 = 0 → (WithDependencies.decode cpu).stage = cpu.stage))) :=
  ⟨fun Apex cpu hh h10 hop hz =>
      ⟨fun h11 =>
        ⟨WithoutDependencies.sb_decode_branch_stalls Apex cpu ⟨h10, h11, hh⟩ hop hz,
          WithDependencies.fw_decode_branch_stalls cpu ⟨h10, h11, hh⟩ hop hz⟩,
       fun h11 =>
        ⟨WithoutDependencies.sb_decode_branch_held Apex cpu h11 hop hz,
          WithDependencies.fw_decode_branch_held cpu h11 hop hz⟩⟩,
    fun Apex cpu hh h10 hop hz =>
      ⟨WithoutDependencies.sb_decode_branch_issues Apex cpu h10 hh hop hz,
        WithDependencies.fw_decode_branch_issues cpu h10 hh hop hz⟩⟩

/-- C29 at work: `BZ #8` in DRF is stalled by both variants while WB holds an ADD, and goes to EX
once WB is empty. -/
theorem C29_branch_guard_witness :
    ((WithoutDependencies.decode zeroLatch (branchBehind addLatch)).stage_check 1 1 = 1 ∧
      (WithDependencies.decode (branchBehind addLatch)).stage_check 1 1 = 1) ∧
    ((WithoutDependencies.decode zeroLatch (branchBehind zeroLatch)).stage EX = bzLatch ∧
      (WithDependencies.decode (branchBehind zeroLatch)).stage EX = bzLatch) := by
  have h1 := (C29_branch_guard.1 zeroLatch (branchBehind addLatch) rfl rfl
    (Or.inl (by decide)) (Or.inr (by decide))).1 rfl
  have h2 := C29_branch_guard.2 zeroLatch (branchBehind zeroLatch) rfl rfl
    (Or.inl (by decide)) (by decide)
  exact ⟨⟨h1.1.1, h1.2.1⟩, h2.1.1, (h2.2.2.1 (by decide)).1⟩

/-! ## The two execute calls of a MUL -/

namespace WithoutDependencies

end WithoutDependencies

namespace WithoutDependencies

end WithoutDependencies

namespace WithDependencies

end WithDependencies

namespace WithDependencies

end WithDependencies

namespace WithDependencies

end WithDependencies

theorem passToMEM_free (Apex : CPU_Stage) (cpu : APEX_CPU) (h : cpu.stage_check 2 0 = 0) :
    passToMEM Apex cpu = ((cpu.setStage MEM (cpu.stage EX)).setSet 2 0 1).setStage EX Apex := by
  rw [passToMEM, if_pos h]

namespace WithoutDependencies

end WithoutDependencies

namespace WithDependencies

/-- The closing HALT test of `execute` writes the MEM latch only. -/
theorem fw_execute_outside_MEM (Apex : CPU_Stage) (cpu : APEX_CPU) :
    (execute Apex cpu).pc = (executeArms Apex cpu).pc ∧
    (execute Apex cpu).halt = (executeArms Apex cpu).halt ∧
    (execute Apex cpu).stage_check = (executeArms Apex cpu).stage_check ∧
    (execute Apex cpu).stage_set = (executeArms Apex cpu).stage_set ∧
    (execute Apex cpu).ex_forward = (executeArms Apex cpu).ex_forward ∧
    (execute Apex cpu).ex_data = (executeArms Apex cpu).ex_data ∧
    (∀ j, j ≠ MEM → (execute Apex cpu).stage j = (executeArms Apex cpu).stage j) := by
  unfold execute ifOp
  split
  · refine ⟨rfl, rfl, rfl, rfl, rfl, rfl, fun j hj => ?_⟩
    simp only [haltToMEM, APEX_CPU.setStage, if_neg hj]
  · exact ⟨rfl, rfl, rfl, rfl, rfl, rfl, fun _ _ => rfl⟩

end WithDependencies

/-! ## JUMP in execute (C32) -/

namespace WithoutDependencies

/-- JUMP in `execute` without forwarding: the new `pc`; the F and DRF latches are not touched. -/
theorem sb_execute_JUMP (Apex : CPU_Stage) (cpu : APEX_CPU)
    (hg : cpu.stage_check 2 0 = 0 ∧ cpu.stage_check 2 1 = 0)
    (hop : (cpu.stage EX).opcode = Opcode.JUMP) :
    (execute Apex cpu).pc = add32 (cpu.stage EX).rs1_value (cpu.stage EX).imm ∧
    (execute Apex cpu).stage F = cpu.stage F ∧
    (execute Apex cpu).stage DRF = cpu.stage DRF ∧
    (execute Apex cpu).halt = cpu.halt := by
  have hb : executeBlock cpu = jump cpu := by simp only [executeBlock, hop]
  rw [execute, if_pos hg, sb_executeFirst_eq, hb, passToMEM_free _ _ (by
    simp only [jump, resetCompleted, jumpTarget, hg.1])]
  simp [jump, resetCompleted, jumpTarget, APEX_CPU.setStage, APEX_CPU.setSet]

end WithoutDependencies

namespace WithDependencies

/-- JUMP in `execute` with forwarding: the new `pc`, F and DRF squashed, `halt = 0`. -/
theorem fw_execute_JUMP (Apex : CPU_Stage) (cpu : APEX_CPU)
    (hg : cpu.stage_check 2 0 = 0 ∧ cpu.stage_check 2 1 = 0)
    (hop : (cpu.stage EX).opcode = Opcode.JUMP) :
    (execute Apex cpu).pc = add32 (cpu.stage EX).rs1_value (cpu.stage EX).imm ∧
    ((execute Apex cpu).stage F).opcode = Opcode.NOP ∧
    ((execute Apex cpu).stage DRF).opcode = Opcode.NOP ∧
    (execute Apex cpu).halt = 0 := by
  have hb : executeBlock cpu = jump cpu := by simp only [executeBlock, hop]
  obtain ⟨e1, e2, -, -, -, -, e3⟩ := fw_execute_outside_MEM Apex cpu
  rw [e1, e2, e3 F (by decide), e3 DRF (by decide), executeArms, if_pos hg,
    fw_executeFirst_eq, hb, passToMEM_free _ _ (by
      simp only [jump, clearHalt, squashFetched, jumpTarget, APEX_CPU.setNOP, APEX_CPU.setStage,
        hg.1])]
  simp [jump, clearHalt, squashFetched, jumpTarget, APEX_CPU.setNOP, APEX_CPU.setStage,
    APEX_CPU.setSet]

end WithDependencies

/-- C32 fails on the code of the pipeline without forwarding. In both variants `execute` on a
JUMP sets `pc` to the 32-bit sum of `rs1_value` and the literal. With forwarding it also sets the
F and DRF opcodes to NOP and `halt` to 0. Without forwarding the JUMP block has no such
statements: the F and DRF latches and `halt` are left as they are, and the instruction behind the
JUMP goes on. In the run of `JUMP R0,#4012; MOVC R1,#1; MOVC R2,#2; HALT` without forwarding the
third pass executes the JUMP with `MOVC R1,#1` in DRF, the same pass sends that MOVC to EX, and
the run ends with `regs[1] = 1`; with forwarding the run ends with `regs[1] = 0`. -/
theorem C32_JUMP_keeps_DRF_without_forwarding :
    (∀ (Apex : CPU_Stage) (cpu : APEX_CPU),
      cpu.stage_check 2 0 = 0 ∧ cpu.stage_check 2 1 = 0 →
      (cpu.stage EX).opcode = Opcode.JUMP →
      ((WithDependencies.execute Apex cpu).pc =
          add32 (cpu.stage EX).rs1_value (cpu.stage EX).imm ∧
        ((WithDependencies.execute Apex cpu).stage F).opcode = Opcode.NOP ∧
        ((WithDependencies.execute Apex cpu).stage DRF).opcode = Opcode.NOP ∧
        (WithDependencies.execute Apex cpu).halt = 0) ∧
      ((WithoutDependencies.execute Apex cpu).pc =
          add32 (cpu.stage EX).rs1_value (cpu.stage EX).imm ∧
        (WithoutDependencies.execute Apex cpu).stage F = cpu.stage F ∧
        (WithoutDependencies.execute Apex cpu).stage DRF = cpu.stage DRF ∧
        (WithoutDependencies.execute Apex cpu).halt = cpu.halt)) ∧
    (((WithoutDependencies.passes zeroJunk 2
        (WithoutDependencies.boot jumpOver 40 "silent")).stage EX).opcode = Opcode.JUMP ∧
      ((WithoutDependencies.passes zeroJunk 2
        (WithoutDependencies.boot jumpOver 40 "silent")).stage DRF).opcode = Opcode.MOVC ∧
      ((WithoutDependencies.passes zeroJunk 2
        (WithoutDependencies.boot jumpOver 40 "silent")).stage DRF).pc = 4004 ∧
      ((WithoutDependencies.beforeDecode (zeroJunk 2) (WithoutDependencies.passes zeroJunk 2
        (WithoutDependencies.boot jumpOver 40 "silent"))).stage MEM).opcode = Opcode.JUMP ∧
      (WithoutDependencies.beforeDecode (zeroJunk 2) (WithoutDependencies.passes zeroJunk 2
        (WithoutDependencies.boot jumpOver 40 "silent"))).pc = 4012 ∧
      ((WithoutDependencies.beforeDecode (zeroJunk 2) (WithoutDependencies.passes zeroJunk 2
        (WithoutDependencies.boot jumpOver 40 "silent"))).stage DRF).opcode = Opcode.MOVC ∧
      ((WithoutDependencies.passes zeroJunk 3
        (WithoutDependencies.boot jumpOver 40 "silent")).stage EX).opcode = Opcode.MOVC ∧
      ((WithoutDependencies.passes zeroJunk 3
        (WithoutDependencies.boot jumpOver 40 "silent")).stage EX).pc = 4004) ∧
    EndsWith (WithoutDependencies.APEX_cpu_run zeroJunk 41
        (WithoutDependencies.boot jumpOver 40 "silent"))
      (fun s => s.pc = 4016 ∧ s.regs 1 = 1 ∧ s.regs 2 = 0) ∧
    EndsWith (WithDependencies.APEX_cpu_run zeroJunk 41
        (WithDependencies.boot jumpOver 40 "silent"))
      (fun s => s.halt = 4 ∧ s.pc = 4016 ∧ s.regs 1 = 0 ∧ s.regs 2 = 0) := by
  refine ⟨fun Apex cpu hg hop => ⟨?_, ?_⟩, by decide!, by decide!, by decide!⟩
  · exact WithDependencies.fw_execute_JUMP Apex cpu hg hop
  · exact WithoutDependencies.sb_execute_JUMP Apex cpu hg hop

/-! ## The results of execute (C33, C34) -/

/-- The MEM latch after the hand-over at the end of `execute`. -/
theorem passed_stage_MEM (Apex s : CPU_Stage) (c : APEX_CPU) :
    (((c.setStage MEM s).setSet 2 0 1).setStage EX Apex).stage MEM = s := by
  simp [APEX_CPU.setStage, APEX_CPU.setSet]

namespace WithoutDependencies

/-- The first branch of `execute` when the block of the opcode sets no EX stall: the block runs
and the latch is handed to MEM. -/
theorem sb_execute_passes (Apex : CPU_Stage) (cpu : APEX_CPU)
    (hg : cpu.stage_check 2 0 = 0 ∧ cpu.stage_check 2 1 = 0)
    (h20 : (executeBlock cpu).stage_check 2 0 = 0) :
    execute Apex cpu =
      (((executeBlock cpu).setStage MEM ((executeBlock cpu).stage EX)).setSet 2 0 1).setStage
        EX Apex := by
  rw [execute, if_pos hg, sb_executeFirst_eq, passToMEM_free _ _ h20]

/-- The latch that an ADD, SUB, AND, OR or XOR hands to MEM. -/
theorem sb_execute_alu (Apex : CPU_Stage) (cpu : APEX_CPU) (f : Int → Int → Int)
    (hg : cpu.stage_check 2 0 = 0 ∧ cpu.stage_check 2 1 = 0)
    (hb : executeBlock cpu = alu f cpu) :
    (execute Apex cpu).stage MEM =
      { cpu.stage EX with buffer := f (cpu.stage EX).rs1_value (cpu.stage EX).rs2_value } := by
  have h20 : (executeBlock cpu).stage_check 2 0 = 0 := by
    rw [hb]; simp only [alu, markForward, APEX_CPU.setBuffer, APEX_CPU.setStage, hg.1]
  rw [sb_execute_passes Apex cpu hg h20, passed_stage_MEM, hb]
  simp [alu, markForward, APEX_CPU.setBuffer, APEX_CPU.setStage]

/-- The latch that a MOVC hands to MEM. -/
theorem sb_execute_movc (Apex : CPU_Stage) (cpu : APEX_CPU)
    (hg : cpu.stage_check 2 0 = 0 ∧ cpu.stage_check 2 1 = 0)
    (hop : (cpu.stage EX).opcode = Opcode.MOVC) :
    (execute Apex cpu).stage MEM = { cpu.stage EX with buffer := add32 0 (cpu.stage EX).imm } := by
  have hb : executeBlock cpu = movc cpu := by simp only [executeBlock, hop]
  have h20 : (executeBlock cpu).stage_check 2 0 = 0 := by
    rw [hb]; simp only [movc, APEX_CPU.setBuffer, APEX_CPU.setStage, hg.1]
  rw [sb_execute_passes Apex cpu hg h20, passed_stage_MEM, hb]
  simp [movc, APEX_CPU.setBuffer, APEX_CPU.setStage]

/-- The latch that a LOAD hands to MEM. -/
theorem sb_execute_load (Apex : CPU_Stage) (cpu : APEX_CPU)
    (hg : cpu.stage_check 2 0 = 0 ∧ cpu.stage_check 2 1 = 0)
    (hop : (cpu.stage EX).opcode = Opcode.LOAD) :
    (execute Apex cpu).stage MEM =
      { cpu.stage EX with mem_address := add32 (cpu.stage EX).rs1_value (cpu.stage EX).imm } := by
  have hb : executeBlock cpu = loadAddress cpu := by simp only [executeBlock, hop]
  have h20 : (executeBlock cpu).stage_check 2 0 = 0 := by
    rw [hb]; simp only [loadAddress, APEX_CPU.setMemAddress, APEX_CPU.setStage, hg.1]
  rw [sb_execute_passes Apex cpu hg h20, passed_stage_MEM, hb]
  simp [loadAddress, APEX_CPU.setMemAddress, APEX_CPU.setStage]

/-- The latch that an LDR hands to MEM. -/
theorem sb_execute_ldr (Apex : CPU_Stage) (cpu : APEX_CPU)
    (hg : cpu.stage_check 2 0 = 0 ∧ cpu.stage_check 2 1 = 0)
    (hop : (cpu.stage EX).opcode = Opcode.LDR) :
    (execute Apex cpu).stage MEM =
      { cpu.stage EX with
        mem_address := add32 (cpu.stage EX).rs1_value (cpu.stage EX).rs2_value } := by
  have hb : executeBlock cpu = ldrAddress cpu := by simp only [executeBlock, hop]
  have h20 : (executeBlock cpu).stage_check 2 0 = 0 := by
    rw [hb]; simp only [ldrAddress, APEX_CPU.setMemAddress, APEX_CPU.setStage, hg.1]
  rw [sb_execute_passes Apex cpu hg h20, passed_stage_MEM, hb]
  simp [ldrAddress, APEX_CPU.setMemAddress, APEX_CPU.setStage]

end WithoutDependencies

namespace WithDependencies

/-- The first branch of `execute` when the block of the opcode sets no EX stall: the block runs
and the latch is handed to MEM. -/
theorem fw_arms_passes (Apex : CPU_Stage) (cpu : APEX_CPU)
    (hg : cpu.stage_check 2 0 = 0 ∧ cpu.stage_check 2 1 = 0)
    (h20 : (executeBlock cpu).stage_check 2 0 = 0) :
    executeArms Apex cpu =
      (((executeBlock cpu).setStage MEM ((executeBlock cpu).stage EX)).setSet 2 0 1).setStage
        EX Apex := by
  rw [executeArms, if_pos hg, fw_executeFirst_eq, passToMEM_free _ _ h20]

/-- The same for `execute`, when the uninitialised latch does not read as a HALT. -/
theorem fw_execute_passes (Apex : CPU_Stage) (cpu : APEX_CPU)
    (hg : cpu.stage_check 2 0 = 0 ∧ cpu.stage_check 2 1 = 0)
    (h20 : (executeBlock cpu).stage_check 2 0 = 0) (hA : Apex.opcode ≠ Opcode.HALT) :
    execute Apex cpu =
      (((executeBlock cpu).setStage MEM ((executeBlock cpu).stage EX)).setSet 2 0 1).setStage
        EX Apex := by
  have hE : ((executeArms Apex cpu).stage EX).opcode ∉ [Opcode.HALT] := by
    rw [fw_arms_passes Apex cpu hg h20]
    simp [APEX_CPU.setStage, hA]
  rw [execute, ifOp, if_neg hE, fw_arms_passes Apex cpu hg h20]

/-- The EX bypass after the first branch of `execute`: the closing HALT test and the hand-over
leave it as the block of the opcode set it. -/
theorem fw_execute_bypass (Apex : CPU_Stage) (cpu : APEX_CPU)
    (hg : cpu.stage_check 2 0 = 0 ∧ cpu.stage_check 2 1 = 0)
    (h20 : (executeBlock cpu).stage_check 2 0 = 0) :
    (execute Apex cpu).ex_forward = (executeBlock cpu).ex_forward ∧
    (execute Apex cpu).ex_data = (executeBlock cpu).ex_data := by
  obtain ⟨-, -, -, -, e1, e2, -⟩ := fw_execute_outside_MEM Apex cpu
  rw [e1, e2, fw_arms_passes Apex cpu hg h20]
  exact ⟨rfl, rfl⟩

/-- What the ADD, SUB, AND, OR and XOR block leaves. -/
theorem fw_alu_eq (f : Int → Int → Int) (cpu : APEX_CPU) :
    (alu f cpu).stage EX =
      { cpu.stage EX with buffer := f (cpu.stage EX).rs1_value (cpu.stage EX).rs2_value } ∧
    (alu f cpu).ex_forward = upd cpu.ex_forward (cpu.stage EX).rd 1 ∧
    (alu f cpu).ex_data = upd cpu.ex_data (cpu.stage EX).rd
      (f (cpu.stage EX).rs1_value (cpu.stage EX).rs2_value) ∧
    (alu f cpu).stage_check = cpu.stage_check := by
  simp [alu, publishEX, recordData, markForward, APEX_CPU.setBuffer, APEX_CPU.setStage]

/-- What the MOVC block leaves. -/
theorem fw_movc_eq (cpu : APEX_CPU) :
    (movc cpu).stage EX = { cpu.stage EX with buffer := add32 0 (cpu.stage EX).imm } ∧
    (movc cpu).ex_forward = upd cpu.ex_forward (cpu.stage EX).rd 1 ∧
    (movc cpu).ex_data = upd cpu.ex_data (cpu.stage EX).rd (add32 0 (cpu.stage EX).imm) ∧
    (movc cpu).stage_check = cpu.stage_check := by
  simp [movc, publishEX, recordData, APEX_CPU.setBuffer, APEX_CPU.setStage]

/-- What the LOAD block leaves: the EX bypass entry is the one at index `mem_address`. -/
theorem fw_loadEX_eq (cpu : APEX_CPU) :
    (loadEX cpu).stage EX =
      { cpu.stage EX with mem_address := add32 (cpu.stage EX).rs1_value (cpu.stage EX).imm } ∧
    (loadEX cpu).ex_forward =
      upd cpu.ex_forward (add32 (cpu.stage EX).rs1_value (cpu.stage EX).imm) 1 ∧
    (loadEX cpu).ex_data =
      upd cpu.ex_data (add32 (cpu.stage EX).rs1_value (cpu.stage EX).imm)
        (cpu.stage EX).buffer ∧
    (loadEX cpu).stage_check = cpu.stage_check := by
  simp [loadEX, loadAddress, publishEX, APEX_CPU.setMemAddress, APEX_CPU.setStage]

/-- What the LDR block leaves: the EX bypass entry is the one at index `mem_address`. -/
theorem fw_ldrEX_eq (cpu : APEX_CPU) :
    (ldrEX cpu).stage EX =
      { cpu.stage EX with
        mem_address := add32 (cpu.stage EX).rs1_value (cpu.stage EX).rs2_value } ∧
    (ldrEX cpu).ex_forward =
      upd cpu.ex_forward (add32 (cpu.stage EX).rs1_value (cpu.stage EX).rs2_value) 1 ∧
    (ldrEX cpu).ex_data =
      upd cpu.ex_data (add32 (cpu.stage EX).rs1_value (cpu.stage EX).rs2_value)
        (cpu.stage EX).buffer ∧
    (ldrEX cpu).stage_check = cpu.stage_check := by
  simp [ldrEX, ldrAddress, publishEX, APEX_CPU.setMemAddress, APEX_CPU.setStage]

/-- `execute` on a latch whose block is `b`, when `b` keeps the stall bits: the MEM latch (when
the uninitialised latch does not read as a HALT) and the EX bypass are those that `b` leaves. -/
theorem fw_execute_block (Apex : CPU_Stage) (cpu : APEX_CPU) (b : APEX_CPU → APEX_CPU)
    (hg : cpu.stage_check 2 0 = 0 ∧ cpu.stage_check 2 1 = 0)
    (hb : executeBlock cpu = b cpu) (hc : (b cpu).stage_check = cpu.stage_check) :
    (Apex.opcode ≠ Opcode.HALT → (execute Apex cpu).stage MEM = (b cpu).stage EX) ∧
    (execute Apex cpu).ex_forward = (b cpu).ex_forward ∧
    (execute Apex cpu).ex_data = (b cpu).ex_data := by
  have h20 : (executeBlock cpu).stage_check 2 0 = 0 := by rw [hb, hc]; exact hg.1
  obtain ⟨e1, e2⟩ := fw_execute_bypass Apex cpu hg h20
  refine ⟨fun hA => ?_, by rw [e1, hb], by rw [e2, hb]⟩
  rw [fw_execute_passes Apex cpu hg h20 hA, passed_stage_MEM, hb]

end WithDependencies

/-- C33: the results of `execute`. In both variants, with no EX stall bit set, the latch that
`execute` hands to MEM is the EX latch with `buffer` set to the 32-bit sum, difference, bitwise
AND, OR or XOR of `rs1_value` and `rs2_value` for ADD, SUB, AND, OR, XOR, to the literal
(`0 + imm`) for MOVC, and with `mem_address` set to `rs1_value + imm` for LOAD and
`rs1_value + rs2_value` for LDR. With forwarding the uninitialised latch that replaces the EX
latch must not read as a HALT (the closing test of `execute` would copy it to MEM), and for MOVC,
ADD, SUB, AND, OR and XOR the call sets `ex_forward[rd] = 1` and `ex_data[rd] = buffer`, and no
other entry of the two tables. The 32-bit operations agree with the integer ones when the result
is in range. -/
theorem C33_execute_results :
    (∀ (Apex : CPU_Stage) (cpu : APEX_CPU),
      cpu.stage_check 2 0 = 0 ∧ cpu.stage_check 2 1 = 0 →
      (∀ p ∈ [(Opcode.ADD, add32), (Opcode.SUB, sub32), (Opcode.AND, and32),
          (Opcode.OR, or32), (Opcode.XOR, xor32)],
        (cpu.stage EX).opcode = p.1 →
        (WithoutDependencies.execute Apex cpu).stage MEM =
          { cpu.stage EX with buffer := p.2 (cpu.stage EX).rs1_value (cpu.stage EX).rs2_value } ∧
        (Apex.opcode ≠ Opcode.HALT →
          (WithDependencies.execute Apex cpu).stage MEM =
            { cpu.stage EX with
              buffer := p.2 (cpu.stage EX).rs1_value (cpu.stage EX).rs2_value }) ∧
        (WithDependencies.execute Apex cpu).ex_forward =
          upd cpu.ex_forward (cpu.stage EX).rd 1 ∧
        (WithDependencies.execute Apex cpu).ex_data =
          upd cpu.ex_data (cpu.stage EX).rd
            (p.2 (cpu.stage EX).rs1_value (cpu.stage EX).rs2_value)) ∧
      ((cpu.stage EX).opcode = Opcode.MOVC →
        (WithoutDependencies.execute Apex cpu).stage MEM =
          { cpu.stage EX with buffer := add32 0 (cpu.stage EX).imm } ∧
        (Apex.opcode ≠ Opcode.HALT →
          (WithDependencies.execute Apex cpu).stage MEM =
            { cpu.stage EX with buffer := add32 0 (cpu.stage EX).imm }) ∧
        (WithDependencies.execute Apex cpu).ex_forward =
          upd cpu.ex_forward (cpu.stage EX).rd 1 ∧
        (WithDependencies.execute Apex cpu).ex_data =
          upd cpu.ex_data (cpu.stage EX).rd (add32 0 (cpu.stage EX).imm)) ∧
      ((cpu.stage EX).opcode = Opcode.LOAD →
        (WithoutDependencies.execute Apex cpu).stage MEM =
          { cpu.stage EX with
            mem_address := add32 (cpu.stage EX).rs1_value (cpu.stage EX).imm } ∧
        (Apex.opcode ≠ Opcode.HALT →
          (WithDependencies.execute Apex cpu).stage MEM =
            { cpu.stage EX with
              mem_address := add32 (cpu.stage EX).rs1_value (cpu.stage EX).imm })) ∧
      ((cpu.stage EX).opcode = Opcode.LDR →
        (WithoutDependencies.execute Apex cpu).stage MEM =
          { cpu.stage EX with
            mem_address := add32 (cpu.stage EX).rs1_value (cpu.stage EX).rs2_value } ∧
        (Apex.opcode ≠ Opcode.HALT →
          (WithDependencies.execute Apex cpu).stage MEM =
            { cpu.stage EX with
              mem_address := add32 (cpu.stage EX).rs1_value (cpu.stage EX).rs2_value }))) ∧
    (∀ a b : Int, -2147483648 ≤ a + b → a + b < 2147483648 → add32 a b = a + b) ∧
    (∀ a b : Int, -2147483648 ≤ a - b → a - b < 2147483648 → sub32 a b = a - b) ∧
    (∀ i : Int, -2147483648 ≤ i → i < 2147483648 → add32 0 i = i) ∧
    (and32 (-4) 6 = 4 ∧ or32 (-4) 1 = -3 ∧ xor32 (-1) 5 = -6 ∧ and32 12 10 = 8 ∧
      or32 12 10 = 14 ∧ xor32 12 10 = 6) := by
  refine ⟨fun Apex cpu hg => ⟨fun p hp hop => ?_, fun hop => ?_, fun hop => ?_, fun hop => ?_⟩,
    fun a b h0 h1 => wrap32_of_range _ h0 h1, fun a b h0 h1 => wrap32_of_range _ h0 h1,
    fun i h0 h1 => ?_, by decide⟩
  · have hb : WithDependencies.executeBlock cpu = WithDependencies.alu p.2 cpu ∧
        WithoutDependencies.executeBlock cpu = WithoutDependencies.alu p.2 cpu := by
      simp only [List.mem_cons, List.mem_singleton, List.not_mem_nil, or_false] at hp
      rcases hp with rfl | rfl | rfl | rfl | rfl <;>
        simp only [WithDependencies.executeBlock, WithoutDependencies.executeBlock, hop,
          and_self]
    obtain ⟨a1, a2, a3, a4⟩ := WithDependencies.fw_alu_eq p.2 cpu
    obtain ⟨b1, b2, b3⟩ := WithDependencies.fw_execute_block Apex cpu _ hg hb.1 a4
    refine ⟨WithoutDependencies.sb_execute_alu Apex cpu p.2 hg hb.2, fun hA => ?_, ?_, ?_⟩
    · rw [b1 hA, a1]
    · rw [b2, a2]
    · rw [b3, a3]
  · have hb : WithDependencies.executeBlock cpu = WithDependencies.movc cpu := by
      simp only [WithDependencies.executeBlock, hop]
    obtain ⟨a1, a2, a3, a4⟩ := WithDependencies.fw_movc_eq cpu
    obtain ⟨b1, b2, b3⟩ := WithDependencies.fw_execute_block Apex cpu _ hg hb a4
    refine ⟨WithoutDependencies.sb_execute_movc Apex cpu hg hop, fun hA => ?_, ?_, ?_⟩
    · rw [b1 hA, a1]
    · rw [b2, a2]
    · rw [b3, a3]
  · have hb : WithDependencies.executeBlock cpu = WithDependencies.loadEX cpu := by
      simp only [WithDependencies.executeBlock, hop]
    obtain ⟨a1, -, -, a4⟩ := WithDependencies.fw_loadEX_eq cpu
    obtain ⟨b1, -, -⟩ := WithDependencies.fw_execute_block Apex cpu _ hg hb a4
    exact ⟨WithoutDependencies.sb_execute_load Apex cpu hg hop, fun hA => by rw [b1 hA, a1]⟩
  · have hb : WithDependencies.executeBlock cpu = WithDependencies.ldrEX cpu := by
      simp only [WithDependencies.executeBlock, hop]
    obtain ⟨a1, -, -, a4⟩ := WithDependencies.fw_ldrEX_eq cpu
    obtain ⟨b1, -, -⟩ := WithDependencies.fw_execute_block Apex cpu _ hg hb a4
    exact ⟨WithoutDependencies.sb_execute_ldr Apex cpu hg hop, fun hA => by rw [b1 hA, a1]⟩
  · have h := wrap32_of_range (0 + i) (by omega) (by omega)
    rw [add32, h]; omega

/-- C33 at work: `ADD R3,R1,R2` with the operands 6 and 7 reaches MEM with `buffer = 13`, and
with forwarding `ex_forward[3] = 1` and `ex_data[3] = 13`. -/
theorem C33_execute_results_witness :
    ((WithoutDependencies.execute zeroLatch addInEX).stage MEM).buffer = 13 ∧
    ((WithDependencies.execute zeroLatch addInEX).stage MEM).buffer = 13 ∧
    (WithDependencies.execute zeroLatch addInEX).ex_forward 3 = 1 ∧
    (WithDependencies.execute zeroLatch addInEX).ex_data 3 = 13 := by
  have h := (C33_execute_results.1 zeroLatch addInEX (by decide)).1 (Opcode.ADD, add32)
    (List.mem_cons_self _ _) rfl
  rw [h.1, h.2.1 (by decide), h.2.2.1, h.2.2.2]
  decide!

/-- C34 fails on the code. `execute` with forwarding, on a LOAD or LDR with no EX stall bit set,
writes the EX bypass at index `mem_address` and nowhere else: `ex_forward[mem_address] = 1` and
`ex_data[mem_address] = buffer`, where `mem_address` is `rs1_value + imm` (LOAD) or
`rs1_value + rs2_value` (LDR). The entry at `rd` is touched only if `rd` equals that address. On
`LOAD R3,R1,#0` with 1 in `R1`, `ex_forward[1]` goes from 0 to 1 and `ex_forward[3]` stays 0. -/
theorem C34_load_publishes_at_address :
    (∀ (Apex : CPU_Stage) (cpu : APEX_CPU),
      cpu.stage_check 2 0 = 0 ∧ cpu.stage_check 2 1 = 0 →
      ((cpu.stage EX).opcode = Opcode.LOAD →
        (WithDependencies.execute Apex cpu).ex_forward =
          upd cpu.ex_forward (add32 (cpu.stage EX).rs1_value (cpu.stage EX).imm) 1 ∧
        (WithDependencies.execute Apex cpu).ex_data =
          upd cpu.ex_data (add32 (cpu.stage EX).rs1_value (cpu.stage EX).imm)
            (cpu.stage EX).buffer) ∧
      ((cpu.stage EX).opcode = Opcode.LDR →
        (WithDependencies.execute Apex cpu).ex_forward =
          upd cpu.ex_forward (add32 (cpu.stage EX).rs1_value (cpu.stage EX).rs2_value) 1 ∧
        (WithDependencies.execute Apex cpu).ex_data =
          upd cpu.ex_data (add32 (cpu.stage EX).rs1_value (cpu.stage EX).rs2_value)
            (cpu.stage EX).buffer)) ∧
    (((loadInEX.stage EX).opcode = Opcode.LOAD ∧ (loadInEX.stage EX).rd = 3 ∧
        loadInEX.ex_forward 1 = 0 ∧ loadInEX.ex_forward 3 = 0) ∧
      ((WithDependencies.execute zeroLatch loadInEX).stage MEM).mem_address = 1 ∧
      (WithDependencies.execute zeroLatch loadInEX).ex_forward 1 = 1 ∧
      (WithDependencies.execute zeroLatch loadInEX).ex_forward 3 = 0) := by
  refine ⟨fun Apex cpu hg => ⟨fun hop => ?_, fun hop => ?_⟩, by decide!⟩
  · have hb : WithDependencies.executeBlock cpu = WithDependencies.loadEX cpu := by
      simp only [WithDependencies.executeBlock, hop]
    obtain ⟨-, a2, a3, a4⟩ := WithDependencies.fw_loadEX_eq cpu
    obtain ⟨-, b2, b3⟩ := WithDependencies.fw_execute_block Apex cpu _ hg hb a4
    exact ⟨by rw [b2, a2], by rw [b3, a3]⟩
  · have hb : WithDependencies.executeBlock cpu = WithDependencies.ldrEX cpu := by
      simp only [WithDependencies.executeBlock, hop]
    obtain ⟨-, a2, a3, a4⟩ := WithDependencies.fw_ldrEX_eq cpu
    obtain ⟨-, b2, b3⟩ := WithDependencies.fw_execute_block Apex cpu _ hg hb a4
    exact ⟨by rw [b2, a2], by rw [b3, a3]⟩

/-! ## The bypass refresh of memory (C35) -/

namespace WithDependencies

/-- The bypass tables after the loop at the top of `memory`. -/
theorem fw_refreshBypass_tables (cpu : APEX_CPU) :
    (∀ r : Int, 0 ≤ r ∧ r < 16 →
      (refreshBypass 16 cpu).mem_forward r = cpu.ex_forward r ∧
      (refreshBypass 16 cpu).mem_data r = cpu.ex_data r ∧
      (refreshBypass 16 cpu).ex_forward r = 0) ∧
    (∀ r : Int, ¬ (0 ≤ r ∧ r < 16) →
      (refreshBypass 16 cpu).mem_forward r = cpu.mem_forward r ∧
      (refreshBypass 16 cpu).mem_data r = cpu.mem_data r ∧
      (refreshBypass 16 cpu).ex_forward r = cpu.ex_forward r) ∧
    (refreshBypass 16 cpu).ex_data = cpu.ex_data := by
  rw [fw_refreshBypass_eq]
  refine ⟨fun r hr => ?_, fun r hr => ?_, rfl⟩
  · have h : (0 : Int) ≤ r ∧ r < ((16 : Nat) : Int) := by
      constructor <;> [exact hr.1; exact_mod_cast hr.2]
    simp only [h, and_self, if_true]
  · have h : ¬ ((0 : Int) ≤ r ∧ r < ((16 : Nat) : Int)) := by
      intro h; exact hr ⟨h.1, by exact_mod_cast h.2⟩
    simp only [h, if_false, and_self]

/-- The bypass tables after the guarded part of `memory`: only a LOAD or LDR that is processed
writes them, at index `rd` of the MEM bypass. -/
theorem fw_memoryGuarded_tables (Apex : CPU_Stage) (c : APEX_CPU) :
    (memoryGuarded Apex c).ex_forward = c.ex_forward ∧
    (memoryGuarded Apex c).ex_data = c.ex_data ∧
    (∀ r : Int,
      ¬ ((c.stage_check 3 0 = 0 ∧ c.stage_check 3 1 = 0) ∧
          (c.stage MEM).opcode ∈ [Opcode.LDR, Opcode.LOAD] ∧ r = (c.stage MEM).rd) →
      (memoryGuarded Apex c).mem_forward r = c.mem_forward r ∧
      (memoryGuarded Apex c).mem_data r = c.mem_data r) ∧
    (c.stage_check 3 0 = 0 ∧ c.stage_check 3 1 = 0 →
      (c.stage MEM).opcode ∈ [Opcode.LDR, Opcode.LOAD] →
      (memoryGuarded Apex c).mem_forward (c.stage MEM).rd = 1 ∧
      (memoryGuarded Apex c).mem_data (c.stage MEM).rd =
        c.data_memory (Int.tmod (c.stage MEM).mem_address 4000)) := by
  by_cases hg : c.stage_check 3 0 = 0 ∧ c.stage_check 3 1 = 0
  · rw [fw_memoryGuarded_eq Apex c hg]
    refine ⟨rfl, rfl, fun r hr => ?_, fun _ hop => ?_⟩
    · by_cases hop : (c.stage MEM).opcode ∈ [Opcode.LDR, Opcode.LOAD]
      · have hne : r ≠ (c.stage MEM).rd := fun h => hr ⟨hg, hop, h⟩
        simp only [hop, if_true, upd, hne, if_false, and_self]
      · simp only [hop, if_false, and_self]
    · simp only [hop, if_true, upd, and_self]
  · refine ⟨?_, ?_, fun r _ => ?_, fun h => absurd h hg⟩ <;>
      simp only [memoryGuarded, if_neg hg, and_self]

end WithDependencies

/-- C35 as stated fails. The refresh loop of `memory` runs over the indices 0 to 15. With an EX
bypass entry for `R20` (`ex_forward[20] = 1`, `ex_data[20] = 7`) and an empty MEM bypass, after
the loop and after the call `mem_forward[20]` is still 0, `mem_data[20]` is still 0 and
`ex_forward[20]` is still 1, while the entry of `R5` has moved to the MEM bypass. -/
theorem C35_refresh_stops_at_16 :
    (bypassAt5And20.ex_forward 20 = 1 ∧ bypassAt5And20.ex_data 20 = 7 ∧
      bypassAt5And20.mem_forward 20 = 0 ∧ bypassAt5And20.mem_data 20 = 0) ∧
    ((WithDependencies.refreshBypass 16 bypassAt5And20).mem_forward 20 = 0 ∧
      (WithDependencies.refreshBypass 16 bypassAt5And20).mem_data 20 = 0 ∧
      (WithDependencies.refreshBypass 16 bypassAt5And20).ex_forward 20 = 1) ∧
    ((WithDependencies.memory zeroLatch bypassAt5And20).mem_forward 20 = 0 ∧
      (WithDependencies.memory zeroLatch bypassAt5And20).mem_data 20 = 0 ∧
      (WithDependencies.memory zeroLatch bypassAt5And20).ex_forward 20 = 1) ∧
    ((WithDependencies.memory zeroLatch bypassAt5And20).mem_forward 5 = 1 ∧
      (WithDependencies.memory zeroLatch bypassAt5And20).mem_data 5 = 6 ∧
      (WithDependencies.memory zeroLatch bypassAt5And20).ex_forward 5 = 0) := by
  decide!

/-- C35, amended. `memory` with forwarding is its refresh loop followed by the guarded
processing of the MEM latch. After the loop, for every `r` in 0..15, `mem_forward[r]` and
`mem_data[r]` hold the old `ex_forward[r]` and `ex_data[r]` and `ex_forward[r]` is 0; every entry
with another index, and the whole of `ex_data`, is as before the call. After the call
`ex_forward` and `ex_data` are as the loop left them, and so are `mem_forward[r]` and
`mem_data[r]` for every `r`, except at the `rd` of a LOAD or LDR that the call processes
(`stage_check[3][0]` and `stage_check[3][1]` clear), where `mem_forward[rd] = 1` and
`mem_data[rd]` is the loaded word. -/
theorem C35_bypass_refresh :
    ∀ (Apex : CPU_Stage) (cpu : APEX_CPU),
      WithDependencies.memory Apex cpu =
        WithDependencies.memoryGuarded Apex (WithDependencies.refreshBypass 16 cpu) ∧
      (∀ r : Int, 0 ≤ r ∧ r < 16 →
        (WithDependencies.refreshBypass 16 cpu).mem_forward r = cpu.ex_forward r ∧
        (WithDependencies.refreshBypass 16 cpu).mem_data r = cpu.ex_data r ∧
        (WithDependencies.refreshBypass 16 cpu).ex_forward r = 0) ∧
      (∀ r : Int, ¬ (0 ≤ r ∧ r < 16) →
        (WithDependencies.refreshBypass 16 cpu).mem_forward r = cpu.mem_forward r ∧
        (WithDependencies.refreshBypass 16 cpu).mem_data r = cpu.mem_data r ∧
        (WithDependencies.refreshBypass 16 cpu).ex_forward r = cpu.ex_forward r) ∧
      (WithDependencies.refreshBypass 16 cpu).ex_data = cpu.ex_data ∧
      (WithDependencies.memory Apex cpu).ex_forward =
        (WithDependencies.refreshBypass 16 cpu).ex_forward ∧
      (WithDependencies.memory Apex cpu).ex_data = cpu.ex_data ∧
      (∀ r : Int,
        ¬ ((cpu.stage_check 3 0 = 0 ∧ cpu.stage_check 3 1 = 0) ∧
            (cpu.stage MEM).opcode ∈ [Opcode.LDR, Opcode.LOAD] ∧ r = (cpu.stage MEM).rd) →
        (WithDependencies.memory Apex cpu).mem_forward r =
          (WithDependencies.refreshBypass 16 cpu).mem_forward r ∧
        (WithDependencies.memory Apex cpu).mem_data r =
          (WithDependencies.refreshBypass 16 cpu).mem_data r) ∧
      (cpu.stage_check 3 0 = 0 ∧ cpu.stage_check 3 1 = 0 →
        (cpu.stage MEM).opcode ∈ [Opcode.LDR, Opcode.LOAD] →
        (WithDependencies.memory Apex cpu).mem_forward (cpu.stage MEM).rd = 1 ∧
        (WithDependencies.memory Apex cpu).mem_data (cpu.stage MEM).rd =
          cpu.data_memory (Int.tmod (cpu.stage MEM).mem_address 4000)) := by
  intro Apex cpu
  obtain ⟨t1, t2, t3⟩ := WithDependencies.fw_refreshBypass_tables cpu
  obtain ⟨-, -, -, f4, f5, f6⟩ := WithDependencies.fw_refreshBypass_frame 16 cpu
  obtain ⟨g1, g2, g3, g4⟩ :=
    WithDependencies.fw_memoryGuarded_tables Apex (WithDependencies.refreshBypass 16 cpu)
  rw [f5, f6] at g3 g4
  rw [f4] at g4
  refine ⟨rfl, t1, t2, t3, g1, ?_, g3, g4⟩
  rw [← t3]; exact g2

/-- C35 at work: with `LOAD R3` in MEM, address 0, and 42 in `data_memory[0]`, the call leaves
`mem_forward[3] = 1` and `mem_data[3] = 42`, and the entry of `R5` comes from the EX bypass. -/
theorem C35_bypass_refresh_witness :
    (WithDependencies.memory zeroLatch bypassAt5And20).mem_forward 3 = 1 ∧
    (WithDependencies.memory zeroLatch bypassAt5And20).mem_data 3 = 42 ∧
    (WithDependencies.refreshBypass 16 bypassAt5And20).mem_forward 5 = 1 ∧
    (WithDependencies.refreshBypass 16 bypassAt5And20).mem_data 5 = 6 := by
  have h := C35_bypass_refresh zeroLatch bypassAt5And20
  have h1 := h.2.2.2.2.2.2.2 (by decide) (by decide)
  have h2 := h.2.1 5 (by decide)
  exact ⟨h1.1, h1.2.trans (by decide), h2.1.trans (by decide), h2.2.1.trans (by decide)⟩

/-! ## The registers 16 to 31 with forwarding (C36) -/

namespace WithDependencies

/-- `decode` of an ADD, SUB, MUL or STORE with a source that has no bypass entry and whose
`regs_valid` entry is not 1: the instruction stalls and the EX latch keeps its content. -/
theorem fw_decode_source_not_valid (cpu : APEX_CPU)
    (hg : cpu.stage_check 1 0 = 0 ∧ (decodeUnstall cpu).stage_check 1 1 = 0 ∧ cpu.halt = 0)
    (hop : (cpu.stage DRF).opcode ∈ [Opcode.ADD, Opcode.SUB, Opcode.MUL, Opcode.STORE])
    (hsrc :
      (cpu.ex_forward (cpu.stage DRF).rs1 ≠ 1 ∧ cpu.mem_forward (cpu.stage DRF).rs1 ≠ 1 ∧
        cpu.regs_valid (cpu.stage DRF).rs1 ≠ 1) ∨
      (cpu.ex_forward (cpu.stage DRF).rs2 ≠ 1 ∧ cpu.mem_forward (cpu.stage DRF).rs2 ≠ 1 ∧
        cpu.regs_valid (cpu.stage DRF).rs2 ≠ 1)) :
    (decode cpu).stage_check 1 1 = 1 ∧ (decode cpu).stage_set 1 0 = 0 ∧
    (decode cpu).stage EX = cpu.stage EX := by
  rw [fw_decode_processed cpu hg]
  have hs : (cpu.setCheck 1 1 0).stage = cpu.stage := rfl
  have hb : readBlock (cpu.setCheck 1 1 0) = readStore (cpu.setCheck 1 1 0) ∨
      readBlock (cpu.setCheck 1 1 0) = readArith (cpu.setCheck 1 1 0) := by
    simp only [List.mem_cons, List.mem_singleton, List.not_mem_nil, or_false] at hop
    rcases hop with h | h | h | h <;> simp only [readBlock, hs, h, true_or, or_true]
  have h11 : (cpu.setCheck 1 1 0).stage_check 1 1 = 0 := by simp [APEX_CPU.setCheck, upd2]
  have hn : guardedChoice (cpu.setCheck 1 1 0) ((cpu.setCheck 1 1 0).stage DRF).rs1 = none ∨
      guardedChoice (cpu.setCheck 1 1 0) ((cpu.setCheck 1 1 0).stage DRF).rs2 = none := by
    rcases hsrc with ⟨a, b, c⟩ | ⟨a, b, c⟩
    · left; simp [guardedChoice, APEX_CPU.setCheck, a, b, c]
    · right; simp [guardedChoice, APEX_CPU.setCheck, a, b, c]
  rcases hb with e | e <;> rw [e]
  · exact (fw_guarded_blocks (cpu.setCheck 1 1 0) h11 _ (Or.inl rfl)).2.2.2 hn
  · exact (fw_guarded_blocks (cpu.setCheck 1 1 0) h11 _ (Or.inr rfl)).2.2.2 hn

end WithDependencies

/-- C36 fails on the code. `APEX_cpu_init` fills `regs_valid` with `memset(.., 1, ..)`, which
leaves 16843009 in each of the 32 entries, and `decode` with forwarding tests
`regs_valid[rs] == 1`. The loop at the top of `writeback` sets the entries 0 to 15 to 1 in every
pass; the entries 16 to 31 keep 16843009 until an instruction writes the register. An ADD, SUB,
MUL or STORE with such a source and no bypass entry stalls. The run of `ADD R1,R16,R17; HALT`
from `APEX_cpu_init` holds the ADD in DRF until the cycle budget ends the run, while the run of
`ADD R1,R2,R3; HALT` sends the ADD to EX in the second pass and stops by HALT. -/
theorem C36_high_registers_not_valid :
    (∀ (raw : APEX_CPU) (prog : List APEX_Instruction) (rest : Int → APEX_Instruction) (r : Int),
      0 ≤ r ∧ r < 32 →
      (WithDependencies.APEX_cpu_init raw prog rest).regs_valid r = 16843009) ∧
    (∀ cpu : APEX_CPU,
      cpu.stage_check 1 0 = 0 ∧ (WithDependencies.decodeUnstall cpu).stage_check 1 1 = 0 ∧
        cpu.halt = 0 →
      (cpu.stage DRF).opcode ∈ [Opcode.ADD, Opcode.SUB, Opcode.MUL, Opcode.STORE] →
      (cpu.ex_forward (cpu.stage DRF).rs1 ≠ 1 ∧ cpu.mem_forward (cpu.stage DRF).rs1 ≠ 1 ∧
          cpu.regs_valid (cpu.stage DRF).rs1 ≠ 1) ∨
        (cpu.ex_forward (cpu.stage DRF).rs2 ≠ 1 ∧ cpu.mem_forward (cpu.stage DRF).rs2 ≠ 1 ∧
          cpu.regs_valid (cpu.stage DRF).rs2 ≠ 1) →
      (WithDependencies.decode cpu).stage_check 1 1 = 1 ∧
      (WithDependencies.decode cpu).stage_set 1 0 = 0 ∧
      (WithDependencies.decode cpu).stage EX = cpu.stage EX) ∧
    (((WithDependencies.passes zeroJunk 1
        (WithDependencies.boot highSources 40 "silent")).stage DRF).opcode = Opcode.ADD ∧
      ((WithDependencies.passes zeroJunk 1
        (WithDependencies.boot highSources 40 "silent")).stage DRF).rs1 = 16 ∧
      (WithDependencies.beforeDecode (zeroJunk 1) (WithDependencies.passes zeroJunk 1
        (WithDependencies.boot highSources 40 "silent"))).regs_valid 16 = 16843009 ∧
      (WithDependencies.beforeDecode (zeroJunk 1) (WithDependencies.passes zeroJunk 1
        (WithDependencies.boot highSources 40 "silent"))).regs_valid 2 = 1 ∧
      (WithDependencies.beforeDecode (zeroJunk 1) (WithDependencies.passes zeroJunk 1
        (WithDependencies.boot highSources 40 "silent"))).ex_forward 16 = 0 ∧
      (WithDependencies.beforeDecode (zeroJunk 1) (WithDependencies.passes zeroJunk 1
        (WithDependencies.boot highSources 40 "silent"))).mem_forward 16 = 0 ∧
      (WithDependencies.passes zeroJunk 2
        (WithDependencies.boot highSources 40 "silent")).stage_check 1 1 = 1 ∧
      ((WithDependencies.passes zeroJunk 2
        (WithDependencies.boot highSources 40 "silent")).stage EX).opcode ≠ Opcode.ADD) ∧
    EndsWith (WithDependencies.APEX_cpu_run zeroJunk 41
        (WithDependencies.boot highSources 40 "silent"))
      (fun s => s.clock = 40 ∧ s.halt = 0 ∧ (s.stage DRF).opcode = Opcode.ADD ∧
        s.stage_check 1 1 = 1 ∧ s.regs_valid 16 = 16843009) ∧
    (((WithDependencies.passes zeroJunk 2
        (WithDependencies.boot lowSources 40 "silent")).stage EX).opcode = Opcode.ADD ∧
      EndsWith (WithDependencies.APEX_cpu_run zeroJunk 41
          (WithDependencies.boot lowSources 40 "silent"))
        (fun s => s.clock = 6 ∧ s.halt = 4)) := by
  refine ⟨fun raw prog rest r hr => ?_, fun cpu hg hop hsrc => ?_, by decide!, by decide!,
    by decide!⟩
  · simp [WithDependencies.APEX_cpu_init, initCommon, onesWord, hr]
  · exact WithDependencies.fw_decode_source_not_valid cpu hg hop hsrc

/-! ## The stall bits of a branch that stalls in EX -/

namespace WithoutDependencies

end WithoutDependencies

namespace WithDependencies

end WithDependencies

/-! ## The reach of decode with forwarding -/

namespace WithDependencies

end WithDependencies

/-! ## One execute call with forwarding -/

namespace WithDependencies

end WithDependencies

/-! ## The EX stall in the run with forwarding -/

namespace WithDependencies

end WithDependencies

/-! ## Branches in the run: no stall in EX -/

theorem takenOn_branch {z : Int} {op : Opcode} (h : takenOn z op) :
    op = Opcode.BZ ∨ op = Opcode.BNZ := by
  rcases h with ⟨h, -⟩ | ⟨h, -⟩
  · exact Or.inl h
  · exact Or.inr h

namespace WithoutDependencies

end WithoutDependencies

namespace WithDependencies

end WithDependencies

/-! ## The pass of the first execute call of a MUL, whatever follows it -/

namespace WithoutDependencies

end WithoutDependencies

namespace WithDependencies

end WithDependencies

/-! ## MUL in execute and the instruction behind it (C30) -/

end APEX
